import Mathlib

/-! libslas: a shallow embedding of the LAS 1.2 record codec and session table.

The development follows `libslas.c`, `libslas.h` and `libslas_pd_functions.h`.

Modelling conventions.

* Unsigned machine integers are `Nat`, signed ones are `Int`; every place where
  the C code truncates has an explicit `%`.
* A `double` is the 64 bits of its IEEE 754 binary64 pattern (`CDouble`);
  the arithmetic on doubles rounds every operation to nearest, ties to even,
  and the `float` z is a double that the conversion `(float)` has rounded to
  binary32.  How a double is laid out in memory is a property of the platform
  and is a field of `Host`.
* Memory buffers and files are lists of bytes.  `memcpy` of an n-byte integer
  object follows the byte order of the host.
* C strings are lists of character codes without the terminating NUL.  The
  session table keeps each member of a session apart and each path whole; what
  a path longer than the member `path` does to the bytes of the table is
  followed in the section on the session table as bytes.
* The stdio layer is unbuffered and deterministic: fopen64 succeeds for
  writing, and for reading when the file exists; a seek to a non-negative
  offset succeeds, a read fails exactly when it is short or of size zero, a
  write fails exactly when the stream is read-only or the size is zero.
-/

namespace Libslas

/-! ## Doubles

A double is held as the 64 bits of its IEEE 754 binary64 pattern, so that
infinities, NaNs and the sign of zero are values like any other.  Arithmetic
is that of binary64 with rounding to nearest, ties to even, and every
operation is rounded on its own.  A numeral or a decimal literal of type
CDouble stands for the double nearest to it, and the operators + - * / < <=
for the operations and comparisons of binary64. -/

/-- A C double, given by its binary64 pattern: sign in bit 63, biased exponent
in bits 52 to 62, fraction in bits 0 to 51. -/
structure CDouble where
  bits : Nat
  deriving DecidableEq

/-- The power 2^e as a rational. -/
def pow2 (e : Int) : ℚ :=
  if 0 ≤ e then ((2 ^ e.toNat : Nat) : ℚ) else 1 / ((2 ^ (-e).toNat : Nat) : ℚ)

/-- The number of binary digits of n, for n below 2^fuel. -/
def bit_length : Nat → Nat → Nat
  | 0, _ => 0
  | fuel + 1, n => if n = 0 then 0 else bit_length fuel (n / 2) + 1

/-- The binary exponent of a positive rational q: the e with 2^e ≤ q < 2^(e+1)
(numerator and denominator below 2^4096). -/
def ilog2 (q : ℚ) : Int :=
  let e0 : Int := (bit_length 4096 q.num.toNat : Int) - (bit_length 4096 q.den : Int)
  if q < pow2 e0 then e0 - 1 else e0

/-- The integer nearest to a non-negative rational, the even one of the two
when it is half way. -/
def round_half_even (m : ℚ) : Nat :=
  let f := ⌊m⌋.toNat
  if m - f < 1 / 2 then f
  else if 1 / 2 < m - f then f + 1
  else if f % 2 = 0 then f else f + 1

/-- The pattern, without the sign bit, of the value nearest to a positive
rational q in the binary format with p significand bits and largest exponent
emax (binary64: 53 and 1023, binary32: 24 and 127); the pattern of infinity
when q rounds beyond the largest finite value. -/
def round_bits (p : Nat) (emax : Int) (q : ℚ) : Nat :=
  let e := max (ilog2 q) (1 - emax)
  let r := round_half_even (q / pow2 (e - ((p : Int) - 1)))
  min ((e + emax - 1).toNat * 2 ^ (p - 1) + r) ((2 * emax + 1).toNat * 2 ^ (p - 1))

/-- The magnitude of a finite pattern (no sign bit) of the binary format with
p significand bits and largest exponent emax. -/
def bits_val (p : Nat) (emax : Int) (b : Nat) : ℚ :=
  let e := b / 2 ^ (p - 1)
  let m := b % 2 ^ (p - 1)
  if e = 0 then (m : ℚ) * pow2 (2 - emax - (p : Int))
  else ((2 ^ (p - 1) + m : Nat) : ℚ) * pow2 ((e : Int) - emax - ((p : Int) - 1))

/-- The sign bit is set. -/
def CDouble.sign (d : CDouble) : Bool :=
  decide (d.bits / 2 ^ 63 % 2 = 1)

/-- The pattern without the sign bit. -/
def CDouble.abs_bits (d : CDouble) : Nat :=
  d.bits % 2 ^ 63

/-- The double is a NaN: largest exponent and a non-zero fraction. -/
def CDouble.isNaN (d : CDouble) : Bool :=
  decide (2047 * 2 ^ 52 < d.abs_bits)

/-- The double is an infinity. -/
def CDouble.isInf (d : CDouble) : Bool :=
  decide (d.abs_bits = 2047 * 2 ^ 52)

/-- The value of a finite double. -/
def CDouble.val (d : CDouble) : ℚ :=
  if d.sign then -bits_val 53 1023 d.abs_bits else bits_val 53 1023 d.abs_bits

/-- A zero with the given sign. -/
def CDouble.zero (negative : Bool) : CDouble :=
  ⟨if negative then 2 ^ 63 else 0⟩

/-- An infinity with the given sign. -/
def CDouble.inf (negative : Bool) : CDouble :=
  ⟨(if negative then 2 ^ 63 else 0) + 2047 * 2 ^ 52⟩

/-- The NaN an invalid operation gives (on x86-64: sign set, quiet bit set). -/
def CDouble.default_nan : CDouble :=
  ⟨0xfff8000000000000⟩

/-- A NaN operand as an operation returns it: with the quiet bit set. -/
def CDouble.quiet (d : CDouble) : CDouble :=
  ⟨d.bits % 2 ^ 64 ||| 2 ^ 51⟩

/-- The double nearest to a rational; a rational that rounds to zero keeps
its sign. -/
def CDouble.of_rat (q : ℚ) : CDouble :=
  if q = 0 then ⟨0⟩
  else if q < 0 then ⟨2 ^ 63 + round_bits 53 1023 (-q)⟩
  else ⟨round_bits 53 1023 q⟩

/-- The conversion of an integer to double. -/
def CDouble.of_int (n : Int) : CDouble :=
  CDouble.of_rat n

/-- Unary minus: the sign bit is flipped. -/
def CDouble.neg (d : CDouble) : CDouble :=
  ⟨if d.sign then d.bits % 2 ^ 63 else d.bits % 2 ^ 63 + 2 ^ 63⟩

/-- Addition of doubles. -/
def CDouble.add (a b : CDouble) : CDouble :=
  if a.isNaN then a.quiet
  else if b.isNaN then b.quiet
  else if a.isInf then
    if b.isInf && (a.sign != b.sign) then CDouble.default_nan else ⟨a.bits % 2 ^ 64⟩
  else if b.isInf then ⟨b.bits % 2 ^ 64⟩
  else if a.val + b.val = 0 then CDouble.zero (a.sign && b.sign)
  else CDouble.of_rat (a.val + b.val)

/-- Subtraction of doubles. -/
def CDouble.sub (a b : CDouble) : CDouble :=
  if a.isNaN then a.quiet
  else if b.isNaN then b.quiet
  else CDouble.add a b.neg

/-- Multiplication of doubles. -/
def CDouble.mul (a b : CDouble) : CDouble :=
  if a.isNaN then a.quiet
  else if b.isNaN then b.quiet
  else if a.isInf || b.isInf then
    if a.abs_bits = 0 ∨ b.abs_bits = 0 then CDouble.default_nan
    else CDouble.inf (a.sign != b.sign)
  else if a.val * b.val = 0 then CDouble.zero (a.sign != b.sign)
  else CDouble.of_rat (a.val * b.val)

/-- Division of doubles. -/
def CDouble.div (a b : CDouble) : CDouble :=
  if a.isNaN then a.quiet
  else if b.isNaN then b.quiet
  else if a.isInf then
    if b.isInf then CDouble.default_nan else CDouble.inf (a.sign != b.sign)
  else if b.isInf then CDouble.zero (a.sign != b.sign)
  else if b.abs_bits = 0 then
    if a.abs_bits = 0 then CDouble.default_nan else CDouble.inf (a.sign != b.sign)
  else if a.abs_bits = 0 then CDouble.zero (a.sign != b.sign)
  else CDouble.of_rat (a.val / b.val)

/-- The place of a double that is not a NaN in the order of the doubles: the
two zeros share a place. -/
def CDouble.key (d : CDouble) : Int :=
  if d.sign then -(d.abs_bits : Int) else (d.abs_bits : Int)

/-- The comparison a < b of doubles: false when either is a NaN. -/
def CDouble.lt (a b : CDouble) : Bool :=
  !a.isNaN && !b.isNaN && decide (a.key < b.key)

/-- The comparison a <= b of doubles: false when either is a NaN. -/
def CDouble.le (a b : CDouble) : Bool :=
  !a.isNaN && !b.isNaN && decide (a.key ≤ b.key)

/-- The conversion (float) of a double, read again as a double: the value is
rounded to binary32. -/
def CDouble.to_float (d : CDouble) : CDouble :=
  if d.isNaN then ⟨(d.bits % 2 ^ 64 ||| 2 ^ 51) / 2 ^ 29 * 2 ^ 29⟩
  else if d.isInf || d.abs_bits = 0 then ⟨d.bits % 2 ^ 64⟩
  else if round_bits 24 127 (bits_val 53 1023 d.abs_bits) = 255 * 2 ^ 23 then CDouble.inf d.sign
  else if round_bits 24 127 (bits_val 53 1023 d.abs_bits) = 0 then CDouble.zero d.sign
  else if d.sign then
    CDouble.of_rat (-bits_val 24 127 (round_bits 24 127 (bits_val 53 1023 d.abs_bits)))
  else CDouble.of_rat (bits_val 24 127 (round_bits 24 127 (bits_val 53 1023 d.abs_bits)))

instance : OfNat CDouble n := ⟨CDouble.of_rat n⟩
instance : OfScientific CDouble := ⟨fun m s e => CDouble.of_rat (Rat.ofScientific m s e)⟩
instance : Neg CDouble := ⟨CDouble.neg⟩
instance : Add CDouble := ⟨CDouble.add⟩
instance : Sub CDouble := ⟨CDouble.sub⟩
instance : Mul CDouble := ⟨CDouble.mul⟩
instance : Div CDouble := ⟨CDouble.div⟩
instance : LT CDouble := ⟨fun a b => CDouble.lt a b = true⟩
instance : LE CDouble := ⟨fun a b => CDouble.le a b = true⟩
instance (a b : CDouble) : Decidable (a < b) := inferInstanceAs (Decidable (CDouble.lt a b = true))
instance (a b : CDouble) : Decidable (a ≤ b) := inferInstanceAs (Decidable (CDouble.le a b = true))

/-! ## Platform -/

/-- The platform the library runs on: its byte order, the memory image of a
double, and the indeterminate contents of automatic variables that the code
uses before writing them. -/
structure Host where
  big_endian : Bool
  dbl_bits : CDouble → Nat
  bits_dbl : Nat → CDouble
  tmp_short : Nat
  tmp_double : CDouble
  stack_bytes : List Nat

/-- A pattern is a double of the host when the memory image of a double holds
it: the image decodes to the pattern again. -/
def Host.IsDouble (host : Host) (q : CDouble) : Prop :=
  host.bits_dbl (host.dbl_bits q % 2 ^ 64) = q

/-- libslas_big_endian: 3 on a big-endian host, 0 on a little-endian one (the
byte at the highest address of the word 0x00010203). -/
def libslas_big_endian (host : Host) : Int :=
  if host.big_endian then 3 else 0

/-! ## Bytes and buffers -/

/-- The n low bytes of v, least significant first. -/
def le_bytes : Nat → Nat → List Nat
  | 0, _ => []
  | n + 1, v => v % 256 :: le_bytes n (v / 256)

/-- The value of a list of bytes, least significant first. -/
def le_val : List Nat → Nat
  | [] => 0
  | b :: bs => b + 256 * le_val bs

/-- Bytes that memcpy reads from an n-byte unsigned integer object. -/
def mem_bytes (host : Host) (n v : Nat) : List Nat :=
  if host.big_endian then (le_bytes n v).reverse else le_bytes n v

/-- Value of the unsigned integer object that memcpy fills with the bytes. -/
def mem_val (host : Host) (bs : List Nat) : Nat :=
  if host.big_endian then le_val bs.reverse else le_val bs

/-- Bytes of a double object. -/
def dbl_mem (host : Host) (q : CDouble) : List Nat :=
  mem_bytes host 8 (host.dbl_bits q)

/-- Double object filled with 8 bytes. -/
def mem_dbl (host : Host) (bs : List Nat) : CDouble :=
  host.bits_dbl (mem_val host bs)

/-- Two's complement image of a signed value in w bits. -/
def to_unsigned (w : Nat) (x : Int) : Nat :=
  (x % 2 ^ w).toNat

/-- Signed reading of a w-bit pattern. -/
def to_signed (w : Nat) (u : Nat) : Int :=
  if u % 2 ^ w < 2 ^ (w - 1) then (u % 2 ^ w : Nat) else (u % 2 ^ w : Nat) - 2 ^ w

/-- The n bytes of a buffer starting at pos (bytes outside the buffer read 0). -/
def rd (buf : List Nat) (pos n : Nat) : List Nat :=
  (List.range n).map (fun i => buf.getD (pos + i) 0)

/-- The buffer after memcpy of bs to offset pos (the buffer keeps its size). -/
def poke (buf : List Nat) (pos : Nat) (bs : List Nat) : List Nat :=
  (List.range buf.length).map
    (fun i => if pos ≤ i ∧ i < pos + bs.length then bs.getD (i - pos) 0 else buf.getD i 0)

/-- The first n bytes of an object, as memcpy or fwrite take them. -/
def memcpyBytes (n : Nat) (src : List Nat) : List Nat :=
  rd src 0 n

/-! ## Byte swapping (libslas_pd_functions.h) -/

/-- libslas_swap_uint32_t. -/
def libslas_swap_uint32_t (word : Nat) : Nat :=
  let temp0 := word % 2 ^ 32 &&& 0x000000ff
  let temp1 := (word % 2 ^ 32 &&& 0x0000ff00) >>> 8
  let temp2 := (word % 2 ^ 32 &&& 0x00ff0000) >>> 16
  let temp3 := (word % 2 ^ 32 &&& 0xff000000) >>> 24
  ((temp0 <<< 24) + (temp1 <<< 16) + (temp2 <<< 8) + temp3) % 2 ^ 32

/-- libslas_swap_uint16_t: swab exchanges the two bytes of the object. -/
def libslas_swap_uint16_t (word : Nat) : Nat :=
  le_val (le_bytes 2 word).reverse

/-- libslas_swap_double: the 8 bytes of the object are reversed. -/
def libslas_swap_double (host : Host) (word : CDouble) : CDouble :=
  mem_dbl host (dbl_mem host word).reverse

/-- A signed 32-bit object swapped through a uint32_t pointer. -/
def swap_int32 (x : Int) : Int :=
  to_signed 32 (libslas_swap_uint32_t (to_unsigned 32 x))

/-! ## Constants (libslas.h) -/

def LIBSLAS_MAX_FILES : Nat := 64
def LIBSLAS_HEADER_SIZE : Nat := 227
def POINT_DATA_SIZE : Nat := 34

def LIBSLAS_UPDATE : Int := 0
def LIBSLAS_READONLY : Int := 1

def LIBSLAS_SUCCESS : Int := 0
def LIBSLAS_APPEND_ERROR : Int := -1
def LIBSLAS_CLOSE_ERROR : Int := -2
def LIBSLAS_HEADER_READ_ERROR : Int := -3
def LIBSLAS_HEADER_READ_FSEEK_ERROR : Int := -4
def LIBSLAS_HEADER_WRITE_ERROR : Int := -5
def LIBSLAS_HEADER_WRITE_FSEEK_ERROR : Int := -6
def LIBSLAS_INCORRECT_VERSION_ERROR : Int := -7
def LIBSLAS_INVALID_FILENAME_ERROR : Int := -8
def LIBSLAS_INVALID_GLOBAL_ENCODING_ERROR : Int := -9
def LIBSLAS_INVALID_MODE_ERROR : Int := -10
def LIBSLAS_INVALID_POINT_FORMAT_ID_ERROR : Int := -11
def LIBSLAS_INVALID_RECORD_NUMBER_ERROR : Int := -12
def LIBSLAS_INVALID_VLR_RECORD_NUMBER_ERROR : Int := -13
def LIBSLAS_LAS_CREATE_ERROR : Int := -14
def LIBSLAS_NOT_LAS_FILE_ERROR : Int := -15
def LIBSLAS_NOT_OPEN_FOR_UPDATE_ERROR : Int := -16
def LIBSLAS_OPEN_READONLY_ERROR : Int := -17
def LIBSLAS_OPEN_UPDATE_ERROR : Int := -18
def LIBSLAS_READ_ERROR : Int := -19
def LIBSLAS_READ_FSEEK_ERROR : Int := -20
def LIBSLAS_RETURN_NUMBER_OUT_OF_RANGE_ERROR : Int := -21
def LIBSLAS_TOO_MANY_OPEN_FILES_ERROR : Int := -22
def LIBSLAS_UPDATE_FSEEK_ERROR : Int := -23
def LIBSLAS_UPDATE_READ_ERROR : Int := -24
def LIBSLAS_VLR_APPEND_ERROR : Int := -25
def LIBSLAS_VLR_READ_ERROR : Int := -26
def LIBSLAS_VLR_READ_FSEEK_ERROR : Int := -27
def LIBSLAS_VLR_WRITE_ERROR : Int := -28
def LIBSLAS_VLR_WRITE_FSEEK_ERROR : Int := -29
def LIBSLAS_WRITE_ERROR : Int := -30

/-! ## Data model (libslas.h) -/

/-- LIBSLAS_HEADER.  The character arrays are byte lists (9, 33 and 33 bytes),
number_of_points_by_return has 5 entries. -/
structure LIBSLAS_HEADER where
  file_source_id : Nat
  global_encoding : Nat
  GUID_data_1 : Nat
  GUID_data_2 : Nat
  GUID_data_3 : Nat
  GUID_data_4 : List Nat
  version_major : Nat
  version_minor : Nat
  system_id : List Nat
  generating_software : List Nat
  file_creation_DOY : Nat
  file_creation_year : Nat
  header_size : Nat
  offset_to_point_data : Nat
  number_of_VLRs : Nat
  point_data_format_id : Nat
  point_data_record_length : Nat
  number_of_point_records : Nat
  number_of_points_by_return : List Nat
  x_scale_factor : CDouble
  y_scale_factor : CDouble
  z_scale_factor : CDouble
  x_offset : CDouble
  y_offset : CDouble
  z_offset : CDouble
  max_x : CDouble
  min_x : CDouble
  max_y : CDouble
  min_y : CDouble
  max_z : CDouble
  min_z : CDouble

/-- LIBSLAS_VLR_HEADER (user_id has 17 bytes, description 33). -/
structure LIBSLAS_VLR_HEADER where
  reserved : Nat
  user_id : List Nat
  record_id : Nat
  record_length_after_header : Nat
  description : List Nat

/-- LIBSLAS_POINT_DATA. -/
structure LIBSLAS_POINT_DATA where
  x : CDouble
  y : CDouble
  z : CDouble
  intensity : Nat
  return_number : Nat
  number_of_returns : Nat
  scan_direction_flag : Nat
  edge_of_flightline : Nat
  classification : Nat
  withheld : Nat
  key_point : Nat
  synthetic : Nat
  scan_angle_rank : Int
  user_data : Nat
  point_source_id : Nat
  gps_time : CDouble
  red : Nat
  green : Nat
  blue : Nat

/-- A stdio stream: the file it is attached to, its position indicator and
whether the open mode allows writing ("rb" does not). -/
structure FILE where
  name : List Nat
  offset : Nat
  writable : Bool
  deriving DecidableEq

/-- INTERNAL_LIBSLAS_STRUCT; fp = none is the NULL pointer. -/
structure INTERNAL_LIBSLAS_STRUCT where
  path : List Nat
  fp : Option FILE
  header : LIBSLAS_HEADER
  swap : Bool
  at_end : Bool
  created : Bool
  modified : Bool
  write : Bool
  mode : Int
  data : Bool
  pos : Int

/-- The all-zero header that memset leaves. -/
def zero_header : LIBSLAS_HEADER where
  file_source_id := 0
  global_encoding := 0
  GUID_data_1 := 0
  GUID_data_2 := 0
  GUID_data_3 := 0
  GUID_data_4 := List.replicate 9 0
  version_major := 0
  version_minor := 0
  system_id := List.replicate 33 0
  generating_software := List.replicate 33 0
  file_creation_DOY := 0
  file_creation_year := 0
  header_size := 0
  offset_to_point_data := 0
  number_of_VLRs := 0
  point_data_format_id := 0
  point_data_record_length := 0
  number_of_point_records := 0
  number_of_points_by_return := List.replicate 5 0
  x_scale_factor := 0
  y_scale_factor := 0
  z_scale_factor := 0
  x_offset := 0
  y_offset := 0
  z_offset := 0
  max_x := 0
  min_x := 0
  max_y := 0
  min_y := 0
  max_z := 0
  min_z := 0

/-- The all-zero session structure that memset leaves (fp is NULL). -/
def zero_struct : INTERNAL_LIBSLAS_STRUCT where
  path := []
  fp := none
  header := zero_header
  swap := false
  at_end := false
  created := false
  modified := false
  write := false
  mode := 0
  data := false
  pos := 0

/-- The all-zero point record that memset leaves. -/
def zero_point : LIBSLAS_POINT_DATA where
  x := 0
  y := 0
  z := 0
  intensity := 0
  return_number := 0
  number_of_returns := 0
  scan_direction_flag := 0
  edge_of_flightline := 0
  classification := 0
  withheld := 0
  key_point := 0
  synthetic := 0
  scan_angle_rank := 0
  user_data := 0
  point_source_id := 0
  gps_time := 0
  red := 0
  green := 0
  blue := 0

/-- The static state of the library together with the files on disk: the
session table las (only the entries below LIBSLAS_MAX_FILES exist in C), the
last error code, the start-up flag first, and the contents of every existing
file. -/
structure LasState where
  las : Nat → INTERNAL_LIBSLAS_STRUCT
  libslas_error : Int
  first : Bool
  disk : List Nat → Option (List Nat)

/-- The state at program start: static storage is zero, first is 1. -/
def initial_state (disk : List Nat → Option (List Nat)) : LasState where
  las := fun _ => zero_struct
  libslas_error := 0
  first := true
  disk := disk

/-- The session structure las[hnd]. -/
def LasState.slot (st : LasState) (hnd : Nat) : INTERNAL_LIBSLAS_STRUCT :=
  st.las hnd

/-- Assignment to las[hnd]. -/
def LasState.setSlot (st : LasState) (hnd : Nat) (s : INTERNAL_LIBSLAS_STRUCT) : LasState :=
  { st with las := fun i => if i = hnd then s else st.las i }

/-- Return (libslas_error.libslas = code). -/
def LasState.fail (st : LasState) (code : Int) : Int × LasState :=
  (code, { st with libslas_error := code })

/-! ## stdio -/

/-- Contents of the file a stream is attached to. -/
def file_bytes (disk : List Nat → Option (List Nat)) (f : FILE) : List Nat :=
  (disk f.name).getD []

/-- fseeko64 (fp, off, SEEK_SET): fails on a negative offset. -/
def fseek_set (f : FILE) (off : Int) : Option FILE :=
  if off < 0 then none else some { f with offset := off.toNat }

/-- fseeko64 (fp, 0, SEEK_END). -/
def fseek_end (disk : List Nat → Option (List Nat)) (f : FILE) : Option FILE :=
  some { f with offset := (file_bytes disk f).length }

/-- fread (buf, n, 1, fp): the result is the item count (1 or 0), the bytes
transferred and the stream afterwards.  A short read transfers what is left
and leaves the stream at end of file. -/
def fread (disk : List Nat → Option (List Nat)) (f : FILE) (n : Nat) : Nat × List Nat × FILE :=
  let rest := (file_bytes disk f).drop f.offset
  if n = 0 then (0, [], f)
  else if n ≤ rest.length then (1, rest.take n, { f with offset := f.offset + n })
  else (0, rest, { f with offset := f.offset + rest.length })

/-- The file contents after writing bs at offset off (a gap is zero filled). -/
def write_at (content : List Nat) (off : Nat) (bs : List Nat) : List Nat :=
  (content ++ List.replicate (off - content.length) 0).take off ++ bs
    ++ content.drop (off + bs.length)

/-- fwrite (buf, n, 1, fp) with bs the n bytes of buf: the item count, the
disk and the stream afterwards. -/
def fwrite (disk : List Nat → Option (List Nat)) (f : FILE) (bs : List Nat) :
    Nat × (List Nat → Option (List Nat)) × FILE :=
  if bs.length = 0 ∨ f.writable = false then (0, disk, f)
  else
    let content := write_at (file_bytes disk f) f.offset bs
    (1, (fun p => if p = f.name then some content else disk p),
      { f with offset := f.offset + bs.length })

/-- ftello64. -/
def ftello64 (f : FILE) : Int := f.offset

/-- A sequence of fwrite calls that stops at the first failure (every caller
returns the same error code whichever call failed). -/
def fwrite_all (disk : List Nat → Option (List Nat)) (f : FILE) :
    List (List Nat) → Bool × (List Nat → Option (List Nat)) × FILE
  | [] => (true, disk, f)
  | bs :: rest =>
    match fwrite disk f bs with
    | (0, d, g) => (false, d, g)
    | (_, d, g) => fwrite_all d g rest

/-! ## Arithmetic helpers (libslas.c) -/

/-- The cast (int64_t) of a double: truncation toward zero.  For a NaN, an
infinity or a value outside the 64-bit range the cast is undefined in C; the
conversion instruction of x86-64 gives -2^63 then. -/
def int64_cast (a : CDouble) : Int :=
  if a.isNaN || a.isInf then -2 ^ 63
  else
    let t : Int := if a.val < 0 then ⌈a.val⌉ else ⌊a.val⌋
    if -2 ^ 63 ≤ t ∧ t < 2 ^ 63 then t else -2 ^ 63

/-- The macro NINT64. -/
def NINT64 (a : CDouble) : Int :=
  if a < 0.0 then int64_cast (a - 0.5) else int64_cast (a + 0.5)

/-- The macro MAX. -/
def MAX (x y : CDouble) : CDouble := if x > y then x else y

/-- The macro MIN. -/
def MIN (x y : CDouble) : CDouble := if x < y then x else y

/-- Assignment of a 64-bit integer to an int32_t variable. -/
def to_int32 (n : Int) : Int :=
  to_signed 32 (to_unsigned 32 n)

/-- The raw coordinate stored by libslas_append_point_data for a value v with
header offset o and scale factor s. -/
def quantize (v o s : CDouble) : Int :=
  to_int32 (NINT64 ((v - o) / s))

/-- The coordinate computed by libslas_read_point_data from a raw value:
((double) raw * s) + o. -/
def dequantize (raw : Int) (s o : CDouble) : CDouble :=
  CDouble.of_int raw * s + o

/-- The record length create assigns to a point format (none for the default
branch of the switch). -/
def format_record_length (fmt : Nat) : Option Nat :=
  match fmt with
  | 0 => some 20
  | 1 => some 28
  | 2 => some 26
  | 3 => some 34
  | _ => none

/-! ## Header codec -/

/-- libslas_swap_las_header. -/
def libslas_swap_las_header (host : Host) (h : LIBSLAS_HEADER) : LIBSLAS_HEADER :=
  { h with
    global_encoding := libslas_swap_uint16_t h.global_encoding
    GUID_data_1 := libslas_swap_uint32_t h.GUID_data_1
    GUID_data_2 := libslas_swap_uint16_t h.GUID_data_2
    GUID_data_3 := libslas_swap_uint16_t h.GUID_data_3
    file_creation_DOY := libslas_swap_uint16_t h.file_creation_DOY
    file_creation_year := libslas_swap_uint16_t h.file_creation_year
    header_size := libslas_swap_uint16_t h.header_size
    offset_to_point_data := libslas_swap_uint32_t h.offset_to_point_data
    number_of_VLRs := libslas_swap_uint32_t h.number_of_VLRs
    point_data_record_length := libslas_swap_uint16_t h.point_data_record_length
    number_of_point_records := libslas_swap_uint32_t h.number_of_point_records
    number_of_points_by_return :=
      (List.range 5).map (fun i => libslas_swap_uint32_t (h.number_of_points_by_return.getD i 0))
    x_scale_factor := libslas_swap_double host h.x_scale_factor
    y_scale_factor := libslas_swap_double host h.y_scale_factor
    z_scale_factor := libslas_swap_double host h.z_scale_factor
    x_offset := libslas_swap_double host h.x_offset
    y_offset := libslas_swap_double host h.y_offset
    z_offset := libslas_swap_double host h.z_offset
    max_x := libslas_swap_double host h.max_x
    min_x := libslas_swap_double host h.min_x
    max_y := libslas_swap_double host h.max_y
    min_y := libslas_swap_double host h.min_y
    max_z := libslas_swap_double host h.max_z
    min_z := libslas_swap_double host h.min_z }

/-- The 227-byte buffer header_data that libslas_write_header fills: the fields
in the order of the memcpy calls, each at the running offset pos. -/
def header_data (host : Host) (h : LIBSLAS_HEADER) : List Nat :=
  [76, 65, 83, 70]
  ++ (mem_bytes host 2 h.file_source_id
  ++ (mem_bytes host 2 h.global_encoding
  ++ (mem_bytes host 4 h.GUID_data_1
  ++ (mem_bytes host 2 h.GUID_data_2
  ++ (mem_bytes host 2 h.GUID_data_3
  ++ (memcpyBytes 8 h.GUID_data_4
  ++ (mem_bytes host 1 h.version_major
  ++ (mem_bytes host 1 h.version_minor
  ++ (memcpyBytes 32 h.system_id
  ++ (memcpyBytes 32 h.generating_software
  ++ (mem_bytes host 2 h.file_creation_DOY
  ++ (mem_bytes host 2 h.file_creation_year
  ++ (mem_bytes host 2 h.header_size
  ++ (mem_bytes host 4 h.offset_to_point_data
  ++ (mem_bytes host 4 h.number_of_VLRs
  ++ (mem_bytes host 1 h.point_data_format_id
  ++ (mem_bytes host 2 h.point_data_record_length
  ++ (mem_bytes host 4 h.number_of_point_records
  ++ (mem_bytes host 4 (h.number_of_points_by_return.getD 0 0)
  ++ (mem_bytes host 4 (h.number_of_points_by_return.getD 1 0)
  ++ (mem_bytes host 4 (h.number_of_points_by_return.getD 2 0)
  ++ (mem_bytes host 4 (h.number_of_points_by_return.getD 3 0)
  ++ (mem_bytes host 4 (h.number_of_points_by_return.getD 4 0)
  ++ (dbl_mem host h.x_scale_factor
  ++ (dbl_mem host h.y_scale_factor
  ++ (dbl_mem host h.z_scale_factor
  ++ (dbl_mem host h.x_offset
  ++ (dbl_mem host h.y_offset
  ++ (dbl_mem host h.z_offset
  ++ (dbl_mem host h.max_x
  ++ (dbl_mem host h.min_x
  ++ (dbl_mem host h.max_y
  ++ (dbl_mem host h.min_y
  ++ (dbl_mem host h.max_z
  ++ dbl_mem host h.min_z))))))))))))))))))))))))))))))))))

/-- The header fields that libslas_read_header takes out of header_data; the
offsets are the values of the running offset pos.  The character arrays keep
their last byte. -/
def header_fields (host : Host) (old : LIBSLAS_HEADER) (d : List Nat) : LIBSLAS_HEADER where
  file_source_id := mem_val host (rd d 4 2)
  global_encoding := mem_val host (rd d 6 2)
  GUID_data_1 := mem_val host (rd d 8 4)
  GUID_data_2 := mem_val host (rd d 12 2)
  GUID_data_3 := mem_val host (rd d 14 2)
  GUID_data_4 := poke old.GUID_data_4 0 (rd d 16 8)
  version_major := mem_val host (rd d 24 1)
  version_minor := mem_val host (rd d 25 1)
  system_id := poke old.system_id 0 (rd d 26 32)
  generating_software := poke old.generating_software 0 (rd d 58 32)
  file_creation_DOY := mem_val host (rd d 90 2)
  file_creation_year := mem_val host (rd d 92 2)
  header_size := mem_val host (rd d 94 2)
  offset_to_point_data := mem_val host (rd d 96 4)
  number_of_VLRs := mem_val host (rd d 100 4)
  point_data_format_id := mem_val host (rd d 104 1)
  point_data_record_length := mem_val host (rd d 105 2)
  number_of_point_records := mem_val host (rd d 107 4)
  number_of_points_by_return :=
    (List.range 5).map (fun i => mem_val host (rd d (111 + 4 * i) 4))
  x_scale_factor := mem_dbl host (rd d 131 8)
  y_scale_factor := mem_dbl host (rd d 139 8)
  z_scale_factor := mem_dbl host (rd d 147 8)
  x_offset := mem_dbl host (rd d 155 8)
  y_offset := mem_dbl host (rd d 163 8)
  z_offset := mem_dbl host (rd d 171 8)
  max_x := mem_dbl host (rd d 179 8)
  min_x := mem_dbl host (rd d 187 8)
  max_y := mem_dbl host (rd d 195 8)
  min_y := mem_dbl host (rd d 203 8)
  max_z := mem_dbl host (rd d 211 8)
  min_z := mem_dbl host (rd d 219 8)

/-- libslas_write_header.  A NULL stream is outside the C semantics; here the
first stdio call on it fails. -/
def libslas_write_header (host : Host) (st : LasState) (hnd : Nat) : Int × LasState :=
  let s := st.slot hnd
  match s.fp.bind (fun f => fseek_set f 0) with
  | none => st.fail LIBSLAS_HEADER_WRITE_FSEEK_ERROR
  | some f =>
    let hdr_size := s.header.header_size
    let h := if s.swap then libslas_swap_las_header host s.header else s.header
    match fwrite st.disk f (memcpyBytes hdr_size (header_data host h)) with
    | (0, disk, g) =>
      ({ st with disk := disk }.setSlot hnd { s with header := h, fp := some g }).fail
        LIBSLAS_HEADER_WRITE_ERROR
    | (_, disk, g) =>
      ({ st with disk := disk }.setSlot hnd
        { s with header := h, fp := some g, write := true, pos := ftello64 g }).fail
        LIBSLAS_SUCCESS

/-- libslas_read_header. -/
def libslas_read_header (host : Host) (st : LasState) (hnd : Nat) : Int × LasState :=
  let s := st.slot hnd
  match s.fp.bind (fun f => fseek_set f 0) with
  | none => st.fail LIBSLAS_HEADER_READ_FSEEK_ERROR
  | some f =>
    match fread st.disk f LIBSLAS_HEADER_SIZE with
    | (0, _, g) => (st.setSlot hnd { s with fp := some g }).fail LIBSLAS_HEADER_READ_ERROR
    | (_, bytes, g) =>
      let d := poke (List.replicate LIBSLAS_HEADER_SIZE 0) 0 bytes
      if rd d 0 4 ≠ [76, 65, 83, 70] then
        (st.setSlot hnd { s with fp := some g }).fail LIBSLAS_NOT_LAS_FILE_ERROR
      else
        let h0 := header_fields host s.header d
        let h := if s.swap then libslas_swap_las_header host h0 else h0
        if h.version_major = 1 ∧ h.version_minor > 2 then
          (st.setSlot hnd { s with fp := some g, header := h }).fail
            LIBSLAS_INCORRECT_VERSION_ERROR
        else
          (st.setSlot hnd
            { s with fp := some g, header := h, write := false, pos := ftello64 g }).fail
            LIBSLAS_SUCCESS

/-! ## Session table -/

/-- The start-up pass of create and open: the first call sets every fp to NULL
(the signal handler it also installs is outside the model). -/
def startup (st : LasState) : LasState :=
  if st.first then
    { st with las := fun i => { st.las i with fp := none }, first := false }
  else st

/-- The loop that looks for the next available handle: the index of the first
slot whose fp is NULL, or LIBSLAS_MAX_FILES when there is none. -/
def find_handle (las : Nat → INTERNAL_LIBSLAS_STRUCT) : Nat :=
  match (List.range LIBSLAS_MAX_FILES).find? (fun i => (las i).fp.isNone) with
  | some i => i
  | none => LIBSLAS_MAX_FILES

/-- The comparison strcmp (&path[strlen (path) - 4], ".las") != 0.  A path
shorter than 4 characters is read out of bounds by the C code; here it is
compared whole. -/
def bad_extension (path : List Nat) : Bool :=
  path.drop (path.length - 4) != [46, 108, 97, 115]

/-- The standard fields libslas_create_las_file sets in the caller's header
before the switch on the point format. -/
def standard_fields (header : LIBSLAS_HEADER) : LIBSLAS_HEADER :=
  { header with
    version_major := 1
    version_minor := 2
    header_size := LIBSLAS_HEADER_SIZE
    offset_to_point_data := 0
    number_of_point_records := 0
    max_x := -99999999999999
    max_y := -99999999999999
    max_z := -99999999999999
    min_x := 99999999999999
    min_y := 99999999999999
    min_z := 99999999999999 }

/-- libslas_create_las_file: the result, the state and the caller's header
after the call. -/
def libslas_create_las_file (host : Host) (st : LasState) (path : List Nat)
    (header : LIBSLAS_HEADER) : Int × LasState × LIBSLAS_HEADER :=
  let st := startup st
  let hnd := find_handle st.las
  if hnd = LIBSLAS_MAX_FILES then
    let r := st.fail LIBSLAS_TOO_MANY_OPEN_FILES_ERROR
    (r.1, r.2, header)
  else
    let st := st.setSlot hnd { zero_struct with path := path }
    if bad_extension path then
      let r := st.fail LIBSLAS_INVALID_FILENAME_ERROR
      (r.1, r.2, header)
    else
      let header := standard_fields header
      match format_record_length header.point_data_format_id with
      | none =>
        let r := st.fail LIBSLAS_INVALID_POINT_FORMAT_ID_ERROR
        (r.1, r.2, header)
      | some len =>
        let header := { header with
          point_data_record_length := len
          number_of_points_by_return := List.replicate 5 0 }
        if header.global_encoding > 1 then
          let r := st.fail LIBSLAS_INVALID_GLOBAL_ENCODING_ERROR
          (r.1, r.2, header)
        else
          -- fopen64 (path, "wb+") creates the file or truncates it
          let f : FILE := { name := path, offset := 0, writable := true }
          let st := { st with disk := fun p => if p = path then some [] else st.disk p }
          let st := st.setSlot hnd { st.slot hnd with header := header, fp := some f }
          let r := libslas_write_header host st hnd
          if r.1 < 0 then
            (r.2.libslas_error, r.2.setSlot hnd { r.2.slot hnd with fp := none }, header)
          else
            let st := r.2
            (hnd, st.setSlot hnd { st.slot hnd with
              at_end := true, modified := true, created := true, write := true }, header)

/-- libslas_open_las_file: the result, the state and the caller's header after
the call. -/
def libslas_open_las_file (host : Host) (st : LasState) (path : List Nat)
    (header : LIBSLAS_HEADER) (mode : Int) : Int × LasState × LIBSLAS_HEADER :=
  let st := startup st
  let hnd := find_handle st.las
  if hnd = LIBSLAS_MAX_FILES then
    let r := st.fail LIBSLAS_TOO_MANY_OPEN_FILES_ERROR
    (r.1, r.2, header)
  else
    let st := st.setSlot hnd { zero_struct with path := path }
    if bad_extension path then
      let r := st.fail LIBSLAS_INVALID_FILENAME_ERROR
      (r.1, r.2, header)
    else
      let st :=
        if libslas_big_endian host ≠ 0 then st.setSlot hnd { st.slot hnd with swap := true }
        else st
      if mode ≠ LIBSLAS_UPDATE ∧ mode ≠ LIBSLAS_READONLY then
        let r := st.fail LIBSLAS_INVALID_MODE_ERROR
        (r.1, r.2, header)
      else
        -- fopen64 (path, "rb+") or fopen64 (path, "rb"): the file has to exist
        match st.disk path with
        | none =>
          let r := st.fail
            (if mode = LIBSLAS_UPDATE then LIBSLAS_OPEN_UPDATE_ERROR
             else LIBSLAS_OPEN_READONLY_ERROR)
          (r.1, r.2, header)
        | some _ =>
          let f : FILE :=
            { name := path, offset := 0, writable := decide (mode = LIBSLAS_UPDATE) }
          let st := st.setSlot hnd { st.slot hnd with fp := some f, mode := mode }
          let r := libslas_read_header host st hnd
          if r.1 ≠ 0 then
            (r.2.libslas_error, r.2.setSlot hnd { r.2.slot hnd with fp := none }, header)
          else
            let st := r.2
            (hnd, st.setSlot hnd { st.slot hnd with
              at_end := false, modified := false, created := false, write := false },
              (st.slot hnd).header)

/-- libslas_close_las_file (fclose always succeeds in the model). -/
def libslas_close_las_file (host : Host) (st : LasState) (hnd : Nat) : Int × LasState :=
  if (st.slot hnd).fp.isNone then st.fail LIBSLAS_SUCCESS
  else if (st.slot hnd).created then
    let r := libslas_write_header host st hnd
    if r.1 < 0 then (r.2.libslas_error, r.2)
    else (r.2.setSlot hnd zero_struct).fail LIBSLAS_SUCCESS
  else (st.setSlot hnd zero_struct).fail LIBSLAS_SUCCESS

/-! ## VLR codec -/

/-- The loop over 2-byte units that libslas_append_vlr_record and
libslas_read_vlr_data run for record 34735 when the swap flag is set.  Each
pass copies tmp_short INTO the buffer, swaps tmp_short, and then reloads
tmp_short from the buffer. -/
def vlr_swap_shorts (host : Host) (len : Nat) (vlr_data : List Nat) : List Nat :=
  ((List.range ((len + 1) / 2)).foldl
    (fun (acc : List Nat × Nat) k =>
      let d := poke acc.1 (2 * k) (mem_bytes host 2 acc.2)
      (d, mem_val host (rd d (2 * k) 2)))
    (vlr_data, host.tmp_short)).1

/-- The loop over 8-byte units for record 34736, with tmp_double. -/
def vlr_swap_doubles (host : Host) (len : Nat) (vlr_data : List Nat) : List Nat :=
  ((List.range ((len + 7) / 8)).foldl
    (fun (acc : List Nat × CDouble) k =>
      let d := poke acc.1 (8 * k) (dbl_mem host acc.2)
      (d, mem_dbl host (rd d (8 * k) 8)))
    (vlr_data, host.tmp_double)).1

/-- The switch on the record id inside the swap branch. -/
def vlr_swap_data (host : Host) (record_id len : Nat) (vlr_data : List Nat) : List Nat :=
  if record_id = 34735 then vlr_swap_shorts host len vlr_data
  else if record_id = 34736 then vlr_swap_doubles host len vlr_data
  else vlr_data

/-- libslas_append_vlr_record: the result, the state, and the caller's VLR
header and data buffer after the call. -/
def libslas_append_vlr_record (host : Host) (st : LasState) (hnd : Nat)
    (vlr_header : LIBSLAS_VLR_HEADER) (vlr_data : List Nat) :
    Int × LasState × LIBSLAS_VLR_HEADER × List Nat :=
  let s := st.slot hnd
  if ¬ s.created then
    let r := st.fail LIBSLAS_VLR_APPEND_ERROR
    (r.1, r.2, vlr_header, vlr_data)
  else if s.data then
    let r := st.fail LIBSLAS_VLR_APPEND_ERROR
    (r.1, r.2, vlr_header, vlr_data)
  else
    match (if ¬ s.at_end then s.fp.bind (fun f => fseek_end st.disk f) else s.fp) with
    | none =>
      let r := st.fail LIBSLAS_VLR_WRITE_FSEEK_ERROR
      (r.1, r.2, vlr_header, vlr_data)
    | some f =>
      let vlr_header := { vlr_header with reserved := 0 }
      let rec_length := vlr_header.record_length_after_header
      let vlr_data :=
        if s.swap then vlr_swap_data host vlr_header.record_id rec_length vlr_data
        else vlr_data
      let vlr_header :=
        if s.swap then
          { vlr_header with
            record_id := libslas_swap_uint16_t vlr_header.record_id
            record_length_after_header :=
              libslas_swap_uint16_t vlr_header.record_length_after_header }
        else vlr_header
      match fwrite_all st.disk f
          [mem_bytes host 2 vlr_header.reserved,
           memcpyBytes 16 vlr_header.user_id,
           mem_bytes host 2 vlr_header.record_id,
           mem_bytes host 2 vlr_header.record_length_after_header,
           memcpyBytes 32 vlr_header.description,
           memcpyBytes rec_length vlr_data] with
      | (false, disk, g) =>
        let r := ({ st with disk := disk }.setSlot hnd
          { s with at_end := true, fp := some g }).fail LIBSLAS_VLR_WRITE_ERROR
        (r.1, r.2, vlr_header, vlr_data)
      | (true, disk, g) =>
        let off := (ftello64 g).toNat % 2 ^ 32
        let r := ({ st with disk := disk }.setSlot hnd
          { s with
            fp := some g
            header := { s.header with offset_to_point_data := off }
            pos := off
            at_end := true
            write := true }).fail LIBSLAS_SUCCESS
        (r.1, r.2, vlr_header, vlr_data)

/-- The five fread calls that fill a VLR sub-header, in the order of the code:
reserved (2 bytes), user id (16), record id (2), record length (2) and
description (32).  The flag is false when one of them failed; the fields read
before it are in the header, the field the failed call was reading is left as
it was (in C its value is indeterminate). -/
def fread_vlr_header (host : Host) (disk : List Nat → Option (List Nat)) (f : FILE)
    (vh : LIBSLAS_VLR_HEADER) : Bool × FILE × LIBSLAS_VLR_HEADER :=
  match fread disk f 2 with
  | (0, _, g) => (false, g, vh)
  | (_, b, g) =>
    let vh := { vh with reserved := mem_val host b }
    match fread disk g 16 with
    | (0, _, g) => (false, g, vh)
    | (_, b, g) =>
      let vh := { vh with user_id := poke vh.user_id 0 b }
      match fread disk g 2 with
      | (0, _, g) => (false, g, vh)
      | (_, b, g) =>
        let vh := { vh with record_id := mem_val host b }
        match fread disk g 2 with
        | (0, _, g) => (false, g, vh)
        | (_, b, g) =>
          let vh := { vh with record_length_after_header := mem_val host b }
          match fread disk g 32 with
          | (0, _, g) => (false, g, vh)
          | (_, b, g) => (true, g, { vh with description := poke vh.description 0 b })

/-- The swap of record_id and record_length_after_header after a sub-header
has been read. -/
def vlr_swap_header (swap : Bool) (vh : LIBSLAS_VLR_HEADER) : LIBSLAS_VLR_HEADER :=
  if swap then
    { vh with
      record_id := libslas_swap_uint16_t vh.record_id
      record_length_after_header := libslas_swap_uint16_t vh.record_length_after_header }
  else vh

/-- The loop over the VLRs in libslas_read_vlr_header and libslas_read_vlr_data,
from a pass i on: the first argument is recnum - i, the number of passes before
the one that breaks; pos is the variable pos of the code.  Each pass reads a
sub-header at the stream position; a pass that does not break adds the record
length that was read to pos and seeks to pos.  The result is the error code
(LIBSLAS_SUCCESS at the break), the stream and the sub-header. -/
def vlr_walk (host : Host) (disk : List Nat → Option (List Nat)) (swap : Bool) :
    Nat → Int → FILE → LIBSLAS_VLR_HEADER → Int × FILE × LIBSLAS_VLR_HEADER
  | 0, _, f, vh =>
    match fread_vlr_header host disk f vh with
    | (false, g, vh) => (LIBSLAS_VLR_READ_ERROR, g, vh)
    | (true, g, vh) => (LIBSLAS_SUCCESS, g, vlr_swap_header swap vh)
  | n + 1, pos, f, vh =>
    match fread_vlr_header host disk f vh with
    | (false, g, vh) => (LIBSLAS_VLR_READ_ERROR, g, vh)
    | (true, g, vh) =>
      let vh := vlr_swap_header swap vh
      let pos := pos + (vh.record_length_after_header : Int)
      match fseek_set g pos with
      | none => (LIBSLAS_VLR_READ_FSEEK_ERROR, g, vh)
      | some g => vlr_walk host disk swap n pos g vh

/-- The bounds test recnum >= number_of_VLRs || recnum < 0; the first
comparison converts recnum to uint32_t. -/
def bad_vlr_recnum (h : LIBSLAS_HEADER) (recnum : Int) : Bool :=
  decide (to_unsigned 32 recnum ≥ h.number_of_VLRs) || decide (recnum < 0)

/-- libslas_read_vlr_header: the result, the state and the caller's VLR header
after the call. -/
def libslas_read_vlr_header (host : Host) (st : LasState) (hnd : Nat) (recnum : Int)
    (vlr_header : LIBSLAS_VLR_HEADER) : Int × LasState × LIBSLAS_VLR_HEADER :=
  let s := st.slot hnd
  if bad_vlr_recnum s.header recnum then
    let r := st.fail LIBSLAS_INVALID_VLR_RECORD_NUMBER_ERROR
    (r.1, r.2, vlr_header)
  else
    let pos : Int := s.header.header_size
    match s.fp.bind (fun f => fseek_set f pos) with
    | none =>
      let r := st.fail LIBSLAS_VLR_READ_FSEEK_ERROR
      (r.1, r.2, vlr_header)
    | some f =>
      let w := vlr_walk host st.disk s.swap recnum.toNat pos f vlr_header
      if w.1 ≠ LIBSLAS_SUCCESS then
        let r := (st.setSlot hnd { s with fp := some w.2.1 }).fail w.1
        (r.1, r.2, w.2.2)
      else
        let r := (st.setSlot hnd
          { s with
            fp := some w.2.1
            write := false
            at_end := false
            pos := ftello64 w.2.1 }).fail LIBSLAS_SUCCESS
        (r.1, r.2, w.2.2)

/-- The local variable hdr of libslas_read_vlr_data before the first fread.
Every field is read from the file before it is used. -/
def local_vlr_header : LIBSLAS_VLR_HEADER :=
  { reserved := 0, user_id := List.replicate 17 0, record_id := 0,
    record_length_after_header := 0, description := List.replicate 33 0 }

/-- libslas_read_vlr_data: the result, the state and the caller's buffer after
the call.  The buffer is the caller's memory from vlr_data on: fread replaces
its first bytes. -/
def libslas_read_vlr_data (host : Host) (st : LasState) (hnd : Nat) (recnum : Int)
    (vlr_data : List Nat) : Int × LasState × List Nat :=
  let s := st.slot hnd
  if bad_vlr_recnum s.header recnum then
    let r := st.fail LIBSLAS_INVALID_VLR_RECORD_NUMBER_ERROR
    (r.1, r.2, vlr_data)
  else
    let pos : Int := s.header.header_size
    match s.fp.bind (fun f => fseek_set f pos) with
    | none =>
      let r := st.fail LIBSLAS_VLR_READ_FSEEK_ERROR
      (r.1, r.2, vlr_data)
    | some f =>
      let w := vlr_walk host st.disk s.swap recnum.toNat pos f local_vlr_header
      if w.1 ≠ LIBSLAS_SUCCESS then
        let r := (st.setSlot hnd { s with fp := some w.2.1 }).fail w.1
        (r.1, r.2, vlr_data)
      else
        let hdr := w.2.2
        match fread st.disk w.2.1 hdr.record_length_after_header with
        | (0, b, g) =>
          let r := (st.setSlot hnd { s with fp := some g }).fail LIBSLAS_VLR_READ_ERROR
          (r.1, r.2, b ++ vlr_data.drop b.length)
        | (_, b, g) =>
          let vlr_data := b ++ vlr_data.drop b.length
          let vlr_data :=
            if s.swap then
              vlr_swap_data host hdr.record_id hdr.record_length_after_header vlr_data
            else vlr_data
          let r := (st.setSlot hnd
            { s with
              fp := some g
              write := false
              at_end := false
              pos := ftello64 g }).fail LIBSLAS_SUCCESS
          (r.1, r.2, vlr_data)

/-! ## Point record codec -/

/-- The packed returns byte of libslas_append_point_data (rets is a uint8_t). -/
def pack_rets (record : LIBSLAS_POINT_DATA) : Nat :=
  let rets := 0
  let rets := (rets ||| record.return_number) % 256
  let rets := (rets ||| (record.number_of_returns <<< 3)) % 256
  let rets := (rets ||| (record.edge_of_flightline <<< 6)) % 256
  let rets := (rets ||| (record.scan_direction_flag <<< 7)) % 256
  rets

/-- The packed classification byte of libslas_append_point_data and
libslas_update_point_data (cls is a uint8_t). -/
def pack_cls (record : LIBSLAS_POINT_DATA) : Nat :=
  let cls := 0
  let cls := (cls ||| record.classification) % 256
  let cls := (cls ||| (record.withheld <<< 7)) % 256
  let cls := (cls ||| (record.key_point <<< 6)) % 256
  let cls := (cls ||| (record.synthetic <<< 5)) % 256
  cls

/-- The in-place swap of the caller's record in libslas_append_point_data. -/
def swap_point_fields (host : Host) (fmt : Nat) (r : LIBSLAS_POINT_DATA) : LIBSLAS_POINT_DATA :=
  let r := { r with
    intensity := libslas_swap_uint16_t r.intensity
    point_source_id := libslas_swap_uint16_t r.point_source_id }
  if fmt = 1 then { r with gps_time := libslas_swap_double host r.gps_time }
  else if fmt = 2 then
    { r with
      red := libslas_swap_uint16_t r.red
      green := libslas_swap_uint16_t r.green
      blue := libslas_swap_uint16_t r.blue }
  else if fmt = 3 then
    { r with
      gps_time := libslas_swap_double host r.gps_time
      red := libslas_swap_uint16_t r.red
      green := libslas_swap_uint16_t r.green
      blue := libslas_swap_uint16_t r.blue }
  else r

/-- The format dependent tail of the record buffer (switch on the point format
in libslas_append_point_data). -/
def point_tail (host : Host) (fmt : Nat) (r : LIBSLAS_POINT_DATA) : List Nat :=
  if fmt = 1 then dbl_mem host r.gps_time
  else if fmt = 2 then
    mem_bytes host 2 r.red ++ (mem_bytes host 2 r.green ++ mem_bytes host 2 r.blue)
  else if fmt = 3 then
    dbl_mem host r.gps_time
      ++ (mem_bytes host 2 r.red ++ (mem_bytes host 2 r.green ++ mem_bytes host 2 r.blue))
  else []

/-- The bytes libslas_append_point_data copies into data, in the order of the
memcpy calls at the running offset pos; x, y, z, rets and cls are the local
variables, r the record (after the swap, if any). -/
def point_bytes (host : Host) (fmt : Nat) (x y z : Int) (rets cls : Nat)
    (r : LIBSLAS_POINT_DATA) : List Nat :=
  mem_bytes host 4 (to_unsigned 32 x)
  ++ (mem_bytes host 4 (to_unsigned 32 y)
  ++ (mem_bytes host 4 (to_unsigned 32 z)
  ++ (mem_bytes host 2 r.intensity
  ++ (mem_bytes host 1 rets
  ++ (mem_bytes host 1 cls
  ++ (mem_bytes host 1 (to_unsigned 8 r.scan_angle_rank)
  ++ (mem_bytes host 1 r.user_data
  ++ (mem_bytes host 2 r.point_source_id
  ++ point_tail host fmt r))))))))

/-- The buffer data of libslas_append_point_data just before fwrite: an
uninitialised automatic array of POINT_DATA_SIZE bytes filled from offset 0. -/
def append_buffer (host : Host) (swap : Bool) (h : LIBSLAS_HEADER)
    (record : LIBSLAS_POINT_DATA) : List Nat :=
  let x := quantize record.x h.x_offset h.x_scale_factor
  let y := quantize record.y h.y_offset h.y_scale_factor
  let z := quantize record.z h.z_offset h.z_scale_factor
  let rets := pack_rets record
  let cls := pack_cls record
  let x := if swap then swap_int32 x else x
  let y := if swap then swap_int32 y else y
  let z := if swap then swap_int32 z else z
  let r := if swap then swap_point_fields host h.point_data_format_id record else record
  poke (memcpyBytes POINT_DATA_SIZE host.stack_bytes) 0
    (point_bytes host h.point_data_format_id x y z rets cls r)

/-- The record libslas_read_point_data builds from the buffer data. -/
def decode_point (host : Host) (swap : Bool) (h : LIBSLAS_HEADER) (data : List Nat) :
    LIBSLAS_POINT_DATA :=
  let fmt := h.point_data_format_id
  let x := to_signed 32 (mem_val host (rd data 0 4))
  let y := to_signed 32 (mem_val host (rd data 4 4))
  let z := to_signed 32 (mem_val host (rd data 8 4))
  let rets := mem_val host (rd data 14 1)
  let cls := mem_val host (rd data 15 1)
  let r : LIBSLAS_POINT_DATA :=
    { zero_point with
      intensity := mem_val host (rd data 12 2)
      scan_angle_rank := to_signed 8 (mem_val host (rd data 16 1))
      user_data := mem_val host (rd data 17 1)
      point_source_id := mem_val host (rd data 18 2) }
  let r :=
    if fmt = 1 then { r with gps_time := mem_dbl host (rd data 20 8) }
    else if fmt = 2 then
      { r with
        red := mem_val host (rd data 20 2)
        green := mem_val host (rd data 22 2)
        blue := mem_val host (rd data 24 2) }
    else if fmt = 3 then
      { r with
        gps_time := mem_dbl host (rd data 20 8)
        red := mem_val host (rd data 28 2)
        green := mem_val host (rd data 30 2)
        blue := mem_val host (rd data 32 2) }
    else r
  let x := if swap then swap_int32 x else x
  let y := if swap then swap_int32 y else y
  let z := if swap then swap_int32 z else z
  let r := if swap then swap_point_fields host fmt r else r
  { r with
    x := dequantize x h.x_scale_factor h.x_offset
    y := dequantize y h.y_scale_factor h.y_offset
    z := CDouble.to_float (dequantize z h.z_scale_factor h.z_offset)
    return_number := rets &&& 0x03
    number_of_returns := (rets &&& 0x38) >>> 3
    edge_of_flightline := (rets &&& 0x40) >>> 6
    scan_direction_flag := (rets &&& 0x80) >>> 7
    classification := cls &&& 0x1f
    synthetic := (cls &&& 0x20) >>> 5
    key_point := (cls &&& 0x40) >>> 6
    withheld := (cls &&& 0x80) >>> 7 }

/-- The record address computed by libslas_read_point_data and
libslas_update_point_data (64-bit arithmetic). -/
def record_addr (h : LIBSLAS_HEADER) (recnum : Int) : Int :=
  (h.offset_to_point_data : Int) + (h.point_data_record_length : Int) * recnum

/-- The bounds test recnum >= number_of_point_records || recnum < 0; the first
comparison converts recnum to uint32_t. -/
def bad_recnum (h : LIBSLAS_HEADER) (recnum : Int) : Bool :=
  decide (to_unsigned 32 recnum ≥ h.number_of_point_records) || decide (recnum < 0)

/-- libslas_read_point_data: the result, the state and the caller's record
after the call. -/
def libslas_read_point_data (host : Host) (st : LasState) (hnd : Nat) (recnum : Int)
    (record : LIBSLAS_POINT_DATA) : Int × LasState × LIBSLAS_POINT_DATA :=
  let s := st.slot hnd
  if bad_recnum s.header recnum then
    let r := st.fail LIBSLAS_INVALID_RECORD_NUMBER_ERROR
    (r.1, r.2, record)
  else
    let addr := record_addr s.header recnum
    match (if s.pos ≠ addr then s.fp.bind (fun f => fseek_set f addr) else s.fp) with
    | none =>
      let r := st.fail LIBSLAS_READ_FSEEK_ERROR
      (r.1, r.2, record)
    | some f =>
      match fread st.disk f s.header.point_data_record_length with
      | (0, _, g) =>
        let r := (st.setSlot hnd { s with fp := some g }).fail LIBSLAS_READ_ERROR
        (r.1, r.2, zero_point)
      | (_, bytes, g) =>
        let data := poke (List.replicate POINT_DATA_SIZE 0) 0 bytes
        let r := (st.setSlot hnd
          { s with
            fp := some g
            pos := ftello64 g
            at_end := false
            modified := false
            write := false }).fail LIBSLAS_SUCCESS
        (r.1, r.2, decode_point host s.swap s.header data)

/-- The header after the statistics update at the top of
libslas_append_point_data: running minima and maxima and the record counter. -/
def count_point (h : LIBSLAS_HEADER) (record : LIBSLAS_POINT_DATA) : LIBSLAS_HEADER :=
  { h with
    min_x := MIN h.min_x record.x
    max_x := MAX h.max_x record.x
    min_y := MIN h.min_y record.y
    max_y := MAX h.max_y record.y
    min_z := MIN h.min_z record.z
    max_z := MAX h.max_z record.z
    number_of_point_records := (h.number_of_point_records + 1) % 2 ^ 32 }

/-- The increment number_of_points_by_return[return_number - 1]++. -/
def count_return (h : LIBSLAS_HEADER) (return_number : Nat) : LIBSLAS_HEADER :=
  { h with
    number_of_points_by_return :=
      h.number_of_points_by_return.set (return_number - 1)
        ((h.number_of_points_by_return.getD (return_number - 1) 0 + 1) % 2 ^ 32) }

/-- libslas_append_point_data: the result, the state and the caller's record
after the call (the record is swapped in place when the swap flag is set). -/
def libslas_append_point_data (host : Host) (st : LasState) (hnd : Nat)
    (record : LIBSLAS_POINT_DATA) : Int × LasState × LIBSLAS_POINT_DATA :=
  let s := st.slot hnd
  if ¬ s.created then
    let r := st.fail LIBSLAS_APPEND_ERROR
    (r.1, r.2, record)
  else
    let s := { s with at_end := true, header := count_point s.header record }
    if record.return_number < 1 ∨ record.return_number > 5 then
      let r := (st.setSlot hnd s).fail LIBSLAS_RETURN_NUMBER_OUT_OF_RANGE_ERROR
      (r.1, r.2, record)
    else
      let s := { s with header := count_return s.header record.return_number }
      let data := append_buffer host s.swap s.header record
      let record :=
        if s.swap then swap_point_fields host s.header.point_data_format_id record
        else record
      match s.fp.map (fun f =>
          fwrite st.disk f (memcpyBytes s.header.point_data_record_length data)) with
      | none =>
        let r := (st.setSlot hnd s).fail LIBSLAS_WRITE_ERROR
        (r.1, r.2, record)
      | some (0, disk, g) =>
        let r := ({ st with disk := disk }.setSlot hnd { s with fp := some g }).fail
          LIBSLAS_WRITE_ERROR
        (r.1, r.2, record)
      | some (_, disk, g) =>
        let r := ({ st with disk := disk }.setSlot hnd
          { s with
            fp := some g
            pos := ftello64 g
            at_end := true
            modified := true
            write := true
            data := true }).fail LIBSLAS_SUCCESS
        (r.1, r.2, record)

/-- The buffer data of libslas_update_point_data after the modifiable fields
have been copied over the bytes read from the file. -/
def update_buffer (host : Host) (swap : Bool) (h : LIBSLAS_HEADER) (data : List Nat)
    (record : LIBSLAS_POINT_DATA) : List Nat :=
  let cls := pack_cls record
  let data := poke data 15 (mem_bytes host 1 cls)
  let data := poke data 17 (mem_bytes host 1 record.user_data)
  let psid := record.point_source_id % 2 ^ 16
  let psid := if swap then libslas_swap_uint16_t psid else psid
  let data := poke data 18 (mem_bytes host 2 psid)
  let red := record.red % 2 ^ 16
  let green := record.green % 2 ^ 16
  let blue := record.blue % 2 ^ 16
  if h.point_data_format_id > 1 then
    let pos := if h.point_data_format_id = 3 then 20 + 8 else 20
    let red := if swap then libslas_swap_uint16_t red else red
    let green := if swap then libslas_swap_uint16_t green else green
    let blue := if swap then libslas_swap_uint16_t blue else blue
    let data := poke data pos (mem_bytes host 2 red)
    let data := poke data (pos + 2) (mem_bytes host 2 green)
    let data := poke data (pos + 4) (mem_bytes host 2 blue)
    data
  else data

/-- libslas_update_point_data. -/
def libslas_update_point_data (host : Host) (st : LasState) (hnd : Nat) (recnum : Int)
    (record : LIBSLAS_POINT_DATA) : Int × LasState :=
  let s := st.slot hnd
  if s.mode ≠ LIBSLAS_UPDATE then st.fail LIBSLAS_NOT_OPEN_FOR_UPDATE_ERROR
  else if bad_recnum s.header recnum then st.fail LIBSLAS_INVALID_RECORD_NUMBER_ERROR
  else
    let addr := record_addr s.header recnum
    match s.fp.bind (fun f => fseek_set f addr) with
    | none => st.fail LIBSLAS_UPDATE_FSEEK_ERROR
    | some f =>
      match fread st.disk f s.header.point_data_record_length with
      | (0, _, g) => (st.setSlot hnd { s with fp := some g }).fail LIBSLAS_UPDATE_READ_ERROR
      | (_, bytes, g) =>
        let data := poke (memcpyBytes POINT_DATA_SIZE host.stack_bytes) 0 bytes
        let data := update_buffer host s.swap s.header data record
        match fseek_set g addr with
        | none => (st.setSlot hnd { s with fp := some g }).fail LIBSLAS_UPDATE_FSEEK_ERROR
        | some g =>
          match fwrite st.disk g (memcpyBytes s.header.point_data_record_length data) with
          | (0, disk, k) =>
            ({ st with disk := disk }.setSlot hnd { s with fp := some k }).fail
              LIBSLAS_WRITE_ERROR
          | (_, disk, k) =>
            ({ st with disk := disk }.setSlot hnd
              { s with
                fp := some k
                pos := ftello64 k
                at_end := false
                modified := true
                write := true }).fail LIBSLAS_SUCCESS

/-! ## Sequences of calls -/

/-- Successive libslas_append_point_data calls on one handle: the results in
call order and the final state. -/
def append_points (host : Host) (st : LasState) (hnd : Nat) :
    List LIBSLAS_POINT_DATA → List Int × LasState
  | [] => ([], st)
  | r :: rs =>
    let a := libslas_append_point_data host st hnd r
    let b := append_points host a.2.1 hnd rs
    (a.1 :: b.1, b.2)

/-- A session on which libslas_append_point_data gets as far as a successful
fwrite: a created one with a writable stream and a non-zero record length. -/
def Appendable (st : LasState) (hnd : Nat) : Prop :=
  (st.slot hnd).created = true
  ∧ (∃ f, (st.slot hnd).fp = some f ∧ f.writable = true)
  ∧ (st.slot hnd).header.point_data_record_length ≠ 0

/-- The bounding box of a header contains a point. -/
def in_box (h : LIBSLAS_HEADER) (r : LIBSLAS_POINT_DATA) : Prop :=
  h.min_x ≤ r.x ∧ r.x ≤ h.max_x ∧ h.min_y ≤ r.y ∧ r.y ≤ h.max_y ∧ h.min_z ≤ r.z ∧ r.z ≤ h.max_z

/-- The bounding box of the first header lies inside that of the second. -/
def box_le (h k : LIBSLAS_HEADER) : Prop :=
  k.min_x ≤ h.min_x ∧ h.max_x ≤ k.max_x ∧ k.min_y ≤ h.min_y ∧ h.max_y ≤ k.max_y
    ∧ k.min_z ≤ h.min_z ∧ h.max_z ≤ k.max_z

/-- The number of records of a list that carry a given return number. -/
def returns_with (k : Nat) (recs : List LIBSLAS_POINT_DATA) : Nat :=
  recs.countP (fun r => r.return_number = k)

/-- The header statistics after the successful append of a record. -/
def after_append (h : LIBSLAS_HEADER) (r : LIBSLAS_POINT_DATA) : LIBSLAS_HEADER :=
  count_return (count_point h r) r.return_number

/-- The caller's header as libslas_create_las_file returns it on success. -/
def created_header (header : LIBSLAS_HEADER) (len : Nat) : LIBSLAS_HEADER :=
  { standard_fields header with
    point_data_record_length := len
    number_of_points_by_return := List.replicate 5 0 }

/-! ## A concrete platform -/

/-- A host with IEEE 754 doubles and zeroed stack garbage, of either byte
order. -/
def ieee_host (big : Bool) : Host where
  big_endian := big
  dbl_bits := fun d => d.bits
  bits_dbl := fun b => ⟨b⟩
  tmp_short := 0
  tmp_double := 0
  stack_bytes := []

/-- A header as libslas_create_las_file leaves it for point format 3, with
scale factors of 1/64. -/
def sample_header : LIBSLAS_HEADER :=
  { zero_header with
    version_major := 1
    version_minor := 2
    header_size := 227
    point_data_format_id := 3
    point_data_record_length := 34
    x_scale_factor := 1 / 64
    y_scale_factor := 1 / 64
    z_scale_factor := 1 / 64
    max_x := -99999999999999
    max_y := -99999999999999
    max_z := -99999999999999
    min_x := 99999999999999
    min_y := 99999999999999
    min_z := 99999999999999 }

/-- The file name a.las. -/
def las_path : List Nat := [97, 46, 108, 97, 115]

/-- The first point of a pulse at the origin, with all other fields zero. -/
def origin_point : LIBSLAS_POINT_DATA :=
  { zero_point with return_number := 1, number_of_returns := 1 }

/-- A point record that uses the full width of its bit fields. -/
def sample_point : LIBSLAS_POINT_DATA where
  x := 321 / 256
  y := -7 / 2
  z := 10
  intensity := 1000
  return_number := 5
  number_of_returns := 7
  scan_direction_flag := 1
  edge_of_flightline := 1
  classification := 31
  withheld := 1
  key_point := 1
  synthetic := 1
  scan_angle_rank := -90
  user_data := 255
  point_source_id := 65535
  gps_time := 3 / 2
  red := 1
  green := 2
  blue := 3

/-- The call libslas_create_las_file ("a.las", sample_header) at program start
on a little-endian host with no file on disk: the result (handle 0), the state
and the caller's header. -/
def created_session : Int × LasState × LIBSLAS_HEADER :=
  libslas_create_las_file (ieee_host false) (initial_state (fun _ => none)) las_path
    sample_header

/-- The state after create of a.las, no VLR, one append of sample_point and
close. -/
def one_point_file : LasState :=
  (libslas_close_las_file (ieee_host false)
    (libslas_append_point_data (ieee_host false) created_session.2.1 0 sample_point).2.1 0).2

/-- The file of one_point_file opened again, read-only: the result (handle 0),
the state and the header returned to the caller. -/
def one_point_reopened : Int × LasState × LIBSLAS_HEADER :=
  libslas_open_las_file (ieee_host false) one_point_file las_path zero_header LIBSLAS_READONLY

/-! ## Well-formedness of inputs -/

/-- The fields of a point record fit their C types. -/
def LIBSLAS_POINT_DATA.well_typed (host : Host) (r : LIBSLAS_POINT_DATA) : Prop :=
  r.intensity < 2 ^ 16 ∧ r.return_number < 2 ^ 8 ∧ r.number_of_returns < 2 ^ 8 ∧
  r.scan_direction_flag < 2 ^ 8 ∧ r.edge_of_flightline < 2 ^ 8 ∧ r.classification < 2 ^ 8 ∧
  r.withheld < 2 ^ 8 ∧ r.key_point < 2 ^ 8 ∧ r.synthetic < 2 ^ 8 ∧
  -128 ≤ r.scan_angle_rank ∧ r.scan_angle_rank ≤ 127 ∧ r.user_data < 2 ^ 8 ∧
  r.point_source_id < 2 ^ 16 ∧ host.IsDouble r.gps_time ∧
  r.red < 2 ^ 16 ∧ r.green < 2 ^ 16 ∧ r.blue < 2 ^ 16

/-- The bytes libslas_append_point_data hands to fwrite for a record. -/
def appended_bytes (host : Host) (swap : Bool) (h : LIBSLAS_HEADER)
    (record : LIBSLAS_POINT_DATA) : List Nat :=
  memcpyBytes h.point_data_record_length (append_buffer host swap h record)

/-- The contents of the file a session has open (empty when fp is NULL). -/
def session_file (st : LasState) (hnd : Nat) : List Nat :=
  match (st.slot hnd).fp with
  | some f => file_bytes st.disk f
  | none => []

/-- The bytes of the point record with a given number in the file of a
session, at the address libslas_read_point_data and libslas_update_point_data
compute from the session header. -/
def record_bytes (st : LasState) (hnd : Nat) (recnum : Int) : List Nat :=
  rd (session_file st hnd) (record_addr (st.slot hnd).header recnum).toNat
    (st.slot hnd).header.point_data_record_length

/-- The bytes libslas_update_point_data hands to fwrite when fread delivered
the bytes old. -/
def updated_bytes (host : Host) (swap : Bool) (h : LIBSLAS_HEADER) (old : List Nat)
    (record : LIBSLAS_POINT_DATA) : List Nat :=
  memcpyBytes h.point_data_record_length
    (update_buffer host swap h (poke (memcpyBytes POINT_DATA_SIZE host.stack_bytes) 0 old)
      record)

/-- The record libslas_read_point_data returns for the bytes fread delivers. -/
def read_back (host : Host) (swap : Bool) (h : LIBSLAS_HEADER) (bytes : List Nat) :
    LIBSLAS_POINT_DATA :=
  decode_point host swap h (poke (List.replicate POINT_DATA_SIZE 0) 0 bytes)

/-- A variable length record header announcing a payload of four bytes. -/
def sample_vlr : LIBSLAS_VLR_HEADER :=
  { reserved := 0, user_id := [], record_id := 1, record_length_after_header := 4,
    description := [] }

/-- The file made by create of a.las, one VLR with four bytes of payload, one
append of sample_point and close, opened again for update: the result (handle
0), the state and the header returned to the caller. -/
def update_session : Int × LasState × LIBSLAS_HEADER :=
  libslas_open_las_file (ieee_host false)
    (libslas_close_las_file (ieee_host false)
      (libslas_append_point_data (ieee_host false)
        (libslas_append_vlr_record (ieee_host false) created_session.2.1 0 sample_vlr
          [1, 2, 3, 4]).2.1 0 sample_point).2.1 0).2
    las_path zero_header LIBSLAS_UPDATE

/-- The record handed to libslas_update_point_data in the examples. -/
def new_marks : LIBSLAS_POINT_DATA :=
  { zero_point with
    classification := 9, synthetic := 1, key_point := 0, withheld := 1, user_data := 77,
    point_source_id := 4660, red := 258, green := 772, blue := 1286 }

/-- The cached position of a session agrees with its stream as far as
libslas_read_point_data relies on it for a record: when the cached position is
the record address, the stream stands there. -/
def cache_coherent (st : LasState) (hnd : Nat) (recnum : Int) : Prop :=
  ∀ f, (st.slot hnd).fp = some f →
    (st.slot hnd).pos = record_addr (st.slot hnd).header recnum →
    (f.offset : Int) = record_addr (st.slot hnd).header recnum

/-- Two records agree in the fields libslas_update_point_data has no business
with: position, GPS time, intensity, scan angle rank and the four fields of the
returns byte. -/
def same_fixed_fields (a b : LIBSLAS_POINT_DATA) : Prop :=
  a.x = b.x ∧ a.y = b.y ∧ a.z = b.z ∧ a.gps_time = b.gps_time ∧ a.intensity = b.intensity
  ∧ a.scan_angle_rank = b.scan_angle_rank ∧ a.return_number = b.return_number
  ∧ a.number_of_returns = b.number_of_returns ∧ a.edge_of_flightline = b.edge_of_flightline
  ∧ a.scan_direction_flag = b.scan_direction_flag

/-- The header sample_header with a file source id and a creation date. -/
def dated_header : LIBSLAS_HEADER :=
  { sample_header with file_source_id := 7, file_creation_DOY := 304, file_creation_year := 2022 }

/-- The session table after create of a.las with dated_header and close, no
point appended, on the IEEE host of the given byte order. -/
def empty_file (big : Bool) : LasState :=
  (libslas_close_las_file (ieee_host big)
    (libslas_create_las_file (ieee_host big) (initial_state (fun _ => none)) las_path
      dated_header).2.1 0).2

/-- The file of empty_file opened again on the same host, read-only: the
result, the state and the header returned to the caller. -/
def empty_file_reopened (big : Bool) : Int × LasState × LIBSLAS_HEADER :=
  libslas_open_las_file (ieee_host big) (empty_file big) las_path zero_header LIBSLAS_READONLY

/-- The fields of a header fit their C types: the integers their widths, the
per-return array its five entries, the doubles the host's double. -/
def LIBSLAS_HEADER.well_typed (host : Host) (h : LIBSLAS_HEADER) : Prop :=
  h.file_source_id < 2 ^ 16 ∧ h.global_encoding < 2 ^ 16 ∧ h.GUID_data_1 < 2 ^ 32
  ∧ h.GUID_data_2 < 2 ^ 16 ∧ h.GUID_data_3 < 2 ^ 16 ∧ h.version_major < 2 ^ 8
  ∧ h.version_minor < 2 ^ 8 ∧ h.file_creation_DOY < 2 ^ 16 ∧ h.file_creation_year < 2 ^ 16
  ∧ h.header_size < 2 ^ 16 ∧ h.offset_to_point_data < 2 ^ 32 ∧ h.number_of_VLRs < 2 ^ 32
  ∧ h.point_data_format_id < 2 ^ 8 ∧ h.point_data_record_length < 2 ^ 16
  ∧ h.number_of_point_records < 2 ^ 32
  ∧ (∃ a b c d e, h.number_of_points_by_return = [a, b, c, d, e] ∧ a < 2 ^ 32 ∧ b < 2 ^ 32
      ∧ c < 2 ^ 32 ∧ d < 2 ^ 32 ∧ e < 2 ^ 32)
  ∧ host.IsDouble h.x_scale_factor ∧ host.IsDouble h.y_scale_factor
  ∧ host.IsDouble h.z_scale_factor ∧ host.IsDouble h.x_offset ∧ host.IsDouble h.y_offset
  ∧ host.IsDouble h.z_offset ∧ host.IsDouble h.max_x ∧ host.IsDouble h.min_x
  ∧ host.IsDouble h.max_y ∧ host.IsDouble h.min_y ∧ host.IsDouble h.max_z
  ∧ host.IsDouble h.min_z

/-- Two headers agree in the fields the caller of libslas_create_las_file
supplies: file source id, global encoding, GUID data 1-3 and the 8 bytes of
GUID data 4, the 32 bytes of system_id and of generating_software, creation day
and year, number of VLRs, point format, scale factors and offsets. -/
def same_caller_fields (a b : LIBSLAS_HEADER) : Prop :=
  a.file_source_id = b.file_source_id ∧ a.global_encoding = b.global_encoding
  ∧ a.GUID_data_1 = b.GUID_data_1 ∧ a.GUID_data_2 = b.GUID_data_2
  ∧ a.GUID_data_3 = b.GUID_data_3 ∧ rd a.GUID_data_4 0 8 = rd b.GUID_data_4 0 8
  ∧ rd a.system_id 0 32 = rd b.system_id 0 32
  ∧ rd a.generating_software 0 32 = rd b.generating_software 0 32
  ∧ a.file_creation_DOY = b.file_creation_DOY ∧ a.file_creation_year = b.file_creation_year
  ∧ a.number_of_VLRs = b.number_of_VLRs ∧ a.point_data_format_id = b.point_data_format_id
  ∧ a.x_scale_factor = b.x_scale_factor ∧ a.y_scale_factor = b.y_scale_factor
  ∧ a.z_scale_factor = b.z_scale_factor ∧ a.x_offset = b.x_offset ∧ a.y_offset = b.y_offset
  ∧ a.z_offset = b.z_offset

/-- Two headers agree in the fields the library owns: version, header size,
offset to the point data, record length, record count, per-return counts and
bounding box. -/
def same_codec_fields (a b : LIBSLAS_HEADER) : Prop :=
  a.version_major = b.version_major ∧ a.version_minor = b.version_minor
  ∧ a.header_size = b.header_size ∧ a.offset_to_point_data = b.offset_to_point_data
  ∧ a.point_data_record_length = b.point_data_record_length
  ∧ a.number_of_point_records = b.number_of_point_records
  ∧ a.number_of_points_by_return = b.number_of_points_by_return
  ∧ a.max_x = b.max_x ∧ a.min_x = b.min_x ∧ a.max_y = b.max_y ∧ a.min_y = b.min_y
  ∧ a.max_z = b.max_z ∧ a.min_z = b.min_z

/-- A created session that does not swap, with a writable stream on the file
path, at least the 227 header bytes on file and a non-zero record length. -/
def Written (st : LasState) (hnd : Nat) (path : List Nat) : Prop :=
  (st.slot hnd).created = true ∧ (st.slot hnd).swap = false
  ∧ (∃ f, (st.slot hnd).fp = some f ∧ f.writable = true ∧ f.name = path)
  ∧ (∃ c, st.disk path = some c ∧ 227 ≤ c.length)
  ∧ (st.slot hnd).header.point_data_record_length ≠ 0
  ∧ st.first = false

/-- The calls create, one append for each record of a list, and close: the
result of close and the state after it. -/
def create_append_close (host : Host) (st : LasState) (path : List Nat) (H : LIBSLAS_HEADER)
    (recs : List LIBSLAS_POINT_DATA) : Int × LasState :=
  let c := libslas_create_las_file host st path H
  libslas_close_las_file host (append_points host c.2.1 c.1.toNat recs).2 c.1.toNat

/-- The header of the session in memory after create and the appends, when
close is called. -/
def header_at_close (host : Host) (st : LasState) (path : List Nat) (H : LIBSLAS_HEADER)
    (recs : List LIBSLAS_POINT_DATA) : LIBSLAS_HEADER :=
  let c := libslas_create_las_file host st path H
  ((append_points host c.2.1 c.1.toNat recs).2.slot c.1.toNat).header

/-! ## Calls and what they keep -/

/-- A call of one of the nine functions of the API that work on the session
table, with its arguments. -/
inductive Call where
  | create (path : List Nat) (header : LIBSLAS_HEADER)
  | open_file (path : List Nat) (header : LIBSLAS_HEADER) (mode : Int)
  | close (hnd : Nat)
  | read_vlr_header (hnd : Nat) (recnum : Int) (vlr_header : LIBSLAS_VLR_HEADER)
  | read_vlr_data (hnd : Nat) (recnum : Int) (vlr_data : List Nat)
  | append_vlr (hnd : Nat) (vlr_header : LIBSLAS_VLR_HEADER) (vlr_data : List Nat)
  | read_point (hnd : Nat) (recnum : Int) (record : LIBSLAS_POINT_DATA)
  | append_point (hnd : Nat) (record : LIBSLAS_POINT_DATA)
  | update_point (hnd : Nat) (recnum : Int) (record : LIBSLAS_POINT_DATA)

/-- The state after a call. -/
def Call.run (host : Host) (st : LasState) : Call → LasState
  | .create path header => (libslas_create_las_file host st path header).2.1
  | .open_file path header mode => (libslas_open_las_file host st path header mode).2.1
  | .close hnd => (libslas_close_las_file host st hnd).2
  | .read_vlr_header hnd recnum vh => (libslas_read_vlr_header host st hnd recnum vh).2.1
  | .read_vlr_data hnd recnum data => (libslas_read_vlr_data host st hnd recnum data).2.1
  | .append_vlr hnd vh data => (libslas_append_vlr_record host st hnd vh data).2.1
  | .read_point hnd recnum record => (libslas_read_point_data host st hnd recnum record).2.1
  | .append_point hnd record => (libslas_append_point_data host st hnd record).2.1
  | .update_point hnd recnum record => (libslas_update_point_data host st hnd recnum record).2

/-- An occupied slot of a session table that has been through the start-up
pass. -/
def Occupied (st : LasState) (hnd : Nat) : Prop :=
  st.first = false ∧ (st.slot hnd).fp ≠ none

/-- What a call leaves of a session structure: an open stream stays open,
created, mode and swap keep their values, and a set data flag stays set. -/
def SlotKept (s s2 : INTERNAL_LIBSLAS_STRUCT) : Prop :=
  (s.fp ≠ none → s2.fp ≠ none) ∧ s2.created = s.created ∧ s2.mode = s.mode
  ∧ s2.swap = s.swap ∧ (s.data = true → s2.data = true)

/-- The effect of a call on the session table is local to one handle: the
start-up flag and every other slot are as before, and the slot of the handle is
kept in the sense of SlotKept. -/
def Local (st st2 : LasState) (hnd : Nat) : Prop :=
  st2.first = st.first ∧ (∀ g, g ≠ hnd → st2.las g = st.las g)
  ∧ SlotKept (st.las hnd) (st2.las hnd)

/-! ## More concrete sessions -/

/-- The header of a file that is to hold two VLRs. -/
def two_vlr_header : LIBSLAS_HEADER :=
  { sample_header with number_of_VLRs := 2 }

/-- A first VLR: record id 1, a payload of four bytes, user id LAS, description
with the bytes 1, 0, 2, 0 in front. -/
def vlr_zero : LIBSLAS_VLR_HEADER :=
  { reserved := 0
    user_id := poke (List.replicate 17 0) 0 [76, 65, 83]
    record_id := 1
    record_length_after_header := 4
    description := poke (List.replicate 33 0) 0 [1, 0, 2, 0] }

/-- A second VLR: record id 2, a payload of two bytes. -/
def vlr_one : LIBSLAS_VLR_HEADER :=
  { reserved := 0
    user_id := poke (List.replicate 17 0) 0 [88, 89]
    record_id := 2
    record_length_after_header := 2
    description := poke (List.replicate 33 0) 0 [90] }

/-- The session after create of a.las with two_vlr_header and the appends of
vlr_zero with payload 1, 2, 3, 4 and of vlr_one with payload 9, 8. -/
def two_vlr_session : LasState :=
  (libslas_append_vlr_record (ieee_host false)
    (libslas_append_vlr_record (ieee_host false)
      (libslas_create_las_file (ieee_host false) (initial_state (fun _ => none)) las_path
        two_vlr_header).2.1 0 vlr_zero [1, 2, 3, 4]).2.1 0 vlr_one [9, 8]).2.1

/-- A session table after start-up in which every slot holds a session opened
read-only on a.las. -/
def full_table : LasState :=
  { las := fun _ =>
      { zero_struct with
        path := las_path
        fp := some { name := las_path, offset := 227, writable := false }
        mode := LIBSLAS_READONLY }
    libslas_error := 0
    first := false
    disk := fun _ => none }

/-! ## Opening files written elsewhere -/

/-- The header libslas_read_header leaves in a session structure s for a file
with the contents c: the fields unpacked from the first 227 bytes, swapped when
the session swaps. -/
def decoded_header (host : Host) (s : INTERNAL_LIBSLAS_STRUCT) (c : List Nat) : LIBSLAS_HEADER :=
  let h0 := header_fields host s.header (rd c 0 LIBSLAS_HEADER_SIZE)
  if s.swap then libslas_swap_las_header host h0 else h0

/-- The session structure libslas_open_las_file hands to libslas_read_header
(without the stream): zeroed, with the path and the swap flag of the host. -/
def opening_struct (host : Host) (path : List Nat) : INTERNAL_LIBSLAS_STRUCT :=
  if libslas_big_endian host ≠ 0 then { zero_struct with path := path, swap := true }
  else { zero_struct with path := path }

/-- The session table of one_point_file with the bytes bs put at position pos
of the file a.las, as another program could have written it. -/
def patched_file (pos : Nat) (bs : List Nat) : LasState :=
  { one_point_file with
    disk := fun p => (one_point_file.disk p).map (fun c => poke c pos bs) }

/-- A program start with a file a.las of 227 zero bytes on disk. -/
def zero_file : LasState :=
  initial_state (fun p => if p = las_path then some (List.replicate 227 0) else none)

/-! ## Sessions on a big-endian host, and of the other point formats -/

/-- The call libslas_create_las_file ("a.las", sample_header) at program start
on the big-endian IEEE host with no file on disk: the result, the state and the
caller's header. -/
def created_big_endian : Int × LasState × LIBSLAS_HEADER :=
  libslas_create_las_file (ieee_host true) (initial_state (fun _ => none)) las_path sample_header

/-- The state after created_big_endian, one append of sample_point and close, all
on the big-endian IEEE host. -/
def big_endian_point_file : LasState :=
  (libslas_close_las_file (ieee_host true)
    (libslas_append_point_data (ieee_host true) created_big_endian.2.1 0 sample_point).2.1 0).2

/-- A record with every field set to a non-zero value, as a caller could hold
before a read. -/
def stale_point : LIBSLAS_POINT_DATA :=
  { sample_point with gps_time := 5 / 2, red := 11, green := 12, blue := 13 }

/-- The file made by create of a.las with the given point format, one append of
sample_point and close, opened again read-only: the result, the state and the
header returned to the caller. -/
def format_session (fmt : Nat) : Int × LasState × LIBSLAS_HEADER :=
  libslas_open_las_file (ieee_host false)
    (libslas_close_las_file (ieee_host false)
      (libslas_append_point_data (ieee_host false)
        (libslas_append_vlr_record (ieee_host false)
          (libslas_create_las_file (ieee_host false) (initial_state (fun _ => none)) las_path
            { sample_header with point_data_format_id := fmt }).2.1 0 sample_vlr
          [1, 2, 3, 4]).2.1 0 sample_point).2.1 0).2
    las_path zero_header LIBSLAS_READONLY

/-! ## Update without a VLR, and VLR data on a host that swaps -/

/-- The file of one_point_file opened again for update: the result (handle 0),
the state and the header returned to the caller. -/
def no_vlr_update_session : Int × LasState × LIBSLAS_HEADER :=
  libslas_open_las_file (ieee_host false) one_point_file las_path zero_header LIBSLAS_UPDATE

/-- The call libslas_update_point_data (0, 0, new_marks) on
no_vlr_update_session: the result and the state. -/
def no_vlr_updated : Int × LasState :=
  libslas_update_point_data (ieee_host false) no_vlr_update_session.2.1 0 0 new_marks

/-- A VLR header with a record id and a payload length. -/
def geo_vlr (id len : Nat) : LIBSLAS_VLR_HEADER :=
  { reserved := 0, user_id := [], record_id := id, record_length_after_header := len,
    description := [] }

/-- The header sample_header announcing one VLR. -/
def one_vlr_header : LIBSLAS_HEADER :=
  { sample_header with number_of_VLRs := 1 }

/-- The state after create of a.las with one_vlr_header on the little-endian
host, one VLR with the given record id and payload, and close. -/
def geo_file (id : Nat) (payload : List Nat) : LasState :=
  (libslas_close_las_file (ieee_host false)
    (libslas_append_vlr_record (ieee_host false)
      (libslas_create_las_file (ieee_host false) (initial_state (fun _ => none)) las_path
        one_vlr_header).2.1 0 (geo_vlr id payload.length) payload).2.1 0).2

/-- The file of geo_file opened read-only on a host: the result, the state and
the header returned to the caller. -/
def geo_session (host : Host) (id : Nat) (payload : List Nat) :
    Int × LasState × LIBSLAS_HEADER :=
  libslas_open_las_file host (geo_file id payload) las_path zero_header LIBSLAS_READONLY

/-- The call libslas_read_vlr_data (0, 0, buffer) on geo_session with a buffer
of the length of the payload filled with the value 9: the result, the state and
the buffer. -/
def geo_data (host : Host) (id : Nat) (payload : List Nat) : Int × LasState × List Nat :=
  libslas_read_vlr_data host (geo_session host id payload).2.1 0 0
    (List.replicate payload.length 9)

/-- The big-endian IEEE host with other values left in the two temporaries of
libslas_read_vlr_data. -/
def marked_host : Host :=
  { ieee_host true with tmp_short := 2571, tmp_double := 3 / 2 }

/-! ## The returns byte as the specification lays it out -/

/-- The returns byte laid out as the specification words it: the return number
in bits 0-1, the number of returns in bits 2-4, edge of flightline in bit 5 and
the scan direction in bit 7.  This follows the specification, not the code. -/
def spec_rets (r : LIBSLAS_POINT_DATA) : Nat :=
  r.return_number % 4 + (r.number_of_returns % 8) * 4 + (r.edge_of_flightline % 2) * 32
    + (r.scan_direction_flag % 2) * 128

/-- A first return of one, at the edge of a flightline. -/
def flagged_point : LIBSLAS_POINT_DATA :=
  { zero_point with return_number := 1, number_of_returns := 1, edge_of_flightline := 1 }

/-- A record buffer of 34 bytes that is zero but for the returns byte. -/
def rets_buffer (rets : Nat) : List Nat :=
  List.replicate 14 0 ++ [rets] ++ List.replicate 19 0

/-! ## The values libslas_append_point_data copies -/

/-- The record libslas_append_point_data copies the fields from: the caller's
record, swapped in place when the session swaps. -/
def stored_record (host : Host) (swap : Bool) (h : LIBSLAS_HEADER) (R : LIBSLAS_POINT_DATA) :
    LIBSLAS_POINT_DATA :=
  if swap then swap_point_fields host h.point_data_format_id R else R

/-- The raw coordinate libslas_append_point_data copies into the buffer for a
value v with header offset o and scale factor s: quantized, and swapped when the
session swaps. -/
def stored_raw (swap : Bool) (v o s : CDouble) : Int :=
  if swap then swap_int32 (quantize v o s) else quantize v o s

/-! ## A file with long records, and reading between appends -/

/-- A LAS 1.2 header of point format 3 that announces records of 40 bytes, one
point record, and the point data right after the 227 header bytes. -/
def long_record_header : LIBSLAS_HEADER :=
  { sample_header with
    offset_to_point_data := 227
    point_data_record_length := 40
    number_of_point_records := 1 }

/-- A program start with a file a.las on disk that holds long_record_header
followed by one record of 40 bytes (the values 1 to 40). -/
def long_record_file : LasState :=
  initial_state (fun p =>
    if p = las_path then
      some (header_data (ieee_host false) long_record_header ++ List.range' 1 40)
    else none)

/-- The file of long_record_file opened read-only: the result, the state and
the header returned to the caller. -/
def long_record_session : Int × LasState × LIBSLAS_HEADER :=
  libslas_open_las_file (ieee_host false) long_record_file las_path zero_header LIBSLAS_READONLY

/-- A second record for the examples. -/
def second_point : LIBSLAS_POINT_DATA :=
  { sample_point with x := 2, y := 3, z := 4, intensity := 2000, user_data := 200 }

/-- A third record for the examples. -/
def third_point : LIBSLAS_POINT_DATA :=
  { sample_point with x := 5, y := 6, z := 7, intensity := 3000, user_data := 100 }

/-- The state after create of a.las, one VLR, and appends of sample_point and
second_point on the little-endian host. -/
def two_points_session : LasState :=
  (libslas_append_point_data (ieee_host false)
    (libslas_append_point_data (ieee_host false)
      (libslas_append_vlr_record (ieee_host false) created_session.2.1 0 sample_vlr
        [1, 2, 3, 4]).2.1 0 sample_point).2.1 0 second_point).2.1

/-- The call libslas_read_point_data (0, 0, record) on two_points_session: the
result, the state and the record. -/
def two_points_read : Int × LasState × LIBSLAS_POINT_DATA :=
  libslas_read_point_data (ieee_host false) two_points_session 0 0 zero_point

/-- The call libslas_append_point_data (0, third_point) after two_points_read:
the result, the state and the record. -/
def append_after_read : Int × LasState × LIBSLAS_POINT_DATA :=
  libslas_append_point_data (ieee_host false) two_points_read.2.1 0 third_point

/-! ## Byte patterns of doubles -/

/-- The 64-bit pattern whose 8 bytes are those of the pattern b in reverse
order. -/
def swapped_bits (b : Nat) : Nat :=
  le_val (le_bytes 8 b).reverse

/-! ## Reading with and without the seek -/

/-- The variant of libslas_read_point_data that the specification compares it
with: the same function with the seek to the record address made on every call,
whatever the cached position.  This follows the specification, not the code. -/
def read_point_always_seek (host : Host) (st : LasState) (hnd : Nat) (recnum : Int)
    (record : LIBSLAS_POINT_DATA) : Int × LasState × LIBSLAS_POINT_DATA :=
  let s := st.slot hnd
  if bad_recnum s.header recnum then
    let r := st.fail LIBSLAS_INVALID_RECORD_NUMBER_ERROR
    (r.1, r.2, record)
  else
    let addr := record_addr s.header recnum
    match s.fp.bind (fun f => fseek_set f addr) with
    | none =>
      let r := st.fail LIBSLAS_READ_FSEEK_ERROR
      (r.1, r.2, record)
    | some f =>
      match fread st.disk f s.header.point_data_record_length with
      | (0, _, g) =>
        let r := (st.setSlot hnd { s with fp := some g }).fail LIBSLAS_READ_ERROR
        (r.1, r.2, zero_point)
      | (_, bytes, g) =>
        let data := poke (List.replicate POINT_DATA_SIZE 0) 0 bytes
        let r := (st.setSlot hnd
          { s with
            fp := some g
            pos := ftello64 g
            at_end := false
            modified := false
            write := false }).fail LIBSLAS_SUCCESS
        (r.1, r.2, decode_point host s.swap s.header data)

/-- A LAS 1.2 header of point format 3 that announces one VLR, the point data
at 281 and two point records. -/
def empty_vlr_header : LIBSLAS_HEADER :=
  { sample_header with
    number_of_VLRs := 1
    offset_to_point_data := 281
    number_of_point_records := 2 }

/-- A program start with a file a.las on disk: empty_vlr_header, one VLR with an
all-zero sub-header (payload length 0), and the records of sample_point and
second_point. -/
def empty_vlr_file : LasState :=
  initial_state (fun p =>
    if p = las_path then
      some (header_data (ieee_host false) empty_vlr_header ++ List.replicate 54 0
        ++ appended_bytes (ieee_host false) false sample_header sample_point
        ++ appended_bytes (ieee_host false) false sample_header second_point)
    else none)

/-- The file of empty_vlr_file opened read-only: the result, the state and the
header returned to the caller. -/
def empty_vlr_session : Int × LasState × LIBSLAS_HEADER :=
  libslas_open_las_file (ieee_host false) empty_vlr_file las_path zero_header LIBSLAS_READONLY

/-- The call libslas_read_point_data (0, 0, record) on empty_vlr_session. -/
def empty_vlr_first_read : Int × LasState × LIBSLAS_POINT_DATA :=
  libslas_read_point_data (ieee_host false) empty_vlr_session.2.1 0 0 zero_point

/-- The call libslas_read_vlr_data (0, 0, buffer) after empty_vlr_first_read,
with a buffer of four bytes. -/
def empty_vlr_data_read : Int × LasState × List Nat :=
  libslas_read_vlr_data (ieee_host false) empty_vlr_first_read.2.1 0 0 [9, 9, 9, 9]

/-! ## Created sessions: update, empty VLR, scale factors, far points -/

/-- The call libslas_update_point_data (0, 0, new_marks) on the created session
two_points_session: the result and the state. -/
def update_while_creating : Int × LasState :=
  libslas_update_point_data (ieee_host false) two_points_session 0 0 new_marks

/-- The call libslas_append_point_data (0, third_point) after
update_while_creating: the result, the state and the record. -/
def append_after_update : Int × LasState × LIBSLAS_POINT_DATA :=
  libslas_append_point_data (ieee_host false) update_while_creating.2 0 third_point

/-- The call libslas_append_vlr_record on created_session with a VLR header of
record id 7 and payload length 0, and an empty payload: the result, the state,
the caller's VLR header and buffer. -/
def empty_vlr_append : Int × LasState × LIBSLAS_VLR_HEADER × List Nat :=
  libslas_append_vlr_record (ieee_host false) created_session.2.1 0 (geo_vlr 7 0) []

/-- The header sample_header with an x scale factor of zero. -/
def zero_scale_header : LIBSLAS_HEADER :=
  { sample_header with x_scale_factor := 0 }

/-- The call libslas_create_las_file ("a.las", zero_scale_header) at program
start: the result, the state and the caller's header. -/
def zero_scale_session : Int × LasState × LIBSLAS_HEADER :=
  libslas_create_las_file (ieee_host false) (initial_state (fun _ => none)) las_path
    zero_scale_header

/-- The header sample_header with an x scale factor of one. -/
def unit_scale_header : LIBSLAS_HEADER :=
  { sample_header with x_scale_factor := 1 }

/-- The call libslas_create_las_file ("a.las", unit_scale_header) at program
start: the result, the state and the caller's header. -/
def unit_scale_session : Int × LasState × LIBSLAS_HEADER :=
  libslas_create_las_file (ieee_host false) (initial_state (fun _ => none)) las_path
    unit_scale_header

/-- The record sample_point moved to x = 2^31. -/
def far_point : LIBSLAS_POINT_DATA :=
  { sample_point with x := 2147483648 }

/-- The record sample_point moved to x = 10^15 and y = -10^15. -/
def remote_point : LIBSLAS_POINT_DATA :=
  { sample_point with x := 1000000000000000, y := -1000000000000000 }

/-- The call libslas_append_point_data (0, remote_point) on created_session:
the result, the state and the record. -/
def remote_append : Int × LasState × LIBSLAS_POINT_DATA :=
  libslas_append_point_data (ieee_host false) created_session.2.1 0 remote_point

/-! ## The slot of a call -/

/-- The slot a call works on: its handle argument, and for create and open the
slot the search for a free handle comes up with. -/
def Call.target (st : LasState) : Call → Nat
  | .create _ _ => find_handle (startup st).las
  | .open_file _ _ _ => find_handle (startup st).las
  | .close hnd => hnd
  | .read_vlr_header hnd _ _ => hnd
  | .read_vlr_data hnd _ _ => hnd
  | .append_vlr hnd _ _ => hnd
  | .read_point hnd _ _ => hnd
  | .append_point hnd _ => hnd
  | .update_point hnd _ _ => hnd

/-- Two session structures agree in everything but the stream: path, header,
swap flag, the five flags, mode and cached position. -/
def same_session (a b : INTERNAL_LIBSLAS_STRUCT) : Prop :=
  a.path = b.path ∧ a.header = b.header ∧ a.swap = b.swap ∧ a.at_end = b.at_end
  ∧ a.created = b.created ∧ a.modified = b.modified ∧ a.write = b.write ∧ a.mode = b.mode
  ∧ a.data = b.data ∧ a.pos = b.pos

/-- The file name b.las. -/
def other_path : List Nat := [98, 46, 108, 97, 115]

/-! ## A record with bit fields out of range -/

/-- The record sample_point as a first return with a number of returns of 9,
which needs four bits, and the class code 33, which needs six; the scan
direction, edge and synthetic flags are clear. -/
def wide_point : LIBSLAS_POINT_DATA :=
  { sample_point with
    return_number := 1, number_of_returns := 9, scan_direction_flag := 0,
    edge_of_flightline := 0, classification := 33, synthetic := 0 }

/-! ## A colour file with short records -/

/-- A LAS 1.2 header of point format 2 that announces records of 20 bytes (the
width of point format 0), one point record, and the point data right after the
227 header bytes. -/
def short_colour_header : LIBSLAS_HEADER :=
  { sample_header with
    point_data_format_id := 2
    offset_to_point_data := 227
    point_data_record_length := 20
    number_of_point_records := 1 }

/-- A program start with a file a.las on disk that holds short_colour_header
followed by one record of 20 zero bytes. -/
def short_colour_file : LasState :=
  initial_state (fun p =>
    if p = las_path then
      some (header_data (ieee_host false) short_colour_header ++ List.replicate 20 0)
    else none)

/-- The file of short_colour_file opened for update: the result, the state and
the header returned to the caller. -/
def short_colour_session : Int × LasState × LIBSLAS_HEADER :=
  libslas_open_las_file (ieee_host false) short_colour_file las_path zero_header LIBSLAS_UPDATE

/-- Record 0 of short_colour_session updated with new_marks. -/
def short_colour_update : Int × LasState :=
  libslas_update_point_data (ieee_host false) short_colour_session.2.1 0 0 new_marks

/-! ## The session table as bytes

The array las in memory.  The member path of INTERNAL_LIBSLAS_STRUCT is an
array of 1024 characters and is directly followed by fp, header and the
flags, and las[i + 1] directly follows las[i].  The definitions of this
section follow libslas_create_las_file and libslas_open_las_file on the bytes
of las, from the search for a handle to the point where they return an error
or go on to fopen64, for a platform with 8-byte pointers and natural
alignment of structure members. -/

/-- The offset off rounded up to a multiple of the alignment a. -/
def align_up (off a : Nat) : Nat :=
  (off + a - 1) / a * a

/-- The offsets of the members of a C structure, given the size and the
alignment of each member in order; off is the end of the members before. -/
def member_offsets : Nat → List (Nat × Nat) → List Nat
  | _, [] => []
  | off, m :: ms => align_up off m.2 :: member_offsets (align_up off m.2 + m.1) ms

/-- The end of the last member of a C structure. -/
def members_end : Nat → List (Nat × Nat) → Nat
  | off, [] => off
  | off, m :: ms => members_end (align_up off m.2 + m.1) ms

/-- The size of a C structure with the given members and alignment. -/
def struct_size (members : List (Nat × Nat)) (a : Nat) : Nat :=
  align_up (members_end 0 members) a

/-- Size and alignment of the members of LIBSLAS_HEADER (libslas.h), from
file_source_id to min_z. -/
def header_members : List (Nat × Nat) :=
  [(2, 2), (2, 2), (4, 4), (2, 2), (2, 2), (9, 1), (1, 1), (1, 1), (33, 1), (33, 1),
    (2, 2), (2, 2), (2, 2), (4, 4), (4, 4), (1, 1), (2, 2), (4, 4), (20, 4)]
  ++ List.replicate 12 (8, 8)

/-- Size and alignment of the members of INTERNAL_LIBSLAS_STRUCT: path, fp,
header, swap, at_end, created, modified, write, mode, data and pos. -/
def struct_members : List (Nat × Nat) :=
  [(1024, 1), (8, 8), (struct_size header_members 8, 8), (1, 1), (1, 1), (1, 1), (1, 1),
    (1, 1), (4, 4), (1, 1), (8, 8)]

/-- The value of sizeof (INTERNAL_LIBSLAS_STRUCT), the distance from las[i] to
las[i + 1]. -/
def SLOT_SIZE : Nat := struct_size struct_members 8

/-- The offset of the member fp in INTERNAL_LIBSLAS_STRUCT. -/
def FP_OFFSET : Nat := (member_offsets 0 struct_members).getD 1 0

/-- The offset of the member header in INTERNAL_LIBSLAS_STRUCT. -/
def HEADER_OFFSET : Nat := (member_offsets 0 struct_members).getD 2 0

/-- The offset of the member pos, the last one of INTERNAL_LIBSLAS_STRUCT. -/
def POS_OFFSET : Nat := (member_offsets 0 struct_members).getD 10 0

/-- The array las at program start: static storage is zero. -/
def zero_table : Nat → Nat := fun _ => 0

/-- The 8 bytes of las[i].fp in a table of bytes (a table gives the byte at
each offset from the start of las[0]). -/
def raw_fp (t : Nat → Nat) (i : Nat) : List Nat :=
  (List.range 8).map (fun k => t (i * SLOT_SIZE + FP_OFFSET + k))

/-- The test las[i].fp == NULL on the bytes of las. -/
def raw_fp_is_null (t : Nat → Nat) (i : Nat) : Bool :=
  (raw_fp t i).all (fun b => b == 0)

/-- The loop that looks for the next available handle, on the bytes of las. -/
def raw_find_handle (t : Nat → Nat) : Nat :=
  match (List.range LIBSLAS_MAX_FILES).find? (fun i => raw_fp_is_null t i) with
  | some i => i
  | none => LIBSLAS_MAX_FILES

/-- The call memset (&las[i], 0, sizeof (INTERNAL_LIBSLAS_STRUCT)). -/
def raw_memset (t : Nat → Nat) (i : Nat) : Nat → Nat :=
  fun off => if i * SLOT_SIZE ≤ off ∧ off < i * SLOT_SIZE + SLOT_SIZE then 0 else t off

/-- The call strcpy (las[hnd].path, path): the characters of the path and the
terminating zero go to the bytes from the start of las[hnd] on, however many
they are. -/
def raw_strcpy (t : Nat → Nat) (hnd : Nat) (path : List Nat) : Nat → Nat :=
  fun off =>
    if hnd * SLOT_SIZE ≤ off ∧ off < hnd * SLOT_SIZE + (path.length + 1) then
      (path ++ [0]).getD (off - hnd * SLOT_SIZE) 0
    else t off

/-- The statements of create and open from the search for a handle to the
strcpy, on the bytes of las as the pass of the first call leaves them (every
fp NULL at program start): the handle and the bytes after the strcpy (the
bytes are as before when no handle is free). -/
def raw_entry (t : Nat → Nat) (path : List Nat) : Nat × (Nat → Nat) :=
  let hnd := raw_find_handle t
  if hnd = LIBSLAS_MAX_FILES then (hnd, t)
  else (hnd, raw_strcpy (raw_memset t hnd) hnd path)

/-- The part of libslas_create_las_file from the search for a handle to the
check of the global encoding, on the bytes of las: the error it returns there
(none when it goes on to save the header and to call fopen64) and the bytes of
las at that point.  The statements between the strcpy and fopen64 write to the
caller's header and to libslas_error only. -/
def raw_create_checks (t : Nat → Nat) (path : List Nat) (header : LIBSLAS_HEADER) :
    Option Int × (Nat → Nat) :=
  let e := raw_entry t path
  if e.1 = LIBSLAS_MAX_FILES then (some LIBSLAS_TOO_MANY_OPEN_FILES_ERROR, e.2)
  else if bad_extension path then (some LIBSLAS_INVALID_FILENAME_ERROR, e.2)
  else
    match format_record_length (standard_fields header).point_data_format_id with
    | none => (some LIBSLAS_INVALID_POINT_FORMAT_ID_ERROR, e.2)
    | some _ =>
      if (standard_fields header).global_encoding > 1 then
        (some LIBSLAS_INVALID_GLOBAL_ENCODING_ERROR, e.2)
      else (none, e.2)

/-- The part of libslas_open_las_file from the search for a handle to the
check of the extension, on the bytes of las: the error it returns there (none
when it goes on) and the bytes of las at that point. -/
def raw_open_checks (t : Nat → Nat) (path : List Nat) : Option Int × (Nat → Nat) :=
  let e := raw_entry t path
  if e.1 = LIBSLAS_MAX_FILES then (some LIBSLAS_TOO_MANY_OPEN_FILES_ERROR, e.2)
  else if bad_extension path then (some LIBSLAS_INVALID_FILENAME_ERROR, e.2)
  else (none, e.2)

/-- The bytes of las after the statements that follow the checks of create and
open: every one of them assigns to a member of las[hnd] (swap, fp, mode, the
header, at_end, modified, created, write, pos), so the bytes of las[hnd]
become some image img of the structure and the bytes outside las[hnd] stay. -/
def raw_assign (t : Nat → Nat) (hnd : Nat) (img : Nat → Nat) : Nat → Nat :=
  fun off =>
    if hnd * SLOT_SIZE ≤ off ∧ off < hnd * SLOT_SIZE + SLOT_SIZE then img (off - hnd * SLOT_SIZE)
    else t off

/-- A path of 1025 characters a, one more than the member path holds, without
the extension .las. -/
def long_name : List Nat := List.replicate 1025 97

/-- A path of 1025 characters that ends in .las. -/
def long_las_name : List Nat := List.replicate 1021 97 ++ [46, 108, 97, 115]

/-- A path of 2580 characters that ends in .las, made of 515 directory names
aaaa and the file name a.las: aaaa/aaaa/.../aaaa/a.las. -/
def deep_path : List Nat :=
  (List.replicate 515 [97, 97, 97, 97, 47]).flatten ++ [97, 46, 108, 97, 115]

/-- A program start with a LAS file under deep_path on disk: the 227 header
bytes of sample_header and no point. -/
def deep_file : LasState :=
  initial_state (fun p =>
    if p = deep_path then some (header_data (ieee_host false) sample_header) else none)

/-- The state after create of a.las (handle 0) and of b.las (handle 1) at the
program start deep_file and close of handle 0: slot 0 is free and slot 1 holds
the session of b.las. -/
def second_slot_state : LasState :=
  (libslas_close_las_file (ieee_host false)
    (libslas_create_las_file (ieee_host false)
      (libslas_create_las_file (ieee_host false) deep_file las_path sample_header).2.1
      other_path sample_header).2.1 0).2

/-! ## Rounding, NaNs and the quantization bound: definitions for the examples -/

/-- The rounding that the macro NINT64 is written for, over the rationals: to
the nearest integer, a half away from zero. -/
def round_half_away (a : ℚ) : Int :=
  if a < 0 then ⌈a - 1 / 2⌉ else ⌊a + 1 / 2⌋

/-- The largest double below 1/2: 0.49999999999999994, that is 1/2 - 2^-54. -/
def below_half : CDouble := ⟨0x3fdfffffffffffff⟩

/-- The double 2^52 + 1. -/
def odd_double : CDouble := 4503599627370497

/-- A header like sample_header with an x scale factor of 0.01. -/
def centi_header : LIBSLAS_HEADER :=
  { sample_header with x_scale_factor := 0.01 }

/-- The record sample_point moved to x = 0.015. -/
def centi_point : LIBSLAS_POINT_DATA :=
  { sample_point with x := 0.015 }

/-- A quiet NaN. -/
def quiet_nan : CDouble := ⟨0x7ff8000000000000⟩

/-- No bound of the bounding box of a header is a NaN. -/
def box_not_nan (h : LIBSLAS_HEADER) : Prop :=
  h.min_x.isNaN = false ∧ h.max_x.isNaN = false ∧ h.min_y.isNaN = false
  ∧ h.max_y.isNaN = false ∧ h.min_z.isNaN = false ∧ h.max_z.isNaN = false

/-- No coordinate of a point is a NaN. -/
def point_not_nan (r : LIBSLAS_POINT_DATA) : Prop :=
  r.x.isNaN = false ∧ r.y.isNaN = false ∧ r.z.isNaN = false

/-- The appends of three first returns at x = 1, x = NaN and x = 5 (y and z
zero) on created_session: the results and the final state. -/
def nan_appends : List Int × LasState :=
  append_points (ieee_host false) created_session.2.1 0
    [{ origin_point with x := 1 }, { origin_point with x := quiet_nan },
      { origin_point with x := 5 }]

/-- The double type of the host holds every 64-bit pattern unchanged: a double
object filled with the pattern gives the pattern back. -/
def Host.HoldsEveryPattern (host : Host) : Prop :=
  ∀ b : Nat, b < 2 ^ 64 → host.dbl_bits (host.bits_dbl b) % 2 ^ 64 = b

/-- The double 1 + 61567 / 2^52 (1.0000000000136706), with the memory image
3F F0 00 00 00 00 F0 7F (most significant byte first): its bytes in reverse
order are the pattern of a NaN. -/
def nan_image_double : CDouble := ⟨0x3ff000000000f07f⟩

/-- The offset of the member swap in INTERNAL_LIBSLAS_STRUCT. -/
def SWAP_OFFSET : Nat := (member_offsets 0 struct_members).getD 3 0

/-- The offset of the member mode in INTERNAL_LIBSLAS_STRUCT. -/
def MODE_OFFSET : Nat := (member_offsets 0 struct_members).getD 8 0

/-- The offset of header.version_major in INTERNAL_LIBSLAS_STRUCT. -/
def VERSION_MAJOR_OFFSET : Nat := HEADER_OFFSET + (member_offsets 0 header_members).getD 6 0

/-- The n bytes of a table of bytes from the offset off on. -/
def raw_bytes (t : Nat → Nat) (off n : Nat) : List Nat :=
  (List.range n).map (fun k => t (off + k))

/-! ## Lemmas on bytes and buffers -/

theorem length_le_bytes (n v : Nat) : (le_bytes n v).length = n := by
  induction n generalizing v with
  | zero => rfl
  | succ n ih => simp [le_bytes, ih]

theorem le_val_le_bytes (n v : Nat) : le_val (le_bytes n v) = v % 256 ^ n := by
  induction n generalizing v with
  | zero => simp [le_bytes, le_val, Nat.mod_one]
  | succ n ih =>
    simp only [le_bytes, le_val, ih]
    rw [Nat.pow_succ, Nat.mul_comm (256 ^ n) 256, Nat.mod_mul]

theorem length_rd (buf : List Nat) (pos n : Nat) : (rd buf pos n).length = n := by
  simp [rd]

theorem length_poke (buf : List Nat) (pos : Nat) (bs : List Nat) :
    (poke buf pos bs).length = buf.length := by
  simp [poke]

theorem getD_rd (buf : List Nat) (pos n i : Nat) :
    (rd buf pos n).getD i 0 = if i < n then buf.getD (pos + i) 0 else 0 := by
  unfold rd
  by_cases h : i < n
  · simp [h, List.getD_eq_getElem?_getD, List.getElem?_map, List.getElem?_range]
  · have h3 : (List.range n)[i]? = none :=
      List.getElem?_eq_none (by simpa using Nat.le_of_not_lt h)
    simp [h, List.getD_eq_getElem?_getD, List.getElem?_map, h3]

theorem getD_poke (buf : List Nat) (pos : Nat) (bs : List Nat) (i : Nat) :
    (poke buf pos bs).getD i 0 =
      if i < buf.length ∧ pos ≤ i ∧ i < pos + bs.length then bs.getD (i - pos) 0
      else buf.getD i 0 := by
  unfold poke
  by_cases h : i < buf.length
  · simp [h, List.getD_eq_getElem?_getD, List.getElem?_map, List.getElem?_range]
  · have h2 : buf.length ≤ i := Nat.le_of_not_lt h
    have h3 : (List.range buf.length)[i]? = none :=
      List.getElem?_eq_none (by simpa using h2)
    have h4 : buf[i]? = none := List.getElem?_eq_none h2
    simp [h, List.getD_eq_getElem?_getD, List.getElem?_map, h3, h4]

theorem rd_eq_of_getD (a b : List Nat) (p q n : Nat)
    (h : ∀ i, i < n → a.getD (p + i) 0 = b.getD (q + i) 0) : rd a p n = rd b q n := by
  unfold rd
  apply List.map_congr_left
  intro i hi
  exact h i (List.mem_range.mp hi)

theorem rd_self (a : List Nat) : rd a 0 a.length = a := by
  apply List.ext_getElem
  · simp [length_rd]
  · intro i h1 h2
    simp [rd, List.getD_eq_getElem?_getD, List.getElem?_eq_getElem h2]

theorem rd_poke_inside (buf bs : List Nat) (pos off n : Nat)
    (h1 : pos + bs.length ≤ buf.length) (h2 : off + n ≤ bs.length) :
    rd (poke buf pos bs) (pos + off) n = rd bs off n := by
  apply rd_eq_of_getD
  intro i hi
  rw [getD_poke]
  have : pos + off + i < buf.length ∧ pos ≤ pos + off + i ∧ pos + off + i < pos + bs.length := by
    omega
  rw [if_pos this]
  congr 1
  omega

theorem rd_poke_outside (buf bs : List Nat) (pos off n : Nat)
    (h : off + n ≤ pos ∨ pos + bs.length ≤ off) :
    rd (poke buf pos bs) off n = rd buf off n := by
  apply rd_eq_of_getD
  intro i hi
  rw [getD_poke]
  have : ¬ (off + i < buf.length ∧ pos ≤ off + i ∧ off + i < pos + bs.length) := by
    omega
  rw [if_neg this]

theorem getD_append (a b : List Nat) (i : Nat) :
    (a ++ b).getD i 0 = if i < a.length then a.getD i 0 else b.getD (i - a.length) 0 := by
  by_cases h : i < a.length
  · simp [h, List.getD_eq_getElem?_getD, List.getElem?_append_left h]
  · have h2 : a.length ≤ i := Nat.le_of_not_lt h
    simp [h, List.getD_eq_getElem?_getD, List.getElem?_append_right h2]

theorem rd_append_right (a b : List Nat) (off n : Nat) (h : a.length ≤ off) :
    rd (a ++ b) off n = rd b (off - a.length) n := by
  apply rd_eq_of_getD
  intro i hi
  rw [getD_append]
  have : ¬ off + i < a.length := by omega
  rw [if_neg this]
  congr 1
  omega

theorem rd_append_left (a b : List Nat) (n : Nat) (h : a.length = n) :
    rd (a ++ b) 0 n = a := by
  subst h
  have : rd (a ++ b) 0 a.length = rd a 0 a.length := by
    apply rd_eq_of_getD
    intro i hi
    rw [getD_append]
    simp [hi]
  rw [this, rd_self]


theorem length_mem_bytes (host : Host) (n v : Nat) : (mem_bytes host n v).length = n := by
  unfold mem_bytes
  split <;> simp [length_le_bytes]

theorem length_dbl_mem (host : Host) (q : CDouble) : (dbl_mem host q).length = 8 := by
  simp [dbl_mem, length_mem_bytes]

theorem length_memcpyBytes (n : Nat) (src : List Nat) : (memcpyBytes n src).length = n := by
  simp [memcpyBytes, length_rd]

theorem mem_val_mem_bytes (host : Host) (n v : Nat) :
    mem_val host (mem_bytes host n v) = v % 256 ^ n := by
  unfold mem_val mem_bytes
  split <;> simp [le_val_le_bytes]

theorem mem_dbl_dbl_mem (host : Host) (q : CDouble) (h : host.IsDouble q) :
    mem_dbl host (dbl_mem host q) = q := by
  unfold mem_dbl dbl_mem
  rw [mem_val_mem_bytes]
  exact h

theorem rd_poke_zero (buf bs : List Nat) (off n : Nat)
    (h1 : bs.length ≤ buf.length) (h2 : off + n ≤ bs.length) :
    rd (poke buf 0 bs) off n = rd bs off n := by
  have := rd_poke_inside buf bs 0 off n (by omega) h2
  simpa using this

/-! ## The point record buffer -/

theorem length_point_tail (host : Host) (fmt : Nat) (r : LIBSLAS_POINT_DATA) :
    (point_tail host fmt r).length =
      if fmt = 1 then 8 else if fmt = 2 then 6 else if fmt = 3 then 14 else 0 := by
  unfold point_tail
  split_ifs <;> simp [length_dbl_mem, length_mem_bytes]

theorem length_point_bytes (host : Host) (fmt : Nat) (x y z : Int) (rets cls : Nat)
    (r : LIBSLAS_POINT_DATA) :
    (point_bytes host fmt x y z rets cls r).length = 20 + (point_tail host fmt r).length := by
  simp [point_bytes, length_mem_bytes]
  omega

theorem length_point_bytes_of_format (host : Host) (fmt len : Nat) (x y z : Int)
    (rets cls : Nat) (r : LIBSLAS_POINT_DATA) (hlen : format_record_length fmt = some len) :
    (point_bytes host fmt x y z rets cls r).length = len := by
  rw [length_point_bytes, length_point_tail]
  unfold format_record_length at hlen
  split at hlen <;> simp_all

theorem format_record_length_le (fmt len : Nat) (hlen : format_record_length fmt = some len) :
    len ≤ POINT_DATA_SIZE ∧ 20 ≤ len ∧ fmt ≤ 3 := by
  unfold format_record_length at hlen
  unfold POINT_DATA_SIZE
  split at hlen <;> simp_all <;> omega

/-- The bytes handed to fwrite are the filled part of the buffer, whenever the
record length is the one create assigns to the point format. -/
theorem appended_bytes_eq (host : Host) (swap : Bool) (h : LIBSLAS_HEADER)
    (R : LIBSLAS_POINT_DATA)
    (hlen : format_record_length h.point_data_format_id = some h.point_data_record_length) :
    appended_bytes host swap h R
      = point_bytes host h.point_data_format_id
          (if swap then swap_int32 (quantize R.x h.x_offset h.x_scale_factor)
            else quantize R.x h.x_offset h.x_scale_factor)
          (if swap then swap_int32 (quantize R.y h.y_offset h.y_scale_factor)
            else quantize R.y h.y_offset h.y_scale_factor)
          (if swap then swap_int32 (quantize R.z h.z_offset h.z_scale_factor)
            else quantize R.z h.z_offset h.z_scale_factor)
          (pack_rets R) (pack_cls R)
          (if swap then swap_point_fields host h.point_data_format_id R else R) := by
  unfold appended_bytes append_buffer memcpyBytes
  simp only []
  have hl := fun x y z r =>
    length_point_bytes_of_format host _ _ x y z (pack_rets R) (pack_cls R) r hlen
  have hle := (format_record_length_le _ _ hlen).1
  rw [rd_poke_zero _ _ 0 _ (by rw [hl, length_rd]; exact hle) (by rw [hl]; omega)]
  rw [← hl, rd_self]

/-- Reading inside the bytes that fread delivered into the zeroed buffer. -/
theorem rd_read_buffer (bytes : List Nat) (off n : Nat)
    (h1 : bytes.length ≤ POINT_DATA_SIZE) (h2 : off + n ≤ bytes.length) :
    rd (poke (List.replicate POINT_DATA_SIZE 0) 0 bytes) off n = rd bytes off n :=
  rd_poke_zero _ _ off n (by simpa using h1) h2

section fields
variable (host : Host) (fmt : Nat) (x y z : Int) (rets cls : Nat) (r : LIBSLAS_POINT_DATA)

theorem rd_point_bytes_x : rd (point_bytes host fmt x y z rets cls r) 0 4
    = mem_bytes host 4 (to_unsigned 32 x) := by
  simp [point_bytes, rd_append_left, length_mem_bytes]

theorem rd_point_bytes_y : rd (point_bytes host fmt x y z rets cls r) 4 4
    = mem_bytes host 4 (to_unsigned 32 y) := by
  simp [point_bytes, rd_append_left, rd_append_right, length_mem_bytes]

theorem rd_point_bytes_z : rd (point_bytes host fmt x y z rets cls r) 8 4
    = mem_bytes host 4 (to_unsigned 32 z) := by
  simp [point_bytes, rd_append_left, rd_append_right, length_mem_bytes]

theorem rd_point_bytes_intensity : rd (point_bytes host fmt x y z rets cls r) 12 2
    = mem_bytes host 2 r.intensity := by
  simp [point_bytes, rd_append_left, rd_append_right, length_mem_bytes]

theorem rd_point_bytes_rets : rd (point_bytes host fmt x y z rets cls r) 14 1
    = mem_bytes host 1 rets := by
  simp [point_bytes, rd_append_left, rd_append_right, length_mem_bytes]

theorem rd_point_bytes_cls : rd (point_bytes host fmt x y z rets cls r) 15 1
    = mem_bytes host 1 cls := by
  simp [point_bytes, rd_append_left, rd_append_right, length_mem_bytes]

theorem rd_point_bytes_angle : rd (point_bytes host fmt x y z rets cls r) 16 1
    = mem_bytes host 1 (to_unsigned 8 r.scan_angle_rank) := by
  simp [point_bytes, rd_append_left, rd_append_right, length_mem_bytes]

theorem rd_point_bytes_user : rd (point_bytes host fmt x y z rets cls r) 17 1
    = mem_bytes host 1 r.user_data := by
  simp [point_bytes, rd_append_left, rd_append_right, length_mem_bytes]

theorem rd_point_bytes_psid : rd (point_bytes host fmt x y z rets cls r) 18 2
    = mem_bytes host 2 r.point_source_id := by
  simp [point_bytes, rd_append_left, rd_append_right, length_mem_bytes]

theorem rd_point_bytes_tail (off n : Nat) :
    rd (point_bytes host fmt x y z rets cls r) (20 + off) n
      = rd (point_tail host fmt r) off n := by
  unfold point_bytes
  simp only [← List.append_assoc]
  rw [rd_append_right]
  · congr 1
    simp [length_mem_bytes]
  · simp [length_mem_bytes]

end fields

/-! ## Bit fields -/

theorem unpack_rets_all : ∀ a < 8, ∀ b < 8, ∀ c < 2, ∀ d < 2,
    let rets := ((((0 ||| a) % 256 ||| (b <<< 3)) % 256 ||| (c <<< 6)) % 256 ||| (d <<< 7)) % 256
    rets &&& 0x03 = a % 4 ∧ (rets &&& 0x38) >>> 3 = b ∧ (rets &&& 0x40) >>> 6 = c
      ∧ (rets &&& 0x80) >>> 7 = d := by
  decide

theorem unpack_cls_all : ∀ a < 32, ∀ w < 2, ∀ k < 2, ∀ s < 2,
    let cls := ((((0 ||| a) % 256 ||| (w <<< 7)) % 256 ||| (k <<< 6)) % 256 ||| (s <<< 5)) % 256
    cls &&& 0x1f = a ∧ (cls &&& 0x20) >>> 5 = s ∧ (cls &&& 0x40) >>> 6 = k
      ∧ (cls &&& 0x80) >>> 7 = w := by
  decide

theorem unpack_rets (R : LIBSLAS_POINT_DATA) (h1 : R.return_number < 8)
    (h2 : R.number_of_returns ≤ 7) (h3 : R.edge_of_flightline ≤ 1)
    (h4 : R.scan_direction_flag ≤ 1) :
    pack_rets R &&& 0x03 = R.return_number % 4
      ∧ (pack_rets R &&& 0x38) >>> 3 = R.number_of_returns
      ∧ (pack_rets R &&& 0x40) >>> 6 = R.edge_of_flightline
      ∧ (pack_rets R &&& 0x80) >>> 7 = R.scan_direction_flag :=
  unpack_rets_all R.return_number h1 R.number_of_returns (by omega) R.edge_of_flightline
    (by omega) R.scan_direction_flag (by omega)

theorem unpack_cls (R : LIBSLAS_POINT_DATA) (h1 : R.classification ≤ 31)
    (h2 : R.withheld ≤ 1) (h3 : R.key_point ≤ 1) (h4 : R.synthetic ≤ 1) :
    pack_cls R &&& 0x1f = R.classification
      ∧ (pack_cls R &&& 0x20) >>> 5 = R.synthetic
      ∧ (pack_cls R &&& 0x40) >>> 6 = R.key_point
      ∧ (pack_cls R &&& 0x80) >>> 7 = R.withheld :=
  unpack_cls_all R.classification (by omega) R.withheld (by omega) R.key_point (by omega)
    R.synthetic (by omega)

theorem pack_rets_lt (R : LIBSLAS_POINT_DATA) : pack_rets R < 256 :=
  Nat.mod_lt _ (by norm_num)

theorem pack_cls_lt (R : LIBSLAS_POINT_DATA) : pack_cls R < 256 :=
  Nat.mod_lt _ (by norm_num)

theorem to_signed_to_unsigned_8 (x : Int) (h1 : -128 ≤ x) (h2 : x ≤ 127) :
    to_signed 8 (to_unsigned 8 x % 256 ^ 1) = x := by
  unfold to_signed to_unsigned
  norm_num
  have e : ((x % 256).toNat : Int) = x % 256 :=
    Int.toNat_of_nonneg (Int.emod_nonneg _ (by norm_num))
  split_ifs with h <;> omega

/-! ## Decoding an encoded record -/

theorem format_cases (fmt len : Nat) (hlen : format_record_length fmt = some len) :
    (fmt = 0 ∧ len = 20) ∨ (fmt = 1 ∧ len = 28) ∨ (fmt = 2 ∧ len = 26) ∨ (fmt = 3 ∧ len = 34) := by
  unfold format_record_length at hlen
  split at hlen <;> simp_all

theorem rd_mem_bytes (host : Host) (n v : Nat) :
    rd (mem_bytes host n v) 0 n = mem_bytes host n v := by
  have := rd_self (mem_bytes host n v)
  rwa [length_mem_bytes] at this

theorem rd_dbl_mem (host : Host) (q : CDouble) : rd (dbl_mem host q) 0 8 = dbl_mem host q := by
  have := rd_self (dbl_mem host q)
  rwa [length_dbl_mem] at this

/-- What libslas_read_point_data (swap flag clear) makes of a buffer filled
like the one of libslas_append_point_data. -/
theorem read_back_point_bytes (host : Host) (h : LIBSLAS_HEADER) (len : Nat)
    (hlen : format_record_length h.point_data_format_id = some len)
    (x y z : Int) (rets cls : Nat) (r : LIBSLAS_POINT_DATA) :
    read_back host false h (point_bytes host h.point_data_format_id x y z rets cls r) =
      { x := dequantize (to_signed 32 (to_unsigned 32 x % 256 ^ 4)) h.x_scale_factor h.x_offset
        y := dequantize (to_signed 32 (to_unsigned 32 y % 256 ^ 4)) h.y_scale_factor h.y_offset
        z := CDouble.to_float
          (dequantize (to_signed 32 (to_unsigned 32 z % 256 ^ 4)) h.z_scale_factor h.z_offset)
        intensity := r.intensity % 256 ^ 2
        return_number := rets % 256 ^ 1 &&& 0x03
        number_of_returns := (rets % 256 ^ 1 &&& 0x38) >>> 3
        scan_direction_flag := (rets % 256 ^ 1 &&& 0x80) >>> 7
        edge_of_flightline := (rets % 256 ^ 1 &&& 0x40) >>> 6
        classification := cls % 256 ^ 1 &&& 0x1f
        withheld := (cls % 256 ^ 1 &&& 0x80) >>> 7
        key_point := (cls % 256 ^ 1 &&& 0x40) >>> 6
        synthetic := (cls % 256 ^ 1 &&& 0x20) >>> 5
        scan_angle_rank := to_signed 8 (to_unsigned 8 r.scan_angle_rank % 256 ^ 1)
        user_data := r.user_data % 256 ^ 1
        point_source_id := r.point_source_id % 256 ^ 2
        gps_time :=
          if h.point_data_format_id = 1 ∨ h.point_data_format_id = 3 then
            mem_dbl host (dbl_mem host r.gps_time)
          else 0
        red := if h.point_data_format_id = 2 ∨ h.point_data_format_id = 3 then r.red % 256 ^ 2
          else 0
        green := if h.point_data_format_id = 2 ∨ h.point_data_format_id = 3 then
          r.green % 256 ^ 2 else 0
        blue := if h.point_data_format_id = 2 ∨ h.point_data_format_id = 3 then
          r.blue % 256 ^ 2 else 0 } := by
  have hl := length_point_bytes_of_format host _ _ x y z rets cls r hlen
  have hb := format_record_length_le _ _ hlen
  have hrd : ∀ off n, off + n ≤ len →
      rd (poke (List.replicate POINT_DATA_SIZE 0) 0
        (point_bytes host h.point_data_format_id x y z rets cls r)) off n
      = rd (point_bytes host h.point_data_format_id x y z rets cls r) off n := by
    intro off n hon
    exact rd_read_buffer _ off n (by rw [hl]; exact hb.1) (by rw [hl]; exact hon)
  unfold read_back decode_point
  simp only []
  rw [hrd 0 4 (by omega), hrd 4 4 (by omega), hrd 8 4 (by omega), hrd 12 2 (by omega),
    hrd 14 1 (by omega), hrd 15 1 (by omega), hrd 16 1 (by omega), hrd 17 1 (by omega),
    hrd 18 2 (by omega)]
  rw [rd_point_bytes_x, rd_point_bytes_y, rd_point_bytes_z, rd_point_bytes_intensity,
    rd_point_bytes_rets, rd_point_bytes_cls, rd_point_bytes_angle, rd_point_bytes_user,
    rd_point_bytes_psid]
  simp only [mem_val_mem_bytes]
  have htl : ∀ off n, 20 ≤ off → off + n ≤ len →
      rd (poke (List.replicate POINT_DATA_SIZE 0) 0
        (point_bytes host h.point_data_format_id x y z rets cls r)) off n
      = rd (point_tail host h.point_data_format_id r) (off - 20) n := by
    intro off n h20 hon
    rw [hrd off n hon]
    have := rd_point_bytes_tail host h.point_data_format_id x y z rets cls r (off - 20) n
    rwa [show 20 + (off - 20) = off by omega] at this
  rcases format_cases _ _ hlen with ⟨hf, hl2⟩ | ⟨hf, hl2⟩ | ⟨hf, hl2⟩ | ⟨hf, hl2⟩
  · simp [hf, zero_point]
  · rw [htl 20 8 (by omega) (by omega)]
    simp [hf, zero_point, point_tail, rd_append_left, rd_append_right, length_dbl_mem,
      length_mem_bytes, mem_val_mem_bytes]
    rw [rd_dbl_mem]
  · rw [htl 20 2 (by omega) (by omega), htl 22 2 (by omega) (by omega),
      htl 24 2 (by omega) (by omega)]
    simp [hf, zero_point, point_tail, rd_append_left, rd_append_right, length_dbl_mem,
      length_mem_bytes, mem_val_mem_bytes, rd_mem_bytes]
  · rw [htl 20 8 (by omega) (by omega), htl 28 2 (by omega) (by omega),
      htl 30 2 (by omega) (by omega), htl 32 2 (by omega) (by omega)]
    simp [hf, zero_point, point_tail, rd_append_left, rd_append_right, length_dbl_mem,
      length_mem_bytes, mem_val_mem_bytes, rd_mem_bytes]

/-! ## C1, C2: fields through append and read -/

/-- The record read back (swap flag clear) from the bytes appended for R under
a header with one of the four point formats. -/
theorem read_back_appended (host : Host) (hw hr : LIBSLAS_HEADER) (R : LIBSLAS_POINT_DATA)
    (hlen : format_record_length hw.point_data_format_id = some hw.point_data_record_length)
    (hfmt : hr.point_data_format_id = hw.point_data_format_id) :
    read_back host false hr (appended_bytes host false hw R) =
      read_back host false hr (point_bytes host hr.point_data_format_id
        (quantize R.x hw.x_offset hw.x_scale_factor)
        (quantize R.y hw.y_offset hw.y_scale_factor)
        (quantize R.z hw.z_offset hw.z_scale_factor) (pack_rets R) (pack_cls R) R) := by
  rw [appended_bytes_eq host false hw R hlen, hfmt]
  simp

/-- C1: for each of the four point formats and every well-typed record with
return number 1..5, number of returns at most 7, classification at most 31 and
one-bit flags, decoding (swap flag clear) the bytes that append encodes gives
back intensity, number of returns, the two returns flags, classification, the
three classification flags, scan angle rank, user data and point source id;
GPS time for formats 1 and 3; red, green and blue for formats 2 and 3. -/
theorem C1_point_fields_round_trip (host : Host) (hw hr : LIBSLAS_HEADER)
    (R : LIBSLAS_POINT_DATA)
    (hlen : format_record_length hw.point_data_format_id = some hw.point_data_record_length)
    (hfmt : hr.point_data_format_id = hw.point_data_format_id)
    (hty : R.well_typed host)
    (hrn : 1 ≤ R.return_number ∧ R.return_number ≤ 5)
    (hnr : R.number_of_returns ≤ 7) (hcl : R.classification ≤ 31)
    (hfl : R.edge_of_flightline ≤ 1 ∧ R.scan_direction_flag ≤ 1 ∧ R.synthetic ≤ 1
      ∧ R.key_point ≤ 1 ∧ R.withheld ≤ 1) :
    (read_back host false hr (appended_bytes host false hw R)).intensity = R.intensity
    ∧ (read_back host false hr (appended_bytes host false hw R)).number_of_returns
        = R.number_of_returns
    ∧ (read_back host false hr (appended_bytes host false hw R)).edge_of_flightline
        = R.edge_of_flightline
    ∧ (read_back host false hr (appended_bytes host false hw R)).scan_direction_flag
        = R.scan_direction_flag
    ∧ (read_back host false hr (appended_bytes host false hw R)).classification
        = R.classification
    ∧ (read_back host false hr (appended_bytes host false hw R)).synthetic = R.synthetic
    ∧ (read_back host false hr (appended_bytes host false hw R)).key_point = R.key_point
    ∧ (read_back host false hr (appended_bytes host false hw R)).withheld = R.withheld
    ∧ (read_back host false hr (appended_bytes host false hw R)).scan_angle_rank
        = R.scan_angle_rank
    ∧ (read_back host false hr (appended_bytes host false hw R)).user_data = R.user_data
    ∧ (read_back host false hr (appended_bytes host false hw R)).point_source_id
        = R.point_source_id
    ∧ (hw.point_data_format_id = 1 ∨ hw.point_data_format_id = 3 →
        (read_back host false hr (appended_bytes host false hw R)).gps_time = R.gps_time)
    ∧ (hw.point_data_format_id = 2 ∨ hw.point_data_format_id = 3 →
        (read_back host false hr (appended_bytes host false hw R)).red = R.red
        ∧ (read_back host false hr (appended_bytes host false hw R)).green = R.green
        ∧ (read_back host false hr (appended_bytes host false hw R)).blue = R.blue) := by
  obtain ⟨t1, t2, t3, t4, t5, t6, t7, t8, t9, t10, t11, t12, t13, t14, t15, t16, t17⟩ := hty
  obtain ⟨f1, f2, f3, f4, f5⟩ := hfl
  have hr1 := unpack_rets R (by omega) hnr f1 f2
  have hc1 := unpack_cls R hcl f5 f4 f3
  have hp := pack_rets_lt R
  have hq := pack_cls_lt R
  rw [read_back_appended host hw hr R hlen hfmt,
    read_back_point_bytes host hr hw.point_data_record_length (by rw [hfmt]; exact hlen)]
  simp only [hfmt]
  have e1 : pack_rets R % 256 ^ 1 = pack_rets R := Nat.mod_eq_of_lt (by simpa using hp)
  have e2 : pack_cls R % 256 ^ 1 = pack_cls R := Nat.mod_eq_of_lt (by simpa using hq)
  rw [e1, e2]
  have m16 : ∀ v : Nat, v < 2 ^ 16 → v % 256 ^ 2 = v := by
    intro v hv
    exact Nat.mod_eq_of_lt (by norm_num at hv ⊢; exact hv)
  have m8 : ∀ v : Nat, v < 2 ^ 8 → v % 256 ^ 1 = v := by
    intro v hv
    exact Nat.mod_eq_of_lt (by norm_num at hv ⊢; exact hv)
  refine ⟨m16 _ t1, hr1.2.1, hr1.2.2.1, hr1.2.2.2, hc1.1, hc1.2.1,
    hc1.2.2.1, hc1.2.2.2, to_signed_to_unsigned_8 _ t10 t11, m8 _ t12,
    m16 _ t13, ?_, ?_⟩
  · intro hf
    rw [if_pos hf]
    exact mem_dbl_dbl_mem host _ t14
  · intro hf
    simp only [if_pos hf]
    exact ⟨m16 _ t15, m16 _ t16, m16 _ t17⟩

theorem sample_point_well_typed : sample_point.well_typed (ieee_host false) := by
  unfold LIBSLAS_POINT_DATA.well_typed Host.IsDouble
  refine ⟨?_, ?_, ?_, ?_, ?_, ?_, ?_, ?_, ?_, ?_, ?_, ?_, ?_, ?_, ?_, ?_, ?_⟩
  case refine_14 =>
    decide!
  all_goals norm_num [sample_point]

/-- C1 at the sample point under the sample header (point format 3). -/
theorem C1_point_fields_round_trip_witness :
    (read_back (ieee_host false) false sample_header
      (appended_bytes (ieee_host false) false sample_header sample_point)).intensity = 1000
    ∧ (read_back (ieee_host false) false sample_header
      (appended_bytes (ieee_host false) false sample_header sample_point)).gps_time = 3 / 2 :=
  have h := C1_point_fields_round_trip (ieee_host false) sample_header sample_header
    sample_point (by rfl) rfl sample_point_well_typed
    (by norm_num [sample_point]) (by norm_num [sample_point]) (by norm_num [sample_point])
    (by norm_num [sample_point])
  ⟨h.1, h.2.2.2.2.2.2.2.2.2.2.2.1 (Or.inr rfl)⟩

/-- The return number read back is the appended one modulo 4: the mask 0x03
keeps two of the three bits that return numbers up to 5 need. -/
theorem read_back_return_number (host : Host) (hw hr : LIBSLAS_HEADER)
    (R : LIBSLAS_POINT_DATA)
    (hlen : format_record_length hw.point_data_format_id = some hw.point_data_record_length)
    (hfmt : hr.point_data_format_id = hw.point_data_format_id)
    (hrn : R.return_number < 8) (hnr : R.number_of_returns ≤ 7)
    (hfl : R.edge_of_flightline ≤ 1 ∧ R.scan_direction_flag ≤ 1) :
    (read_back host false hr (appended_bytes host false hw R)).return_number
      = R.return_number % 4 := by
  rw [read_back_appended host hw hr R hlen hfmt,
    read_back_point_bytes host hr hw.point_data_record_length (by rw [hfmt]; exact hlen)]
  have e1 : pack_rets R % 256 ^ 1 = pack_rets R :=
    Nat.mod_eq_of_lt (by simpa using pack_rets_lt R)
  simp only [e1]
  exact (unpack_rets R hrn hnr hfl.1 hfl.2).1

/-- C2 (the code departs from the claim): a point appended with return number 4
is read back with return number 0, and one appended with return number 5 is
read back with return number 1. -/
theorem C2_return_number_4_and_5_not_read_back :
    (read_back (ieee_host false) false sample_header
      (appended_bytes (ieee_host false) false sample_header
        { sample_point with return_number := 4 })).return_number = 0
    ∧ (read_back (ieee_host false) false sample_header
      (appended_bytes (ieee_host false) false sample_header
        { sample_point with return_number := 5 })).return_number = 1 := by
  constructor
  · rw [read_back_return_number _ _ _ _ (by rfl) rfl (by norm_num) (by norm_num [sample_point])
      (by norm_num [sample_point])]
    rfl
  · rw [read_back_return_number _ _ _ _ (by rfl) rfl (by norm_num) (by norm_num [sample_point])
      (by norm_num [sample_point])]
    rfl

/-! ## Session state lemmas -/

theorem slot_setSlot_same (st : LasState) (hnd : Nat) (s : INTERNAL_LIBSLAS_STRUCT) :
    (st.setSlot hnd s).slot hnd = s := by
  simp [LasState.slot, LasState.setSlot]

theorem slot_setSlot_other (st : LasState) (hnd g : Nat) (s : INTERNAL_LIBSLAS_STRUCT)
    (h : g ≠ hnd) : (st.setSlot hnd s).slot g = st.slot g := by
  simp [LasState.slot, LasState.setSlot, h]

/-- A successful libslas_append_point_data, spelled out: the session must be a
created one with a writable stream and a non-zero record length, the return
number must be in range. -/
theorem append_point_ok (host : Host) (st : LasState) (hnd : Nat) (R : LIBSLAS_POINT_DATA)
    (f : FILE) (hc : (st.slot hnd).created = true) (hf : (st.slot hnd).fp = some f)
    (hw : f.writable = true) (hl : (st.slot hnd).header.point_data_record_length ≠ 0)
    (hrn : 1 ≤ R.return_number ∧ R.return_number ≤ 5) :
    libslas_append_point_data host st hnd R =
      (LIBSLAS_SUCCESS,
        { st with
          disk := fun p => if p = f.name then
              some (write_at (file_bytes st.disk f) f.offset
                (appended_bytes host (st.slot hnd).swap
                  (count_return (count_point (st.slot hnd).header R) R.return_number) R))
            else st.disk p
          las := fun i => if i = hnd then
              { st.slot hnd with
                at_end := true
                header := count_return (count_point (st.slot hnd).header R) R.return_number
                fp := some { f with
                  offset := f.offset + (st.slot hnd).header.point_data_record_length }
                pos := ((f.offset + (st.slot hnd).header.point_data_record_length : Nat) : Int)
                modified := true
                write := true
                data := true }
            else st.las i
          libslas_error := LIBSLAS_SUCCESS },
        if (st.slot hnd).swap then
          swap_point_fields host (st.slot hnd).header.point_data_format_id R
        else R) := by
  unfold libslas_append_point_data
  have h1 : ¬ (R.return_number < 1 ∨ R.return_number > 5) := by omega
  have h2 : ¬ (R.return_number = 0 ∨ 5 < R.return_number) := by omega
  have h3 : R.return_number ≠ 0 := by omega
  have h4 : ¬ 5 < R.return_number := by omega
  simp [hc, hf, hw, hl, h1, h2, h3, h4, fwrite, length_memcpyBytes, LasState.fail, LasState.setSlot,
    appended_bytes, count_return, count_point, ftello64]

theorem length_header_data (host : Host) (h : LIBSLAS_HEADER) :
    (header_data host h).length = 227 := by
  simp [header_data, length_mem_bytes, length_dbl_mem, length_memcpyBytes]

theorem write_at_nil (bs : List Nat) : write_at [] 0 bs = bs := by
  simp [write_at]

theorem memcpyBytes_header_data (host : Host) (h : LIBSLAS_HEADER) :
    memcpyBytes 227 (header_data host h) = header_data host h := by
  have := rd_self (header_data host h)
  rwa [length_header_data] at this

/-- A successful libslas_write_header, spelled out (header size 227, writable
stream). -/
theorem write_header_ok (host : Host) (st : LasState) (hnd : Nat) (f : FILE)
    (hf : (st.slot hnd).fp = some f) (hw : f.writable = true)
    (hs : (st.slot hnd).header.header_size = 227) :
    libslas_write_header host st hnd =
      (LIBSLAS_SUCCESS,
        { st with
          disk := fun p => if p = f.name then
              some (write_at (file_bytes st.disk f) 0
                (header_data host
                  (if (st.slot hnd).swap then libslas_swap_las_header host (st.slot hnd).header
                   else (st.slot hnd).header)))
            else st.disk p
          las := fun i => if i = hnd then
              { st.slot hnd with
                header := if (st.slot hnd).swap then
                    libslas_swap_las_header host (st.slot hnd).header
                  else (st.slot hnd).header
                fp := some { f with offset := 227 }
                write := true
                pos := 227 }
            else st.las i
          libslas_error := LIBSLAS_SUCCESS }) := by
  unfold libslas_write_header
  simp only [hf, hs, Option.bind, fseek_set, memcpyBytes_header_data, fwrite,
    length_header_data]
  simp [hw, LasState.fail, LasState.setSlot, ftello64, file_bytes]

theorem startup_first (st : LasState) : (startup st).first = false := by
  unfold startup
  split <;> simp_all

theorem startup_disk (st : LasState) : (startup st).disk = st.disk := by
  unfold startup
  split <;> simp_all

/-- A successful libslas_create_las_file, spelled out. -/
theorem create_ok (host : Host) (st : LasState) (path : List Nat) (H : LIBSLAS_HEADER)
    (hnd len : Nat) (hfree : find_handle (startup st).las = hnd)
    (hh : hnd ≠ LIBSLAS_MAX_FILES) (hext : bad_extension path = false)
    (hfmt : format_record_length H.point_data_format_id = some len)
    (hge : H.global_encoding ≤ 1) :
    libslas_create_las_file host st path H =
      ((hnd : Int),
        { las := fun i => if i = hnd then
              { zero_struct with
                path := path
                header := created_header H len
                fp := some { name := path, offset := 227, writable := true }
                pos := 227
                at_end := true
                modified := true
                created := true
                write := true }
            else (startup st).las i
          libslas_error := LIBSLAS_SUCCESS
          first := false
          disk := fun p => if p = path then some (header_data host (created_header H len))
            else st.disk p },
        created_header H len) := by
  have hfmt2 : format_record_length (standard_fields H).point_data_format_id = some len := hfmt
  have hge2 : ¬ ((created_header H len).global_encoding > 1) := by
    show ¬ (H.global_encoding > 1)
    omega
  unfold libslas_create_las_file
  simp only [hfree, hh, hext, hfmt2, if_false, Bool.false_eq_true]
  change (if (created_header H len).global_encoding > 1 then _ else _) = _
  rw [if_neg hge2]
  rw [write_header_ok host _ hnd { name := path, offset := 0, writable := true }
    (by simp [LasState.slot, LasState.setSlot]) rfl
    (by simp [LasState.slot, LasState.setSlot, created_header, standard_fields,
      LIBSLAS_HEADER_SIZE])]
  simp [LasState.slot, LasState.setSlot, zero_struct, file_bytes, write_at_nil,
    startup_first, startup_disk, LIBSLAS_SUCCESS]
  repeat' apply And.intro
  all_goals first
    | rfl
    | (funext i; by_cases hi : i = hnd <;> simp [hi, created_header])
    | (funext p; by_cases hp : p = path <;> simp [hp, created_header])

/-- When libslas_create_las_file returns a handle, every check has passed. -/
theorem create_inv (host : Host) (st : LasState) (path : List Nat) (H : LIBSLAS_HEADER)
    (h : 0 ≤ (libslas_create_las_file host st path H).1) :
    ∃ len, find_handle (startup st).las ≠ LIBSLAS_MAX_FILES ∧ bad_extension path = false
      ∧ format_record_length H.point_data_format_id = some len ∧ H.global_encoding ≤ 1 := by
  by_cases h1 : find_handle (startup st).las = LIBSLAS_MAX_FILES
  · exfalso
    unfold libslas_create_las_file at h
    simp [h1, LasState.fail, LIBSLAS_TOO_MANY_OPEN_FILES_ERROR] at h
  by_cases h2 : bad_extension path = true
  · exfalso
    unfold libslas_create_las_file at h
    simp [h1, h2, LasState.fail, LIBSLAS_INVALID_FILENAME_ERROR] at h
  have h2f : bad_extension path = false := by simpa using h2
  cases h3 : format_record_length H.point_data_format_id with
  | none =>
    exfalso
    have h3b : format_record_length (standard_fields H).point_data_format_id = none := h3
    unfold libslas_create_las_file at h
    simp [h1, h2f, h3b, LasState.fail, LIBSLAS_INVALID_POINT_FORMAT_ID_ERROR] at h
  | some len =>
    by_cases h4 : H.global_encoding ≤ 1
    · exact ⟨len, h1, h2f, rfl, h4⟩
    · exfalso
      have h3b : format_record_length (standard_fields H).point_data_format_id = some len := h3
      have h4b : (standard_fields H).global_encoding > 1 := by
        show H.global_encoding > 1
        omega
      unfold libslas_create_las_file at h
      simp [h1, h2f, h3b, h4b, LasState.fail, LIBSLAS_INVALID_GLOBAL_ENCODING_ERROR] at h

/-! ## Statistics of a created session -/

theorem after_append_fixed (h : LIBSLAS_HEADER) (r : LIBSLAS_POINT_DATA) :
    (after_append h r).point_data_record_length = h.point_data_record_length
    ∧ (after_append h r).point_data_format_id = h.point_data_format_id
    ∧ (after_append h r).header_size = h.header_size
    ∧ (after_append h r).offset_to_point_data = h.offset_to_point_data := by
  simp [after_append, count_return, count_point]

theorem appendable_step (host : Host) (st : LasState) (hnd : Nat) (R : LIBSLAS_POINT_DATA)
    (ha : Appendable st hnd) (hrn : 1 ≤ R.return_number ∧ R.return_number ≤ 5) :
    (libslas_append_point_data host st hnd R).1 = LIBSLAS_SUCCESS
    ∧ Appendable (libslas_append_point_data host st hnd R).2.1 hnd
    ∧ ((libslas_append_point_data host st hnd R).2.1.slot hnd).header
        = after_append (st.slot hnd).header R := by
  obtain ⟨hc, ⟨f, hf, hw⟩, hl⟩ := ha
  rw [append_point_ok host st hnd R f hc hf hw hl hrn]
  refine ⟨rfl, ⟨?_, ⟨{ f with offset := f.offset + (st.slot hnd).header.point_data_record_length },
    ?_, hw⟩, ?_⟩, ?_⟩
  · simpa [LasState.slot] using hc
  · simp [LasState.slot]
  · have := (after_append_fixed (st.slot hnd).header R).1
    simp only [after_append] at this
    simpa [LasState.slot, this] using hl
  · simp [LasState.slot, after_append]

theorem append_points_ok (host : Host) (hnd : Nat) (recs : List LIBSLAS_POINT_DATA) :
    ∀ st : LasState, Appendable st hnd →
      (∀ r ∈ recs, 1 ≤ r.return_number ∧ r.return_number ≤ 5) →
      (append_points host st hnd recs).1 = List.replicate recs.length LIBSLAS_SUCCESS
      ∧ Appendable (append_points host st hnd recs).2 hnd
      ∧ ((append_points host st hnd recs).2.slot hnd).header
          = recs.foldl after_append (st.slot hnd).header := by
  induction recs with
  | nil =>
    intro st ha _
    exact ⟨rfl, ha, rfl⟩
  | cons r rs ih =>
    intro st ha hrn
    have h1 := appendable_step host st hnd r ha (hrn r (List.mem_cons_self _ _))
    have h2 := ih _ h1.2.1 (fun q hq => hrn q (List.mem_cons_of_mem _ hq))
    simp only [append_points, List.length_cons, List.replicate_succ, List.foldl_cons]
    rw [h1.1, h2.1, h2.2.2, h1.2.2]
    exact ⟨rfl, h2.2.1, rfl⟩

theorem fold_count (recs : List LIBSLAS_POINT_DATA) :
    ∀ h : LIBSLAS_HEADER, h.number_of_point_records < 2 ^ 32 →
      (recs.foldl after_append h).number_of_point_records
        = (h.number_of_point_records + recs.length) % 2 ^ 32 := by
  induction recs with
  | nil =>
    intro h hh
    simp only [List.foldl_nil, List.length_nil, Nat.add_zero]
    exact (Nat.mod_eq_of_lt hh).symm
  | cons r rs ih =>
    intro h hh
    have e : (after_append h r).number_of_point_records
        = (h.number_of_point_records + 1) % 2 ^ 32 := by
      simp [after_append, count_return, count_point]
    rw [List.foldl_cons, ih _ (by rw [e]; exact Nat.mod_lt _ (by norm_num)), e,
      List.length_cons]
    norm_num
    omega

/-- The number of records of a list that carry a given return number. -/
theorem count_cons (k : Nat) (r : LIBSLAS_POINT_DATA) (rs : List LIBSLAS_POINT_DATA) :
    returns_with k (r :: rs) = returns_with k rs + (if r.return_number = k then 1 else 0) := by
  simp [returns_with, List.countP_cons]

theorem after_append_by_return (h : LIBSLAS_HEADER) (r : LIBSLAS_POINT_DATA)
    (a b c d e : Nat) (hb : h.number_of_points_by_return = [a, b, c, d, e])
    (hrn : 1 ≤ r.return_number ∧ r.return_number ≤ 5) :
    (after_append h r).number_of_points_by_return =
      [if r.return_number = 1 then (a + 1) % 2 ^ 32 else a,
       if r.return_number = 2 then (b + 1) % 2 ^ 32 else b,
       if r.return_number = 3 then (c + 1) % 2 ^ 32 else c,
       if r.return_number = 4 then (d + 1) % 2 ^ 32 else d,
       if r.return_number = 5 then (e + 1) % 2 ^ 32 else e] := by
  obtain ⟨h1, h2⟩ := hrn
  have e1 : (after_append h r).number_of_points_by_return
      = [a, b, c, d, e].set (r.return_number - 1)
          (([a, b, c, d, e].getD (r.return_number - 1) 0 + 1) % 2 ^ 32) := by
    simp [after_append, count_return, count_point, hb]
  rw [e1]
  generalize r.return_number = k at h1 h2
  interval_cases k <;> simp

theorem fold_by_return (recs : List LIBSLAS_POINT_DATA) :
    ∀ (h : LIBSLAS_HEADER) (a b c d e : Nat),
      h.number_of_points_by_return = [a, b, c, d, e] →
      (a < 2 ^ 32 ∧ b < 2 ^ 32 ∧ c < 2 ^ 32 ∧ d < 2 ^ 32 ∧ e < 2 ^ 32) →
      (∀ r ∈ recs, 1 ≤ r.return_number ∧ r.return_number ≤ 5) →
      (recs.foldl after_append h).number_of_points_by_return =
        [(a + returns_with 1 recs) % 2 ^ 32, (b + returns_with 2 recs) % 2 ^ 32,
         (c + returns_with 3 recs) % 2 ^ 32, (d + returns_with 4 recs) % 2 ^ 32,
         (e + returns_with 5 recs) % 2 ^ 32] := by
  induction recs with
  | nil =>
    intro h a b c d e hb hlt _
    obtain ⟨l1, l2, l3, l4, l5⟩ := hlt
    simp only [List.foldl_nil, hb, returns_with, List.countP_nil, Nat.add_zero]
    rw [Nat.mod_eq_of_lt l1, Nat.mod_eq_of_lt l2, Nat.mod_eq_of_lt l3, Nat.mod_eq_of_lt l4,
      Nat.mod_eq_of_lt l5]
  | cons r rs ih =>
    intro h a b c d e hb hlt hrn
    have hr := hrn r (List.mem_cons_self _ _)
    have e1 := after_append_by_return h r a b c d e hb hr
    obtain ⟨l1, l2, l3, l4, l5⟩ := hlt
    have h2 := ih (after_append h r) _ _ _ _ _ e1
      (by
        refine ⟨?_, ?_, ?_, ?_, ?_⟩ <;> split_ifs <;>
          first | assumption | exact Nat.mod_lt _ (by norm_num))
      (fun q hq => hrn q (List.mem_cons_of_mem _ hq))
    rw [List.foldl_cons, h2]
    simp only [count_cons]
    obtain ⟨h1', h2'⟩ := hr
    generalize r.return_number = k at h1' h2'
    norm_num
    interval_cases k <;> simp <;> omega

theorem returns_with_total (recs : List LIBSLAS_POINT_DATA)
    (hrn : ∀ r ∈ recs, 1 ≤ r.return_number ∧ r.return_number ≤ 5) :
    returns_with 1 recs + returns_with 2 recs + returns_with 3 recs + returns_with 4 recs
      + returns_with 5 recs = recs.length := by
  induction recs with
  | nil => simp [returns_with]
  | cons r rs ih =>
    have h1 := hrn r (List.mem_cons_self _ _)
    have h2 := ih (fun q hq => hrn q (List.mem_cons_of_mem _ hq))
    simp only [count_cons, List.length_cons]
    obtain ⟨a1, a2⟩ := h1
    generalize r.return_number = k at a1 a2
    interval_cases k <;> simp <;> omega

theorem returns_with_le (k : Nat) (recs : List LIBSLAS_POINT_DATA) :
    returns_with k recs ≤ recs.length :=
  List.countP_le_length _

/-- On a session that can be appended to, libslas_append_point_data succeeds
exactly when the return number is in 1..5. -/
theorem append_success_iff (host : Host) (st : LasState) (hnd : Nat) (R : LIBSLAS_POINT_DATA)
    (ha : Appendable st hnd) :
    (libslas_append_point_data host st hnd R).1 = LIBSLAS_SUCCESS
      ↔ 1 ≤ R.return_number ∧ R.return_number ≤ 5 := by
  constructor
  · intro h
    by_contra hn
    have hc := ha.1
    have h1 : R.return_number < 1 ∨ R.return_number > 5 := by omega
    have h2 : R.return_number = 0 ∨ 5 < R.return_number := by omega
    have e : (libslas_append_point_data host st hnd R).1
        = LIBSLAS_RETURN_NUMBER_OUT_OF_RANGE_ERROR := by
      unfold libslas_append_point_data
      simp [hc, h1, h2, LasState.fail]
    rw [e] at h
    exact absurd h (by decide)
  · intro h
    exact (appendable_step host st hnd R ha h).1

theorem created_appendable (host : Host) (st : LasState) (path : List Nat)
    (H : LIBSLAS_HEADER) (h : 0 ≤ (libslas_create_las_file host st path H).1) :
    ∃ len, format_record_length H.point_data_format_id = some len
      ∧ Appendable (libslas_create_las_file host st path H).2.1
          (libslas_create_las_file host st path H).1.toNat
      ∧ ((libslas_create_las_file host st path H).2.1.slot
          (libslas_create_las_file host st path H).1.toNat).header = created_header H len := by
  obtain ⟨len, h1, h2, h3, h4⟩ := create_inv host st path H h
  refine ⟨len, h3, ?_⟩
  rw [create_ok host st path H _ len rfl h1 h2 h3 h4]
  have hl := (format_record_length_le _ _ h3).2.1
  simp only [Int.toNat_ofNat]
  refine ⟨⟨?_, ⟨{ name := path, offset := 227, writable := true }, ?_, rfl⟩, ?_⟩, ?_⟩
  · simp [LasState.slot]
  · simp [LasState.slot]
  · simp [LasState.slot, created_header]
    omega
  · simp [LasState.slot]

/-! ## C7: a rejected return number -/

/-- What libslas_append_point_data does on a created session when the return
number is out of range: the statistics of count_point are already in the
header, nothing is written. -/
theorem append_point_rejected (host : Host) (st : LasState) (hnd : Nat)
    (R : LIBSLAS_POINT_DATA) (hc : (st.slot hnd).created = true)
    (hrn : R.return_number < 1 ∨ R.return_number > 5) :
    (libslas_append_point_data host st hnd R).1 = LIBSLAS_RETURN_NUMBER_OUT_OF_RANGE_ERROR
    ∧ ((libslas_append_point_data host st hnd R).2.1.slot hnd).header
        = count_point (st.slot hnd).header R
    ∧ (libslas_append_point_data host st hnd R).2.1.disk = st.disk := by
  have h2 : R.return_number = 0 ∨ 5 < R.return_number := by omega
  have hc2 : (st.las hnd).created = true := hc
  unfold libslas_append_point_data
  simp [hc2, hrn, h2, LasState.fail, LasState.slot, LasState.setSlot]

set_option maxRecDepth 100000 in
/-- C7 (the code departs from the claim): on a freshly created session an append
with return number 0 returns LIBSLAS_RETURN_NUMBER_OUT_OF_RANGE_ERROR, yet
number_of_point_records has gone from 0 to 1 and the bounding box has taken
the rejected point in, while the file still holds the 227 header bytes only. -/
theorem C7_rejected_append_changes_statistics :
    (libslas_append_point_data (ieee_host false) created_session.2.1 0
        { sample_point with return_number := 0 }).1 = LIBSLAS_RETURN_NUMBER_OUT_OF_RANGE_ERROR
    ∧ (created_session.2.1.slot 0).header.number_of_point_records = 0
    ∧ ((libslas_append_point_data (ieee_host false) created_session.2.1 0
        { sample_point with return_number := 0 }).2.1.slot 0).header.number_of_point_records = 1
    ∧ (created_session.2.1.slot 0).header.max_x = -99999999999999
    ∧ ((libslas_append_point_data (ieee_host false) created_session.2.1 0
        { sample_point with return_number := 0 }).2.1.slot 0).header.max_x = 321 / 256
    ∧ (((libslas_append_point_data (ieee_host false) created_session.2.1 0
        { sample_point with return_number := 0 }).2.1.disk las_path).getD []).length = 227 := by
  decide!

/-! ## The 32-bit raw coordinate -/

theorem to_int32_of_range (n : Int) (h1 : -2 ^ 31 ≤ n) (h2 : n < 2 ^ 31) : to_int32 n = n := by
  unfold to_int32 to_signed to_unsigned
  norm_num at h1 h2 ⊢
  have e : ((n % 4294967296).toNat : Int) = n % 4294967296 :=
    Int.toNat_of_nonneg (Int.emod_nonneg _ (by norm_num))
  split_ifs with h <;> omega

theorem int32_through_bytes (q : Int) (h1 : -2 ^ 31 ≤ q) (h2 : q < 2 ^ 31) :
    to_signed 32 (to_unsigned 32 q % 256 ^ 4) = q := by
  unfold to_signed to_unsigned
  norm_num at h1 h2 ⊢
  have e : ((q % 4294967296).toNat : Int) = q % 4294967296 :=
    Int.toNat_of_nonneg (Int.emod_nonneg _ (by norm_num))
  split_ifs with h <;> omega

/-! ## C3, C4: the offset to the point data when no VLR is appended -/

set_option maxRecDepth 100000 in
/-- C4 (the code departs from the claim): after create with no VLR appended the
session header has offset_to_point_data = 0, not 227, although the stream
stands at 227 where the first point will go; close persists the 0 (bytes
96..99 of the file). -/
theorem C4_offset_is_zero_without_vlr :
    created_session.1 = 0
    ∧ (created_session.2.1.slot 0).header.offset_to_point_data = 0
    ∧ (created_session.2.1.slot 0).fp = some { name := las_path, offset := 227, writable := true }
    ∧ (libslas_close_las_file (ieee_host false) created_session.2.1 0).1 = LIBSLAS_SUCCESS
    ∧ rd (((libslas_close_las_file (ieee_host false) created_session.2.1 0).2.disk
        las_path).getD []) 96 4 = [0, 0, 0, 0] := by
  decide!

set_option maxRecDepth 100000 in
/-- C3 (the code departs from the claim): create, no VLR, one append, close and
reopen.  The append wrote its 34 bytes at file offset 227, but the reopened
header has offset_to_point_data = 0, so record 0 is looked for at address 0:
libslas_read_point_data succeeds and decodes the first 34 bytes of the file
header (x comes from the signature LASF, intensity is 0, not 1000). -/
theorem C3_record_address_wrong_without_vlr :
    one_point_reopened.1 = 0
    ∧ one_point_reopened.2.2.number_of_point_records = 1
    ∧ one_point_reopened.2.2.offset_to_point_data = 0
    ∧ record_addr one_point_reopened.2.2 0 = 0
    ∧ rd ((one_point_file.disk las_path).getD []) 227 34
        = appended_bytes (ieee_host false) false sample_header sample_point
    ∧ rd ((one_point_file.disk las_path).getD []) 0 4 = [76, 65, 83, 70]
    ∧ (libslas_read_point_data (ieee_host false) one_point_reopened.2.1 0 0 zero_point).1
        = LIBSLAS_SUCCESS
    ∧ (libslas_read_point_data (ieee_host false) one_point_reopened.2.1 0 0 zero_point).2.2.x
        = 1179861324 / 64
    ∧ (libslas_read_point_data (ieee_host false) one_point_reopened.2.1 0 0
        zero_point).2.2.intensity = 0
    ∧ sample_point.intensity = 1000 := by
  decide!

/-! ## The fields of a decoded record -/

section decode
variable (host : Host) (swap : Bool) (h : LIBSLAS_HEADER) (data : List Nat)

theorem decode_point_x : (decode_point host swap h data).x =
    dequantize (if swap then swap_int32 (to_signed 32 (mem_val host (rd data 0 4)))
      else to_signed 32 (mem_val host (rd data 0 4))) h.x_scale_factor h.x_offset := by
  unfold decode_point
  simp only []

theorem decode_point_y : (decode_point host swap h data).y =
    dequantize (if swap then swap_int32 (to_signed 32 (mem_val host (rd data 4 4)))
      else to_signed 32 (mem_val host (rd data 4 4))) h.y_scale_factor h.y_offset := by
  unfold decode_point
  simp only []

theorem decode_point_z : (decode_point host swap h data).z =
    CDouble.to_float
      (dequantize (if swap then swap_int32 (to_signed 32 (mem_val host (rd data 8 4)))
        else to_signed 32 (mem_val host (rd data 8 4))) h.z_scale_factor h.z_offset) := by
  unfold decode_point
  simp only []

theorem decode_point_rets :
    (decode_point host swap h data).return_number = mem_val host (rd data 14 1) &&& 0x03
    ∧ (decode_point host swap h data).number_of_returns
        = (mem_val host (rd data 14 1) &&& 0x38) >>> 3
    ∧ (decode_point host swap h data).edge_of_flightline
        = (mem_val host (rd data 14 1) &&& 0x40) >>> 6
    ∧ (decode_point host swap h data).scan_direction_flag
        = (mem_val host (rd data 14 1) &&& 0x80) >>> 7 := by
  unfold decode_point
  simp only [and_self]

theorem decode_point_cls :
    (decode_point host swap h data).classification = mem_val host (rd data 15 1) &&& 0x1f
    ∧ (decode_point host swap h data).synthetic = (mem_val host (rd data 15 1) &&& 0x20) >>> 5
    ∧ (decode_point host swap h data).key_point = (mem_val host (rd data 15 1) &&& 0x40) >>> 6
    ∧ (decode_point host swap h data).withheld = (mem_val host (rd data 15 1) &&& 0x80) >>> 7 := by
  unfold decode_point
  simp only [and_self]

theorem decode_point_intensity : (decode_point host swap h data).intensity =
    if swap then libslas_swap_uint16_t (mem_val host (rd data 12 2))
    else mem_val host (rd data 12 2) := by
  unfold decode_point swap_point_fields
  cases swap <;> simp only [] <;> split_ifs <;> rfl

theorem decode_point_angle : (decode_point host swap h data).scan_angle_rank =
    to_signed 8 (mem_val host (rd data 16 1)) := by
  unfold decode_point swap_point_fields
  cases swap <;> simp only [] <;> split_ifs <;> rfl

theorem decode_point_user : (decode_point host swap h data).user_data =
    mem_val host (rd data 17 1) := by
  unfold decode_point swap_point_fields
  cases swap <;> simp only [] <;> split_ifs <;> rfl

theorem decode_point_psid : (decode_point host swap h data).point_source_id =
    if swap then libslas_swap_uint16_t (mem_val host (rd data 18 2))
    else mem_val host (rd data 18 2) := by
  unfold decode_point swap_point_fields
  cases swap <;> simp only [] <;> split_ifs <;> rfl

theorem decode_point_gps : (decode_point host swap h data).gps_time =
    if h.point_data_format_id = 1 ∨ h.point_data_format_id = 3 then
      (if swap then libslas_swap_double host (mem_dbl host (rd data 20 8))
       else mem_dbl host (rd data 20 8))
    else 0 := by
  unfold decode_point swap_point_fields
  cases swap <;> simp only [] <;> split_ifs <;> simp_all [zero_point]

theorem decode_point_rgb_2 (hf : h.point_data_format_id = 2) :
    (decode_point host swap h data).red =
      (if swap then libslas_swap_uint16_t (mem_val host (rd data 20 2))
       else mem_val host (rd data 20 2))
    ∧ (decode_point host swap h data).green =
      (if swap then libslas_swap_uint16_t (mem_val host (rd data 22 2))
       else mem_val host (rd data 22 2))
    ∧ (decode_point host swap h data).blue =
      (if swap then libslas_swap_uint16_t (mem_val host (rd data 24 2))
       else mem_val host (rd data 24 2)) := by
  unfold decode_point swap_point_fields
  cases swap <;> simp [hf]

theorem decode_point_rgb_3 (hf : h.point_data_format_id = 3) :
    (decode_point host swap h data).red =
      (if swap then libslas_swap_uint16_t (mem_val host (rd data 28 2))
       else mem_val host (rd data 28 2))
    ∧ (decode_point host swap h data).green =
      (if swap then libslas_swap_uint16_t (mem_val host (rd data 30 2))
       else mem_val host (rd data 30 2))
    ∧ (decode_point host swap h data).blue =
      (if swap then libslas_swap_uint16_t (mem_val host (rd data 32 2))
       else mem_val host (rd data 32 2)) := by
  unfold decode_point swap_point_fields
  cases swap <;> simp [hf]

end decode

/-! ## Reading and updating through the stream -/

theorem take_drop_eq_rd (c : List Nat) (o n : Nat) (h : o + n ≤ c.length) :
    (c.drop o).take n = rd c o n := by
  apply List.ext_getElem
  · rw [List.length_take, List.length_drop, length_rd]
    omega
  · intro i h1 h2
    rw [length_rd] at h2
    have h3 : o + i < c.length := by omega
    simp only [rd, List.getElem_map, List.getElem_range, List.getElem_take, List.getElem_drop,
      List.getD_eq_getElem?_getD, List.getElem?_eq_getElem h3, Option.getD_some]

theorem fread_ok (disk : List Nat → Option (List Nat)) (f : FILE) (n : Nat) (hn : n ≠ 0)
    (hl : f.offset + n ≤ (file_bytes disk f).length) :
    fread disk f n = (1, rd (file_bytes disk f) f.offset n, { f with offset := f.offset + n }) := by
  unfold fread
  have h2 : n ≤ ((file_bytes disk f).drop f.offset).length := by
    rw [List.length_drop]
    omega
  simp only [hn, if_false, h2, if_true]
  rw [take_drop_eq_rd _ _ _ hl]

theorem fread_fail (disk : List Nat → Option (List Nat)) (f : FILE) (n : Nat)
    (h : n = 0 ∨ (file_bytes disk f).length < f.offset + n) : (fread disk f n).1 = 0 := by
  unfold fread
  by_cases hn : n = 0
  · simp [hn]
  · have h1 : (file_bytes disk f).length < f.offset + n := by
      rcases h with h | h
      · exact absurd h hn
      · exact h
    have h2 : ¬ n ≤ ((file_bytes disk f).drop f.offset).length := by
      rw [List.length_drop]
      omega
    simp only [hn, if_false, h2]

theorem getD_write_at (c : List Nat) (a : Nat) (bs : List Nat) (i : Nat)
    (h : a + bs.length ≤ c.length) :
    (write_at c a bs).getD i 0 =
      if a ≤ i ∧ i < a + bs.length then bs.getD (i - a) 0 else c.getD i 0 := by
  unfold write_at
  have e : a - c.length = 0 := by omega
  rw [e]
  simp only [List.replicate_zero, List.append_nil, List.append_assoc]
  rw [getD_append]
  have l1 : (List.take a c).length = a := by
    rw [List.length_take]
    omega
  rw [l1]
  by_cases h1 : i < a
  · have : ¬ (a ≤ i ∧ i < a + bs.length) := by omega
    rw [if_pos h1, if_neg this]
    simp [List.getD_eq_getElem?_getD, List.getElem?_take, h1]
  · rw [if_neg h1, getD_append]
    by_cases h2 : i - a < bs.length
    · have : a ≤ i ∧ i < a + bs.length := by omega
      rw [if_pos h2, if_pos this]
    · have : ¬ (a ≤ i ∧ i < a + bs.length) := by omega
      rw [if_neg h2, if_neg this]
      simp only [List.getD_eq_getElem?_getD, List.getElem?_drop]
      congr 2
      omega

theorem length_write_at (c : List Nat) (a : Nat) (bs : List Nat)
    (h : a + bs.length ≤ c.length) : (write_at c a bs).length = c.length := by
  unfold write_at
  simp [List.length_take, List.length_drop]
  omega

theorem fread_fail_shape (disk : List Nat → Option (List Nat)) (f : FILE) (n : Nat)
    (h : n = 0 ∨ (file_bytes disk f).length < f.offset + n) :
    ∃ bytes g, fread disk f n = (0, bytes, g) := by
  have h1 := fread_fail disk f n h
  exact ⟨(fread disk f n).2.1, (fread disk f n).2.2, by rw [← h1]⟩

theorem good_recnum (h : LIBSLAS_HEADER) (recnum : Int) (hb : bad_recnum h recnum = false) :
    0 ≤ recnum ∧ 0 ≤ record_addr h recnum := by
  unfold bad_recnum at hb
  simp only [Bool.or_eq_false_iff, decide_eq_false_iff_not, not_lt] at hb
  refine ⟨hb.2, ?_⟩
  unfold record_addr
  have := hb.2
  positivity

/-- The bytes libslas_update_point_data writes back over a record whose bytes
in the file were old. -/
theorem update_ok (host : Host) (st : LasState) (hnd : Nat) (recnum : Int)
    (R : LIBSLAS_POINT_DATA) (f : FILE)
    (hm : (st.slot hnd).mode = LIBSLAS_UPDATE)
    (hb : bad_recnum (st.slot hnd).header recnum = false)
    (hf : (st.slot hnd).fp = some f) (hw : f.writable = true)
    (hl : (st.slot hnd).header.point_data_record_length ≠ 0)
    (hc : (record_addr (st.slot hnd).header recnum).toNat
        + (st.slot hnd).header.point_data_record_length ≤ (file_bytes st.disk f).length) :
    libslas_update_point_data host st hnd recnum R =
      (LIBSLAS_SUCCESS,
        { st with
          disk := fun p => if p = f.name then
              some (write_at (file_bytes st.disk f)
                (record_addr (st.slot hnd).header recnum).toNat
                (updated_bytes host (st.slot hnd).swap (st.slot hnd).header
                  (rd (file_bytes st.disk f) (record_addr (st.slot hnd).header recnum).toNat
                    (st.slot hnd).header.point_data_record_length) R))
            else st.disk p
          las := fun i => if i = hnd then
              { st.slot hnd with
                fp := some { f with
                  offset := (record_addr (st.slot hnd).header recnum).toNat
                    + (st.slot hnd).header.point_data_record_length }
                pos := (((record_addr (st.slot hnd).header recnum).toNat
                    + (st.slot hnd).header.point_data_record_length : Nat) : Int)
                at_end := false
                modified := true
                write := true }
            else st.las i
          libslas_error := LIBSLAS_SUCCESS }) := by
  obtain ⟨h0, h1⟩ := good_recnum _ _ hb
  have hn : ¬ (record_addr (st.slot hnd).header recnum < 0) := by omega
  unfold libslas_update_point_data
  simp only [hm, hb, hf, ne_eq, not_true_eq_false, if_false, Bool.false_eq_true, Option.bind,
    fseek_set, hn]
  rw [fread_ok st.disk _ _ hl (by simpa [file_bytes] using hc)]
  simp [fwrite, length_memcpyBytes, hl, hw, LasState.fail, LasState.setSlot, ftello64,
    file_bytes, updated_bytes]

/-- When libslas_update_point_data succeeds, the session was in update mode,
the record number was in range, and the stream was writable with the whole
record inside the file. -/
theorem update_inv (host : Host) (st : LasState) (hnd : Nat) (recnum : Int)
    (R : LIBSLAS_POINT_DATA)
    (h : (libslas_update_point_data host st hnd recnum R).1 = LIBSLAS_SUCCESS) :
    ∃ f, (st.slot hnd).mode = LIBSLAS_UPDATE
      ∧ bad_recnum (st.slot hnd).header recnum = false
      ∧ (st.slot hnd).fp = some f ∧ f.writable = true
      ∧ (st.slot hnd).header.point_data_record_length ≠ 0
      ∧ (record_addr (st.slot hnd).header recnum).toNat
          + (st.slot hnd).header.point_data_record_length ≤ (file_bytes st.disk f).length := by
  by_cases hm : (st.slot hnd).mode = LIBSLAS_UPDATE
  swap
  · exfalso
    unfold libslas_update_point_data at h
    simp [hm, LasState.fail, LIBSLAS_NOT_OPEN_FOR_UPDATE_ERROR, LIBSLAS_SUCCESS] at h
  cases hb : bad_recnum (st.slot hnd).header recnum
  swap
  · exfalso
    unfold libslas_update_point_data at h
    simp [hm, hb, LasState.fail, LIBSLAS_INVALID_RECORD_NUMBER_ERROR, LIBSLAS_SUCCESS] at h
  obtain ⟨h0, h1⟩ := good_recnum _ _ hb
  have hn : ¬ (record_addr (st.slot hnd).header recnum < 0) := by omega
  cases hf : (st.slot hnd).fp with
  | none =>
    exfalso
    unfold libslas_update_point_data at h
    simp [hm, hb, hf, LasState.fail, LIBSLAS_UPDATE_FSEEK_ERROR, LIBSLAS_SUCCESS] at h
  | some f =>
    by_cases hr : (st.slot hnd).header.point_data_record_length = 0
        ∨ (file_bytes st.disk f).length < (record_addr (st.slot hnd).header recnum).toNat
            + (st.slot hnd).header.point_data_record_length
    · exfalso
      obtain ⟨bytes, g, e⟩ := fread_fail_shape st.disk
        { f with offset := (record_addr (st.slot hnd).header recnum).toNat }
        (st.slot hnd).header.point_data_record_length (by simpa [file_bytes] using hr)
      unfold libslas_update_point_data at h
      simp only [hm, hb, hf, ne_eq, not_true_eq_false, if_false, Bool.false_eq_true,
        Option.bind, fseek_set, hn, e] at h
      simp [LasState.fail, LIBSLAS_UPDATE_READ_ERROR, LIBSLAS_SUCCESS] at h
    · push_neg at hr
      by_cases hw : f.writable = true
      · exact ⟨f, hm, rfl, rfl, hw, hr.1, hr.2⟩
      · exfalso
        unfold libslas_update_point_data at h
        simp only [hm, hb, hf, ne_eq, not_true_eq_false, if_false, Bool.false_eq_true,
          Option.bind, fseek_set, hn] at h
        rw [fread_ok st.disk _ _ hr.1 (by simpa [file_bytes] using hr.2)] at h
        simp [fwrite, hw, LasState.fail, LIBSLAS_WRITE_ERROR, LIBSLAS_SUCCESS] at h

/-- A successful libslas_read_point_data, spelled out.  The stream is taken to
stand where the cached position says, or the cached position to differ from
the record address (so that the function seeks). -/
theorem read_ok (host : Host) (st : LasState) (hnd : Nat) (recnum : Int)
    (rec0 : LIBSLAS_POINT_DATA) (f : FILE)
    (hb : bad_recnum (st.slot hnd).header recnum = false)
    (hf : (st.slot hnd).fp = some f)
    (hp : (st.slot hnd).pos = record_addr (st.slot hnd).header recnum →
      (f.offset : Int) = record_addr (st.slot hnd).header recnum)
    (hl : (st.slot hnd).header.point_data_record_length ≠ 0)
    (hc : (record_addr (st.slot hnd).header recnum).toNat
        + (st.slot hnd).header.point_data_record_length ≤ (file_bytes st.disk f).length) :
    (libslas_read_point_data host st hnd recnum rec0).1 = LIBSLAS_SUCCESS
    ∧ (libslas_read_point_data host st hnd recnum rec0).2.2
        = read_back host (st.slot hnd).swap (st.slot hnd).header
            (rd (file_bytes st.disk f) (record_addr (st.slot hnd).header recnum).toNat
              (st.slot hnd).header.point_data_record_length)
    ∧ (libslas_read_point_data host st hnd recnum rec0).2.1.disk = st.disk := by
  obtain ⟨h0, h1⟩ := good_recnum _ _ hb
  have hn : ¬ (record_addr (st.slot hnd).header recnum < 0) := by omega
  have key : (if (st.slot hnd).pos ≠ record_addr (st.slot hnd).header recnum then
        (st.slot hnd).fp.bind (fun f => fseek_set f (record_addr (st.slot hnd).header recnum))
      else (st.slot hnd).fp)
      = some { f with offset := (record_addr (st.slot hnd).header recnum).toNat } := by
    by_cases hq : (st.slot hnd).pos = record_addr (st.slot hnd).header recnum
    · have := hp hq
      rw [if_neg (by simpa using hq), hf]
      congr 1
      cases f
      simp only [FILE.mk.injEq, true_and, and_true] at *
      omega
    · rw [if_pos hq, hf]
      simp [Option.bind, fseek_set, hn]
  unfold libslas_read_point_data
  simp only [hb, Bool.false_eq_true, if_false, key]
  rw [fread_ok st.disk _ _ hl (by simpa [file_bytes] using hc)]
  simp [LasState.fail, LasState.setSlot, read_back, file_bytes]

/-! ## The update buffer -/

theorem swap16_eq (v : Nat) : libslas_swap_uint16_t v = v / 256 % 256 + 256 * (v % 256) := by
  simp [libslas_swap_uint16_t, le_bytes, le_val]

theorem swap16_lt (v : Nat) : libslas_swap_uint16_t v < 2 ^ 16 := by
  rw [swap16_eq]
  norm_num
  omega

theorem swap16_swap16 (v : Nat) (h : v < 2 ^ 16) :
    libslas_swap_uint16_t (libslas_swap_uint16_t v) = v := by
  rw [swap16_eq, swap16_eq]
  norm_num at h
  have e1 : (v / 256 % 256 + 256 * (v % 256)) / 256 = v % 256 := by omega
  have e2 : (v / 256 % 256 + 256 * (v % 256)) % 256 = v / 256 % 256 := by omega
  rw [e1, e2]
  omega

theorem length_update_buffer (host : Host) (swap : Bool) (h : LIBSLAS_HEADER)
    (data : List Nat) (R : LIBSLAS_POINT_DATA) :
    (update_buffer host swap h data R).length = data.length := by
  unfold update_buffer
  simp only []
  split_ifs <;> simp [length_poke]

/-- The bytes libslas_update_point_data leaves alone in its buffer: X, Y, Z,
intensity and the returns byte (0..14), the scan angle rank (16), and bytes
20..27 unless the point format puts the colours there. -/
theorem update_buffer_keeps (host : Host) (swap : Bool) (h : LIBSLAS_HEADER)
    (data : List Nat) (R : LIBSLAS_POINT_DATA) (k : Nat)
    (hk : k < 15 ∨ k = 16 ∨ (20 ≤ k ∧ k < 28
      ∧ (h.point_data_format_id ≤ 1 ∨ h.point_data_format_id = 3))) :
    (update_buffer host swap h data R).getD k 0 = data.getD k 0 := by
  unfold update_buffer
  simp only []
  split_ifs <;> simp only [getD_poke, length_poke, length_mem_bytes] <;> split_ifs <;>
    first | rfl | (exfalso; omega)

theorem rd_poke_same (Y bs : List Nat) (q n : Nat) (hn : bs.length = n)
    (h : q + n ≤ Y.length) : rd (poke Y q bs) q n = bs := by
  have := rd_poke_inside Y bs q 0 n (by omega) (by omega)
  rw [Nat.add_zero] at this
  rw [this, ← hn, rd_self]

/-- Three memcpy calls at 15, 17 and 18 into a 34-byte buffer. -/
theorem three_pokes (data c u p : List Nat) (hd : data.length = 34) (hc : c.length = 1)
    (hu : u.length = 1) (hp : p.length = 2) :
    rd (poke (poke (poke data 15 c) 17 u) 18 p) 15 1 = c
    ∧ rd (poke (poke (poke data 15 c) 17 u) 18 p) 17 1 = u
    ∧ rd (poke (poke (poke data 15 c) 17 u) 18 p) 18 2 = p := by
  refine ⟨?_, ?_, ?_⟩
  · rw [rd_poke_outside _ _ _ _ _ (by omega), rd_poke_outside _ _ _ _ _ (by omega),
      rd_poke_same _ _ _ _ hc (by omega)]
  · rw [rd_poke_outside _ _ _ _ _ (by omega),
      rd_poke_same _ _ _ _ hu (by rw [length_poke]; omega)]
  · rw [rd_poke_same _ _ _ _ hp (by rw [length_poke, length_poke]; omega)]

/-- Three more memcpy calls at pos, pos + 2 and pos + 4, behind byte 20. -/
theorem colour_pokes (base r g b : List Nat) (pos : Nat) (hd : base.length = 34)
    (hpos : 20 ≤ pos ∧ pos + 6 ≤ 34) (hr : r.length = 2) (hg : g.length = 2)
    (hb : b.length = 2) :
    rd (poke (poke (poke base pos r) (pos + 2) g) (pos + 4) b) pos 2 = r
    ∧ rd (poke (poke (poke base pos r) (pos + 2) g) (pos + 4) b) (pos + 2) 2 = g
    ∧ rd (poke (poke (poke base pos r) (pos + 2) g) (pos + 4) b) (pos + 4) 2 = b
    ∧ ∀ off n, off + n ≤ 20 →
        rd (poke (poke (poke base pos r) (pos + 2) g) (pos + 4) b) off n = rd base off n := by
  refine ⟨?_, ?_, ?_, ?_⟩
  · rw [rd_poke_outside _ _ _ _ _ (by omega), rd_poke_outside _ _ _ _ _ (by omega),
      rd_poke_same _ _ _ _ hr (by omega)]
  · rw [rd_poke_outside _ _ _ _ _ (by omega),
      rd_poke_same _ _ _ _ hg (by rw [length_poke]; omega)]
  · rw [rd_poke_same _ _ _ _ hb (by rw [length_poke, length_poke]; omega)]
  · intro off n hon
    rw [rd_poke_outside _ _ _ _ _ (by omega), rd_poke_outside _ _ _ _ _ (by omega),
      rd_poke_outside _ _ _ _ _ (by omega)]

section written
variable (host : Host) (swap : Bool) (h : LIBSLAS_HEADER) (data : List Nat)
  (R : LIBSLAS_POINT_DATA) (hd : data.length = 34)
include hd

/-- The modifiable fields in the buffer of libslas_update_point_data. -/
theorem update_buffer_fields :
    rd (update_buffer host swap h data R) 15 1 = mem_bytes host 1 (pack_cls R)
    ∧ rd (update_buffer host swap h data R) 17 1 = mem_bytes host 1 R.user_data
    ∧ rd (update_buffer host swap h data R) 18 2 = mem_bytes host 2
      (if swap then libslas_swap_uint16_t (R.point_source_id % 2 ^ 16)
       else R.point_source_id % 2 ^ 16) := by
  have t := three_pokes data (mem_bytes host 1 (pack_cls R)) (mem_bytes host 1 R.user_data)
    (mem_bytes host 2 (if swap then libslas_swap_uint16_t (R.point_source_id % 2 ^ 16)
       else R.point_source_id % 2 ^ 16)) hd (length_mem_bytes _ _ _) (length_mem_bytes _ _ _)
    (length_mem_bytes _ _ _)
  unfold update_buffer
  simp only []
  by_cases h1 : h.point_data_format_id > 1
  · rw [if_pos h1]
    have hpos : 20 ≤ (if h.point_data_format_id = 3 then 20 + 8 else 20)
        ∧ (if h.point_data_format_id = 3 then 20 + 8 else 20) + 6 ≤ 34 := by
      split_ifs <;> omega
    have c := (colour_pokes (poke (poke (poke data 15 (mem_bytes host 1 (pack_cls R))) 17
      (mem_bytes host 1 R.user_data)) 18 (mem_bytes host 2
        (if swap then libslas_swap_uint16_t (R.point_source_id % 2 ^ 16)
         else R.point_source_id % 2 ^ 16)))
      (mem_bytes host 2 (if swap then libslas_swap_uint16_t (R.red % 2 ^ 16)
        else R.red % 2 ^ 16))
      (mem_bytes host 2 (if swap then libslas_swap_uint16_t (R.green % 2 ^ 16)
        else R.green % 2 ^ 16))
      (mem_bytes host 2 (if swap then libslas_swap_uint16_t (R.blue % 2 ^ 16)
        else R.blue % 2 ^ 16))
      _ (by rw [length_poke, length_poke, length_poke]; exact hd) hpos
      (length_mem_bytes _ _ _) (length_mem_bytes _ _ _) (length_mem_bytes _ _ _)).2.2.2
    rw [c 15 1 (by omega), c 17 1 (by omega), c 18 2 (by omega)]
    exact t
  · rw [if_neg h1]
    exact t

end written

/-! ## Update followed by read -/

theorem rd_write_at (c bs : List Nat) (a n : Nat) (hn : bs.length = n)
    (h : a + n ≤ c.length) : rd (write_at c a bs) a n = bs := by
  have e : rd (write_at c a bs) a n = rd bs 0 n := by
    apply rd_eq_of_getD
    intro i hi
    rw [getD_write_at _ _ _ _ (by omega), if_pos (by omega)]
    congr 1
    omega
  rw [e, ← hn, rd_self]

/-- What a successful libslas_update_point_data leaves behind: header and swap
flag as before, the record replaced by the updated buffer, and a following
libslas_read_point_data of the same record succeeds and decodes it. -/
theorem update_effect (host : Host) (st : LasState) (hnd : Nat) (recnum : Int)
    (R : LIBSLAS_POINT_DATA)
    (h : (libslas_update_point_data host st hnd recnum R).1 = LIBSLAS_SUCCESS) :
    ((libslas_update_point_data host st hnd recnum R).2.slot hnd).header = (st.slot hnd).header
    ∧ ((libslas_update_point_data host st hnd recnum R).2.slot hnd).swap = (st.slot hnd).swap
    ∧ record_bytes (libslas_update_point_data host st hnd recnum R).2 hnd recnum
        = updated_bytes host (st.slot hnd).swap (st.slot hnd).header
            (record_bytes st hnd recnum) R
    ∧ (record_bytes st hnd recnum).length = (st.slot hnd).header.point_data_record_length
    ∧ (∀ rec0,
        (libslas_read_point_data host (libslas_update_point_data host st hnd recnum R).2
          hnd recnum rec0).1 = LIBSLAS_SUCCESS
        ∧ (libslas_read_point_data host (libslas_update_point_data host st hnd recnum R).2
            hnd recnum rec0).2.2
          = read_back host (st.slot hnd).swap (st.slot hnd).header
              (record_bytes (libslas_update_point_data host st hnd recnum R).2 hnd recnum))
    ∧ (cache_coherent st hnd recnum → ∀ rec0,
        (libslas_read_point_data host st hnd recnum rec0).1 = LIBSLAS_SUCCESS
        ∧ (libslas_read_point_data host st hnd recnum rec0).2.2
          = read_back host (st.slot hnd).swap (st.slot hnd).header
              (record_bytes st hnd recnum)) := by
  obtain ⟨f, hm, hb, hf, hw, hl, hc⟩ := update_inv host st hnd recnum R h
  have e := update_ok host st hnd recnum R f hm hb hf hw hl hc
  obtain ⟨h0, h1⟩ := good_recnum _ _ hb
  have hlen : (updated_bytes host (st.slot hnd).swap (st.slot hnd).header
      (rd (file_bytes st.disk f) (record_addr (st.slot hnd).header recnum).toNat
        (st.slot hnd).header.point_data_record_length) R).length
      = (st.slot hnd).header.point_data_record_length := by
    unfold updated_bytes
    rw [length_memcpyBytes]
  have hs : ((libslas_update_point_data host st hnd recnum R).2.slot hnd)
      = { st.slot hnd with
          fp := some { f with
            offset := (record_addr (st.slot hnd).header recnum).toNat
              + (st.slot hnd).header.point_data_record_length }
          pos := (((record_addr (st.slot hnd).header recnum).toNat
              + (st.slot hnd).header.point_data_record_length : Nat) : Int)
          at_end := false
          modified := true
          write := true } := by
    rw [e]
    simp [LasState.slot]
  have hd : (libslas_update_point_data host st hnd recnum R).2.disk f.name
      = some (write_at (file_bytes st.disk f)
          (record_addr (st.slot hnd).header recnum).toNat
          (updated_bytes host (st.slot hnd).swap (st.slot hnd).header
            (rd (file_bytes st.disk f) (record_addr (st.slot hnd).header recnum).toNat
              (st.slot hnd).header.point_data_record_length) R)) := by
    rw [e]
    simp
  have hsf : session_file st hnd = file_bytes st.disk f := by
    unfold session_file
    rw [hf]
  have hsf2 : session_file (libslas_update_point_data host st hnd recnum R).2 hnd
      = write_at (file_bytes st.disk f)
          (record_addr (st.slot hnd).header recnum).toNat
          (updated_bytes host (st.slot hnd).swap (st.slot hnd).header
            (rd (file_bytes st.disk f) (record_addr (st.slot hnd).header recnum).toNat
              (st.slot hnd).header.point_data_record_length) R) := by
    unfold session_file
    rw [hs]
    simp only [file_bytes]
    rw [hd]
    rfl
  have hrb : record_bytes (libslas_update_point_data host st hnd recnum R).2 hnd recnum
        = updated_bytes host (st.slot hnd).swap (st.slot hnd).header
            (record_bytes st hnd recnum) R := by
    unfold record_bytes
    rw [hsf2, hs, hsf]
    simp only []
    rw [rd_write_at _ _ _ _ hlen hc]
  refine ⟨by rw [hs], by rw [hs], hrb, by unfold record_bytes; rw [length_rd], ?_, ?_⟩
  · intro rec0
    have hb2 : bad_recnum
        ((libslas_update_point_data host st hnd recnum R).2.slot hnd).header recnum = false := by
      rw [hs]; exact hb
    have r := read_ok host (libslas_update_point_data host st hnd recnum R).2 hnd recnum rec0
      { f with offset := (record_addr (st.slot hnd).header recnum).toNat
          + (st.slot hnd).header.point_data_record_length }
      hb2 (by rw [hs])
      (by
        rw [hs]
        simp only []
        intro hq
        exfalso
        omega)
      (by rw [hs]; exact hl)
      (by
        rw [hs]
        simp only [file_bytes]
        rw [hd]
        simp only [Option.getD_some]
        rw [length_write_at _ _ _ (by rw [hlen]; exact hc)]
        exact hc)
    refine ⟨r.1, ?_⟩
    rw [r.2.1]
    unfold record_bytes
    rw [hsf2, hs]
    simp only [file_bytes]
    rw [hd]
    rfl
  · intro hcc rec0
    have r := read_ok host st hnd recnum rec0 f hb hf (hcc f hf) hl hc
    refine ⟨r.1, ?_⟩
    rw [r.2.1]
    unfold record_bytes
    rw [hsf]

/-! ## C9: update isolation -/

/-- The bytes of a record that libslas_update_point_data writes back as it read
them. -/
theorem updated_bytes_keeps (host : Host) (swap : Bool) (h : LIBSLAS_HEADER)
    (old : List Nat) (R : LIBSLAS_POINT_DATA) (k : Nat)
    (hl : old.length = h.point_data_record_length)
    (hk : k < 15 ∨ k = 16 ∨ (20 ≤ k ∧ k < 28
      ∧ (h.point_data_format_id ≤ 1 ∨ h.point_data_format_id = 3))) :
    (updated_bytes host swap h old R).getD k 0 = old.getD k 0 := by
  unfold updated_bytes memcpyBytes
  rw [getD_rd]
  by_cases hkl : k < h.point_data_record_length
  · rw [if_pos hkl, Nat.zero_add, update_buffer_keeps _ _ _ _ _ _ hk, getD_poke, length_rd]
    have hk34 : k < POINT_DATA_SIZE := by
      unfold POINT_DATA_SIZE
      omega
    rw [if_pos ⟨hk34, Nat.zero_le _, by omega⟩, Nat.sub_zero]
  · rw [if_neg hkl, List.getD_eq_getElem?_getD, List.getElem?_eq_none (by omega)]
    rfl

theorem read_buffer_congr (a b : List Nat) (hl : a.length = b.length) (p n : Nat)
    (h : ∀ k, p ≤ k → k < p + n → a.getD k 0 = b.getD k 0) :
    rd (poke (List.replicate POINT_DATA_SIZE 0) 0 a) p n
      = rd (poke (List.replicate POINT_DATA_SIZE 0) 0 b) p n := by
  apply rd_eq_of_getD
  intro i hi
  rw [getD_poke, getD_poke, hl, Nat.sub_zero, h (p + i) (by omega) (by omega)]

/-- Decoding the updated bytes of a record gives the same position, GPS time,
intensity, scan angle rank and returns fields as decoding the old bytes. -/
theorem read_back_updated (host : Host) (swap : Bool) (h : LIBSLAS_HEADER)
    (old : List Nat) (R : LIBSLAS_POINT_DATA)
    (hl : old.length = h.point_data_record_length) :
    same_fixed_fields (read_back host swap h (updated_bytes host swap h old R))
      (read_back host swap h old) := by
  have hl2 : (updated_bytes host swap h old R).length = old.length := by
    unfold updated_bytes
    rw [length_memcpyBytes, hl]
  have key : ∀ p n, (∀ k, p ≤ k → k < p + n → (k < 15 ∨ k = 16 ∨ (20 ≤ k ∧ k < 28
      ∧ (h.point_data_format_id ≤ 1 ∨ h.point_data_format_id = 3)))) →
      rd (poke (List.replicate POINT_DATA_SIZE 0) 0 (updated_bytes host swap h old R)) p n
        = rd (poke (List.replicate POINT_DATA_SIZE 0) 0 old) p n := by
    intro p n hpn
    apply read_buffer_congr _ _ hl2
    intro k h1 h2
    exact updated_bytes_keeps host swap h old R k hl (hpn k h1 h2)
  unfold same_fixed_fields read_back
  have r1 := decode_point_rets host swap h
    (poke (List.replicate POINT_DATA_SIZE 0) 0 (updated_bytes host swap h old R))
  have r2 := decode_point_rets host swap h (poke (List.replicate POINT_DATA_SIZE 0) 0 old)
  rw [decode_point_x, decode_point_x, decode_point_y, decode_point_y, decode_point_z,
    decode_point_z, decode_point_gps, decode_point_gps, decode_point_intensity,
    decode_point_intensity, decode_point_angle, decode_point_angle,
    r1.1, r1.2.1, r1.2.2.1, r1.2.2.2, r2.1, r2.2.1, r2.2.2.1, r2.2.2.2,
    key 0 4 (by omega), key 4 4 (by omega), key 8 4 (by omega), key 12 2 (by omega),
    key 14 1 (by omega), key 16 1 (by omega)]
  refine ⟨rfl, rfl, rfl, ?_, rfl, rfl, rfl, rfl, rfl, rfl⟩
  by_cases hf : h.point_data_format_id = 1 ∨ h.point_data_format_id = 3
  · rw [if_pos hf, if_pos hf, key 20 8 (by omega)]
  · rw [if_neg hf, if_neg hf]

/-- C9: a successful libslas_update_point_data (idx, R) leaves unchanged, within
record idx of the file, the bytes 0..11 (raw X, Y, Z), 12..13 (intensity), 14
(the packed returns byte), 16 (scan angle rank) and, for point formats 1 and 3,
20..27 (GPS time).  Reading the record afterwards succeeds and yields the x, y,
z, gps_time, intensity, scan_angle_rank, return_number, number_of_returns,
edge_of_flightline and scan_direction_flag that the bytes of the record before
the update decode to; these are the values libslas_read_point_data returned
before the update whenever its cached position was coherent with the stream.
Holds for every point format, record length, swap flag and host. -/
theorem C9_update_isolation (host : Host) (st : LasState) (hnd : Nat) (idx : Int)
    (R rec0 : LIBSLAS_POINT_DATA)
    (h : (libslas_update_point_data host st hnd idx R).1 = LIBSLAS_SUCCESS) :
    rd (record_bytes (libslas_update_point_data host st hnd idx R).2 hnd idx) 0 12
        = rd (record_bytes st hnd idx) 0 12
    ∧ rd (record_bytes (libslas_update_point_data host st hnd idx R).2 hnd idx) 12 2
        = rd (record_bytes st hnd idx) 12 2
    ∧ rd (record_bytes (libslas_update_point_data host st hnd idx R).2 hnd idx) 14 1
        = rd (record_bytes st hnd idx) 14 1
    ∧ rd (record_bytes (libslas_update_point_data host st hnd idx R).2 hnd idx) 16 1
        = rd (record_bytes st hnd idx) 16 1
    ∧ ((st.slot hnd).header.point_data_format_id = 1
        ∨ (st.slot hnd).header.point_data_format_id = 3 →
      rd (record_bytes (libslas_update_point_data host st hnd idx R).2 hnd idx) 20 8
        = rd (record_bytes st hnd idx) 20 8)
    ∧ (libslas_read_point_data host (libslas_update_point_data host st hnd idx R).2
        hnd idx rec0).1 = LIBSLAS_SUCCESS
    ∧ same_fixed_fields
        (libslas_read_point_data host (libslas_update_point_data host st hnd idx R).2
          hnd idx rec0).2.2
        (read_back host (st.slot hnd).swap (st.slot hnd).header (record_bytes st hnd idx))
    ∧ (cache_coherent st hnd idx →
        (libslas_read_point_data host st hnd idx rec0).1 = LIBSLAS_SUCCESS
        ∧ same_fixed_fields
          (libslas_read_point_data host (libslas_update_point_data host st hnd idx R).2
            hnd idx rec0).2.2
          (libslas_read_point_data host st hnd idx rec0).2.2) := by
  obtain ⟨_, _, hrb, hlen, hread, hbefore⟩ := update_effect host st hnd idx R h
  have key : ∀ p n, (∀ k, p ≤ k → k < p + n → (k < 15 ∨ k = 16 ∨ (20 ≤ k ∧ k < 28
      ∧ ((st.slot hnd).header.point_data_format_id ≤ 1
        ∨ (st.slot hnd).header.point_data_format_id = 3)))) →
      rd (record_bytes (libslas_update_point_data host st hnd idx R).2 hnd idx) p n
        = rd (record_bytes st hnd idx) p n := by
    intro p n hpn
    rw [hrb]
    apply rd_eq_of_getD
    intro i hi
    exact updated_bytes_keeps host _ _ _ R (p + i) hlen (hpn (p + i) (by omega) (by omega))
  have hsame : same_fixed_fields
      (libslas_read_point_data host (libslas_update_point_data host st hnd idx R).2
        hnd idx rec0).2.2
      (read_back host (st.slot hnd).swap (st.slot hnd).header (record_bytes st hnd idx)) := by
    rw [(hread rec0).2, hrb]
    exact read_back_updated host _ _ _ R hlen
  refine ⟨key 0 12 (by omega), key 12 2 (by omega), key 14 1 (by omega), key 16 1 (by omega),
    fun hf => key 20 8 (by omega), (hread rec0).1, hsame, ?_⟩
  intro hcc
  refine ⟨(hbefore hcc rec0).1, ?_⟩
  rw [(hbefore hcc rec0).2]
  exact hsame

set_option maxRecDepth 100000 in
/-- C9 on the file made by create, one VLR, one append of sample_point and
close, opened for update: the update of record 0 with new_marks succeeds. -/
theorem C9_update_isolation_witness :
    (libslas_update_point_data (ieee_host false) update_session.2.1 0 0 new_marks).1
      = LIBSLAS_SUCCESS
    ∧ (libslas_read_point_data (ieee_host false)
        (libslas_update_point_data (ieee_host false) update_session.2.1 0 0 new_marks).2
        0 0 zero_point).1 = LIBSLAS_SUCCESS
    ∧ same_fixed_fields
        (libslas_read_point_data (ieee_host false)
          (libslas_update_point_data (ieee_host false) update_session.2.1 0 0 new_marks).2
          0 0 zero_point).2.2
        (libslas_read_point_data (ieee_host false) update_session.2.1 0 0 zero_point).2.2 :=
  ⟨by decide!,
    (C9_update_isolation (ieee_host false) update_session.2.1 0 0 new_marks zero_point
      (by decide!)).2.2.2.2.2.1,
    ((C9_update_isolation (ieee_host false) update_session.2.1 0 0 new_marks zero_point
      (by decide!)).2.2.2.2.2.2.2
      (fun _ _ hp => absurd hp (by decide!))).2⟩

/-! ## C10: the updated fields are read back -/

section colours
variable (host : Host) (swap : Bool) (h : LIBSLAS_HEADER) (data : List Nat)
  (R : LIBSLAS_POINT_DATA) (hd : data.length = 34)
include hd

/-- The colour channels in the buffer of libslas_update_point_data, for the
point formats that have them. -/
theorem update_buffer_colours (h1 : h.point_data_format_id > 1) :
    rd (update_buffer host swap h data R) (if h.point_data_format_id = 3 then 20 + 8 else 20) 2
      = mem_bytes host 2
          (if swap then libslas_swap_uint16_t (R.red % 2 ^ 16) else R.red % 2 ^ 16)
    ∧ rd (update_buffer host swap h data R)
        ((if h.point_data_format_id = 3 then 20 + 8 else 20) + 2) 2
      = mem_bytes host 2
          (if swap then libslas_swap_uint16_t (R.green % 2 ^ 16) else R.green % 2 ^ 16)
    ∧ rd (update_buffer host swap h data R)
        ((if h.point_data_format_id = 3 then 20 + 8 else 20) + 4) 2
      = mem_bytes host 2
          (if swap then libslas_swap_uint16_t (R.blue % 2 ^ 16) else R.blue % 2 ^ 16) := by
  have hpos : 20 ≤ (if h.point_data_format_id = 3 then 20 + 8 else 20)
      ∧ (if h.point_data_format_id = 3 then 20 + 8 else 20) + 6 ≤ 34 := by
    split_ifs <;> omega
  have c := colour_pokes (poke (poke (poke data 15 (mem_bytes host 1 (pack_cls R))) 17
    (mem_bytes host 1 R.user_data)) 18 (mem_bytes host 2
      (if swap then libslas_swap_uint16_t (R.point_source_id % 2 ^ 16)
       else R.point_source_id % 2 ^ 16)))
    (mem_bytes host 2 (if swap then libslas_swap_uint16_t (R.red % 2 ^ 16)
      else R.red % 2 ^ 16))
    (mem_bytes host 2 (if swap then libslas_swap_uint16_t (R.green % 2 ^ 16)
      else R.green % 2 ^ 16))
    (mem_bytes host 2 (if swap then libslas_swap_uint16_t (R.blue % 2 ^ 16)
      else R.blue % 2 ^ 16))
    _ (by rw [length_poke, length_poke, length_poke]; exact hd) hpos
    (length_mem_bytes _ _ _) (length_mem_bytes _ _ _) (length_mem_bytes _ _ _)
  unfold update_buffer
  simp only []
  rw [if_pos h1]
  exact ⟨c.1, c.2.1, c.2.2.1⟩

end colours

/-- A 16-bit field written by libslas_update_point_data and decoded by
libslas_read_point_data with the same swap flag. -/
theorem field16_round_trip (host : Host) (swap : Bool) (v : Nat) (hv : v < 2 ^ 16) :
    (if swap then libslas_swap_uint16_t (mem_val host (mem_bytes host 2
        (if swap then libslas_swap_uint16_t (v % 2 ^ 16) else v % 2 ^ 16)))
     else mem_val host (mem_bytes host 2
        (if swap then libslas_swap_uint16_t (v % 2 ^ 16) else v % 2 ^ 16))) = v := by
  have e : (256 : Nat) ^ 2 = 2 ^ 16 := by norm_num
  cases swap
  · simp only [Bool.false_eq_true, if_false]
    rw [mem_val_mem_bytes, e, Nat.mod_mod, Nat.mod_eq_of_lt hv]
  · simp only [if_true]
    rw [mem_val_mem_bytes, e, Nat.mod_eq_of_lt (swap16_lt _), swap16_swap16 _ (Nat.mod_lt _ (by norm_num)),
      Nat.mod_eq_of_lt hv]

/-- The read buffer of libslas_read_point_data holds the first bytes of the
buffer libslas_update_point_data wrote, as far as the record length goes. -/
theorem read_buffer_updated (len : Nat) (B : List Nat) (p n : Nat) (h1 : p + n ≤ len)
    (h2 : p + n ≤ 34) :
    rd (poke (List.replicate POINT_DATA_SIZE 0) 0 (memcpyBytes len B)) p n = rd B p n := by
  apply rd_eq_of_getD
  intro i hi
  rw [getD_poke, length_memcpyBytes, List.length_replicate,
    if_pos ⟨by unfold POINT_DATA_SIZE; omega, Nat.zero_le _, by omega⟩, Nat.sub_zero]
  unfold memcpyBytes
  rw [getD_rd, if_pos (by omega), Nat.zero_add]

/-- Decoding the bytes libslas_update_point_data writes for a record gives the
classification, the three flags, user data, point source id and, for point
formats 2 and 3, the colours of the record passed to it. -/
theorem read_back_updated_fields (host : Host) (swap : Bool) (h : LIBSLAS_HEADER)
    (old : List Nat) (R : LIBSLAS_POINT_DATA)
    (hlen : format_record_length h.point_data_format_id = some h.point_data_record_length)
    (hcl : R.classification ≤ 31)
    (hfl : R.synthetic ≤ 1 ∧ R.key_point ≤ 1 ∧ R.withheld ≤ 1)
    (hty : R.user_data < 2 ^ 8 ∧ R.point_source_id < 2 ^ 16 ∧ R.red < 2 ^ 16
      ∧ R.green < 2 ^ 16 ∧ R.blue < 2 ^ 16) :
    (read_back host swap h (updated_bytes host swap h old R)).classification = R.classification
    ∧ (read_back host swap h (updated_bytes host swap h old R)).synthetic = R.synthetic
    ∧ (read_back host swap h (updated_bytes host swap h old R)).key_point = R.key_point
    ∧ (read_back host swap h (updated_bytes host swap h old R)).withheld = R.withheld
    ∧ (read_back host swap h (updated_bytes host swap h old R)).user_data = R.user_data
    ∧ (read_back host swap h (updated_bytes host swap h old R)).point_source_id
        = R.point_source_id
    ∧ (h.point_data_format_id = 2 ∨ h.point_data_format_id = 3 →
        (read_back host swap h (updated_bytes host swap h old R)).red = R.red
        ∧ (read_back host swap h (updated_bytes host swap h old R)).green = R.green
        ∧ (read_back host swap h (updated_bytes host swap h old R)).blue = R.blue) := by
  have hd : (poke (memcpyBytes POINT_DATA_SIZE host.stack_bytes) 0 old).length = 34 := by
    rw [length_poke, length_memcpyBytes]
    rfl
  obtain ⟨f1, f2, f3⟩ := update_buffer_fields host swap h _ R hd
  have hl20 : 20 ≤ h.point_data_record_length ∧ (h.point_data_format_id = 2 →
      26 ≤ h.point_data_record_length) ∧ (h.point_data_format_id = 3 →
      34 ≤ h.point_data_record_length) := by
    rcases format_cases _ _ hlen with c | c | c | c <;> omega
  have e1 : (256 : Nat) ^ 1 = 256 := by norm_num
  have e8 : (2 : Nat) ^ 8 = 256 := by norm_num
  obtain ⟨u1, u2, u3, u4⟩ := unpack_cls R hcl hfl.2.2 hfl.2.1 hfl.1
  unfold read_back updated_bytes
  have c := decode_point_cls host swap h
    (poke (List.replicate POINT_DATA_SIZE 0) 0 (memcpyBytes h.point_data_record_length
      (update_buffer host swap h (poke (memcpyBytes POINT_DATA_SIZE host.stack_bytes) 0 old)
        R)))
  rw [c.1, c.2.1, c.2.2.1, c.2.2.2, decode_point_user, decode_point_psid,
    read_buffer_updated _ _ 15 1 (by omega) (by omega),
    read_buffer_updated _ _ 17 1 (by omega) (by omega),
    read_buffer_updated _ _ 18 2 (by omega) (by omega), f1, f2, f3,
    mem_val_mem_bytes, mem_val_mem_bytes, e1, Nat.mod_eq_of_lt (pack_cls_lt R),
    Nat.mod_eq_of_lt (by omega : R.user_data < 256)]
  refine ⟨u1, u2, u3, u4, rfl, field16_round_trip host swap _ hty.2.1, ?_⟩
  intro hf
  rcases hf with hf | hf
  · obtain ⟨g1, g2, g3⟩ := update_buffer_colours host swap h _ R hd (by omega)
    rw [if_neg (by omega)] at g1 g2 g3
    obtain ⟨d1, d2, d3⟩ := decode_point_rgb_2 host swap h
      (poke (List.replicate POINT_DATA_SIZE 0) 0 (memcpyBytes h.point_data_record_length
        (update_buffer host swap h (poke (memcpyBytes POINT_DATA_SIZE host.stack_bytes) 0 old)
          R))) hf
    have := hl20.2.1 hf
    rw [d1, d2, d3, read_buffer_updated _ _ 20 2 (by omega) (by omega),
      read_buffer_updated _ _ 22 2 (by omega) (by omega),
      read_buffer_updated _ _ 24 2 (by omega) (by omega), g1, g2, g3]
    exact ⟨field16_round_trip host swap _ hty.2.2.1,
      field16_round_trip host swap _ hty.2.2.2.1, field16_round_trip host swap _ hty.2.2.2.2⟩
  · obtain ⟨g1, g2, g3⟩ := update_buffer_colours host swap h _ R hd (by omega)
    rw [if_pos hf] at g1 g2 g3
    obtain ⟨d1, d2, d3⟩ := decode_point_rgb_3 host swap h
      (poke (List.replicate POINT_DATA_SIZE 0) 0 (memcpyBytes h.point_data_record_length
        (update_buffer host swap h (poke (memcpyBytes POINT_DATA_SIZE host.stack_bytes) 0 old)
          R))) hf
    have := hl20.2.2 hf
    rw [d1, d2, d3, read_buffer_updated _ _ 28 2 (by omega) (by omega),
      read_buffer_updated _ _ 30 2 (by omega) (by omega),
      read_buffer_updated _ _ 32 2 (by omega) (by omega), g1, g2, g3]
    exact ⟨field16_round_trip host swap _ hty.2.2.1,
      field16_round_trip host swap _ hty.2.2.2.1, field16_round_trip host swap _ hty.2.2.2.2⟩

/-- On a session whose header has the record length of its point format
(0..3), for a record R with classification at most 31, the synthetic, key_point
and withheld flags 0 or 1 and user_data, point_source_id and colours within
their C types: after a successful libslas_update_point_data (idx, R), which
needs the session to be in update mode and idx to be valid,
libslas_read_point_data (idx) succeeds and returns the classification,
synthetic, key_point, withheld, user_data and point_source_id of R and, for
point formats 2 and 3, the red, green and blue of R.  Holds with the swap flag
set or clear. -/
theorem updated_fields_read_back (host : Host) (st : LasState) (hnd : Nat) (idx : Int)
    (R rec0 : LIBSLAS_POINT_DATA)
    (hlen : format_record_length (st.slot hnd).header.point_data_format_id
      = some (st.slot hnd).header.point_data_record_length)
    (hcl : R.classification ≤ 31)
    (hfl : R.synthetic ≤ 1 ∧ R.key_point ≤ 1 ∧ R.withheld ≤ 1)
    (hty : R.user_data < 2 ^ 8 ∧ R.point_source_id < 2 ^ 16 ∧ R.red < 2 ^ 16
      ∧ R.green < 2 ^ 16 ∧ R.blue < 2 ^ 16)
    (h : (libslas_update_point_data host st hnd idx R).1 = LIBSLAS_SUCCESS) :
    (st.slot hnd).mode = LIBSLAS_UPDATE
    ∧ (libslas_read_point_data host (libslas_update_point_data host st hnd idx R).2
        hnd idx rec0).1 = LIBSLAS_SUCCESS
    ∧ (libslas_read_point_data host (libslas_update_point_data host st hnd idx R).2
        hnd idx rec0).2.2.classification = R.classification
    ∧ (libslas_read_point_data host (libslas_update_point_data host st hnd idx R).2
        hnd idx rec0).2.2.synthetic = R.synthetic
    ∧ (libslas_read_point_data host (libslas_update_point_data host st hnd idx R).2
        hnd idx rec0).2.2.key_point = R.key_point
    ∧ (libslas_read_point_data host (libslas_update_point_data host st hnd idx R).2
        hnd idx rec0).2.2.withheld = R.withheld
    ∧ (libslas_read_point_data host (libslas_update_point_data host st hnd idx R).2
        hnd idx rec0).2.2.user_data = R.user_data
    ∧ (libslas_read_point_data host (libslas_update_point_data host st hnd idx R).2
        hnd idx rec0).2.2.point_source_id = R.point_source_id
    ∧ ((st.slot hnd).header.point_data_format_id = 2
        ∨ (st.slot hnd).header.point_data_format_id = 3 →
      (libslas_read_point_data host (libslas_update_point_data host st hnd idx R).2
        hnd idx rec0).2.2.red = R.red
      ∧ (libslas_read_point_data host (libslas_update_point_data host st hnd idx R).2
        hnd idx rec0).2.2.green = R.green
      ∧ (libslas_read_point_data host (libslas_update_point_data host st hnd idx R).2
        hnd idx rec0).2.2.blue = R.blue) := by
  obtain ⟨_, hm, _⟩ := update_inv host st hnd idx R h
  obtain ⟨_, _, hrb, _, hread, _⟩ := update_effect host st hnd idx R h
  rw [(hread rec0).2, hrb]
  exact ⟨hm, (hread rec0).1,
    read_back_updated_fields host _ _ (record_bytes st hnd idx) R hlen hcl hfl hty⟩

set_option maxRecDepth 100000 in
/-- The update of record 0 with new_marks on the file made by create (point
format 3), one VLR, one append of sample_point and close, opened for update. -/
theorem updated_fields_read_back_format_3 :
    (libslas_update_point_data (ieee_host false) update_session.2.1 0 0 new_marks).1
      = LIBSLAS_SUCCESS
    ∧ (libslas_read_point_data (ieee_host false)
        (libslas_update_point_data (ieee_host false) update_session.2.1 0 0 new_marks).2
        0 0 zero_point).2.2.classification = 9
    ∧ (libslas_read_point_data (ieee_host false)
        (libslas_update_point_data (ieee_host false) update_session.2.1 0 0 new_marks).2
        0 0 zero_point).2.2.point_source_id = 4660
    ∧ (libslas_read_point_data (ieee_host false)
        (libslas_update_point_data (ieee_host false) update_session.2.1 0 0 new_marks).2
        0 0 zero_point).2.2.blue = 1286 :=
  ⟨by decide!,
    (updated_fields_read_back (ieee_host false) update_session.2.1 0 0 new_marks zero_point
      (by decide!) (by decide!) (by decide!) (by decide!) (by decide!)).2.2.1,
    (updated_fields_read_back (ieee_host false) update_session.2.1 0 0 new_marks zero_point
      (by decide!) (by decide!) (by decide!) (by decide!) (by decide!)).2.2.2.2.2.2.2.1,
    ((updated_fields_read_back (ieee_host false) update_session.2.1 0 0 new_marks
      zero_point (by decide!) (by decide!) (by decide!) (by decide!) (by decide!)).2.2.2.2.2.2.2.2
      (Or.inr (by decide!))).2.2⟩

set_option maxRecDepth 100000 in
/-- C10 (the code departs from the claim): a file whose header has point
format 2 and a record length of 20, both of which libslas_open_las_file takes
as they are, is opened for update (handle 0, mode LIBSLAS_UPDATE); the update
of record 0 with new_marks (classification 9, flags 0 or 1, red 258, green 772,
blue 1286) succeeds, and the read of record 0 that follows succeeds and returns
the classification and point_source_id of new_marks but red, green and blue 0:
the colours lie at bytes 20 to 25 of the buffer, and only the 20 bytes of the
record length are written and read. -/
theorem C10_colours_lost_on_short_records :
    short_colour_session.1 = 0
    ∧ (short_colour_session.2.1.slot 0).mode = LIBSLAS_UPDATE
    ∧ (short_colour_session.2.1.slot 0).header.point_data_format_id = 2
    ∧ (short_colour_session.2.1.slot 0).header.point_data_record_length = 20
    ∧ short_colour_update.1 = LIBSLAS_SUCCESS
    ∧ (libslas_read_point_data (ieee_host false) short_colour_update.2 0 0 zero_point).1
        = LIBSLAS_SUCCESS
    ∧ (libslas_read_point_data (ieee_host false) short_colour_update.2 0 0
        zero_point).2.2.classification = 9
    ∧ (libslas_read_point_data (ieee_host false) short_colour_update.2 0 0
        zero_point).2.2.point_source_id = 4660
    ∧ new_marks.red = 258 ∧ new_marks.green = 772 ∧ new_marks.blue = 1286
    ∧ (libslas_read_point_data (ieee_host false) short_colour_update.2 0 0
        zero_point).2.2.red = 0
    ∧ (libslas_read_point_data (ieee_host false) short_colour_update.2 0 0
        zero_point).2.2.green = 0
    ∧ (libslas_read_point_data (ieee_host false) short_colour_update.2 0 0
        zero_point).2.2.blue = 0 := by
  decide!

/-! ## C8: create, close and open on a big-endian host -/

set_option maxRecDepth 100000 in
/-- C8 (the code departs from the claim): on a big-endian host, create of a.las
with dated_header (point format 3, global encoding 0) succeeds with the swap
flag left clear, so close writes the header in host byte order; open of the
same file on the same host succeeds, sets the swap flag and byte-swaps what it
read: the header returned has header_size 58112 instead of 227,
point_data_record_length 8704 instead of 34, and file_creation_year 58887
instead of the 2022 of dated_header.  On the little-endian host the same calls
return 227, 34 and 2022. -/
theorem C8_round_trip_fails_on_big_endian_host :
    libslas_big_endian (ieee_host true) = 3
    ∧ (libslas_create_las_file (ieee_host true) (initial_state (fun _ => none)) las_path
        dated_header).1 = 0
    ∧ ((libslas_create_las_file (ieee_host true) (initial_state (fun _ => none)) las_path
        dated_header).2.1.slot 0).swap = false
    ∧ (libslas_close_las_file (ieee_host true)
        (libslas_create_las_file (ieee_host true) (initial_state (fun _ => none)) las_path
          dated_header).2.1 0).1 = LIBSLAS_SUCCESS
    ∧ rd (((empty_file true).disk las_path).getD []) 94 2 = [0, 227]
    ∧ (empty_file_reopened true).1 = 0
    ∧ ((empty_file_reopened true).2.1.slot 0).swap = true
    ∧ (empty_file_reopened true).2.2.header_size = 58112
    ∧ (empty_file_reopened true).2.2.point_data_record_length = 8704
    ∧ (empty_file_reopened true).2.2.file_creation_year = 58887
    ∧ dated_header.file_creation_year = 2022
    ∧ (empty_file_reopened false).1 = 0
    ∧ (empty_file_reopened false).2.2.header_size = 227
    ∧ (empty_file_reopened false).2.2.point_data_record_length = 34
    ∧ (empty_file_reopened false).2.2.file_creation_year = 2022 := by
  decide!

/-! ## The header codec on a host that does not swap -/

section header_chunks
variable (host : Host) (h : LIBSLAS_HEADER)

/-- The integer fields in the buffer of libslas_write_header, at the offsets
libslas_read_header takes them from. -/
theorem rd_header_data_ints :
    rd (header_data host h) 0 4 = [76, 65, 83, 70]
    ∧ rd (header_data host h) 4 2 = mem_bytes host 2 h.file_source_id
    ∧ rd (header_data host h) 6 2 = mem_bytes host 2 h.global_encoding
    ∧ rd (header_data host h) 8 4 = mem_bytes host 4 h.GUID_data_1
    ∧ rd (header_data host h) 12 2 = mem_bytes host 2 h.GUID_data_2
    ∧ rd (header_data host h) 14 2 = mem_bytes host 2 h.GUID_data_3
    ∧ rd (header_data host h) 16 8 = memcpyBytes 8 h.GUID_data_4
    ∧ rd (header_data host h) 24 1 = mem_bytes host 1 h.version_major
    ∧ rd (header_data host h) 25 1 = mem_bytes host 1 h.version_minor
    ∧ rd (header_data host h) 26 32 = memcpyBytes 32 h.system_id
    ∧ rd (header_data host h) 58 32 = memcpyBytes 32 h.generating_software
    ∧ rd (header_data host h) 90 2 = mem_bytes host 2 h.file_creation_DOY
    ∧ rd (header_data host h) 92 2 = mem_bytes host 2 h.file_creation_year
    ∧ rd (header_data host h) 94 2 = mem_bytes host 2 h.header_size
    ∧ rd (header_data host h) 96 4 = mem_bytes host 4 h.offset_to_point_data
    ∧ rd (header_data host h) 100 4 = mem_bytes host 4 h.number_of_VLRs
    ∧ rd (header_data host h) 104 1 = mem_bytes host 1 h.point_data_format_id
    ∧ rd (header_data host h) 105 2 = mem_bytes host 2 h.point_data_record_length
    ∧ rd (header_data host h) 107 4 = mem_bytes host 4 h.number_of_point_records := by
  unfold header_data
  simp only [rd_append_right, rd_append_left, length_mem_bytes, length_memcpyBytes,
    length_dbl_mem, List.length_cons, List.length_nil, Nat.reduceAdd, Nat.reduceLeDiff,
    Nat.reduceSub, and_self]

/-- The per-return counts and the doubles in the buffer of
libslas_write_header. -/
theorem rd_header_data_tail :
    rd (header_data host h) 111 4 = mem_bytes host 4 (h.number_of_points_by_return.getD 0 0)
    ∧ rd (header_data host h) 115 4 = mem_bytes host 4 (h.number_of_points_by_return.getD 1 0)
    ∧ rd (header_data host h) 119 4 = mem_bytes host 4 (h.number_of_points_by_return.getD 2 0)
    ∧ rd (header_data host h) 123 4 = mem_bytes host 4 (h.number_of_points_by_return.getD 3 0)
    ∧ rd (header_data host h) 127 4 = mem_bytes host 4 (h.number_of_points_by_return.getD 4 0)
    ∧ rd (header_data host h) 131 8 = dbl_mem host h.x_scale_factor
    ∧ rd (header_data host h) 139 8 = dbl_mem host h.y_scale_factor
    ∧ rd (header_data host h) 147 8 = dbl_mem host h.z_scale_factor
    ∧ rd (header_data host h) 155 8 = dbl_mem host h.x_offset
    ∧ rd (header_data host h) 163 8 = dbl_mem host h.y_offset
    ∧ rd (header_data host h) 171 8 = dbl_mem host h.z_offset
    ∧ rd (header_data host h) 179 8 = dbl_mem host h.max_x
    ∧ rd (header_data host h) 187 8 = dbl_mem host h.min_x
    ∧ rd (header_data host h) 195 8 = dbl_mem host h.max_y
    ∧ rd (header_data host h) 203 8 = dbl_mem host h.min_y
    ∧ rd (header_data host h) 211 8 = dbl_mem host h.max_z
    ∧ rd (header_data host h) 219 8 = dbl_mem host h.min_z := by
  unfold header_data
  simp only [rd_append_right, rd_append_left, length_mem_bytes, length_memcpyBytes,
    length_dbl_mem, List.length_cons, List.length_nil, Nat.reduceAdd, Nat.reduceLeDiff,
    Nat.reduceSub, rd_dbl_mem, and_self]

end header_chunks

theorem rd_poke_memcpy (old src : List Nat) (n : Nat) (h : n ≤ old.length) :
    rd (poke old 0 (memcpyBytes n src)) 0 n = rd src 0 n := by
  rw [rd_poke_zero _ _ _ _ (by rw [length_memcpyBytes]; exact h)
    (by rw [length_memcpyBytes]; omega)]
  have := rd_self (memcpyBytes n src)
  rw [length_memcpyBytes] at this
  rw [this]
  rfl

/-- What libslas_read_header (no swap) unpacks from the buffer that
libslas_write_header (no swap) packed for a well-typed header: every field
again, the character arrays in their bytes that are on file. -/
theorem header_round_trip (host : Host) (old h : LIBSLAS_HEADER)
    (hty : h.well_typed host)
    (hold : 8 ≤ old.GUID_data_4.length ∧ 32 ≤ old.system_id.length
      ∧ 32 ≤ old.generating_software.length) :
    same_caller_fields (header_fields host old (header_data host h)) h
    ∧ same_codec_fields (header_fields host old (header_data host h)) h := by
  obtain ⟨t1, t2, t3, t4, t5, t6, t7, t8, t9, t10, t11, t12, t13, t14, t15,
    ⟨a, b, c, d, e, hbr, ha, hb, hc, hd, he⟩, d1, d2, d3, d4, d5, d6, d7, d8, d9, d10, d11,
    d12⟩ := hty
  obtain ⟨_, i1, i2, i3, i4, i5, i6, i7, i8, i9, i10, i11, i12, i13, i14, i15, i16, i17,
    i18⟩ := rd_header_data_ints host h
  obtain ⟨r0, r1, r2, r3, r4, q1, q2, q3, q4, q5, q6, q7, q8, q9, q10, q11, q12⟩ :=
    rd_header_data_tail host h
  have e1 : (256 : Nat) ^ 1 = 2 ^ 8 := by norm_num
  have e2 : (256 : Nat) ^ 2 = 2 ^ 16 := by norm_num
  have e4 : (256 : Nat) ^ 4 = 2 ^ 32 := by norm_num
  have hr : (List.range 5) = [0, 1, 2, 3, 4] := by decide
  unfold same_caller_fields same_codec_fields header_fields
  simp only [i1, i2, i3, i4, i5, i6, i7, i8, i9, i10, i11, i12, i13, i14, i15, i16, i17, i18,
    q1, q2, q3, q4, q5, q6, q7, q8, q9, q10, q11, q12, mem_val_mem_bytes, e1, e2, e4,
    Nat.mod_eq_of_lt t1, Nat.mod_eq_of_lt t2, Nat.mod_eq_of_lt t3, Nat.mod_eq_of_lt t4,
    Nat.mod_eq_of_lt t5, Nat.mod_eq_of_lt t6, Nat.mod_eq_of_lt t7, Nat.mod_eq_of_lt t8,
    Nat.mod_eq_of_lt t9, Nat.mod_eq_of_lt t10, Nat.mod_eq_of_lt t11, Nat.mod_eq_of_lt t12,
    Nat.mod_eq_of_lt t13, Nat.mod_eq_of_lt t14, Nat.mod_eq_of_lt t15,
    mem_dbl_dbl_mem host _ d1, mem_dbl_dbl_mem host _ d2, mem_dbl_dbl_mem host _ d3,
    mem_dbl_dbl_mem host _ d4, mem_dbl_dbl_mem host _ d5, mem_dbl_dbl_mem host _ d6,
    mem_dbl_dbl_mem host _ d7, mem_dbl_dbl_mem host _ d8, mem_dbl_dbl_mem host _ d9,
    mem_dbl_dbl_mem host _ d10, mem_dbl_dbl_mem host _ d11, mem_dbl_dbl_mem host _ d12,
    rd_poke_memcpy _ _ _ hold.1, rd_poke_memcpy _ _ _ hold.2.1, rd_poke_memcpy _ _ _ hold.2.2,
    true_and, and_true, and_self]
  rw [hr]
  simp only [List.map_cons, List.map_nil, Nat.mul_zero, Nat.add_zero, Nat.reduceMul,
    Nat.reduceAdd, r0, r1, r2, r3, r4, mem_val_mem_bytes, e4, hbr]
  simp [Nat.mod_eq_of_lt ha, Nat.mod_eq_of_lt hb, Nat.mod_eq_of_lt hc, Nat.mod_eq_of_lt hd,
    Nat.mod_eq_of_lt he]
  norm_num at ha hb hc hd he
  exact ⟨ha, hb, hc, hd, he⟩

/-! ## Close and open of a created file -/

theorem poke_full (buf bs : List Nat) (h : bs.length = buf.length) : poke buf 0 bs = bs := by
  apply List.ext_getElem
  · rw [length_poke, h]
  · intro i h1 h2
    have e := getD_poke buf 0 bs i
    rw [length_poke] at h1
    rw [if_pos ⟨h1, Nat.zero_le _, by omega⟩, Nat.sub_zero] at e
    rw [List.getD_eq_getElem?_getD, List.getD_eq_getElem?_getD,
      List.getElem?_eq_getElem (by rw [length_poke]; exact h1), List.getElem?_eq_getElem h2] at e
    simpa using e

theorem find_handle_free (las : Nat → INTERNAL_LIBSLAS_STRUCT) (i : Nat)
    (hi : i < LIBSLAS_MAX_FILES) (hf : (las i).fp = none) :
    find_handle las ≠ LIBSLAS_MAX_FILES := by
  unfold find_handle
  cases hfind : (List.range LIBSLAS_MAX_FILES).find? (fun i => (las i).fp.isNone) with
  | none =>
    exfalso
    rw [List.find?_eq_none] at hfind
    have := hfind i (List.mem_range.mpr hi)
    rw [hf] at this
    simp at this
  | some k =>
    have := List.mem_range.mp (List.mem_of_find?_eq_some hfind)
    simp only []
    omega

theorem find_handle_le (las : Nat → INTERNAL_LIBSLAS_STRUCT) :
    find_handle las ≤ LIBSLAS_MAX_FILES := by
  unfold find_handle
  cases hfind : (List.range LIBSLAS_MAX_FILES).find? (fun i => (las i).fp.isNone) with
  | none => simp
  | some k =>
    have := List.mem_range.mp (List.mem_of_find?_eq_some hfind)
    simp only []
    omega

set_option maxRecDepth 100000 in
/-- The header libslas_open_las_file returns, on a host that does not swap, for
a file that starts with the buffer libslas_write_header packed for a header h
of version 1.2 or below. -/
theorem open_ok (host : Host) (st : LasState) (path : List Nat) (hdr0 h : LIBSLAS_HEADER)
    (mode : Int) (c : List Nat)
    (hle : host.big_endian = false) (hfirst : st.first = false)
    (hfree : find_handle st.las ≠ LIBSLAS_MAX_FILES) (hext : bad_extension path = false)
    (hmode : mode = LIBSLAS_UPDATE ∨ mode = LIBSLAS_READONLY)
    (hdisk : st.disk path = some c) (hlen : 227 ≤ c.length)
    (hc : rd c 0 227 = header_data host h)
    (hv : ¬ ((header_fields host zero_header (header_data host h)).version_major = 1
      ∧ (header_fields host zero_header (header_data host h)).version_minor > 2)) :
    (libslas_open_las_file host st path hdr0 mode).1 = (find_handle st.las : Int)
    ∧ (libslas_open_las_file host st path hdr0 mode).2.2
        = header_fields host zero_header (header_data host h) := by
  have hs : startup st = st := by
    unfold startup
    rw [hfirst]
    rfl
  have hm : ¬ (mode ≠ LIBSLAS_UPDATE ∧ mode ≠ LIBSLAS_READONLY) := by
    rcases hmode with h1 | h1 <;> simp [h1]
  have hbe : ¬ (libslas_big_endian host ≠ 0) := by
    unfold libslas_big_endian
    rw [hle]
    simp
  have hd : poke (List.replicate LIBSLAS_HEADER_SIZE 0) 0 (rd c 0 227) = header_data host h := by
    rw [hc, poke_full]
    rw [length_header_data]
    rfl
  have hfr : fread (fun p => if p = path then some c else st.disk p)
      { name := path, offset := 0, writable := decide (mode = LIBSLAS_UPDATE) } 227
      = (1, rd c 0 227,
          { name := path, offset := 227, writable := decide (mode = LIBSLAS_UPDATE) }) := by
    rw [fread_ok _ _ _ (by norm_num) (by simpa [file_bytes] using hlen)]
    simp [file_bytes]
  have hdisk2 : (fun p => if p = path then some c else st.disk p) = st.disk := by
    funext p
    by_cases hp : p = path
    · rw [if_pos hp, hp, hdisk]
    · rw [if_neg hp]
  rw [hdisk2] at hfr
  unfold libslas_open_las_file
  simp only [hs, hfree, if_false, hext, Bool.false_eq_true, hbe, hm]
  have hdk : (st.setSlot (find_handle st.las) { zero_struct with path := path }).disk path
      = some c := hdisk
  rw [hdk]
  simp only []
  unfold libslas_read_header
  simp only [slot_setSlot_same, Option.bind, fseek_set, lt_self_iff_false, if_false,
    Int.toNat_zero, LIBSLAS_HEADER_SIZE]
  have hdk2 : ((st.setSlot (find_handle st.las) { zero_struct with path := path }).setSlot
      (find_handle st.las)
      { zero_struct with
        path := path
        fp := some { name := path, offset := 0, writable := decide (mode = LIBSLAS_UPDATE) }
        mode := mode }).disk = st.disk := rfl
  rw [hdk2, hfr]
  simp only []
  have hd2 : poke (List.replicate 227 0) 0 (rd c 0 227) = header_data host h := hd
  rw [hd2, (rd_header_data_ints host h).1]
  simp only [ne_eq, not_true_eq_false, if_false, Bool.false_eq_true]
  have hz : zero_struct.header = zero_header := rfl
  have hsw : zero_struct.swap = false := rfl
  simp only [hz, hsw, Bool.false_eq_true, if_false, if_neg hv]
  simp [LasState.fail, LasState.slot, LasState.setSlot, LIBSLAS_SUCCESS]

theorem length_write_at_ge (c : List Nat) (off : Nat) (bs : List Nat) :
    c.length ≤ (write_at c off bs).length := by
  unfold write_at
  simp only [List.length_append, List.length_take, List.length_drop, List.length_replicate]
  omega

/-- A successful libslas_create_las_file leaves a session that is Written, on a
handle below LIBSLAS_MAX_FILES, with the header created_header. -/
theorem created_written (host : Host) (st : LasState) (path : List Nat)
    (H : LIBSLAS_HEADER) (h : 0 ≤ (libslas_create_las_file host st path H).1) :
    ∃ len, format_record_length H.point_data_format_id = some len
      ∧ (libslas_create_las_file host st path H).1.toNat < LIBSLAS_MAX_FILES
      ∧ bad_extension path = false
      ∧ Written (libslas_create_las_file host st path H).2.1
          (libslas_create_las_file host st path H).1.toNat path
      ∧ ((libslas_create_las_file host st path H).2.1.slot
          (libslas_create_las_file host st path H).1.toNat).header = created_header H len := by
  obtain ⟨len, h1, h2, h3, h4⟩ := create_inv host st path H h
  have hl := (format_record_length_le _ _ h3).2.1
  have hlt : find_handle (startup st).las < LIBSLAS_MAX_FILES :=
    Nat.lt_of_le_of_ne (find_handle_le _) h1
  refine ⟨len, h3, ?_⟩
  rw [create_ok host st path H _ len rfl h1 h2 h3 h4]
  simp only [Int.toNat_ofNat]
  refine ⟨hlt, h2, ⟨?_, ?_, ⟨{ name := path, offset := 227, writable := true }, ?_, rfl, rfl⟩,
    ⟨header_data host (created_header H len), ?_, ?_⟩, ?_, rfl⟩, ?_⟩
  · simp [LasState.slot]
  · simp [LasState.slot, zero_struct]
  · simp [LasState.slot]
  · simp
  · rw [length_header_data]
  · simp [LasState.slot, created_header]
    omega
  · simp [LasState.slot]

theorem written_appendable (st : LasState) (hnd : Nat) (path : List Nat)
    (h : Written st hnd path) : Appendable st hnd := by
  obtain ⟨h1, _, ⟨f, hf, hw, _⟩, _, h5, _⟩ := h
  exact ⟨h1, ⟨f, hf, hw⟩, h5⟩

/-- A successful append keeps the session Written. -/
theorem written_step (host : Host) (st : LasState) (hnd : Nat) (path : List Nat)
    (R : LIBSLAS_POINT_DATA) (h : Written st hnd path)
    (hrn : 1 ≤ R.return_number ∧ R.return_number ≤ 5) :
    Written (libslas_append_point_data host st hnd R).2.1 hnd path := by
  obtain ⟨h1, h2, ⟨f, hf, hw, hn⟩, ⟨c, hc, hcl⟩, h5, h6⟩ := h
  rw [append_point_ok host st hnd R f h1 hf hw h5 hrn]
  refine ⟨?_, ?_, ⟨{ f with offset := f.offset
      + (st.slot hnd).header.point_data_record_length }, ?_, hw, hn⟩,
    ⟨write_at c f.offset (appended_bytes host (st.slot hnd).swap
      (count_return (count_point (st.slot hnd).header R) R.return_number) R), ?_, ?_⟩, ?_, h6⟩
  · simpa [LasState.slot] using h1
  · simpa [LasState.slot] using h2
  · simp [LasState.slot]
  · simp [hn, file_bytes, hc]
  · exact Nat.le_trans hcl (length_write_at_ge _ _ _)
  · simpa [LasState.slot, count_return, count_point] using h5

theorem written_append_points (host : Host) (hnd : Nat) (path : List Nat)
    (recs : List LIBSLAS_POINT_DATA) :
    ∀ st : LasState, Written st hnd path →
      (∀ r ∈ recs, 1 ≤ r.return_number ∧ r.return_number ≤ 5) →
      Written (append_points host st hnd recs).2 hnd path := by
  induction recs with
  | nil =>
    intro st h _
    exact h
  | cons r rs ih =>
    intro st h hrn
    exact ih _ (written_step host st hnd path r h (hrn r (List.mem_cons_self _ _)))
      (fun q hq => hrn q (List.mem_cons_of_mem _ hq))

/-- libslas_close_las_file on a Written session whose header has header_size
227: the header in memory is written over the first 227 bytes of the file and
the slot is cleared. -/
theorem close_written (host : Host) (st : LasState) (hnd : Nat) (path : List Nat)
    (h : Written st hnd path) (hs : (st.slot hnd).header.header_size = 227) :
    (libslas_close_las_file host st hnd).1 = LIBSLAS_SUCCESS
    ∧ (∃ c, 227 ≤ c.length ∧ (libslas_close_las_file host st hnd).2.disk path = some c
        ∧ rd c 0 227 = header_data host (st.slot hnd).header)
    ∧ ((libslas_close_las_file host st hnd).2.las hnd).fp = none
    ∧ (libslas_close_las_file host st hnd).2.first = false := by
  obtain ⟨h1, h2, ⟨f, hf, hw, hn⟩, ⟨c, hc, hcl⟩, h5, h6⟩ := h
  have e := write_header_ok host st hnd f hf hw hs
  rw [h2] at e
  simp only [Bool.false_eq_true, if_false] at e
  unfold libslas_close_las_file
  rw [hf, h1, e]
  simp only [Option.isNone_some, Bool.false_eq_true, if_false, if_true, LIBSLAS_SUCCESS,
    lt_self_iff_false, LasState.fail, LasState.setSlot]
  refine ⟨trivial, ⟨write_at c 0 (header_data host (st.slot hnd).header), ?_, ?_, ?_⟩, ?_, h6⟩
  · exact Nat.le_trans hcl (length_write_at_ge _ _ _)
  · simp [hn, file_bytes, hc]
  · exact rd_write_at _ _ _ _ (length_header_data _ _) (by omega)
  · simp [zero_struct]

/-! ## The header in memory after the appends -/

theorem after_append_well_typed (host : Host) (h : LIBSLAS_HEADER) (r : LIBSLAS_POINT_DATA)
    (hty : h.well_typed host)
    (hr : host.IsDouble r.x ∧ host.IsDouble r.y ∧ host.IsDouble r.z) :
    (after_append h r).well_typed host := by
  obtain ⟨t1, t2, t3, t4, t5, t6, t7, t8, t9, t10, t11, t12, t13, t14, t15,
    ⟨a, b, c, d, e, hbr, ha, hb, hc, hd, he⟩, d1, d2, d3, d4, d5, d6, d7, d8, d9, d10, d11,
    d12⟩ := hty
  have hm : ∀ n : Nat, n % 2 ^ 32 < 2 ^ 32 := fun n => Nat.mod_lt _ (by norm_num)
  have hmax : ∀ p q : CDouble, host.IsDouble p → host.IsDouble q → host.IsDouble (MAX p q) := by
    intro p q hp hq
    unfold MAX
    split_ifs <;> assumption
  have hmin : ∀ p q : CDouble, host.IsDouble p → host.IsDouble q → host.IsDouble (MIN p q) := by
    intro p q hp hq
    unfold MIN
    split_ifs <;> assumption
  refine ⟨t1, t2, t3, t4, t5, t6, t7, t8, t9, t10, t11, t12, t13, t14, hm _, ?_, d1, d2, d3, d4,
    d5, d6, hmax _ _ d7 hr.1, hmin _ _ d8 hr.1, hmax _ _ d9 hr.2.1, hmin _ _ d10 hr.2.1,
    hmax _ _ d11 hr.2.2, hmin _ _ d12 hr.2.2⟩
  show ∃ a b c d e, (h.number_of_points_by_return.set (r.return_number - 1)
      ((h.number_of_points_by_return.getD (r.return_number - 1) 0 + 1) % 2 ^ 32))
      = [a, b, c, d, e] ∧ a < 2 ^ 32 ∧ b < 2 ^ 32 ∧ c < 2 ^ 32 ∧ d < 2 ^ 32 ∧ e < 2 ^ 32
  rw [hbr]
  generalize r.return_number - 1 = k
  rcases k with _ | _ | _ | _ | _ | k
  · exact ⟨_, b, c, d, e, rfl, hm _, hb, hc, hd, he⟩
  · exact ⟨a, _, c, d, e, rfl, ha, hm _, hc, hd, he⟩
  · exact ⟨a, b, _, d, e, rfl, ha, hb, hm _, hd, he⟩
  · exact ⟨a, b, c, _, e, rfl, ha, hb, hc, hm _, he⟩
  · exact ⟨a, b, c, d, _, rfl, ha, hb, hc, hd, hm _⟩
  · exact ⟨a, b, c, d, e, rfl, ha, hb, hc, hd, he⟩

/-- The appends leave the header well typed and change none of the fields the
caller supplied, nor version, header size and record length. -/
theorem fold_well_typed (host : Host) (recs : List LIBSLAS_POINT_DATA) :
    ∀ h : LIBSLAS_HEADER, h.well_typed host →
      (∀ r ∈ recs, host.IsDouble r.x ∧ host.IsDouble r.y ∧ host.IsDouble r.z) →
      (recs.foldl after_append h).well_typed host
      ∧ same_caller_fields (recs.foldl after_append h) h
      ∧ (recs.foldl after_append h).version_major = h.version_major
      ∧ (recs.foldl after_append h).version_minor = h.version_minor
      ∧ (recs.foldl after_append h).header_size = h.header_size
      ∧ (recs.foldl after_append h).point_data_record_length = h.point_data_record_length := by
  induction recs with
  | nil =>
    intro h hty _
    exact ⟨hty, ⟨rfl, rfl, rfl, rfl, rfl, rfl, rfl, rfl, rfl, rfl, rfl, rfl, rfl, rfl, rfl, rfl,
      rfl, rfl⟩, rfl, rfl, rfl, rfl⟩
  | cons r rs ih =>
    intro h hty hr
    exact ih (after_append h r)
      (after_append_well_typed host h r hty (hr r (List.mem_cons_self _ _)))
      (fun q hq => hr q (List.mem_cons_of_mem _ hq))

theorem created_header_well_typed (host : Host) (H : LIBSLAS_HEADER) (len : Nat)
    (hty : H.well_typed host) (hlen : format_record_length H.point_data_format_id = some len)
    (hsent : host.IsDouble 99999999999999 ∧ host.IsDouble (-99999999999999)) :
    (created_header H len).well_typed host := by
  obtain ⟨t1, t2, t3, t4, t5, t6, t7, t8, t9, t10, t11, t12, t13, t14, t15, _, d1, d2, d3, d4,
    d5, d6, _⟩ := hty
  have hl := (format_record_length_le _ _ hlen).1
  unfold POINT_DATA_SIZE at hl
  refine ⟨t1, t2, t3, t4, t5, ?_, ?_, t8, t9, ?_, ?_, t12, t13, ?_, ?_,
    ⟨0, 0, 0, 0, 0, rfl, ?_, ?_, ?_, ?_, ?_⟩, d1, d2, d3, d4, d5, d6, hsent.2, hsent.1, hsent.2,
    hsent.1, hsent.2, hsent.1⟩ <;>
    simp [created_header, standard_fields, LIBSLAS_HEADER_SIZE]
  omega

theorem same_caller_fields_trans (a b c : LIBSLAS_HEADER) (h : same_caller_fields a b)
    (g : same_caller_fields b c) : same_caller_fields a c := by
  obtain ⟨h1, h2, h3, h4, h5, h6, h7, h8, h9, h10, h11, h12, h13, h14, h15, h16, h17, h18⟩ := h
  obtain ⟨g1, g2, g3, g4, g5, g6, g7, g8, g9, g10, g11, g12, g13, g14, g15, g16, g17, g18⟩ := g
  exact ⟨h1.trans g1, h2.trans g2, h3.trans g3, h4.trans g4, h5.trans g5, h6.trans g6,
    h7.trans g7, h8.trans g8, h9.trans g9, h10.trans g10, h11.trans g11, h12.trans g12,
    h13.trans g13, h14.trans g14, h15.trans g15, h16.trans g16, h17.trans g17, h18.trans g18⟩

/-- The round trip of the header on a host that is not big-endian: for a header
H accepted by create and well typed, create, N appends with return numbers in
1..5 and coordinates that are doubles (N below 2^32), close and open give back
a header with the caller-supplied fields of H, version 1.2, header_size 227,
the record length of the point format, number_of_point_records = N, and the
per-return counts and bounding box that were in memory at close. -/
theorem round_trip_without_swap (host : Host) (st : LasState) (path : List Nat)
    (H hdr0 : LIBSLAS_HEADER) (recs : List LIBSLAS_POINT_DATA) (mode : Int)
    (hle : host.big_endian = false)
    (hmode : mode = LIBSLAS_UPDATE ∨ mode = LIBSLAS_READONLY)
    (hcreate : 0 ≤ (libslas_create_las_file host st path H).1)
    (hH : H.well_typed host)
    (hsent : host.IsDouble 99999999999999 ∧ host.IsDouble (-99999999999999))
    (hrn : ∀ r ∈ recs, 1 ≤ r.return_number ∧ r.return_number ≤ 5)
    (hxyz : ∀ r ∈ recs, host.IsDouble r.x ∧ host.IsDouble r.y ∧ host.IsDouble r.z)
    (hN : recs.length < 2 ^ 32) :
    (create_append_close host st path H recs).1 = LIBSLAS_SUCCESS
    ∧ 0 ≤ (libslas_open_las_file host (create_append_close host st path H recs).2 path hdr0
        mode).1
    ∧ same_caller_fields (libslas_open_las_file host (create_append_close host st path H recs).2
        path hdr0 mode).2.2 H
    ∧ (libslas_open_las_file host (create_append_close host st path H recs).2 path hdr0
        mode).2.2.version_major = 1
    ∧ (libslas_open_las_file host (create_append_close host st path H recs).2 path hdr0
        mode).2.2.version_minor = 2
    ∧ (libslas_open_las_file host (create_append_close host st path H recs).2 path hdr0
        mode).2.2.header_size = 227
    ∧ format_record_length (libslas_open_las_file host
        (create_append_close host st path H recs).2 path hdr0 mode).2.2.point_data_format_id
      = some (libslas_open_las_file host (create_append_close host st path H recs).2 path hdr0
        mode).2.2.point_data_record_length
    ∧ (libslas_open_las_file host (create_append_close host st path H recs).2 path hdr0
        mode).2.2.number_of_point_records = recs.length
    ∧ same_codec_fields (libslas_open_las_file host (create_append_close host st path H recs).2
        path hdr0 mode).2.2 (header_at_close host st path H recs) := by
  obtain ⟨len, hlen, hlt, hext, hW, hhdr⟩ := created_written host st path H hcreate
  have hW2 := written_append_points host _ path recs _ hW hrn
  obtain ⟨_, _, hfold⟩ := append_points_ok host _ recs _ (written_appendable _ _ _ hW) hrn
  rw [hhdr] at hfold
  have hct := created_header_well_typed host H len hH hlen hsent
  obtain ⟨hty, hcf, hv1, hv2, hhs, hrl⟩ := fold_well_typed host recs _ hct hxyz
  have hcount := fold_count recs (created_header H len) (by simp [created_header, standard_fields])
  rw [← hfold] at hty hcf hv1 hv2 hhs hrl hcount
  obtain ⟨hcl, ⟨c3, hc3l, hc3d, hc3r⟩, hfp, hfirst⟩ := close_written host _ _ path hW2 hhs
  obtain ⟨r1, r2⟩ := header_round_trip host zero_header _ hty
    (by simp [zero_header])
  have hv : ¬ ((header_fields host zero_header (header_data host
      ((append_points host (libslas_create_las_file host st path H).2.1
        (libslas_create_las_file host st path H).1.toNat recs).2.slot
        (libslas_create_las_file host st path H).1.toNat).header)).version_major = 1
    ∧ (header_fields host zero_header (header_data host
      ((append_points host (libslas_create_las_file host st path H).2.1
        (libslas_create_las_file host st path H).1.toNat recs).2.slot
        (libslas_create_las_file host st path H).1.toNat).header)).version_minor > 2) := by
    rw [r2.2.1, hv2]
    simp [created_header, standard_fields]
  obtain ⟨o1, o2⟩ := open_ok host _ path hdr0 _ mode c3 hle hfirst
    (find_handle_free _ _ hlt hfp) hext hmode hc3d hc3l hc3r hv
  have hcreated : same_caller_fields (created_header H len) H :=
    ⟨rfl, rfl, rfl, rfl, rfl, rfl, rfl, rfl, rfl, rfl, rfl, rfl, rfl, rfl, rfl, rfl, rfl, rfl⟩
  have hall := same_caller_fields_trans _ _ _ r1 (same_caller_fields_trans _ _ _ hcf hcreated)
  unfold create_append_close header_at_close
  simp only []
  rw [o2]
  refine ⟨hcl, by rw [o1]; exact Int.natCast_nonneg _, hall, ?_, ?_, ?_, ?_, ?_, r2⟩
  · rw [r2.1, hv1]
    rfl
  · rw [r2.2.1, hv2]
    rfl
  · rw [r2.2.2.1, hhs]
    rfl
  · rw [r2.2.2.2.2.1, hrl, hall.2.2.2.2.2.2.2.2.2.2.2.1]
    exact hlen
  · rw [r2.2.2.2.2.2.1, hcount]
    simp [created_header, standard_fields]
    omega

set_option maxRecDepth 100000 in
theorem dated_header_well_typed : LIBSLAS_HEADER.well_typed (ieee_host false) dated_header := by
  unfold LIBSLAS_HEADER.well_typed
  refine ⟨?_, ?_, ?_, ?_, ?_, ?_, ?_, ?_, ?_, ?_, ?_, ?_, ?_, ?_, ?_,
    ⟨0, 0, 0, 0, 0, ?_, ?_, ?_, ?_, ?_, ?_⟩, ?_⟩
  case refine_22 =>
    unfold Host.IsDouble
    decide!
  all_goals norm_num [dated_header, sample_header, zero_header]
  rfl

set_option maxRecDepth 100000 in
/-- The round trip on the little-endian IEEE host for dated_header and three
appends: the header that open returns has number_of_point_records 3, the
creation year 2022 of dated_header, and max_x = 321/256, the x of
sample_point. -/
theorem round_trip_without_swap_example :
    (libslas_open_las_file (ieee_host false)
      (create_append_close (ieee_host false) (initial_state (fun _ => none)) las_path
        dated_header [sample_point, origin_point, origin_point]).2 las_path zero_header
      LIBSLAS_READONLY).2.2.number_of_point_records = 3
    ∧ (libslas_open_las_file (ieee_host false)
      (create_append_close (ieee_host false) (initial_state (fun _ => none)) las_path
        dated_header [sample_point, origin_point, origin_point]).2 las_path zero_header
      LIBSLAS_READONLY).2.2.file_creation_year = 2022
    ∧ (libslas_open_las_file (ieee_host false)
      (create_append_close (ieee_host false) (initial_state (fun _ => none)) las_path
        dated_header [sample_point, origin_point, origin_point]).2 las_path zero_header
      LIBSLAS_READONLY).2.2.max_x = 321 / 256 := by
  have h := round_trip_without_swap (ieee_host false) (initial_state (fun _ => none)) las_path
    dated_header zero_header [sample_point, origin_point, origin_point] LIBSLAS_READONLY rfl
    (Or.inr rfl) (by decide!) dated_header_well_typed
    (by unfold Host.IsDouble; decide!)
    (by simp [sample_point, origin_point, zero_point])
    (by
      unfold Host.IsDouble
      intro r hr
      simp only [List.mem_cons, List.mem_singleton, List.not_mem_nil, or_false] at hr
      rcases hr with e | e | e <;> subst e <;> decide!)
    (by norm_num)
  refine ⟨h.2.2.2.2.2.2.2.1, h.2.2.1.2.2.2.2.2.2.2.2.2.1.trans rfl, ?_⟩
  rw [h.2.2.2.2.2.2.2.2.2.2.2.2.2.2.2.1]
  decide!

/-! ## What a call leaves of the other sessions and of its own -/

theorem slotKept_refl (s : INTERNAL_LIBSLAS_STRUCT) : SlotKept s s :=
  ⟨fun h => h, rfl, rfl, rfl, fun h => h⟩

theorem local_fail (st : LasState) (hnd : Nat) (code : Int) : Local st (st.fail code).2 hnd :=
  ⟨rfl, fun _ _ => rfl, slotKept_refl _⟩

theorem local_setSlot (st : LasState) (hnd : Nat) (code : Int)
    (disk : List Nat → Option (List Nat)) (s : INTERNAL_LIBSLAS_STRUCT)
    (h : SlotKept (st.las hnd) s) :
    Local st (({ st with disk := disk }.setSlot hnd s).fail code).2 hnd := by
  refine ⟨rfl, ?_, ?_⟩
  · intro g hg
    simp [LasState.fail, LasState.setSlot, hg]
  · simpa [LasState.fail, LasState.setSlot] using h

theorem local_setSlot_same_disk (st : LasState) (hnd : Nat) (code : Int)
    (s : INTERNAL_LIBSLAS_STRUCT) (h : SlotKept (st.las hnd) s) :
    Local st ((st.setSlot hnd s).fail code).2 hnd :=
  local_setSlot st hnd code st.disk s h

theorem read_point_local (host : Host) (st : LasState) (hnd : Nat) (recnum : Int)
    (rec0 : LIBSLAS_POINT_DATA) :
    Local st (libslas_read_point_data host st hnd recnum rec0).2.1 hnd := by
  unfold libslas_read_point_data
  simp only []
  repeat' split
  all_goals first
    | exact local_fail _ _ _
    | (apply local_setSlot_same_disk; simp [SlotKept, LasState.slot])

theorem update_point_local (host : Host) (st : LasState) (hnd : Nat) (recnum : Int)
    (R : LIBSLAS_POINT_DATA) :
    Local st (libslas_update_point_data host st hnd recnum R).2 hnd := by
  unfold libslas_update_point_data
  simp only []
  repeat' split
  all_goals first
    | exact local_fail _ _ _
    | (apply local_setSlot_same_disk; simp [SlotKept, LasState.slot])

theorem append_point_local (host : Host) (st : LasState) (hnd : Nat)
    (R : LIBSLAS_POINT_DATA) :
    Local st (libslas_append_point_data host st hnd R).2.1 hnd := by
  unfold libslas_append_point_data
  simp only []
  repeat' split
  all_goals first
    | exact local_fail _ _ _
    | (apply local_setSlot_same_disk; simp [SlotKept, LasState.slot])

theorem append_vlr_local (host : Host) (st : LasState) (hnd : Nat)
    (vh : LIBSLAS_VLR_HEADER) (data : List Nat) :
    Local st (libslas_append_vlr_record host st hnd vh data).2.1 hnd := by
  unfold libslas_append_vlr_record
  simp only []
  repeat' split
  all_goals first
    | exact local_fail _ _ _
    | (apply local_setSlot_same_disk; simp [SlotKept, LasState.slot])

theorem read_vlr_header_local (host : Host) (st : LasState) (hnd : Nat) (recnum : Int)
    (vh : LIBSLAS_VLR_HEADER) :
    Local st (libslas_read_vlr_header host st hnd recnum vh).2.1 hnd := by
  unfold libslas_read_vlr_header
  simp only []
  repeat' split
  all_goals first
    | exact local_fail _ _ _
    | (apply local_setSlot_same_disk; simp [SlotKept, LasState.slot])

theorem read_vlr_data_local (host : Host) (st : LasState) (hnd : Nat) (recnum : Int)
    (data : List Nat) :
    Local st (libslas_read_vlr_data host st hnd recnum data).2.1 hnd := by
  unfold libslas_read_vlr_data
  simp only []
  repeat' split
  all_goals first
    | exact local_fail _ _ _
    | (apply local_setSlot_same_disk; simp [SlotKept, LasState.slot])

/-! ## The search for a free handle -/

theorem find_range_spec (p : Nat → Bool) (n : Nat) :
    (∃ i, (List.range n).find? p = some i ∧ i < n ∧ p i = true ∧ ∀ j < i, p j = false)
    ∨ ((List.range n).find? p = none ∧ ∀ j < n, p j = false) := by
  induction n with
  | zero => exact Or.inr ⟨rfl, fun j hj => absurd hj (Nat.not_lt_zero j)⟩
  | succ n ih =>
    rw [List.range_succ, List.find?_append]
    rcases ih with ⟨i, h1, h2, h3, h4⟩ | ⟨h1, h2⟩
    · exact Or.inl ⟨i, by rw [h1]; rfl, by omega, h3, h4⟩
    · rw [h1]
      cases hp : p n
      · refine Or.inr ⟨by simp [hp], ?_⟩
        intro j hj
        rcases Nat.lt_succ_iff_lt_or_eq.mp hj with h | h
        · exact h2 j h
        · rw [h]; exact hp
      · exact Or.inl ⟨n, by simp [hp], by omega, hp, h2⟩

/-- The handle found is LIBSLAS_MAX_FILES when every slot has an open stream,
and otherwise the lowest slot without one. -/
theorem find_handle_spec (las : Nat → INTERNAL_LIBSLAS_STRUCT) :
    (find_handle las < LIBSLAS_MAX_FILES ∧ (las (find_handle las)).fp = none
      ∧ ∀ j < find_handle las, (las j).fp ≠ none)
    ∨ (find_handle las = LIBSLAS_MAX_FILES ∧ ∀ j < LIBSLAS_MAX_FILES, (las j).fp ≠ none) := by
  unfold find_handle
  rcases find_range_spec (fun i => (las i).fp.isNone) LIBSLAS_MAX_FILES with
    ⟨i, h1, h2, h3, h4⟩ | ⟨h1, h2⟩
  · rw [h1]
    refine Or.inl ⟨h2, by simpa using h3, ?_⟩
    intro j hj
    have := h4 j hj
    intro e
    rw [e] at this
    simp at this
  · rw [h1]
    refine Or.inr ⟨rfl, ?_⟩
    intro j hj
    have := h2 j hj
    intro e
    rw [e] at this
    simp at this

theorem startup_las_fp (st : LasState) (hf : st.first = false) : startup st = st := by
  unfold startup
  rw [hf]
  rfl

theorem create_too_many (host : Host) (st : LasState) (path : List Nat) (H : LIBSLAS_HEADER)
    (hfull : find_handle (startup st).las = LIBSLAS_MAX_FILES) :
    libslas_create_las_file host st path H =
      (LIBSLAS_TOO_MANY_OPEN_FILES_ERROR,
        { startup st with libslas_error := LIBSLAS_TOO_MANY_OPEN_FILES_ERROR }, H) := by
  unfold libslas_create_las_file
  simp [hfull, LasState.fail]

theorem create_bad_extension (host : Host) (st : LasState) (path : List Nat)
    (H : LIBSLAS_HEADER) (hfree : find_handle (startup st).las ≠ LIBSLAS_MAX_FILES)
    (hext : bad_extension path = true) :
    libslas_create_las_file host st path H =
      (LIBSLAS_INVALID_FILENAME_ERROR,
        { (startup st).setSlot (find_handle (startup st).las) { zero_struct with path := path }
          with libslas_error := LIBSLAS_INVALID_FILENAME_ERROR }, H) := by
  unfold libslas_create_las_file
  simp [hfree, hext, LasState.fail]

theorem create_bad_format (host : Host) (st : LasState) (path : List Nat)
    (H : LIBSLAS_HEADER) (hfree : find_handle (startup st).las ≠ LIBSLAS_MAX_FILES)
    (hext : bad_extension path = false)
    (hfmt : format_record_length H.point_data_format_id = none) :
    libslas_create_las_file host st path H =
      (LIBSLAS_INVALID_POINT_FORMAT_ID_ERROR,
        { (startup st).setSlot (find_handle (startup st).las) { zero_struct with path := path }
          with libslas_error := LIBSLAS_INVALID_POINT_FORMAT_ID_ERROR },
        standard_fields H) := by
  have hfmt2 : format_record_length (standard_fields H).point_data_format_id = none := hfmt
  unfold libslas_create_las_file
  simp [hfree, hext, hfmt2, LasState.fail]

theorem create_bad_encoding (host : Host) (st : LasState) (path : List Nat)
    (H : LIBSLAS_HEADER) (len : Nat)
    (hfree : find_handle (startup st).las ≠ LIBSLAS_MAX_FILES)
    (hext : bad_extension path = false)
    (hfmt : format_record_length H.point_data_format_id = some len)
    (hge : 1 < H.global_encoding) :
    libslas_create_las_file host st path H =
      (LIBSLAS_INVALID_GLOBAL_ENCODING_ERROR,
        { (startup st).setSlot (find_handle (startup st).las) { zero_struct with path := path }
          with libslas_error := LIBSLAS_INVALID_GLOBAL_ENCODING_ERROR },
        created_header H len) := by
  have hfmt2 : format_record_length (standard_fields H).point_data_format_id = some len := hfmt
  have hge2 : (standard_fields H).global_encoding > 1 := hge
  unfold libslas_create_las_file
  simp [hfree, hext, hfmt2, hge2, LasState.fail, created_header]

/-- The four ways libslas_create_las_file goes, by its tests in their order:
no free slot, a bad extension, a bad point format, a bad global encoding; when
all pass it returns the handle. -/
theorem create_cases (host : Host) (st : LasState) (path : List Nat) (H : LIBSLAS_HEADER) :
    (find_handle (startup st).las = LIBSLAS_MAX_FILES
      ∧ (libslas_create_las_file host st path H).1 = LIBSLAS_TOO_MANY_OPEN_FILES_ERROR)
    ∨ (find_handle (startup st).las ≠ LIBSLAS_MAX_FILES ∧ bad_extension path = true
      ∧ (libslas_create_las_file host st path H).1 = LIBSLAS_INVALID_FILENAME_ERROR)
    ∨ (find_handle (startup st).las ≠ LIBSLAS_MAX_FILES ∧ bad_extension path = false
      ∧ format_record_length H.point_data_format_id = none
      ∧ (libslas_create_las_file host st path H).1 = LIBSLAS_INVALID_POINT_FORMAT_ID_ERROR)
    ∨ (find_handle (startup st).las ≠ LIBSLAS_MAX_FILES ∧ bad_extension path = false
      ∧ format_record_length H.point_data_format_id ≠ none ∧ 1 < H.global_encoding
      ∧ (libslas_create_las_file host st path H).1 = LIBSLAS_INVALID_GLOBAL_ENCODING_ERROR)
    ∨ (find_handle (startup st).las ≠ LIBSLAS_MAX_FILES ∧ bad_extension path = false
      ∧ format_record_length H.point_data_format_id ≠ none ∧ H.global_encoding ≤ 1
      ∧ (libslas_create_las_file host st path H).1 = (find_handle (startup st).las : Int)) := by
  by_cases h1 : find_handle (startup st).las = LIBSLAS_MAX_FILES
  · exact Or.inl ⟨h1, by rw [create_too_many host st path H h1]⟩
  · cases h2 : bad_extension path
    swap
    · exact Or.inr (Or.inl ⟨h1, rfl, by rw [create_bad_extension host st path H h1 h2]⟩)
    · cases h3 : format_record_length H.point_data_format_id with
      | none =>
        exact Or.inr (Or.inr (Or.inl ⟨h1, rfl, rfl,
          by rw [create_bad_format host st path H h1 h2 h3]⟩))
      | some len =>
        by_cases h4 : H.global_encoding ≤ 1
        · exact Or.inr (Or.inr (Or.inr (Or.inr ⟨h1, rfl, by simp, h4,
            by rw [create_ok host st path H _ len rfl h1 h2 h3 h4]⟩)))
        · exact Or.inr (Or.inr (Or.inr (Or.inl ⟨h1, rfl, by simp, by omega,
            by rw [create_bad_encoding host st path H len h1 h2 h3 (by omega)]⟩)))

/-- libslas_read_header changes the session table in its own slot only, leaves
the files alone, returns the error it records, and on success leaves the
stream open. -/
theorem read_header_local (host : Host) (st : LasState) (hnd : Nat) :
    Local st (libslas_read_header host st hnd).2 hnd
    ∧ (libslas_read_header host st hnd).2.disk = st.disk
    ∧ (libslas_read_header host st hnd).2.libslas_error = (libslas_read_header host st hnd).1
    ∧ ((libslas_read_header host st hnd).1 = LIBSLAS_SUCCESS
        ∨ (libslas_read_header host st hnd).1 = LIBSLAS_HEADER_READ_FSEEK_ERROR
        ∨ (libslas_read_header host st hnd).1 = LIBSLAS_HEADER_READ_ERROR
        ∨ (libslas_read_header host st hnd).1 = LIBSLAS_NOT_LAS_FILE_ERROR
        ∨ (libslas_read_header host st hnd).1 = LIBSLAS_INCORRECT_VERSION_ERROR) := by
  unfold libslas_read_header
  simp only []
  repeat' split
  all_goals refine ⟨?_, ?_, ?_, ?_⟩
  all_goals first
    | exact local_fail _ _ _
    | (apply local_setSlot_same_disk; simp [SlotKept, LasState.slot])
    | rfl
    | simp [LasState.fail]

/-- The outcomes of libslas_open_las_file.  In all of them the start-up flag is
clear afterwards, the files are as before and only the slot found can differ
from the table after start-up.  By the tests in their order: no free slot; a
bad extension; another failure, which leaves the slot free; success, with the
handle returned, the stream open, created clear, the mode stored and the swap
flag that of the host. -/
theorem open_outcome (host : Host) (st : LasState) (path : List Nat) (hdr : LIBSLAS_HEADER)
    (mode : Int) :
    (libslas_open_las_file host st path hdr mode).2.1.first = false
    ∧ (libslas_open_las_file host st path hdr mode).2.1.disk = st.disk
    ∧ (∀ g, g ≠ find_handle (startup st).las →
        (libslas_open_las_file host st path hdr mode).2.1.las g = (startup st).las g)
    ∧ ((find_handle (startup st).las = LIBSLAS_MAX_FILES
        ∧ (libslas_open_las_file host st path hdr mode).1 = LIBSLAS_TOO_MANY_OPEN_FILES_ERROR
        ∧ (libslas_open_las_file host st path hdr mode).2.1.las = (startup st).las)
      ∨ (find_handle (startup st).las ≠ LIBSLAS_MAX_FILES ∧ bad_extension path = true
        ∧ (libslas_open_las_file host st path hdr mode).1 = LIBSLAS_INVALID_FILENAME_ERROR
        ∧ ((libslas_open_las_file host st path hdr mode).2.1.las
            (find_handle (startup st).las)).fp = none)
      ∨ (find_handle (startup st).las ≠ LIBSLAS_MAX_FILES ∧ bad_extension path = false
        ∧ (libslas_open_las_file host st path hdr mode).1 < 0
        ∧ (libslas_open_las_file host st path hdr mode).1 ≠ LIBSLAS_INVALID_FILENAME_ERROR
        ∧ (libslas_open_las_file host st path hdr mode).1 ≠ LIBSLAS_TOO_MANY_OPEN_FILES_ERROR
        ∧ ((libslas_open_las_file host st path hdr mode).2.1.las
            (find_handle (startup st).las)).fp = none)
      ∨ (find_handle (startup st).las ≠ LIBSLAS_MAX_FILES ∧ bad_extension path = false
        ∧ (libslas_open_las_file host st path hdr mode).1 = (find_handle (startup st).las : Int)
        ∧ (mode = LIBSLAS_UPDATE ∨ mode = LIBSLAS_READONLY)
        ∧ ((libslas_open_las_file host st path hdr mode).2.1.las
            (find_handle (startup st).las)).fp ≠ none
        ∧ ((libslas_open_las_file host st path hdr mode).2.1.las
            (find_handle (startup st).las)).created = false
        ∧ ((libslas_open_las_file host st path hdr mode).2.1.las
            (find_handle (startup st).las)).mode = mode
        ∧ ((libslas_open_las_file host st path hdr mode).2.1.las
            (find_handle (startup st).las)).swap = decide (libslas_big_endian host ≠ 0))) := by
  unfold libslas_open_las_file
  simp only []
  have hfirst := startup_first st
  have hdisk := startup_disk st
  generalize startup st = s1 at hfirst hdisk ⊢
  by_cases h1 : find_handle s1.las = LIBSLAS_MAX_FILES
  · simp [h1, LasState.fail, hfirst, hdisk, LIBSLAS_TOO_MANY_OPEN_FILES_ERROR]
  · simp only [h1, if_false]
    cases h2 : bad_extension path
    swap
    · simp only [if_true, LasState.fail, LasState.setSlot]
      refine ⟨hfirst, hdisk, ?_, Or.inr (Or.inl ⟨h1, trivial, trivial, ?_⟩)⟩
      · intro g hg
        simp [hg]
      · simp [zero_struct]
    · simp only [Bool.false_eq_true, if_false]
      have hst2 : ∀ st2 : LasState,
          st2 = (if libslas_big_endian host ≠ 0 then
              (s1.setSlot (find_handle s1.las) { zero_struct with path := path }).setSlot
                (find_handle s1.las)
                { (s1.setSlot (find_handle s1.las) { zero_struct with path := path }).slot
                    (find_handle s1.las) with swap := true }
            else s1.setSlot (find_handle s1.las) { zero_struct with path := path }) →
          st2.first = false ∧ st2.disk = st.disk
          ∧ (∀ g, g ≠ find_handle s1.las → st2.las g = s1.las g)
          ∧ (st2.las (find_handle s1.las)).fp = none
          ∧ (st2.las (find_handle s1.las)).created = false
          ∧ (st2.las (find_handle s1.las)).swap = decide (libslas_big_endian host ≠ 0) := by
        intro st2 e
        rw [e]
        refine ⟨?_, ?_, ?_, ?_, ?_, ?_⟩
        · split_ifs <;> exact hfirst
        · split_ifs <;> exact hdisk
        · intro g hg
          split_ifs <;> simp [LasState.setSlot, hg]
        · split_ifs <;> simp [LasState.setSlot, LasState.slot, zero_struct]
        · split_ifs <;> simp [LasState.setSlot, LasState.slot, zero_struct]
        · split_ifs with hb <;> simp [LasState.setSlot, LasState.slot, zero_struct, hb]
      generalize (if libslas_big_endian host ≠ 0 then
              (s1.setSlot (find_handle s1.las) { zero_struct with path := path }).setSlot
                (find_handle s1.las)
                { (s1.setSlot (find_handle s1.las) { zero_struct with path := path }).slot
                    (find_handle s1.las) with swap := true }
            else s1.setSlot (find_handle s1.las) { zero_struct with path := path }) = st2 at hst2 ⊢
      obtain ⟨f2, d2, g2, p2, c2, w2⟩ := hst2 st2 rfl
      by_cases h3 : mode ≠ LIBSLAS_UPDATE ∧ mode ≠ LIBSLAS_READONLY
      · rw [if_pos h3]
        refine ⟨f2, d2, g2, Or.inr (Or.inr (Or.inl ⟨h1, trivial, ?_, ?_, ?_, p2⟩))⟩ <;>
          simp [LasState.fail, LIBSLAS_INVALID_MODE_ERROR, LIBSLAS_INVALID_FILENAME_ERROR,
            LIBSLAS_TOO_MANY_OPEN_FILES_ERROR]
      · rw [if_neg h3]
        have hmode : mode = LIBSLAS_UPDATE ∨ mode = LIBSLAS_READONLY := by
          by_cases hm : mode = LIBSLAS_UPDATE
          · exact Or.inl hm
          · by_cases hm2 : mode = LIBSLAS_READONLY
            · exact Or.inr hm2
            · exact absurd ⟨hm, hm2⟩ h3
        cases hd : st2.disk path with
        | none =>
          simp only []
          refine ⟨f2, d2, g2, Or.inr (Or.inr (Or.inl ⟨h1, trivial, ?_, ?_, ?_, p2⟩))⟩ <;>
            (split_ifs <;>
              simp [LasState.fail, LIBSLAS_OPEN_UPDATE_ERROR, LIBSLAS_OPEN_READONLY_ERROR,
                LIBSLAS_INVALID_FILENAME_ERROR, LIBSLAS_TOO_MANY_OPEN_FILES_ERROR])
        | some c =>
          simp only []
          obtain ⟨⟨l1, l2, l3⟩, rd, re, rc⟩ := read_header_local host
            (st2.setSlot (find_handle s1.las)
              { st2.slot (find_handle s1.las) with
                fp := some { name := path, offset := 0, writable := decide (mode = LIBSLAS_UPDATE) }
                mode := mode })
            (find_handle s1.las)
          generalize libslas_read_header host
            (st2.setSlot (find_handle s1.las)
              { st2.slot (find_handle s1.las) with
                fp := some { name := path, offset := 0, writable := decide (mode = LIBSLAS_UPDATE) }
                mode := mode })
            (find_handle s1.las) = r at l1 l2 l3 rd re rc ⊢
          have l2b : ∀ g, g ≠ find_handle s1.las → r.2.las g = s1.las g := by
            intro g hg
            rw [l2 g hg]
            simp [LasState.setSlot, hg, g2 g hg]
          obtain ⟨k1, k2, k3, k4, k5⟩ := l3
          simp only [LasState.setSlot, LasState.slot, if_true] at k1 k2 k3 k4 k5
          by_cases hr : r.1 ≠ 0
          · rw [if_pos hr]
            refine ⟨l1.trans f2, rd.trans d2, ?_, Or.inr (Or.inr (Or.inl ⟨h1, trivial, ?_, ?_, ?_, ?_⟩))⟩
            · intro g hg
              simp [LasState.setSlot, hg, l2b g hg]
            · show r.2.libslas_error < 0
              rw [re]
              rcases rc with e | e | e | e | e <;> rw [e] at hr ⊢ <;>
                simp [LIBSLAS_SUCCESS, LIBSLAS_HEADER_READ_FSEEK_ERROR, LIBSLAS_HEADER_READ_ERROR,
                  LIBSLAS_NOT_LAS_FILE_ERROR, LIBSLAS_INCORRECT_VERSION_ERROR] at hr ⊢
            · show r.2.libslas_error ≠ _
              rw [re]
              rcases rc with e | e | e | e | e <;> rw [e] <;> decide
            · show r.2.libslas_error ≠ _
              rw [re]
              rcases rc with e | e | e | e | e <;> rw [e] <;> decide
            · simp [LasState.setSlot, LasState.slot]
          · rw [if_neg hr]
            refine ⟨l1.trans f2, rd.trans d2, ?_, Or.inr (Or.inr (Or.inr ⟨h1, trivial, rfl, hmode, ?_, ?_,
              ?_, ?_⟩))⟩
            · intro g hg
              simp [LasState.setSlot, hg, l2b g hg]
            · simpa [LasState.setSlot, LasState.slot] using k1
            · simp [LasState.setSlot, LasState.slot]
            · simpa [LasState.setSlot, LasState.slot] using k3
            · simp only [LasState.setSlot, LasState.slot, if_true]
              rw [k4]
              exact w2

/-- The outcomes of libslas_create_las_file on the session table and the files:
the start-up flag is clear afterwards and only the slot found can differ from
the table after start-up; a failure leaves the files as they were and the slot
found free, a success leaves it with an open stream. -/
theorem create_frame (host : Host) (st : LasState) (path : List Nat) (H : LIBSLAS_HEADER) :
    (libslas_create_las_file host st path H).2.1.first = false
    ∧ (∀ g, g ≠ find_handle (startup st).las →
        (libslas_create_las_file host st path H).2.1.las g = (startup st).las g)
    ∧ ((libslas_create_las_file host st path H).1 < 0 →
        (libslas_create_las_file host st path H).2.1.disk = st.disk
        ∧ (find_handle (startup st).las = LIBSLAS_MAX_FILES →
            (libslas_create_las_file host st path H).2.1.las = (startup st).las)
        ∧ (find_handle (startup st).las ≠ LIBSLAS_MAX_FILES →
            ((libslas_create_las_file host st path H).2.1.las
              (find_handle (startup st).las)).fp = none))
    ∧ (0 ≤ (libslas_create_las_file host st path H).1 →
        ((libslas_create_las_file host st path H).2.1.las
          (find_handle (startup st).las)).fp ≠ none) := by
  have hfirst := startup_first st
  have hdisk := startup_disk st
  by_cases h1 : find_handle (startup st).las = LIBSLAS_MAX_FILES
  · rw [create_too_many host st path H h1]
    simp [hfirst, hdisk, h1, LIBSLAS_TOO_MANY_OPEN_FILES_ERROR]
  · cases h2 : bad_extension path
    swap
    · rw [create_bad_extension host st path H h1 h2]
      simp [hfirst, hdisk, h1, LIBSLAS_INVALID_FILENAME_ERROR, LasState.setSlot, zero_struct]
      intro g hg
      simp [hg]
    · cases h3 : format_record_length H.point_data_format_id with
      | none =>
        rw [create_bad_format host st path H h1 h2 h3]
        simp [hfirst, hdisk, h1, LIBSLAS_INVALID_POINT_FORMAT_ID_ERROR, LasState.setSlot,
          zero_struct]
        intro g hg
        simp [hg]
      | some len =>
        by_cases h4 : H.global_encoding ≤ 1
        · rw [create_ok host st path H _ len rfl h1 h2 h3 h4]
          simp [h1]
          intro g hg
          simp [hg]
        · rw [create_bad_encoding host st path H len h1 h2 h3 (by omega)]
          simp [hfirst, hdisk, h1, LIBSLAS_INVALID_GLOBAL_ENCODING_ERROR, LasState.setSlot,
            zero_struct]
          intro g hg
          simp [hg]

theorem write_header_local (host : Host) (st : LasState) (hnd : Nat) :
    Local st (libslas_write_header host st hnd).2 hnd := by
  unfold libslas_write_header
  simp only []
  repeat' split
  all_goals first
    | exact local_fail _ _ _
    | (apply local_setSlot_same_disk; simp [SlotKept, LasState.slot])

theorem close_frame (host : Host) (st : LasState) (hnd : Nat) :
    (libslas_close_las_file host st hnd).2.first = st.first
    ∧ ∀ g, g ≠ hnd → (libslas_close_las_file host st hnd).2.las g = st.las g := by
  obtain ⟨w1, w2, _⟩ := write_header_local host st hnd
  unfold libslas_close_las_file
  simp only []
  split_ifs
  · exact ⟨rfl, fun _ _ => rfl⟩
  · exact ⟨w1, w2⟩
  · refine ⟨w1, ?_⟩
    intro g hg
    simp [LasState.fail, LasState.setSlot, hg, w2 g hg]
  · refine ⟨rfl, ?_⟩
    intro g hg
    simp [LasState.fail, LasState.setSlot, hg]

/-- A successful libslas_open_las_file returns the handle found, below
LIBSLAS_MAX_FILES, and leaves its slot occupied, not created, with the mode
asked for, which is one of the two modes. -/
theorem open_success (host : Host) (st : LasState) (path : List Nat) (hdr : LIBSLAS_HEADER)
    (mode : Int) (h : 0 ≤ (libslas_open_las_file host st path hdr mode).1) :
    (libslas_open_las_file host st path hdr mode).1.toNat = find_handle (startup st).las
    ∧ (libslas_open_las_file host st path hdr mode).1.toNat < LIBSLAS_MAX_FILES
    ∧ Occupied (libslas_open_las_file host st path hdr mode).2.1
        (libslas_open_las_file host st path hdr mode).1.toNat
    ∧ ((libslas_open_las_file host st path hdr mode).2.1.slot
        (libslas_open_las_file host st path hdr mode).1.toNat).created = false
    ∧ ((libslas_open_las_file host st path hdr mode).2.1.slot
        (libslas_open_las_file host st path hdr mode).1.toNat).mode = mode
    ∧ (mode = LIBSLAS_UPDATE ∨ mode = LIBSLAS_READONLY)
    ∧ bad_extension path = false := by
  obtain ⟨f1, _, _, f3⟩ := open_outcome host st path hdr mode
  rcases f3 with ⟨_, e, _⟩ | ⟨_, _, e, _⟩ | ⟨_, _, e, _⟩ | ⟨h1, h2, e, hm, k1, k2, k3, _⟩
  · rw [e] at h
    exact absurd h (by decide)
  · rw [e] at h
    exact absurd h (by decide)
  · omega
  · have hlt : find_handle (startup st).las < LIBSLAS_MAX_FILES :=
      Nat.lt_of_le_of_ne (find_handle_le _) h1
    rw [e]
    simp only [Int.toNat_ofNat]
    exact ⟨trivial, hlt, ⟨f1, k1⟩, k2, k3, hm, h2⟩

/-- The values libslas_update_point_data can return. -/
theorem update_codes (host : Host) (st : LasState) (hnd : Nat) (recnum : Int)
    (R : LIBSLAS_POINT_DATA) :
    (libslas_update_point_data host st hnd recnum R).1 = LIBSLAS_NOT_OPEN_FOR_UPDATE_ERROR
        ∧ (st.slot hnd).mode ≠ LIBSLAS_UPDATE
        ∧ (libslas_update_point_data host st hnd recnum R).2
            = { st with libslas_error := LIBSLAS_NOT_OPEN_FOR_UPDATE_ERROR }
    ∨ (st.slot hnd).mode = LIBSLAS_UPDATE
      ∧ ((libslas_update_point_data host st hnd recnum R).1 = LIBSLAS_INVALID_RECORD_NUMBER_ERROR
          ∧ bad_recnum (st.slot hnd).header recnum = true
          ∧ (libslas_update_point_data host st hnd recnum R).2
              = { st with libslas_error := LIBSLAS_INVALID_RECORD_NUMBER_ERROR }
        ∨ bad_recnum (st.slot hnd).header recnum = false
          ∧ ((libslas_update_point_data host st hnd recnum R).1 = LIBSLAS_UPDATE_FSEEK_ERROR
            ∨ (libslas_update_point_data host st hnd recnum R).1 = LIBSLAS_UPDATE_READ_ERROR
            ∨ (libslas_update_point_data host st hnd recnum R).1 = LIBSLAS_WRITE_ERROR
            ∨ (libslas_update_point_data host st hnd recnum R).1 = LIBSLAS_SUCCESS)) := by
  by_cases hm : (st.slot hnd).mode = LIBSLAS_UPDATE
  · refine Or.inr ⟨hm, ?_⟩
    cases hb : bad_recnum (st.slot hnd).header recnum
    · refine Or.inr ⟨rfl, ?_⟩
      unfold libslas_update_point_data
      simp only [hm, hb, ne_eq, not_true_eq_false, if_false, Bool.false_eq_true]
      repeat' split
      all_goals simp [LasState.fail]
    · refine Or.inl ⟨?_, rfl, ?_⟩ <;>
      · unfold libslas_update_point_data
        simp [hm, hb, LasState.fail]
  · refine Or.inl ⟨?_, hm, ?_⟩ <;>
    · unfold libslas_update_point_data
      simp [hm, LasState.fail]

/-! ## C11: update needs update mode -/

set_option maxRecDepth 100000 in
/-- C14 (the code departs from the claim): a.las created with number_of_VLRs =
2, then vlr_zero (payload 1, 2, 3, 4) and vlr_one (payload 9, 8) appended, both
with success, on the little-endian host with the swap flag clear.  For index 0
libslas_read_vlr_header and libslas_read_vlr_data return the sub-header and the
payload of vlr_zero.  For index 1 both return LIBSLAS_SUCCESS, but the loop
moved pos on by the payload length only (227 + 4 = 231, inside the sub-header
of vlr_zero) and not past the 54 bytes of the sub-header (285, where vlr_one
starts): the sub-header returned has reserved 83, record id 1 and record length
2 instead of 0, 2 and 2 and not the user id of vlr_one, and the data returned
are 0, 0 instead of 9, 8. -/
theorem C14_second_vlr_not_read_back :
    (libslas_create_las_file (ieee_host false) (initial_state (fun _ => none)) las_path
      two_vlr_header).1 = 0
    ∧ (libslas_append_vlr_record (ieee_host false)
        (libslas_create_las_file (ieee_host false) (initial_state (fun _ => none)) las_path
          two_vlr_header).2.1 0 vlr_zero [1, 2, 3, 4]).1 = LIBSLAS_SUCCESS
    ∧ (libslas_append_vlr_record (ieee_host false)
        (libslas_append_vlr_record (ieee_host false)
          (libslas_create_las_file (ieee_host false) (initial_state (fun _ => none)) las_path
            two_vlr_header).2.1 0 vlr_zero [1, 2, 3, 4]).2.1 0 vlr_one [9, 8]).1
        = LIBSLAS_SUCCESS
    ∧ (two_vlr_session.slot 0).swap = false
    ∧ (two_vlr_session.slot 0).header.number_of_VLRs = 2
    ∧ rd ((two_vlr_session.disk las_path).getD []) 285 2 = [0, 0]
    ∧ rd ((two_vlr_session.disk las_path).getD []) 287 2 = [88, 89]
    ∧ rd ((two_vlr_session.disk las_path).getD []) 339 2 = [9, 8]
    ∧ (libslas_read_vlr_header (ieee_host false) two_vlr_session 0 0 local_vlr_header).1
        = LIBSLAS_SUCCESS
    ∧ (libslas_read_vlr_header (ieee_host false) two_vlr_session 0 0
        local_vlr_header).2.2.reserved = 0
    ∧ (libslas_read_vlr_header (ieee_host false) two_vlr_session 0 0
        local_vlr_header).2.2.user_id = vlr_zero.user_id
    ∧ (libslas_read_vlr_header (ieee_host false) two_vlr_session 0 0
        local_vlr_header).2.2.record_id = vlr_zero.record_id
    ∧ (libslas_read_vlr_header (ieee_host false) two_vlr_session 0 0
        local_vlr_header).2.2.record_length_after_header = vlr_zero.record_length_after_header
    ∧ (libslas_read_vlr_header (ieee_host false) two_vlr_session 0 0
        local_vlr_header).2.2.description = vlr_zero.description
    ∧ (libslas_read_vlr_data (ieee_host false) two_vlr_session 0 0 [0, 0, 0, 0]).1
        = LIBSLAS_SUCCESS
    ∧ (libslas_read_vlr_data (ieee_host false) two_vlr_session 0 0 [0, 0, 0, 0]).2.2
        = [1, 2, 3, 4]
    ∧ (libslas_read_vlr_header (ieee_host false) two_vlr_session 0 1 local_vlr_header).1
        = LIBSLAS_SUCCESS
    ∧ (libslas_read_vlr_header (ieee_host false) two_vlr_session 0 1
        local_vlr_header).2.2.reserved = 83
    ∧ (libslas_read_vlr_header (ieee_host false) two_vlr_session 0 1
        local_vlr_header).2.2.record_id = 1
    ∧ rd (libslas_read_vlr_header (ieee_host false) two_vlr_session 0 1
        local_vlr_header).2.2.user_id 0 2 = [0, 0]
    ∧ vlr_one.record_id = 2
    ∧ rd vlr_one.user_id 0 2 = [88, 89]
    ∧ (libslas_read_vlr_data (ieee_host false) two_vlr_session 0 1 [0, 0]).1
        = LIBSLAS_SUCCESS
    ∧ (libslas_read_vlr_data (ieee_host false) two_vlr_session 0 1 [0, 0]).2.2 = [0, 0] := by
  decide!

/-! ## C15: the record number check -/

/-- The bounds test of libslas_read_point_data and libslas_update_point_data,
for a record number of type int32_t. -/
theorem bad_recnum_iff (h : LIBSLAS_HEADER) (recnum : Int) (hr : recnum < 2 ^ 31) :
    bad_recnum h recnum = true ↔ (recnum < 0 ∨ (h.number_of_point_records : Int) ≤ recnum) := by
  unfold bad_recnum to_unsigned
  simp only [Bool.or_eq_true, decide_eq_true_eq, ge_iff_le]
  constructor
  · rintro (h1 | h1)
    · by_cases hn : recnum < 0
      · exact Or.inl hn
      · right
        have e : recnum % 2 ^ 32 = recnum := Int.emod_eq_of_lt (by omega) (by omega)
        rw [e] at h1
        omega
    · exact Or.inl h1
  · rintro (h1 | h1)
    · exact Or.inr h1
    · left
      have h0 : 0 ≤ recnum := le_trans (Int.natCast_nonneg _) h1
      have e : recnum % 2 ^ 32 = recnum := Int.emod_eq_of_lt h0 (by omega)
      rw [e]
      omega

/-- The values libslas_read_point_data can return. -/
theorem read_codes (host : Host) (st : LasState) (hnd : Nat) (recnum : Int)
    (rec0 : LIBSLAS_POINT_DATA) :
    bad_recnum (st.slot hnd).header recnum = true
      ∧ libslas_read_point_data host st hnd recnum rec0
          = (LIBSLAS_INVALID_RECORD_NUMBER_ERROR,
              { st with libslas_error := LIBSLAS_INVALID_RECORD_NUMBER_ERROR }, rec0)
    ∨ bad_recnum (st.slot hnd).header recnum = false
      ∧ ((libslas_read_point_data host st hnd recnum rec0).1 = LIBSLAS_READ_FSEEK_ERROR
        ∨ (libslas_read_point_data host st hnd recnum rec0).1 = LIBSLAS_READ_ERROR
        ∨ (libslas_read_point_data host st hnd recnum rec0).1 = LIBSLAS_SUCCESS) := by
  cases hb : bad_recnum (st.slot hnd).header recnum
  · refine Or.inr ⟨rfl, ?_⟩
    unfold libslas_read_point_data
    simp only [hb, Bool.false_eq_true, if_false]
    repeat' split
    all_goals simp [LasState.fail]
  · refine Or.inl ⟨rfl, ?_⟩
    unfold libslas_read_point_data
    simp [hb, LasState.fail]

/-- C15: for a record number of type int32_t, libslas_read_point_data returns
LIBSLAS_INVALID_RECORD_NUMBER_ERROR if and only if recnum < 0 or recnum >=
number_of_point_records, and so does libslas_update_point_data on a session in
update mode; recnum = number_of_point_records is rejected by both and recnum =
number_of_point_records - 1 is not.  In the error case the state after the call
is the state before it with the error recorded (files, streams and the cached
position are unchanged) and libslas_read_point_data leaves the caller's record
as it was. -/
theorem C15_record_number_check (host : Host) (st : LasState) (hnd : Nat) (recnum : Int)
    (R rec0 : LIBSLAS_POINT_DATA) (hr : recnum < 2 ^ 31) :
    ((libslas_read_point_data host st hnd recnum rec0).1 = LIBSLAS_INVALID_RECORD_NUMBER_ERROR
      ↔ (recnum < 0 ∨ ((st.slot hnd).header.number_of_point_records : Int) ≤ recnum))
    ∧ ((st.slot hnd).mode = LIBSLAS_UPDATE →
        ((libslas_update_point_data host st hnd recnum R).1
            = LIBSLAS_INVALID_RECORD_NUMBER_ERROR
          ↔ (recnum < 0 ∨ ((st.slot hnd).header.number_of_point_records : Int) ≤ recnum)))
    ∧ ((recnum < 0 ∨ ((st.slot hnd).header.number_of_point_records : Int) ≤ recnum) →
        libslas_read_point_data host st hnd recnum rec0
          = (LIBSLAS_INVALID_RECORD_NUMBER_ERROR,
              { st with libslas_error := LIBSLAS_INVALID_RECORD_NUMBER_ERROR }, rec0)
        ∧ ((st.slot hnd).mode = LIBSLAS_UPDATE →
            libslas_update_point_data host st hnd recnum R
              = (LIBSLAS_INVALID_RECORD_NUMBER_ERROR,
                  { st with libslas_error := LIBSLAS_INVALID_RECORD_NUMBER_ERROR })))
    ∧ (recnum = (st.slot hnd).header.number_of_point_records →
        (libslas_read_point_data host st hnd recnum rec0).1
          = LIBSLAS_INVALID_RECORD_NUMBER_ERROR)
    ∧ (0 < (st.slot hnd).header.number_of_point_records →
        recnum = ((st.slot hnd).header.number_of_point_records : Int) - 1 →
        (libslas_read_point_data host st hnd recnum rec0).1
          ≠ LIBSLAS_INVALID_RECORD_NUMBER_ERROR) := by
  have hi := bad_recnum_iff (st.slot hnd).header recnum hr
  have hread : ((libslas_read_point_data host st hnd recnum rec0).1
      = LIBSLAS_INVALID_RECORD_NUMBER_ERROR
      ↔ (recnum < 0 ∨ ((st.slot hnd).header.number_of_point_records : Int) ≤ recnum)) := by
    rw [← hi]
    rcases read_codes host st hnd recnum rec0 with ⟨hb, e⟩ | ⟨hb, e | e | e⟩
    · rw [e, hb]
      simp
    all_goals
      rw [e, hb]
      decide
  have hupd : (st.slot hnd).mode = LIBSLAS_UPDATE →
      ((libslas_update_point_data host st hnd recnum R).1
          = LIBSLAS_INVALID_RECORD_NUMBER_ERROR
        ↔ (recnum < 0 ∨ ((st.slot hnd).header.number_of_point_records : Int) ≤ recnum)) := by
    intro hm
    rw [← hi]
    rcases update_codes host st hnd recnum R with ⟨_, h, _⟩ | ⟨_, ⟨e, hb, _⟩ | ⟨hb, e | e | e | e⟩⟩
    · exact absurd hm h
    · rw [e, hb]
      simp
    all_goals
      rw [e, hb]
      decide
  refine ⟨hread, hupd, ?_, ?_, ?_⟩
  · intro hbad
    have hb := hi.mpr hbad
    constructor
    · rcases read_codes host st hnd recnum rec0 with ⟨_, e⟩ | ⟨hb2, _⟩
      · exact e
      · rw [hb] at hb2
        exact absurd hb2 (by decide)
    · intro hm
      rcases update_codes host st hnd recnum R with ⟨_, h, _⟩ | ⟨_, ⟨e, _, s⟩ | ⟨hb2, _⟩⟩
      · exact absurd hm h
      · exact Prod.ext e s
      · rw [hb] at hb2
        exact absurd hb2 (by decide)
  · intro e
    exact hread.mpr (Or.inr (by omega))
  · intro hpos e hbad
    have := hread.mp hbad
    omega

set_option maxRecDepth 100000 in
/-- C15 on the file of one_point_file opened read-only (one record): record
number 1 is rejected, and the session and the caller's record are as before. -/
theorem C15_record_number_check_witness :
    (1 : Int) < 2 ^ 31
    ∧ (one_point_reopened.2.1.slot 0).header.number_of_point_records = 1
    ∧ (libslas_read_point_data (ieee_host false) one_point_reopened.2.1 0 1 sample_point).1
        = LIBSLAS_INVALID_RECORD_NUMBER_ERROR
    ∧ (libslas_read_point_data (ieee_host false) one_point_reopened.2.1 0 1 sample_point).2.2
        = sample_point :=
  ⟨by norm_num, by decide!,
    congrArg Prod.fst ((C15_record_number_check (ieee_host false) one_point_reopened.2.1 0 1
      new_marks sample_point (by norm_num)).2.2.1 (Or.inr (by decide!))).1,
    congrArg (fun r => r.2.2) ((C15_record_number_check (ieee_host false)
      one_point_reopened.2.1 0 1 new_marks sample_point (by norm_num)).2.2.1
      (Or.inr (by decide!))).1⟩

/-! ## C16: the session table -/

/-- The session table with each path kept whole, as it is for a path that the
member path holds (fewer than 1024 characters): libslas_create_las_file and
libslas_open_las_file return LIBSLAS_TOO_MANY_OPEN_FILES_ERROR if and only if every one of the 64 slots has
an open stream when the search for a handle runs (the table after the start-up
pass, which is the table itself once a first create or open has run); the test
comes before every other validation, so this holds for every path, header and
mode.  A successful call returns the lowest free slot h, with h < 64, leaves
that slot with an open stream and every other slot as it was. -/
theorem session_table_capacity (host : Host) (st : LasState) (path : List Nat)
    (H hdr : LIBSLAS_HEADER) (mode : Int) :
    ((libslas_create_las_file host st path H).1 = LIBSLAS_TOO_MANY_OPEN_FILES_ERROR
      ↔ ∀ i < LIBSLAS_MAX_FILES, ((startup st).las i).fp ≠ none)
    ∧ ((libslas_open_las_file host st path hdr mode).1 = LIBSLAS_TOO_MANY_OPEN_FILES_ERROR
      ↔ ∀ i < LIBSLAS_MAX_FILES, ((startup st).las i).fp ≠ none)
    ∧ (0 ≤ (libslas_create_las_file host st path H).1 →
        ∃ h, h < LIBSLAS_MAX_FILES ∧ (libslas_create_las_file host st path H).1 = (h : Int)
          ∧ ((startup st).las h).fp = none ∧ (∀ j < h, ((startup st).las j).fp ≠ none)
          ∧ ((libslas_create_las_file host st path H).2.1.las h).fp ≠ none
          ∧ ∀ g, g ≠ h → (libslas_create_las_file host st path H).2.1.las g = (startup st).las g)
    ∧ (0 ≤ (libslas_open_las_file host st path hdr mode).1 →
        ∃ h, h < LIBSLAS_MAX_FILES ∧ (libslas_open_las_file host st path hdr mode).1 = (h : Int)
          ∧ ((startup st).las h).fp = none ∧ (∀ j < h, ((startup st).las j).fp ≠ none)
          ∧ ((libslas_open_las_file host st path hdr mode).2.1.las h).fp ≠ none
          ∧ ∀ g, g ≠ h →
              (libslas_open_las_file host st path hdr mode).2.1.las g = (startup st).las g)
    ∧ (st.first = false → startup st = st) := by
  have hfull : find_handle (startup st).las = LIBSLAS_MAX_FILES
      ↔ ∀ i < LIBSLAS_MAX_FILES, ((startup st).las i).fp ≠ none := by
    constructor
    · intro e
      rcases find_handle_spec (startup st).las with ⟨h1, _⟩ | ⟨_, h2⟩
      · omega
      · exact h2
    · intro hall
      rcases find_handle_spec (startup st).las with ⟨h1, h2, _⟩ | ⟨h1, _⟩
      · exact absurd h2 (hall _ h1)
      · exact h1
  have hnn : ∀ n : Nat, (n : Int) ≠ LIBSLAS_TOO_MANY_OPEN_FILES_ERROR := by
    intro n
    unfold LIBSLAS_TOO_MANY_OPEN_FILES_ERROR
    omega
  obtain ⟨c1, c2, _, c4⟩ := create_frame host st path H
  obtain ⟨_, _, o2, o3⟩ := open_outcome host st path hdr mode
  refine ⟨?_, ?_, ?_, ?_, startup_las_fp st⟩
  · rw [← hfull]
    rcases create_cases host st path H with ⟨h, e⟩ | ⟨h, _, e⟩ | ⟨h, _, _, e⟩ | ⟨h, _, _, _, e⟩
      | ⟨h, _, _, _, e⟩
    · simp [h, e]
    all_goals
      rw [e]
      simp [h, hnn, LIBSLAS_INVALID_FILENAME_ERROR, LIBSLAS_INVALID_POINT_FORMAT_ID_ERROR,
        LIBSLAS_INVALID_GLOBAL_ENCODING_ERROR, LIBSLAS_TOO_MANY_OPEN_FILES_ERROR]
  · rw [← hfull]
    rcases o3 with ⟨h, e, _⟩ | ⟨h, _, e, _⟩ | ⟨h, _, _, _, e, _⟩ | ⟨h, _, e, _⟩
    · simp [h, e]
    · rw [e]
      simp [h, LIBSLAS_INVALID_FILENAME_ERROR, LIBSLAS_TOO_MANY_OPEN_FILES_ERROR]
    · simp [h, e]
    · rw [e]
      simp [h, hnn]
  · intro hs
    rcases create_cases host st path H with ⟨_, e⟩ | ⟨_, _, e⟩ | ⟨_, _, _, e⟩ | ⟨_, _, _, _, e⟩
      | ⟨h, _, _, _, e⟩
    · rw [e] at hs
      exact absurd hs (by decide)
    · rw [e] at hs
      exact absurd hs (by decide)
    · rw [e] at hs
      exact absurd hs (by decide)
    · rw [e] at hs
      exact absurd hs (by decide)
    · rcases find_handle_spec (startup st).las with ⟨h1, h2, h3⟩ | ⟨h1, _⟩
      · exact ⟨_, h1, e, h2, h3, c4 hs, c2⟩
      · exact absurd h1 h
  · intro hs
    rcases o3 with ⟨_, e, _⟩ | ⟨_, _, e, _⟩ | ⟨_, _, e, _⟩ | ⟨h, _, e, _, k1, _⟩
    · rw [e] at hs
      exact absurd hs (by decide)
    · rw [e] at hs
      exact absurd hs (by decide)
    · omega
    · rcases find_handle_spec (startup st).las with ⟨h1, h2, h3⟩ | ⟨h1, _⟩
      · exact ⟨_, h1, e, h2, h3, k1, o2⟩
      · exact absurd h1 h

/-- On a table with 64 sessions open a 65th create is refused, whatever the
path and the header. -/
theorem session_table_capacity_full_table :
    (libslas_create_las_file (ieee_host false) full_table [120] zero_header).1
      = LIBSLAS_TOO_MANY_OPEN_FILES_ERROR
    ∧ (libslas_open_las_file (ieee_host false) full_table las_path zero_header
        LIBSLAS_READONLY).1 = LIBSLAS_TOO_MANY_OPEN_FILES_ERROR :=
  ⟨(session_table_capacity (ieee_host false) full_table [120] zero_header zero_header
      LIBSLAS_READONLY).1.mpr (by intro i _; simp [startup, full_table]),
    (session_table_capacity (ieee_host false) full_table las_path zero_header zero_header
      LIBSLAS_READONLY).2.1.mpr (by intro i _; simp [startup, full_table])⟩

/-! ## C17: close is idempotent -/

/-- What libslas_close_las_file returns is the error it records; a successful
close leaves the slot free, and a close of an occupied slot that succeeds
leaves it zeroed. -/
theorem close_result (host : Host) (st : LasState) (hnd : Nat) :
    (libslas_close_las_file host st hnd).2.libslas_error
      = (libslas_close_las_file host st hnd).1
    ∧ ((st.slot hnd).fp = none →
        libslas_close_las_file host st hnd
          = (LIBSLAS_SUCCESS, { st with libslas_error := LIBSLAS_SUCCESS }))
    ∧ ((st.slot hnd).fp ≠ none → (libslas_close_las_file host st hnd).1 = LIBSLAS_SUCCESS →
        (libslas_close_las_file host st hnd).2.las hnd = zero_struct) := by
  have hw : (libslas_write_header host st hnd).2.libslas_error
      = (libslas_write_header host st hnd).1 := by
    unfold libslas_write_header
    simp only []
    repeat' split
    all_goals simp [LasState.fail]
  refine ⟨?_, ?_, ?_⟩
  · unfold libslas_close_las_file
    simp only []
    split_ifs <;> simp [LasState.fail]
  · intro hf
    unfold libslas_close_las_file
    simp [hf, LasState.fail]
  · intro hf hs
    have hf2 : (st.slot hnd).fp.isNone = false := by
      cases h : (st.slot hnd).fp with
      | none => exact absurd h hf
      | some f => rfl
    unfold libslas_close_las_file at hs ⊢
    simp only [hf2, Bool.false_eq_true, if_false] at hs ⊢
    split_ifs at hs ⊢ with h1 h2
    · exfalso
      simp only [] at hs h2
      rw [hw] at hs
      rw [hs] at h2
      exact absurd h2 (by decide)
    · simp [LasState.fail, LasState.setSlot]
    · simp [LasState.fail, LasState.setSlot]

theorem find_handle_lowest (las : Nat → INTERNAL_LIBSLAS_STRUCT) (hnd : Nat)
    (hlt : hnd < LIBSLAS_MAX_FILES) (hf : (las hnd).fp = none)
    (hlow : ∀ j < hnd, (las j).fp ≠ none) : find_handle las = hnd := by
  rcases find_handle_spec las with ⟨_, h2, h3⟩ | ⟨_, h2⟩
  · rcases Nat.lt_trichotomy (find_handle las) hnd with h | h | h
    · exact absurd h2 (hlow _ h)
    · exact h
    · exact absurd hf (h3 _ h)
  · exact absurd hf (h2 _ hlt)

/-- C17: libslas_close_las_file on a handle whose slot is free returns
LIBSLAS_SUCCESS and the state after it is the state before it with that result
recorded: no slot and no file changes.  After a successful close of an occupied
slot the slot is zeroed and free and every other slot is as before.  A second
close after a successful one gives the same result and the same state as the
first alone.  After a successful close, when the handle is below 64 and every
lower slot is occupied, a successful create or open returns that handle
again. -/
theorem C17_close_idempotent (host : Host) (st : LasState) (hnd : Nat) :
    ((st.slot hnd).fp = none →
      libslas_close_las_file host st hnd
        = (LIBSLAS_SUCCESS, { st with libslas_error := LIBSLAS_SUCCESS }))
    ∧ ((st.slot hnd).fp ≠ none → (libslas_close_las_file host st hnd).1 = LIBSLAS_SUCCESS →
        (libslas_close_las_file host st hnd).2.las hnd = zero_struct
        ∧ ((libslas_close_las_file host st hnd).2.las hnd).fp = none
        ∧ ∀ g, g ≠ hnd → (libslas_close_las_file host st hnd).2.las g = st.las g)
    ∧ ((libslas_close_las_file host st hnd).1 = LIBSLAS_SUCCESS →
        libslas_close_las_file host (libslas_close_las_file host st hnd).2 hnd
          = libslas_close_las_file host st hnd)
    ∧ (∀ (path : List Nat) (H hdr : LIBSLAS_HEADER) (mode : Int),
        (libslas_close_las_file host st hnd).1 = LIBSLAS_SUCCESS → st.first = false →
        hnd < LIBSLAS_MAX_FILES → (∀ j < hnd, (st.las j).fp ≠ none) →
        (0 ≤ (libslas_create_las_file host (libslas_close_las_file host st hnd).2 path H).1 →
          (libslas_create_las_file host (libslas_close_las_file host st hnd).2 path H).1
            = (hnd : Int))
        ∧ (0 ≤ (libslas_open_las_file host (libslas_close_las_file host st hnd).2 path hdr
              mode).1 →
          (libslas_open_las_file host (libslas_close_las_file host st hnd).2 path hdr mode).1
            = (hnd : Int))) := by
  obtain ⟨r1, r2, r3⟩ := close_result host st hnd
  obtain ⟨f1, f2⟩ := close_frame host st hnd
  have hfree : (libslas_close_las_file host st hnd).1 = LIBSLAS_SUCCESS →
      ((libslas_close_las_file host st hnd).2.las hnd).fp = none := by
    intro hs
    cases hf : (st.slot hnd).fp with
    | none =>
      rw [r2 hf]
      exact hf
    | some f =>
      rw [r3 (by rw [hf]; simp) hs]
      rfl
  refine ⟨r2, ?_, ?_, ?_⟩
  · intro hf hs
    exact ⟨r3 hf hs, hfree hs, f2⟩
  · intro hs
    obtain ⟨q1, q2, _⟩ := close_result host (libslas_close_las_file host st hnd).2 hnd
    rw [q2 (hfree hs)]
    apply Prod.ext
    · exact hs.symm
    · show { (libslas_close_las_file host st hnd).2 with libslas_error := LIBSLAS_SUCCESS }
        = (libslas_close_las_file host st hnd).2
      rw [hs] at r1
      generalize (libslas_close_las_file host st hnd).2 = s at r1
      cases s
      simp only [] at r1
      rw [r1]
  · intro path H hdr mode hs hfirst hlt hlow
    have hs2 : startup (libslas_close_las_file host st hnd).2
        = (libslas_close_las_file host st hnd).2 :=
      startup_las_fp _ (f1.trans hfirst)
    have hfind : find_handle (startup (libslas_close_las_file host st hnd).2).las = hnd := by
      rw [hs2]
      apply find_handle_lowest _ _ hlt (hfree hs)
      intro j hj
      rw [f2 j (by omega)]
      exact hlow j hj
    constructor
    · intro hc
      rcases create_cases host (libslas_close_las_file host st hnd).2 path H with
        ⟨_, e⟩ | ⟨_, _, e⟩ | ⟨_, _, _, e⟩ | ⟨_, _, _, _, e⟩ | ⟨_, _, _, _, e⟩
      · rw [e] at hc
        exact absurd hc (by decide)
      · rw [e] at hc
        exact absurd hc (by decide)
      · rw [e] at hc
        exact absurd hc (by decide)
      · rw [e] at hc
        exact absurd hc (by decide)
      · rw [e, hfind]
    · intro ho
      obtain ⟨e, _⟩ := open_success host _ path hdr mode ho
      rw [hfind] at e
      omega

set_option maxRecDepth 100000 in
/-- C17 on the session of created_session (handle 0): the close succeeds, a
second close gives the same, and the next create returns handle 0 again. -/
theorem C17_close_idempotent_witness :
    (libslas_close_las_file (ieee_host false) created_session.2.1 0).1 = LIBSLAS_SUCCESS
    ∧ libslas_close_las_file (ieee_host false)
        (libslas_close_las_file (ieee_host false) created_session.2.1 0).2 0
      = libslas_close_las_file (ieee_host false) created_session.2.1 0
    ∧ (libslas_create_las_file (ieee_host false)
        (libslas_close_las_file (ieee_host false) created_session.2.1 0).2 las_path
        sample_header).1 = 0 :=
  ⟨by decide!,
    (C17_close_idempotent (ieee_host false) created_session.2.1 0).2.2.1 (by decide!),
    ((C17_close_idempotent (ieee_host false) created_session.2.1 0).2.2.2 las_path
      sample_header zero_header LIBSLAS_READONLY (by decide!) (by decide!) (by decide)
      (by intro j hj; omega)).1 (by decide!)⟩

/-! ## C18, C19, C20: the validations of create and open, and the header of a
created session -/

theorem bad_extension_iff (path : List Nat) :
    bad_extension path = true ↔ path.drop (path.length - 4) ≠ [46, 108, 97, 115] := by
  unfold bad_extension
  simp

/-- A failed libslas_create_las_file leaves the files as they were and occupies
no slot. -/
theorem create_failure (host : Host) (st : LasState) (path : List Nat) (H : LIBSLAS_HEADER)
    (h : (libslas_create_las_file host st path H).1 < 0) :
    (libslas_create_las_file host st path H).2.1.disk = st.disk
    ∧ ∀ g, ((libslas_create_las_file host st path H).2.1.las g).fp
        = ((startup st).las g).fp := by
  obtain ⟨_, c2, c3, _⟩ := create_frame host st path H
  obtain ⟨d1, d2, d3⟩ := c3 h
  refine ⟨d1, ?_⟩
  intro g
  rcases find_handle_spec (startup st).las with ⟨h1, h2, _⟩ | ⟨h1, _⟩
  · by_cases e : g = find_handle (startup st).las
    · rw [e, d3 (by omega), h2]
    · rw [c2 g e]
  · rw [d2 h1]

/-- A failed libslas_open_las_file leaves the files as they were and occupies
no slot. -/
theorem open_failure (host : Host) (st : LasState) (path : List Nat) (hdr : LIBSLAS_HEADER)
    (mode : Int) (h : (libslas_open_las_file host st path hdr mode).1 < 0) :
    (libslas_open_las_file host st path hdr mode).2.1.disk = st.disk
    ∧ ∀ g, ((libslas_open_las_file host st path hdr mode).2.1.las g).fp
        = ((startup st).las g).fp := by
  obtain ⟨_, o1, o2, o3⟩ := open_outcome host st path hdr mode
  refine ⟨o1, ?_⟩
  intro g
  have hspec := find_handle_spec (startup st).las
  rcases o3 with ⟨_, _, e⟩ | ⟨h1, _, _, k⟩ | ⟨h1, _, _, _, _, k⟩ | ⟨_, _, e, _⟩
  · rw [e]
  · by_cases eg : g = find_handle (startup st).las
    · rcases hspec with ⟨_, h2, _⟩ | ⟨h3, _⟩
      · rw [eg, k, h2]
      · exact absurd h3 h1
    · rw [o2 g eg]
  · by_cases eg : g = find_handle (startup st).las
    · rcases hspec with ⟨_, h2, _⟩ | ⟨h3, _⟩
      · rw [eg, k, h2]
      · exact absurd h3 h1
    · rw [o2 g eg]
  · omega

/-- The test of the extension with each path kept whole, as it is for a path
that the member path holds (fewer than 1024 characters): for a path of at least
four characters and a table with a free slot, libslas_create_las_file and libslas_open_las_file return
LIBSLAS_INVALID_FILENAME_ERROR if and only if the last four characters of the
path are not .las; in that case the files are as before (none is opened, created
or truncated) and no slot has become occupied. -/
theorem extension_check (host : Host) (st : LasState) (path : List Nat)
    (H hdr : LIBSLAS_HEADER) (mode : Int)
    (hfree : ∃ i, i < LIBSLAS_MAX_FILES ∧ ((startup st).las i).fp = none)
    (hlen : 4 ≤ path.length) :
    (path.drop (path.length - 4)).length = 4
    ∧ ((libslas_create_las_file host st path H).1 = LIBSLAS_INVALID_FILENAME_ERROR
      ↔ path.drop (path.length - 4) ≠ [46, 108, 97, 115])
    ∧ ((libslas_open_las_file host st path hdr mode).1 = LIBSLAS_INVALID_FILENAME_ERROR
      ↔ path.drop (path.length - 4) ≠ [46, 108, 97, 115])
    ∧ (path.drop (path.length - 4) ≠ [46, 108, 97, 115] →
        (libslas_create_las_file host st path H).2.1.disk = st.disk
        ∧ (∀ g, ((libslas_create_las_file host st path H).2.1.las g).fp
            = ((startup st).las g).fp)
        ∧ (libslas_open_las_file host st path hdr mode).2.1.disk = st.disk
        ∧ (∀ g, ((libslas_open_las_file host st path hdr mode).2.1.las g).fp
            = ((startup st).las g).fp)) := by
  obtain ⟨i, hi, hfi⟩ := hfree
  have hf := find_handle_free (startup st).las i hi hfi
  have hnn : ∀ n : Nat, (n : Int) ≠ LIBSLAS_INVALID_FILENAME_ERROR := by
    intro n
    unfold LIBSLAS_INVALID_FILENAME_ERROR
    omega
  have hcreate : ((libslas_create_las_file host st path H).1 = LIBSLAS_INVALID_FILENAME_ERROR
      ↔ path.drop (path.length - 4) ≠ [46, 108, 97, 115]) := by
    rw [← bad_extension_iff]
    rcases create_cases host st path H with ⟨h, _⟩ | ⟨_, hb, e⟩ | ⟨_, hb, _, e⟩
      | ⟨_, hb, _, _, e⟩ | ⟨_, hb, _, _, e⟩
    · exact absurd h hf
    · simp [hb, e]
    all_goals
      rw [e, hb]
      simp [hnn, LIBSLAS_INVALID_FILENAME_ERROR, LIBSLAS_INVALID_POINT_FORMAT_ID_ERROR,
        LIBSLAS_INVALID_GLOBAL_ENCODING_ERROR]
  have hopen : ((libslas_open_las_file host st path hdr mode).1
      = LIBSLAS_INVALID_FILENAME_ERROR
      ↔ path.drop (path.length - 4) ≠ [46, 108, 97, 115]) := by
    rw [← bad_extension_iff]
    rcases (open_outcome host st path hdr mode).2.2.2 with ⟨h, _⟩ | ⟨_, hb, e, _⟩
      | ⟨_, hb, _, e, _⟩ | ⟨_, hb, e, _⟩
    · exact absurd h hf
    · simp [hb, e]
    · simp [hb, e]
    · rw [e, hb]
      simp [hnn]
  refine ⟨by rw [List.length_drop]; omega, hcreate, hopen, ?_⟩
  intro hbad
  have h1 := create_failure host st path H (by rw [hcreate.mpr hbad]; decide)
  have h2 := open_failure host st path hdr mode (by rw [hopen.mpr hbad]; decide)
  exact ⟨h1.1, h1.2, h2.1, h2.2⟩

set_option maxRecDepth 100000 in
/-- On the empty table and the path a.txt both calls are refused. -/
theorem extension_check_text_file :
    (libslas_create_las_file (ieee_host false) (initial_state (fun _ => none))
      [97, 46, 116, 120, 116] sample_header).1 = LIBSLAS_INVALID_FILENAME_ERROR
    ∧ (libslas_open_las_file (ieee_host false) (initial_state (fun _ => none))
      [97, 46, 116, 120, 116] zero_header LIBSLAS_UPDATE).1 = LIBSLAS_INVALID_FILENAME_ERROR :=
  ⟨(extension_check (ieee_host false) (initial_state (fun _ => none))
      [97, 46, 116, 120, 116] sample_header zero_header LIBSLAS_UPDATE
      ⟨0, by decide, by decide!⟩ (by decide)).2.1.mpr (by decide),
    (extension_check (ieee_host false) (initial_state (fun _ => none))
      [97, 46, 116, 120, 116] sample_header zero_header LIBSLAS_UPDATE
      ⟨0, by decide, by decide!⟩ (by decide)).2.2.1.mpr (by decide)⟩

theorem format_record_length_none (fmt : Nat) :
    format_record_length fmt = none ↔ 3 < fmt := by
  constructor
  · intro h
    by_contra hc
    have h3 : fmt ≤ 3 := by omega
    interval_cases fmt <;> simp [format_record_length] at h
  · intro h
    obtain ⟨n, rfl⟩ : ∃ n, fmt = n + 4 := ⟨fmt - 4, by omega⟩
    rfl

/-- The checks of the point format and the global encoding with each path
kept whole, as it is for a path that the member path holds (fewer than 1024
characters) and with an fopen64 that does not fail: with a free slot and a path
that ends in .las, libslas_create_las_file returns LIBSLAS_INVALID_POINT_FORMAT_ID_ERROR when the
point format is above 3, and otherwise LIBSLAS_INVALID_GLOBAL_ENCODING_ERROR
when global_encoding is above 1; in both cases the files are as before (none is
created or truncated) and no slot has become occupied.  When the point format is
at most 3 and global_encoding at most 1 neither error is returned: the call
returns a handle. -/
theorem format_and_encoding_checks (host : Host) (st : LasState) (path : List Nat)
    (H : LIBSLAS_HEADER)
    (hfree : ∃ i, i < LIBSLAS_MAX_FILES ∧ ((startup st).las i).fp = none)
    (hext : path.drop (path.length - 4) = [46, 108, 97, 115]) :
    (3 < H.point_data_format_id →
      (libslas_create_las_file host st path H).1 = LIBSLAS_INVALID_POINT_FORMAT_ID_ERROR)
    ∧ (H.point_data_format_id ≤ 3 → 1 < H.global_encoding →
      (libslas_create_las_file host st path H).1 = LIBSLAS_INVALID_GLOBAL_ENCODING_ERROR)
    ∧ (3 < H.point_data_format_id ∨ 1 < H.global_encoding →
      (libslas_create_las_file host st path H).2.1.disk = st.disk
      ∧ ∀ g, ((libslas_create_las_file host st path H).2.1.las g).fp
          = ((startup st).las g).fp)
    ∧ (H.point_data_format_id ≤ 3 → H.global_encoding ≤ 1 →
      (libslas_create_las_file host st path H).1 ≠ LIBSLAS_INVALID_POINT_FORMAT_ID_ERROR
      ∧ (libslas_create_las_file host st path H).1 ≠ LIBSLAS_INVALID_GLOBAL_ENCODING_ERROR
      ∧ 0 ≤ (libslas_create_las_file host st path H).1) := by
  obtain ⟨i, hi, hfi⟩ := hfree
  have hf := find_handle_free (startup st).las i hi hfi
  have hb : bad_extension path = false := by
    cases h : bad_extension path
    · rfl
    · exact absurd hext ((bad_extension_iff path).mp h)
  have hfmt : 3 < H.point_data_format_id →
      (libslas_create_las_file host st path H).1 = LIBSLAS_INVALID_POINT_FORMAT_ID_ERROR := by
    intro h
    rw [create_bad_format host st path H hf hb ((format_record_length_none _).mpr h)]
  have hge : H.point_data_format_id ≤ 3 → 1 < H.global_encoding →
      (libslas_create_las_file host st path H).1 = LIBSLAS_INVALID_GLOBAL_ENCODING_ERROR := by
    intro h1 h2
    cases h3 : format_record_length H.point_data_format_id with
    | none =>
      have := (format_record_length_none _).mp h3
      omega
    | some len => rw [create_bad_encoding host st path H len hf hb h3 h2]
  refine ⟨hfmt, hge, ?_, ?_⟩
  · intro h
    apply create_failure
    by_cases h1 : 3 < H.point_data_format_id
    · rw [hfmt h1]
      decide
    · rcases h with h | h
      · exact absurd h h1
      · rw [hge (by omega) h]
        decide
  · intro h1 h2
    cases h3 : format_record_length H.point_data_format_id with
    | none =>
      have := (format_record_length_none _).mp h3
      omega
    | some len =>
      rw [create_ok host st path H _ len rfl hf hb h3 h2]
      refine ⟨?_, ?_, ?_⟩
      · unfold LIBSLAS_INVALID_POINT_FORMAT_ID_ERROR
        show (find_handle (startup st).las : Int) ≠ -11
        omega
      · unfold LIBSLAS_INVALID_GLOBAL_ENCODING_ERROR
        show (find_handle (startup st).las : Int) ≠ -9
        omega
      · exact Int.natCast_nonneg _

set_option maxRecDepth 100000 in
/-- On the empty table and a.las point format 4 is refused, and with point
format 3 global encoding 2 is refused. -/
theorem format_and_encoding_checks_refused :
    (libslas_create_las_file (ieee_host false) (initial_state (fun _ => none)) las_path
      { sample_header with point_data_format_id := 4 }).1
      = LIBSLAS_INVALID_POINT_FORMAT_ID_ERROR
    ∧ (libslas_create_las_file (ieee_host false) (initial_state (fun _ => none)) las_path
      { sample_header with global_encoding := 2 }).1
      = LIBSLAS_INVALID_GLOBAL_ENCODING_ERROR :=
  ⟨(format_and_encoding_checks (ieee_host false) (initial_state (fun _ => none)) las_path
      { sample_header with point_data_format_id := 4 } ⟨0, by decide, by decide!⟩
      (by decide)).1 (by decide),
    (format_and_encoding_checks (ieee_host false) (initial_state (fun _ => none)) las_path
      { sample_header with global_encoding := 2 } ⟨0, by decide, by decide!⟩
      (by decide)).2.1 (by decide) (by decide)⟩

/-- The result of libslas_read_header on a session whose file holds at least
the 227 bytes of a header: the signature test comes first, the version test
second, and only the pair major 1 with a minor above 2 is refused. -/
theorem read_header_result (host : Host) (st : LasState) (hnd : Nat) (f : FILE)
    (hf : (st.slot hnd).fp = some f) (hlen : 227 ≤ (file_bytes st.disk f).length) :
    (libslas_read_header host st hnd).1 =
      (if rd (file_bytes st.disk f) 0 4 ≠ [76, 65, 83, 70] then LIBSLAS_NOT_LAS_FILE_ERROR
      else if (decoded_header host (st.slot hnd) (file_bytes st.disk f)).version_major = 1
          ∧ (decoded_header host (st.slot hnd) (file_bytes st.disk f)).version_minor > 2
        then LIBSLAS_INCORRECT_VERSION_ERROR
      else LIBSLAS_SUCCESS)
    ∧ ((libslas_read_header host st hnd).1 = LIBSLAS_SUCCESS →
        ((libslas_read_header host st hnd).2.slot hnd).header
          = decoded_header host (st.slot hnd) (file_bytes st.disk f)) := by
  have hfr : fread st.disk { f with offset := 0 } 227
      = (1, rd (file_bytes st.disk f) 0 227, { f with offset := 0 + 227 }) := by
    have := fread_ok st.disk { f with offset := 0 } 227 (by norm_num)
      (by simpa [file_bytes] using hlen)
    simpa [file_bytes] using this
  have hd : poke (List.replicate 227 0) 0 (rd (file_bytes st.disk f) 0 227)
      = rd (file_bytes st.disk f) 0 227 := by
    rw [poke_full]
    rw [length_rd, List.length_replicate]
  have h4 : rd (rd (file_bytes st.disk f) 0 227) 0 4 = rd (file_bytes st.disk f) 0 4 := by
    apply rd_eq_of_getD
    intro i hi
    rw [getD_rd, if_pos (by omega)]
    simp
  unfold libslas_read_header
  simp only [hf, Option.bind, fseek_set, lt_self_iff_false, if_false, Int.toNat_zero,
    LIBSLAS_HEADER_SIZE, hfr]
  simp only [hd, h4, decoded_header, LIBSLAS_HEADER_SIZE]
  by_cases hs : rd (file_bytes st.disk f) 0 4 = [76, 65, 83, 70]
  · simp only [hs, ne_eq, not_true_eq_false, if_false]
    split_ifs <;>
      simp [LasState.fail, LasState.slot, LasState.setSlot, LIBSLAS_INCORRECT_VERSION_ERROR,
        LIBSLAS_SUCCESS]
  · simp [hs, LasState.fail, LIBSLAS_NOT_LAS_FILE_ERROR, LIBSLAS_SUCCESS]

theorem decoded_header_congr (host : Host) (s t : INTERNAL_LIBSLAS_STRUCT) (c : List Nat)
    (h1 : s.header = t.header) (h2 : s.swap = t.swap) :
    decoded_header host s c = decoded_header host t c := by
  unfold decoded_header
  rw [h1, h2]

theorem setSlot_twice (st : LasState) (hnd : Nat) (a b : INTERNAL_LIBSLAS_STRUCT) :
    (st.setSlot hnd a).setSlot hnd b = st.setSlot hnd b := by
  unfold LasState.setSlot
  congr 1
  funext i
  by_cases h : i = hnd <;> simp [h]

/-- The call of libslas_read_header that libslas_open_las_file makes when a
slot is free, the name and the mode are accepted and the file exists, and what
open does with its result. -/
theorem open_reads_header (host : Host) (st : LasState) (path : List Nat)
    (hdr0 : LIBSLAS_HEADER) (mode : Int) (c : List Nat)
    (hfree : find_handle (startup st).las ≠ LIBSLAS_MAX_FILES)
    (hext : bad_extension path = false)
    (hmode : mode = LIBSLAS_UPDATE ∨ mode = LIBSLAS_READONLY)
    (hdisk : st.disk path = some c) :
    libslas_open_las_file host st path hdr0 mode =
      (let hnd := find_handle (startup st).las
       let r := libslas_read_header host
        ((startup st).setSlot hnd
          { opening_struct host path with
            fp := some { name := path, offset := 0, writable := decide (mode = LIBSLAS_UPDATE) }
            mode := mode }) hnd
       if r.1 ≠ 0 then
         (r.2.libslas_error, r.2.setSlot hnd { r.2.slot hnd with fp := none }, hdr0)
       else
         (hnd, r.2.setSlot hnd { r.2.slot hnd with
            at_end := false, modified := false, created := false, write := false },
            (r.2.slot hnd).header)) := by
  have hm : ¬ (mode ≠ LIBSLAS_UPDATE ∧ mode ≠ LIBSLAS_READONLY) := by
    rcases hmode with h1 | h1 <;> simp [h1]
  have hd0 : (startup st).disk path = some c := by rw [startup_disk]; exact hdisk
  unfold libslas_open_las_file
  simp only [hfree, if_false, hext, Bool.false_eq_true, hm]
  by_cases hbe : libslas_big_endian host ≠ 0
  · simp only [if_pos hbe, setSlot_twice, slot_setSlot_same, opening_struct]
    have hdk : ((startup st).setSlot (find_handle (startup st).las)
        { zero_struct with path := path, swap := true }).disk path = some c := hd0
    rw [hdk]
  · simp only [if_neg hbe, setSlot_twice, slot_setSlot_same, opening_struct]
    have hdk : ((startup st).setSlot (find_handle (startup st).las)
        { zero_struct with path := path }).disk path = some c := hd0
    rw [hdk]

/-- The result of libslas_open_las_file, and the header the caller has after
the call, when a slot is free, the name and the mode are accepted and the file
exists with at least 227 bytes. -/
theorem open_result (host : Host) (st : LasState) (path : List Nat) (hdr0 : LIBSLAS_HEADER)
    (mode : Int) (c : List Nat)
    (hfree : find_handle (startup st).las ≠ LIBSLAS_MAX_FILES)
    (hext : bad_extension path = false)
    (hmode : mode = LIBSLAS_UPDATE ∨ mode = LIBSLAS_READONLY)
    (hdisk : st.disk path = some c) (hlen : 227 ≤ c.length) :
    (libslas_open_las_file host st path hdr0 mode).1 =
      (if rd c 0 4 ≠ [76, 65, 83, 70] then LIBSLAS_NOT_LAS_FILE_ERROR
      else if (decoded_header host (opening_struct host path) c).version_major = 1
          ∧ (decoded_header host (opening_struct host path) c).version_minor > 2
        then LIBSLAS_INCORRECT_VERSION_ERROR
      else (find_handle (startup st).las : Int))
    ∧ (libslas_open_las_file host st path hdr0 mode).2.2 =
      (if rd c 0 4 ≠ [76, 65, 83, 70] then hdr0
      else if (decoded_header host (opening_struct host path) c).version_major = 1
          ∧ (decoded_header host (opening_struct host path) c).version_minor > 2
        then hdr0
      else decoded_header host (opening_struct host path) c) := by
  have hfb : file_bytes ((startup st).setSlot (find_handle (startup st).las)
      { opening_struct host path with
        fp := some { name := path, offset := 0, writable := decide (mode = LIBSLAS_UPDATE) }
        mode := mode }).disk
      { name := path, offset := 0, writable := decide (mode = LIBSLAS_UPDATE) } = c := by
    have : ((startup st).setSlot (find_handle (startup st).las)
      { opening_struct host path with
        fp := some { name := path, offset := 0, writable := decide (mode = LIBSLAS_UPDATE) }
        mode := mode }).disk = (startup st).disk := rfl
    rw [this, startup_disk]
    simp [file_bytes, hdisk]
  obtain ⟨r1, r2⟩ := read_header_result host
    ((startup st).setSlot (find_handle (startup st).las)
      { opening_struct host path with
        fp := some { name := path, offset := 0, writable := decide (mode = LIBSLAS_UPDATE) }
        mode := mode }) (find_handle (startup st).las)
    { name := path, offset := 0, writable := decide (mode = LIBSLAS_UPDATE) }
    (by rw [slot_setSlot_same]) (by rw [hfb]; exact hlen)
  rw [hfb, slot_setSlot_same] at r1 r2
  have hdec : decoded_header host
      { opening_struct host path with
        fp := some { name := path, offset := 0, writable := decide (mode = LIBSLAS_UPDATE) }
        mode := mode } c = decoded_header host (opening_struct host path) c :=
    decoded_header_congr _ _ _ _ rfl rfl
  rw [hdec] at r1 r2
  have e3 := (read_header_local host
    ((startup st).setSlot (find_handle (startup st).las)
      { opening_struct host path with
        fp := some { name := path, offset := 0, writable := decide (mode = LIBSLAS_UPDATE) }
        mode := mode }) (find_handle (startup st).las)).2.2.1
  rw [open_reads_header host st path hdr0 mode c hfree hext hmode hdisk]
  simp only []
  by_cases hs : rd c 0 4 = [76, 65, 83, 70]
  · simp only [hs, ne_eq, not_true_eq_false, if_false] at r1 ⊢
    by_cases hv : (decoded_header host (opening_struct host path) c).version_major = 1
        ∧ (decoded_header host (opening_struct host path) c).version_minor > 2
    · simp only [if_pos hv] at r1 ⊢
      rw [if_pos (by rw [r1]; decide), e3, r1]
      exact ⟨rfl, rfl⟩
    · simp only [if_neg hv] at r1 ⊢
      rw [if_neg (by rw [r1]; decide)]
      exact ⟨rfl, r2 r1⟩
  · simp only [hs, ne_eq, not_false_eq_true, if_true] at r1 ⊢
    rw [if_pos (by rw [r1]; decide), e3, r1]
    exact ⟨rfl, rfl⟩

/-- With a free slot, an accepted name and mode and a file of at least 227 bytes
that starts with the signature, libslas_open_las_file returns
LIBSLAS_INCORRECT_VERSION_ERROR exactly for version_major 1 with a
version_minor above 2. -/
theorem open_version_check (host : Host) (st : LasState) (path : List Nat)
    (hdr0 : LIBSLAS_HEADER) (mode : Int) (c : List Nat)
    (hfree : find_handle (startup st).las ≠ LIBSLAS_MAX_FILES)
    (hext : bad_extension path = false)
    (hmode : mode = LIBSLAS_UPDATE ∨ mode = LIBSLAS_READONLY)
    (hdisk : st.disk path = some c) (hlen : 227 ≤ c.length)
    (hsig : rd c 0 4 = [76, 65, 83, 70]) :
    ((libslas_open_las_file host st path hdr0 mode).1 = LIBSLAS_INCORRECT_VERSION_ERROR
      ↔ (decoded_header host (opening_struct host path) c).version_major = 1
        ∧ (decoded_header host (opening_struct host path) c).version_minor > 2)
    ∧ ((decoded_header host (opening_struct host path) c).version_major ≠ 1 →
        (libslas_open_las_file host st path hdr0 mode).1 = (find_handle (startup st).las : Int))
    := by
  have h := (open_result host st path hdr0 mode c hfree hext hmode hdisk hlen).1
  simp only [hsig, ne_eq, not_true_eq_false, if_false] at h
  constructor
  · by_cases hv : (decoded_header host (opening_struct host path) c).version_major = 1
        ∧ (decoded_header host (opening_struct host path) c).version_minor > 2
    · rw [if_pos hv] at h
      simp [h, hv]
    · rw [if_neg hv] at h
      rw [h]
      simp only [hv, iff_false]
      unfold LIBSLAS_INCORRECT_VERSION_ERROR
      omega
  · intro hne
    rw [if_neg (fun hv => hne hv.1)] at h
    exact h

set_option maxRecDepth 100000 in
/-- C21: the file a.las of one_point_file with the version bytes set to 2.0 (and
likewise to 0.9): the signature is valid and the version is not in the range
1.0 to 1.2, yet libslas_open_las_file returns the handle 0, the slot stays
occupied and the caller gets a header with that version.  With the version
bytes set to 1.3 the call returns LIBSLAS_INCORRECT_VERSION_ERROR and the slot is
free again. -/
theorem C21_version_two_accepted :
    rd (file_bytes (patched_file 24 [2, 0]).disk ⟨las_path, 0, false⟩) 0 4 = [76, 65, 83, 70]
    ∧ rd (file_bytes (patched_file 24 [2, 0]).disk ⟨las_path, 0, false⟩) 24 2 = [2, 0]
    ∧ (libslas_open_las_file (ieee_host false) (patched_file 24 [2, 0]) las_path zero_header
        LIBSLAS_READONLY).1 = 0
    ∧ (libslas_open_las_file (ieee_host false) (patched_file 24 [2, 0]) las_path zero_header
        LIBSLAS_READONLY).1 ≠ LIBSLAS_INCORRECT_VERSION_ERROR
    ∧ ((libslas_open_las_file (ieee_host false) (patched_file 24 [2, 0]) las_path zero_header
        LIBSLAS_READONLY).2.1.slot 0).fp.isSome = true
    ∧ (libslas_open_las_file (ieee_host false) (patched_file 24 [2, 0]) las_path zero_header
        LIBSLAS_READONLY).2.2.version_major = 2
    ∧ (libslas_open_las_file (ieee_host false) (patched_file 24 [2, 0]) las_path zero_header
        LIBSLAS_READONLY).2.2.version_minor = 0
    ∧ (libslas_open_las_file (ieee_host false) (patched_file 24 [0, 9]) las_path zero_header
        LIBSLAS_READONLY).1 = 0
    ∧ (libslas_open_las_file (ieee_host false) (patched_file 24 [1, 3]) las_path zero_header
        LIBSLAS_READONLY).1 = LIBSLAS_INCORRECT_VERSION_ERROR
    ∧ ((libslas_open_las_file (ieee_host false) (patched_file 24 [1, 3]) las_path zero_header
        LIBSLAS_READONLY).2.1.slot 0).fp.isSome = false := by
  decide!

/-- C22: with a free slot, a name that ends in .las, a valid mode and a file of
at least 227 bytes, libslas_open_las_file returns LIBSLAS_NOT_LAS_FILE_ERROR if
and only if the first four bytes of the file differ from ASCII LASF; in that case
the slot it took is free again, no other slot has changed its stream, the files
are as before and the caller's header is as it was.  The same equivalence for
libslas_read_header itself on any session with a stream on such a file. -/
theorem C22_signature_check (host : Host) (st : LasState) (path : List Nat)
    (hdr0 : LIBSLAS_HEADER) (mode : Int) (c : List Nat)
    (hfree : ∃ i, i < LIBSLAS_MAX_FILES ∧ ((startup st).las i).fp = none)
    (hext : path.drop (path.length - 4) = [46, 108, 97, 115])
    (hmode : mode = LIBSLAS_UPDATE ∨ mode = LIBSLAS_READONLY)
    (hdisk : st.disk path = some c) (hlen : 227 ≤ c.length) :
    ((libslas_open_las_file host st path hdr0 mode).1 = LIBSLAS_NOT_LAS_FILE_ERROR
      ↔ rd c 0 4 ≠ [76, 65, 83, 70])
    ∧ (rd c 0 4 ≠ [76, 65, 83, 70] →
        (libslas_open_las_file host st path hdr0 mode).2.2 = hdr0
        ∧ ((libslas_open_las_file host st path hdr0 mode).2.1.las
            (find_handle (startup st).las)).fp = none
        ∧ (∀ g, ((libslas_open_las_file host st path hdr0 mode).2.1.las g).fp
            = ((startup st).las g).fp)
        ∧ (libslas_open_las_file host st path hdr0 mode).2.1.disk = st.disk)
    ∧ (∀ (st2 : LasState) (hnd : Nat) (f : FILE), (st2.slot hnd).fp = some f →
        227 ≤ (file_bytes st2.disk f).length →
        ((libslas_read_header host st2 hnd).1 = LIBSLAS_NOT_LAS_FILE_ERROR
          ↔ rd (file_bytes st2.disk f) 0 4 ≠ [76, 65, 83, 70])) := by
  obtain ⟨i, hi, hfi⟩ := hfree
  have hf := find_handle_free (startup st).las i hi hfi
  have hb : bad_extension path = false := by
    cases h : bad_extension path
    · rfl
    · exact absurd hext ((bad_extension_iff path).mp h)
  obtain ⟨r1, r2⟩ := open_result host st path hdr0 mode c hf hb hmode hdisk hlen
  have hiff : ((libslas_open_las_file host st path hdr0 mode).1 = LIBSLAS_NOT_LAS_FILE_ERROR
      ↔ rd c 0 4 ≠ [76, 65, 83, 70]) := by
    rw [r1]
    by_cases hs : rd c 0 4 = [76, 65, 83, 70]
    · simp only [hs, ne_eq, not_true_eq_false, if_false, iff_false]
      split_ifs
      · decide
      · unfold LIBSLAS_NOT_LAS_FILE_ERROR
        omega
    · simp [hs]
  refine ⟨hiff, ?_, ?_⟩
  · intro hs
    have hneg : (libslas_open_las_file host st path hdr0 mode).1 < 0 := by
      rw [hiff.mpr hs]
      decide
    have hfail := open_failure host st path hdr0 mode hneg
    refine ⟨?_, ?_, hfail.2, hfail.1⟩
    · rw [r2, if_pos hs]
    · rw [hfail.2]
      rcases find_handle_spec (startup st).las with ⟨_, h2, _⟩ | ⟨h3, _⟩
      · exact h2
      · exact absurd h3 hf
  · intro st2 hnd f hfp hl
    rw [(read_header_result host st2 hnd f hfp hl).1]
    by_cases hs : rd (file_bytes st2.disk f) 0 4 = [76, 65, 83, 70]
    · simp only [hs, ne_eq, not_true_eq_false, if_false, iff_false]
      split_ifs <;> decide
    · simp [hs]

set_option maxRecDepth 100000 in
/-- C22 on a file a.las of 227 zero bytes at program start: open returns
LIBSLAS_NOT_LAS_FILE_ERROR, slot 0 is free and the caller's header is
untouched. -/
theorem C22_signature_check_witness :
    (libslas_open_las_file (ieee_host false) zero_file las_path sample_header
      LIBSLAS_READONLY).1 = LIBSLAS_NOT_LAS_FILE_ERROR
    ∧ (libslas_open_las_file (ieee_host false) zero_file las_path sample_header
      LIBSLAS_READONLY).2.2 = sample_header
    ∧ ((libslas_open_las_file (ieee_host false) zero_file las_path sample_header
      LIBSLAS_READONLY).2.1.las (find_handle (startup zero_file).las)).fp = none :=
  ⟨(C22_signature_check (ieee_host false) zero_file las_path sample_header LIBSLAS_READONLY
      (List.replicate 227 0) ⟨0, by decide, by decide!⟩ (by decide) (Or.inr rfl) (by decide!)
      (by decide)).1.mpr (by decide),
    ((C22_signature_check (ieee_host false) zero_file las_path sample_header LIBSLAS_READONLY
      (List.replicate 227 0) ⟨0, by decide, by decide!⟩ (by decide) (Or.inr rfl) (by decide!)
      (by decide)).2.1 (by decide)).1,
    ((C22_signature_check (ieee_host false) zero_file las_path sample_header LIBSLAS_READONLY
      (List.replicate 227 0) ⟨0, by decide, by decide!⟩ (by decide) (Or.inr rfl) (by decide!)
      (by decide)).2.1 (by decide)).2.1⟩

/-! ## C23: the swap flag after create -/

/-- A session that libslas_create_las_file has just made has its swap flag
clear, whatever the host. -/
theorem create_swap_clear (host : Host) (st : LasState) (path : List Nat) (H : LIBSLAS_HEADER)
    (h : 0 ≤ (libslas_create_las_file host st path H).1) :
    ((libslas_create_las_file host st path H).2.1.slot
      (libslas_create_las_file host st path H).1.toNat).swap = false := by
  obtain ⟨len, h1, h2, h3, h4⟩ := create_inv host st path H h
  rw [create_ok host st path H _ len rfl h1 h2 h3 h4]
  simp [LasState.slot, zero_struct]

set_option maxRecDepth 100000 in
/-- C23: on the big-endian IEEE host libslas_create_las_file succeeds and leaves
the swap flag of the session clear, while libslas_open_las_file on the same host
sets it.  The file the created session writes (one record, then close) has the
header size and the raw x of the record in big-endian byte order on disk, the
reverse of the little-endian bytes the same calls write on the little-endian
host. -/
theorem C23_create_leaves_swap_clear :
    libslas_big_endian (ieee_host true) ≠ 0
    ∧ created_big_endian.1 = 0
    ∧ (created_big_endian.2.1.slot 0).swap = false
    ∧ (libslas_open_las_file (ieee_host true) big_endian_point_file las_path zero_header
        LIBSLAS_READONLY).1 = 0
    ∧ ((libslas_open_las_file (ieee_host true) big_endian_point_file las_path zero_header
        LIBSLAS_READONLY).2.1.slot 0).swap = true
    ∧ rd (file_bytes big_endian_point_file.disk ⟨las_path, 0, false⟩) 94 2 = [0, 227]
    ∧ rd (file_bytes big_endian_point_file.disk ⟨las_path, 0, false⟩) 227 4 = [0, 0, 0, 80]
    ∧ le_bytes 2 sample_header.header_size = [227, 0]
    ∧ le_bytes 4 (to_unsigned 32
        (quantize sample_point.x sample_header.x_offset sample_header.x_scale_factor))
        = [80, 0, 0, 0]
    ∧ rd (file_bytes one_point_file.disk ⟨las_path, 0, false⟩) 94 2 = [227, 0]
    ∧ rd (file_bytes one_point_file.disk ⟨las_path, 0, false⟩) 227 4 = [80, 0, 0, 0] := by
  decide!

/-! ## C24: the fields a point format does not store -/

theorem decode_point_rgb_none (host : Host) (swap : Bool) (h : LIBSLAS_HEADER)
    (data : List Nat) (hf : h.point_data_format_id ≠ 2 ∧ h.point_data_format_id ≠ 3) :
    (decode_point host swap h data).red = 0 ∧ (decode_point host swap h data).green = 0
    ∧ (decode_point host swap h data).blue = 0 := by
  obtain ⟨h2, h3⟩ := hf
  unfold decode_point swap_point_fields
  cases swap <;> simp only [] <;> split_ifs <;> simp_all [zero_point]

/-- The record a successful libslas_read_point_data returns is the one decoded
from the fresh buffer with the bytes fread delivered. -/
theorem read_success (host : Host) (st : LasState) (hnd : Nat) (recnum : Int)
    (rec0 : LIBSLAS_POINT_DATA)
    (h : (libslas_read_point_data host st hnd recnum rec0).1 = LIBSLAS_SUCCESS) :
    ∃ bytes, (libslas_read_point_data host st hnd recnum rec0).2.2
      = decode_point host (st.slot hnd).swap (st.slot hnd).header
          (poke (List.replicate POINT_DATA_SIZE 0) 0 bytes) := by
  unfold libslas_read_point_data at h ⊢
  simp only [] at h ⊢
  split at h
  · simp [LasState.fail, LIBSLAS_INVALID_RECORD_NUMBER_ERROR, LIBSLAS_SUCCESS] at h
  · rename_i hb
    simp only [hb, if_false]
    split at h
    · simp [LasState.fail, LIBSLAS_READ_FSEEK_ERROR, LIBSLAS_SUCCESS] at h
    · rename_i f hfp
      split at h
      · simp [LasState.fail, LIBSLAS_READ_ERROR, LIBSLAS_SUCCESS] at h
      · rename_i n bytes g hne hfr
        exact ⟨bytes, by simp⟩

/-- C24: in the record a successful libslas_read_point_data returns, the fields
the point format of the session header does not store are zero, whatever the
caller's record held: gps_time, red, green and blue for format 0, red, green and
blue for format 1, gps_time for format 2. -/
theorem C24_unstored_fields_zero (host : Host) (st : LasState) (hnd : Nat) (recnum : Int)
    (rec0 : LIBSLAS_POINT_DATA)
    (h : (libslas_read_point_data host st hnd recnum rec0).1 = LIBSLAS_SUCCESS) :
    ((st.slot hnd).header.point_data_format_id = 0 →
      (libslas_read_point_data host st hnd recnum rec0).2.2.gps_time = 0
      ∧ (libslas_read_point_data host st hnd recnum rec0).2.2.red = 0
      ∧ (libslas_read_point_data host st hnd recnum rec0).2.2.green = 0
      ∧ (libslas_read_point_data host st hnd recnum rec0).2.2.blue = 0)
    ∧ ((st.slot hnd).header.point_data_format_id = 1 →
      (libslas_read_point_data host st hnd recnum rec0).2.2.red = 0
      ∧ (libslas_read_point_data host st hnd recnum rec0).2.2.green = 0
      ∧ (libslas_read_point_data host st hnd recnum rec0).2.2.blue = 0)
    ∧ ((st.slot hnd).header.point_data_format_id = 2 →
      (libslas_read_point_data host st hnd recnum rec0).2.2.gps_time = 0) := by
  obtain ⟨bytes, e⟩ := read_success host st hnd recnum rec0 h
  rw [e]
  refine ⟨?_, ?_, ?_⟩
  · intro hf
    refine ⟨?_, decode_point_rgb_none _ _ _ _ (by omega)⟩
    rw [decode_point_gps, if_neg (by omega)]
  · intro hf
    exact decode_point_rgb_none _ _ _ _ (by omega)
  · intro hf
    rw [decode_point_gps, if_neg (by omega)]

set_option maxRecDepth 100000 in
/-- C24 on a file of point format 0 with one record, read into a record whose
GPS time and colours were set: they come back zero. -/
theorem C24_unstored_fields_zero_witness :
    (libslas_read_point_data (ieee_host false) (format_session 0).2.1 0 0 stale_point).1
      = LIBSLAS_SUCCESS
    ∧ stale_point.gps_time ≠ 0 ∧ stale_point.red ≠ 0
    ∧ (libslas_read_point_data (ieee_host false) (format_session 0).2.1 0 0
        stale_point).2.2.gps_time = 0
    ∧ (libslas_read_point_data (ieee_host false) (format_session 0).2.1 0 0
        stale_point).2.2.red = 0 :=
  ⟨by decide!, by decide!, by decide!,
    ((C24_unstored_fields_zero (ieee_host false) (format_session 0).2.1 0 0 stale_point
      (by decide!)).1 (by decide!)).1,
    ((C24_unstored_fields_zero (ieee_host false) (format_session 0).2.1 0 0 stale_point
      (by decide!)).1 (by decide!)).2.1⟩

/-! ## C25: update on a file without VLR; C26: the swap loops of libslas_read_vlr_data -/

set_option maxRecDepth 100000 in
/-- C25: a file made by create, one append and close without any VLR, opened
for update.  libslas_update_point_data (0, new_marks) succeeds and leaves the
file length at 261, but the bytes it has changed are bytes 15, 17 to 19 and 28
to 33 of the 227-byte header; the point record, at bytes 227 to 260, is
unchanged. -/
theorem C25_update_rewrites_header :
    no_vlr_update_session.1 = 0
    ∧ (no_vlr_update_session.2.1.slot 0).header.offset_to_point_data = 0
    ∧ no_vlr_updated.1 = LIBSLAS_SUCCESS
    ∧ (file_bytes no_vlr_update_session.2.1.disk ⟨las_path, 0, false⟩).length = 261
    ∧ (file_bytes no_vlr_updated.2.disk ⟨las_path, 0, false⟩).length = 261
    ∧ rd (file_bytes no_vlr_update_session.2.1.disk ⟨las_path, 0, false⟩) 0 34
        = [76, 65, 83, 70, 0, 0, 0, 0, 0, 0, 0, 0, 0, 0, 0, 0, 0, 0, 0, 0, 0, 0, 0, 0, 1, 2, 0, 0,
            0, 0, 0, 0, 0, 0]
    ∧ rd (file_bytes no_vlr_updated.2.disk ⟨las_path, 0, false⟩) 0 34
        = [76, 65, 83, 70, 0, 0, 0, 0, 0, 0, 0, 0, 0, 0, 0, 169, 0, 77, 52, 18, 0, 0, 0, 0, 1, 2,
            0, 0, 2, 1, 4, 3, 6, 5]
    ∧ rd (file_bytes no_vlr_updated.2.disk ⟨las_path, 0, false⟩) 227 34
        = rd (file_bytes no_vlr_update_session.2.1.disk ⟨las_path, 0, false⟩) 227 34
    ∧ rd (file_bytes no_vlr_updated.2.disk ⟨las_path, 0, false⟩) 34 193
        = rd (file_bytes no_vlr_update_session.2.1.disk ⟨las_path, 0, false⟩) 34 193 := by
  decide!

set_option maxRecDepth 100000 in
/-- C26: a file written on the little-endian host with one VLR, opened on a
big-endian host (swap flag set), and libslas_read_vlr_data for record 0.  For
record id 34735 and the payload 1 2 3 4 the call succeeds and returns the two
bytes of tmp_short in every 2-byte unit (0 0 0 0, or 10 11 10 11 on the host
with tmp_short = 2571), the same for the payload 5 6 7 8, and not 2 1 4 3.  For
record id 34736 it returns the bytes of tmp_double, not the payload reversed.
For another record id, and on the little-endian host, it returns the payload. -/
theorem C26_vlr_swap_returns_temporaries :
    ((geo_session (ieee_host true) 34735 [1, 2, 3, 4]).2.1.slot 0).swap = true
    ∧ rd (file_bytes (geo_file 34735 [1, 2, 3, 4]).disk ⟨las_path, 0, false⟩) 281 4
        = [1, 2, 3, 4]
    ∧ (geo_data (ieee_host true) 34735 [1, 2, 3, 4]).1 = LIBSLAS_SUCCESS
    ∧ (geo_data (ieee_host true) 34735 [1, 2, 3, 4]).2.2 = [0, 0, 0, 0]
    ∧ (geo_data marked_host 34735 [1, 2, 3, 4]).1 = LIBSLAS_SUCCESS
    ∧ (geo_data marked_host 34735 [1, 2, 3, 4]).2.2 = [10, 11, 10, 11]
    ∧ (geo_data marked_host 34735 [5, 6, 7, 8]).2.2 = [10, 11, 10, 11]
    ∧ (geo_data marked_host 34736 [1, 2, 3, 4, 5, 6, 7, 8]).1 = LIBSLAS_SUCCESS
    ∧ (geo_data marked_host 34736 [1, 2, 3, 4, 5, 6, 7, 8]).2.2 = [63, 248, 0, 0, 0, 0, 0, 0]
    ∧ (geo_data marked_host 7 [1, 2, 3, 4]).2.2 = [1, 2, 3, 4]
    ∧ (geo_data (ieee_host false) 34735 [1, 2, 3, 4]).2.2 = [1, 2, 3, 4] := by
  decide!

/-! ## C27: the layout of the two packed bytes -/

theorem pack_rets_all : ∀ a < 8, ∀ b < 8, ∀ c < 2, ∀ d < 2,
    ((((0 ||| a) % 256 ||| (b <<< 3)) % 256 ||| (c <<< 6)) % 256 ||| (d <<< 7)) % 256
      = a + 8 * b + 64 * c + 128 * d := by
  decide

theorem pack_cls_all : ∀ a < 32, ∀ w < 2, ∀ k < 2, ∀ s < 2,
    ((((0 ||| a) % 256 ||| (w <<< 7)) % 256 ||| (k <<< 6)) % 256 ||| (s <<< 5)) % 256
      = a + 32 * s + 64 * k + 128 * w := by
  decide

set_option maxRecDepth 100000 in
theorem byte_masks_all : ∀ c < 256,
    c &&& 0x03 = c % 4 ∧ (c &&& 0x38) >>> 3 = c / 8 % 8 ∧ (c &&& 0x40) >>> 6 = c / 64 % 2
    ∧ (c &&& 0x80) >>> 7 = c / 128 % 2 ∧ c &&& 0x1f = c % 32 ∧ (c &&& 0x20) >>> 5 = c / 32 % 2 := by
  decide

theorem and_mask_mod (b m : Nat) (hm : m < 256) : b &&& m = (b % 256) &&& m := by
  apply Nat.eq_of_testBit_eq
  intro i
  rw [Nat.testBit_and, Nat.testBit_and]
  have e : (b % 256).testBit i = (decide (i < 8) && b.testBit i) :=
    Nat.testBit_mod_two_pow b 8 i
  rw [e]
  by_cases hi : i < 8
  · simp [hi]
  · have hm2 : m.testBit i = false := by
      apply Nat.testBit_eq_false_of_lt
      calc m < 2 ^ 8 := hm
        _ ≤ 2 ^ i := Nat.pow_le_pow_right (by norm_num) (by omega)
    simp [hm2]

/-- The masks and shifts of libslas_read_point_data as bit positions, for any
value of the byte read. -/
theorem byte_masks (b : Nat) :
    b &&& 0x03 = b % 4 ∧ (b &&& 0x38) >>> 3 = b / 8 % 8 ∧ (b &&& 0x40) >>> 6 = b / 64 % 2
    ∧ (b &&& 0x80) >>> 7 = b / 128 % 2 ∧ b &&& 0x1f = b % 32 ∧ (b &&& 0x20) >>> 5 = b / 32 % 2 := by
  obtain ⟨h1, h2, h3, h4, h5, h6⟩ := byte_masks_all (b % 256) (Nat.mod_lt _ (by norm_num))
  rw [and_mask_mod b 0x03 (by norm_num), and_mask_mod b 0x38 (by norm_num),
    and_mask_mod b 0x40 (by norm_num), and_mask_mod b 0x80 (by norm_num),
    and_mask_mod b 0x1f (by norm_num), and_mask_mod b 0x20 (by norm_num),
    h1, h2, h3, h4, h5, h6]
  refine ⟨?_, ?_, ?_, ?_, ?_, ?_⟩ <;> omega

set_option maxRecDepth 100000 in
/-- C27, the layout of the specification against the code: for a first return
of one at the edge of a flightline libslas_append_point_data packs the returns
byte 73 (number of returns in bit 3, edge in bit 6), where the layout with the
number of returns in bits 2-4 and the edge in bit 5 gives 37;
libslas_read_point_data reads number of returns 1 and edge 1 from the byte 73,
where bits 2-4 of 73 hold 2 and bit 5 holds 0, and reads number of returns 4 and
edge 0 from the byte 37. -/
theorem C27_spec_layout_counterexample :
    pack_rets flagged_point = 73
    ∧ spec_rets flagged_point = 37
    ∧ (decode_point (ieee_host false) false sample_header (rets_buffer 73)).number_of_returns = 1
    ∧ (decode_point (ieee_host false) false sample_header (rets_buffer 73)).edge_of_flightline
        = 1
    ∧ 73 / 4 % 8 = 2 ∧ 73 / 32 % 2 = 0
    ∧ (decode_point (ieee_host false) false sample_header (rets_buffer 37)).number_of_returns = 4
    ∧ (decode_point (ieee_host false) false sample_header (rets_buffer 37)).edge_of_flightline
        = 0 := by
  decide!

/-- C27, as the code has it.  For a record whose bit fields are in range,
libslas_append_point_data packs the returns byte as return number (from bit 0
on, bits 0-2) + 8 * number of returns (bits 3-5) + 64 * edge of flightline (bit
6) + 128 * scan direction (bit 7), and the classification byte as class code
(bits 0-4) + 32 * synthetic + 64 * key-point + 128 * withheld.
libslas_read_point_data takes, from the byte at offset 14 of any record buffer,
the return number from bits 0-1, the number of returns from bits 3-5, edge of
flightline from bit 6 and the scan direction from bit 7 (bit 2 is not read), and
from the byte at offset 15 the class code from bits 0-4 and synthetic, key-point
and withheld from bits 5, 6 and 7. -/
theorem C27_packed_byte_layout (host : Host) (swap : Bool) (h : LIBSLAS_HEADER)
    (data : List Nat) (R : LIBSLAS_POINT_DATA)
    (h1 : R.return_number ≤ 7) (h2 : R.number_of_returns ≤ 7)
    (h3 : R.edge_of_flightline ≤ 1) (h4 : R.scan_direction_flag ≤ 1)
    (h5 : R.classification ≤ 31) (h6 : R.synthetic ≤ 1) (h7 : R.key_point ≤ 1)
    (h8 : R.withheld ≤ 1) :
    pack_rets R = R.return_number + 8 * R.number_of_returns + 64 * R.edge_of_flightline
        + 128 * R.scan_direction_flag
    ∧ pack_cls R = R.classification + 32 * R.synthetic + 64 * R.key_point + 128 * R.withheld
    ∧ (decode_point host swap h data).return_number = mem_val host (rd data 14 1) % 4
    ∧ (decode_point host swap h data).number_of_returns = mem_val host (rd data 14 1) / 8 % 8
    ∧ (decode_point host swap h data).edge_of_flightline = mem_val host (rd data 14 1) / 64 % 2
    ∧ (decode_point host swap h data).scan_direction_flag
        = mem_val host (rd data 14 1) / 128 % 2
    ∧ (decode_point host swap h data).classification = mem_val host (rd data 15 1) % 32
    ∧ (decode_point host swap h data).synthetic = mem_val host (rd data 15 1) / 32 % 2
    ∧ (decode_point host swap h data).key_point = mem_val host (rd data 15 1) / 64 % 2
    ∧ (decode_point host swap h data).withheld = mem_val host (rd data 15 1) / 128 % 2 := by
  obtain ⟨r1, r2, r3, r4⟩ := decode_point_rets host swap h data
  obtain ⟨c1, c2, c3, c4⟩ := decode_point_cls host swap h data
  obtain ⟨b1, b2, b3, b4, _, _⟩ := byte_masks (mem_val host (rd data 14 1))
  obtain ⟨_, _, d3, d4, d5, d6⟩ := byte_masks (mem_val host (rd data 15 1))
  refine ⟨?_, ?_, r1.trans b1, r2.trans b2, r3.trans b3, r4.trans b4, c1.trans d5,
    c2.trans d6, c3.trans d3, c4.trans d4⟩
  · exact pack_rets_all R.return_number (by omega) R.number_of_returns (by omega)
      R.edge_of_flightline (by omega) R.scan_direction_flag (by omega)
  · exact pack_cls_all R.classification (by omega) R.withheld (by omega) R.key_point (by omega)
      R.synthetic (by omega)

set_option maxRecDepth 100000 in
/-- C27 on the record flagged_point and the buffer with the returns byte 73. -/
theorem C27_packed_byte_layout_witness :
    pack_rets flagged_point = flagged_point.return_number + 8 * flagged_point.number_of_returns
        + 64 * flagged_point.edge_of_flightline + 128 * flagged_point.scan_direction_flag
    ∧ (decode_point (ieee_host false) false sample_header (rets_buffer 73)).number_of_returns
        = mem_val (ieee_host false) (rd (rets_buffer 73) 14 1) / 8 % 8 :=
  ⟨(C27_packed_byte_layout (ieee_host false) false sample_header (rets_buffer 73)
      flagged_point (by decide) (by decide) (by decide) (by decide) (by decide) (by decide)
      (by decide) (by decide)).1,
    (C27_packed_byte_layout (ieee_host false) false sample_header (rets_buffer 73)
      flagged_point (by decide) (by decide) (by decide) (by decide) (by decide) (by decide)
      (by decide) (by decide)).2.2.2.1⟩

/-! ## C28: the layout of an appended record -/

theorem appended_bytes_counted (host : Host) (swap : Bool) (h : LIBSLAS_HEADER)
    (R : LIBSLAS_POINT_DATA) (n : Nat) :
    appended_bytes host swap (count_return (count_point h R) n) R
      = appended_bytes host swap h R := rfl

theorem appended_bytes_stack (host : Host) (swap : Bool) (h : LIBSLAS_HEADER)
    (R : LIBSLAS_POINT_DATA) (g : List Nat)
    (hlen : format_record_length h.point_data_format_id = some h.point_data_record_length) :
    appended_bytes { host with stack_bytes := g } swap h R = appended_bytes host swap h R := by
  rw [appended_bytes_eq _ swap h R hlen, appended_bytes_eq host swap h R hlen]
  rfl

/-- A session that libslas_create_las_file has just made has the record length
of its point format and a header size of 227. -/
theorem created_record_length (host : Host) (st : LasState) (path : List Nat)
    (H : LIBSLAS_HEADER) (h : 0 ≤ (libslas_create_las_file host st path H).1) :
    format_record_length ((libslas_create_las_file host st path H).2.1.slot
        (libslas_create_las_file host st path H).1.toNat).header.point_data_format_id
      = some ((libslas_create_las_file host st path H).2.1.slot
        (libslas_create_las_file host st path H).1.toNat).header.point_data_record_length
    ∧ ((libslas_create_las_file host st path H).2.1.slot
        (libslas_create_las_file host st path H).1.toNat).header.header_size = 227 := by
  obtain ⟨len, h1, _, h3⟩ := created_appendable host st path H h
  rw [h3]
  exact ⟨h1, rfl⟩

/-- C28: a successful libslas_append_point_data on a session whose record length
is the width of its point format (as libslas_create_las_file sets it) writes, at
the stream position, a record of exactly 20, 28, 26 or 34 bytes for format 0, 1,
2 or 3 with the layout: raw x at 0-3, y at 4-7, z at 8-11, intensity at 12-13,
the returns byte at 14, the classification byte at 15, scan angle rank at 16,
user data at 17, point source id at 18-19, GPS time at 20-27 for formats 1 and
3, red, green and blue at 20-25 for format 2 and at 28-33 for format 3.  The
file written does not depend on what the buffer on the stack held before:
every byte of the record comes from the input record and the header. -/
theorem C28_record_layout (host : Host) (st : LasState) (hnd : Nat) (R : LIBSLAS_POINT_DATA)
    (f : FILE) (hc : (st.slot hnd).created = true) (hf : (st.slot hnd).fp = some f)
    (hw : f.writable = true) (hrn : 1 ≤ R.return_number ∧ R.return_number ≤ 5)
    (hfmt : format_record_length (st.slot hnd).header.point_data_format_id
      = some (st.slot hnd).header.point_data_record_length) :
    (libslas_append_point_data host st hnd R).1 = LIBSLAS_SUCCESS
    ∧ (libslas_append_point_data host st hnd R).2.1.disk f.name
        = some (write_at (file_bytes st.disk f) f.offset
            (appended_bytes host (st.slot hnd).swap (st.slot hnd).header R))
    ∧ (appended_bytes host (st.slot hnd).swap (st.slot hnd).header R).length
        = (st.slot hnd).header.point_data_record_length
    ∧ (((st.slot hnd).header.point_data_format_id = 0
          ∧ (st.slot hnd).header.point_data_record_length = 20)
        ∨ ((st.slot hnd).header.point_data_format_id = 1
          ∧ (st.slot hnd).header.point_data_record_length = 28)
        ∨ ((st.slot hnd).header.point_data_format_id = 2
          ∧ (st.slot hnd).header.point_data_record_length = 26)
        ∨ ((st.slot hnd).header.point_data_format_id = 3
          ∧ (st.slot hnd).header.point_data_record_length = 34))
    ∧ rd (appended_bytes host (st.slot hnd).swap (st.slot hnd).header R) 0 4
        = mem_bytes host 4 (to_unsigned 32 (stored_raw (st.slot hnd).swap R.x
            (st.slot hnd).header.x_offset (st.slot hnd).header.x_scale_factor))
    ∧ rd (appended_bytes host (st.slot hnd).swap (st.slot hnd).header R) 4 4
        = mem_bytes host 4 (to_unsigned 32 (stored_raw (st.slot hnd).swap R.y
            (st.slot hnd).header.y_offset (st.slot hnd).header.y_scale_factor))
    ∧ rd (appended_bytes host (st.slot hnd).swap (st.slot hnd).header R) 8 4
        = mem_bytes host 4 (to_unsigned 32 (stored_raw (st.slot hnd).swap R.z
            (st.slot hnd).header.z_offset (st.slot hnd).header.z_scale_factor))
    ∧ rd (appended_bytes host (st.slot hnd).swap (st.slot hnd).header R) 12 2
        = mem_bytes host 2
            (stored_record host (st.slot hnd).swap (st.slot hnd).header R).intensity
    ∧ rd (appended_bytes host (st.slot hnd).swap (st.slot hnd).header R) 14 1
        = mem_bytes host 1 (pack_rets R)
    ∧ rd (appended_bytes host (st.slot hnd).swap (st.slot hnd).header R) 15 1
        = mem_bytes host 1 (pack_cls R)
    ∧ rd (appended_bytes host (st.slot hnd).swap (st.slot hnd).header R) 16 1
        = mem_bytes host 1 (to_unsigned 8
            (stored_record host (st.slot hnd).swap (st.slot hnd).header R).scan_angle_rank)
    ∧ rd (appended_bytes host (st.slot hnd).swap (st.slot hnd).header R) 17 1
        = mem_bytes host 1
            (stored_record host (st.slot hnd).swap (st.slot hnd).header R).user_data
    ∧ rd (appended_bytes host (st.slot hnd).swap (st.slot hnd).header R) 18 2
        = mem_bytes host 2
            (stored_record host (st.slot hnd).swap (st.slot hnd).header R).point_source_id
    ∧ ((st.slot hnd).header.point_data_format_id = 1
        ∨ (st.slot hnd).header.point_data_format_id = 3 →
        rd (appended_bytes host (st.slot hnd).swap (st.slot hnd).header R) 20 8
          = dbl_mem host
              (stored_record host (st.slot hnd).swap (st.slot hnd).header R).gps_time)
    ∧ ((st.slot hnd).header.point_data_format_id = 2 →
        rd (appended_bytes host (st.slot hnd).swap (st.slot hnd).header R) 20 2
          = mem_bytes host 2 (stored_record host (st.slot hnd).swap (st.slot hnd).header R).red
        ∧ rd (appended_bytes host (st.slot hnd).swap (st.slot hnd).header R) 22 2
          = mem_bytes host 2
              (stored_record host (st.slot hnd).swap (st.slot hnd).header R).green
        ∧ rd (appended_bytes host (st.slot hnd).swap (st.slot hnd).header R) 24 2
          = mem_bytes host 2
              (stored_record host (st.slot hnd).swap (st.slot hnd).header R).blue)
    ∧ ((st.slot hnd).header.point_data_format_id = 3 →
        rd (appended_bytes host (st.slot hnd).swap (st.slot hnd).header R) 28 2
          = mem_bytes host 2 (stored_record host (st.slot hnd).swap (st.slot hnd).header R).red
        ∧ rd (appended_bytes host (st.slot hnd).swap (st.slot hnd).header R) 30 2
          = mem_bytes host 2
              (stored_record host (st.slot hnd).swap (st.slot hnd).header R).green
        ∧ rd (appended_bytes host (st.slot hnd).swap (st.slot hnd).header R) 32 2
          = mem_bytes host 2
              (stored_record host (st.slot hnd).swap (st.slot hnd).header R).blue)
    ∧ (∀ g : List Nat,
        (libslas_append_point_data { host with stack_bytes := g } st hnd R).2.1.disk
          = (libslas_append_point_data host st hnd R).2.1.disk) := by
  have hcases := format_cases _ _ hfmt
  have hl : (st.slot hnd).header.point_data_record_length ≠ 0 := by
    rcases hcases with ⟨_, e⟩ | ⟨_, e⟩ | ⟨_, e⟩ | ⟨_, e⟩ <;> omega
  have hok := fun hst => append_point_ok hst st hnd R f hc hf hw hl hrn
  have hB := appended_bytes_eq host (st.slot hnd).swap (st.slot hnd).header R hfmt
  refine ⟨by rw [hok host], ?_, ?_, hcases, ?_, ?_, ?_, ?_, ?_, ?_, ?_, ?_, ?_, ?_, ?_, ?_, ?_⟩
  · rw [hok host]
    simp only [if_true, appended_bytes_counted]
  · rw [hB]
    exact length_point_bytes_of_format _ _ _ _ _ _ _ _ _ hfmt
  · rw [hB, rd_point_bytes_x]
    rfl
  · rw [hB, rd_point_bytes_y]
    rfl
  · rw [hB, rd_point_bytes_z]
    rfl
  · rw [hB, rd_point_bytes_intensity]
    rfl
  · rw [hB, rd_point_bytes_rets]
  · rw [hB, rd_point_bytes_cls]
  · rw [hB, rd_point_bytes_angle]
    rfl
  · rw [hB, rd_point_bytes_user]
    rfl
  · rw [hB, rd_point_bytes_psid]
    rfl
  · intro hg
    rw [hB, rd_point_bytes_tail _ _ _ _ _ _ _ _ 0 8]
    unfold point_tail
    rcases hg with e | e
    · rw [if_pos e, rd_dbl_mem]
      rfl
    · rw [if_neg (by omega), if_neg (by omega), if_pos e, rd_append_left _ _ _ (length_dbl_mem _ _)]
      rfl
  · intro e
    rw [hB, rd_point_bytes_tail _ _ _ _ _ _ _ _ 0 2, rd_point_bytes_tail _ _ _ _ _ _ _ _ 2 2,
      rd_point_bytes_tail _ _ _ _ _ _ _ _ 4 2]
    unfold point_tail
    rw [if_neg (by omega), if_pos e]
    simp [rd_append_left, rd_append_right, length_mem_bytes, stored_record, rd_mem_bytes]
  · intro e
    rw [hB, rd_point_bytes_tail _ _ _ _ _ _ _ _ 8 2, rd_point_bytes_tail _ _ _ _ _ _ _ _ 10 2,
      rd_point_bytes_tail _ _ _ _ _ _ _ _ 12 2]
    unfold point_tail
    rw [if_neg (by omega), if_neg (by omega), if_pos e]
    simp [rd_append_left, rd_append_right, length_mem_bytes, length_dbl_mem, stored_record,
      rd_mem_bytes]
  · intro g
    rw [hok host, hok { host with stack_bytes := g }]
    simp only [appended_bytes_counted]
    rw [appended_bytes_stack host _ _ R g hfmt]

set_option maxRecDepth 100000 in
/-- C28 on the session created_session (point format 3) and sample_point: the
append succeeds and the record has the 34 bytes of the header's record
length. -/
theorem C28_record_layout_witness :
    (libslas_append_point_data (ieee_host false) created_session.2.1 0 sample_point).1
      = LIBSLAS_SUCCESS
    ∧ (appended_bytes (ieee_host false) (created_session.2.1.slot 0).swap
        (created_session.2.1.slot 0).header sample_point).length
      = (created_session.2.1.slot 0).header.point_data_record_length
    ∧ (created_session.2.1.slot 0).header.point_data_record_length = 34 :=
  ⟨(C28_record_layout (ieee_host false) created_session.2.1 0 sample_point
      { name := las_path, offset := 227, writable := true } (by decide!) (by decide!) rfl
      (by decide) (by decide!)).1,
    (C28_record_layout (ieee_host false) created_session.2.1 0 sample_point
      { name := las_path, offset := 227, writable := true } (by decide!) (by decide!) rfl
      (by decide) (by decide!)).2.2.1,
    by decide!⟩

/-! ## C29: the header of an opened file; C30: the position of an append -/

set_option maxRecDepth 100000 in
/-- C29: a file with the signature, version 1.2, point format 3 and a record
length of 40 in its header is opened: libslas_open_las_file returns the handle
0 and the session header has point_data_record_length 40, not the width 34 of
format 3.  libslas_read_point_data for record 0 then succeeds with an fread of
40 bytes into the buffer of POINT_DATA_SIZE = 34 bytes: the stream advances
from 227 to 267.  Likewise a file whose header says header_size 300 is opened
and the session header has header_size 300. -/
theorem C29_record_length_not_checked :
    long_record_session.1 = 0
    ∧ (long_record_session.2.1.slot 0).header.header_size = 227
    ∧ (long_record_session.2.1.slot 0).header.point_data_format_id = 3
    ∧ (long_record_session.2.1.slot 0).header.point_data_record_length = 40
    ∧ format_record_length 3 = some 34
    ∧ POINT_DATA_SIZE = 34
    ∧ (libslas_read_point_data (ieee_host false) long_record_session.2.1 0 0 zero_point).1
        = LIBSLAS_SUCCESS
    ∧ (fread long_record_session.2.1.disk ⟨las_path, 227, false⟩
        (long_record_session.2.1.slot 0).header.point_data_record_length).2.1.length = 40
    ∧ ((libslas_read_point_data (ieee_host false) long_record_session.2.1 0 0
        zero_point).2.1.slot 0).pos = 267
    ∧ (libslas_open_las_file (ieee_host false) (patched_file 94 [44, 1]) las_path zero_header
        LIBSLAS_READONLY).1 = 0
    ∧ ((libslas_open_las_file (ieee_host false) (patched_file 94 [44, 1]) las_path zero_header
        LIBSLAS_READONLY).2.1.slot 0).header.header_size = 300 := by
  decide!

set_option maxRecDepth 100000 in
/-- C30: a created session with one VLR and two appended records (file length
353, stream at 353).  libslas_read_point_data for record 0 leaves the stream at
319, the start of record 1.  The next libslas_append_point_data succeeds and
writes its 34 bytes at 319: the file length stays 353, the bytes of record 1 are
replaced by the new record, and the header counts three records. -/
theorem C30_append_after_read_overwrites :
    (two_points_session.slot 0).created = true
    ∧ (file_bytes two_points_session.disk ⟨las_path, 0, false⟩).length = 353
    ∧ (two_points_session.slot 0).fp.map (fun f => f.offset) = some 353
    ∧ two_points_read.1 = LIBSLAS_SUCCESS
    ∧ (two_points_read.2.1.slot 0).fp.map (fun f => f.offset) = some 319
    ∧ (file_bytes two_points_read.2.1.disk ⟨las_path, 0, false⟩).length = 353
    ∧ append_after_read.1 = LIBSLAS_SUCCESS
    ∧ (file_bytes append_after_read.2.1.disk ⟨las_path, 0, false⟩).length = 353
    ∧ rd (file_bytes two_points_session.disk ⟨las_path, 0, false⟩) 319 34
        = appended_bytes (ieee_host false) false (two_points_session.slot 0).header second_point
    ∧ rd (file_bytes append_after_read.2.1.disk ⟨las_path, 0, false⟩) 319 34
        = appended_bytes (ieee_host false) false (two_points_session.slot 0).header third_point
    ∧ rd (file_bytes append_after_read.2.1.disk ⟨las_path, 0, false⟩) 319 34
        ≠ rd (file_bytes two_points_session.disk ⟨las_path, 0, false⟩) 319 34
    ∧ (append_after_read.2.1.slot 0).header.number_of_point_records = 3 := by
  decide!

/-! ## The byte swaps as arithmetic -/

theorem mask_shift (w k j : Nat) : (w &&& ((2 ^ j - 1) <<< k)) >>> k = w / 2 ^ k % 2 ^ j := by
  apply Nat.eq_of_testBit_eq
  intro i
  rw [Nat.testBit_shiftRight, Nat.testBit_and, Nat.testBit_shiftLeft, Nat.testBit_mod_two_pow,
    ← Nat.shiftRight_eq_div_pow, Nat.testBit_shiftRight, Nat.testBit_two_pow_sub_one]
  have e : k + i - k = i := by omega
  rw [e]
  by_cases h : i < j <;> simp [h]

/-- The four bytes libslas_swap_uint32_t takes from a word, and the word it
puts together from them. -/
theorem swap32_eq (w : Nat) :
    libslas_swap_uint32_t w
      = (w % 2 ^ 32) / 2 ^ 24 % 256 + 256 * ((w % 2 ^ 32) / 2 ^ 16 % 256)
        + 65536 * ((w % 2 ^ 32) / 2 ^ 8 % 256) + 16777216 * ((w % 2 ^ 32) % 256) := by
  unfold libslas_swap_uint32_t
  simp only []
  have h0 : w % 2 ^ 32 &&& 0x000000ff = (w % 2 ^ 32) % 256 := by
    have := mask_shift (w % 2 ^ 32) 0 8
    simpa using this
  have h1 : (w % 2 ^ 32 &&& 0x0000ff00) >>> 8 = (w % 2 ^ 32) / 2 ^ 8 % 256 := by
    have := mask_shift (w % 2 ^ 32) 8 8
    simpa using this
  have h2 : (w % 2 ^ 32 &&& 0x00ff0000) >>> 16 = (w % 2 ^ 32) / 2 ^ 16 % 256 := by
    have := mask_shift (w % 2 ^ 32) 16 8
    simpa using this
  have h3 : (w % 2 ^ 32 &&& 0xff000000) >>> 24 = (w % 2 ^ 32) / 2 ^ 24 % 256 := by
    have := mask_shift (w % 2 ^ 32) 24 8
    simpa using this
  rw [h0, h1, h2, h3, Nat.shiftLeft_eq, Nat.shiftLeft_eq, Nat.shiftLeft_eq]
  omega

theorem le_bytes_mod (n v : Nat) : le_bytes n (v % 256 ^ n) = le_bytes n v := by
  induction n generalizing v with
  | zero => rfl
  | succ n ih =>
    simp only [le_bytes]
    have e1 : v % 256 ^ (n + 1) % 256 = v % 256 := by
      rw [pow_succ]
      exact Nat.mod_mul_left_mod v (256 ^ n) 256
    have e2 : v % 256 ^ (n + 1) / 256 = (v / 256) % 256 ^ n := by
      rw [pow_succ, Nat.mul_comm, Nat.mod_mul_right_div_self]
    rw [e1, e2, ih]

theorem le_bytes_lt (n v : Nat) : ∀ b ∈ le_bytes n v, b < 256 := by
  induction n generalizing v with
  | zero => simp [le_bytes]
  | succ n ih =>
    intro b hb
    simp only [le_bytes, List.mem_cons] at hb
    rcases hb with rfl | hb
    · exact Nat.mod_lt _ (by norm_num)
    · exact ih _ b hb

theorem le_bytes_le_val (l : List Nat) (h : ∀ b ∈ l, b < 256) :
    le_bytes l.length (le_val l) = l := by
  induction l with
  | nil => rfl
  | cons a l ih =>
    have ha : a < 256 := h a (List.mem_cons_self _ _)
    have hl : ∀ b ∈ l, b < 256 := fun b hb => h b (List.mem_cons_of_mem _ hb)
    simp only [List.length_cons, le_bytes, le_val]
    have e1 : (a + 256 * le_val l) % 256 = a := by omega
    have e2 : (a + 256 * le_val l) / 256 = le_val l := by omega
    rw [e1, e2, ih hl]

theorem le_bytes_swapped_bits (b : Nat) : le_bytes 8 (swapped_bits b) = (le_bytes 8 b).reverse := by
  unfold swapped_bits
  have h := le_bytes_le_val (le_bytes 8 b).reverse (by
    intro x hx
    exact le_bytes_lt 8 b x (List.mem_reverse.mp hx))
  rwa [List.length_reverse, length_le_bytes] at h

theorem swap_double_eq (host : Host) (q : CDouble) :
    libslas_swap_double host q = host.bits_dbl (swapped_bits (host.dbl_bits q)) := by
  unfold libslas_swap_double mem_dbl dbl_mem mem_val mem_bytes swapped_bits
  cases host.big_endian <;> simp

theorem dbl_mem_mod (host : Host) (q : CDouble) :
    dbl_mem host q = mem_bytes host 8 (host.dbl_bits q % 2 ^ 64) := by
  unfold dbl_mem mem_bytes
  have e : le_bytes 8 (host.dbl_bits q % 2 ^ 64) = le_bytes 8 (host.dbl_bits q) := by
    have := le_bytes_mod 8 (host.dbl_bits q)
    norm_num at this ⊢
    exact this
  rw [e]

theorem swap32_bytes (b0 b1 b2 b3 : Nat) (h0 : b0 < 256) (h1 : b1 < 256) (h2 : b2 < 256)
    (h3 : b3 < 256) :
    libslas_swap_uint32_t (b0 + 256 * b1 + 65536 * b2 + 16777216 * b3)
      = b3 + 256 * b2 + 65536 * b1 + 16777216 * b0 := by
  rw [swap32_eq]
  norm_num
  omega

theorem swap32_swap32 (w : Nat) (h : w < 2 ^ 32) :
    libslas_swap_uint32_t (libslas_swap_uint32_t w) = w := by
  norm_num at h
  have e : w = w % 256 + 256 * (w / 256 % 256) + 65536 * (w / 65536 % 256)
      + 16777216 * (w / 16777216) := by omega
  rw [e, swap32_bytes _ _ _ _ (by omega) (by omega) (by omega) (by omega),
    swap32_bytes _ _ _ _ (by omega) (by omega) (by omega) (by omega)]

theorem swapped_bits_mod (b : Nat) : swapped_bits b = swapped_bits (b % 2 ^ 64) := by
  unfold swapped_bits
  have := le_bytes_mod 8 b
  norm_num at this ⊢
  rw [this]

/-! ## C31: the cached position after a failed call -/

/-- When the cached position of a session agrees with its stream for a record,
libslas_read_point_data returns what the variant that always seeks returns. -/
theorem read_same_when_coherent (host : Host) (st : LasState) (hnd : Nat) (recnum : Int)
    (rec0 : LIBSLAS_POINT_DATA) (hc : cache_coherent st hnd recnum) :
    libslas_read_point_data host st hnd recnum rec0
      = read_point_always_seek host st hnd recnum rec0 := by
  unfold libslas_read_point_data read_point_always_seek
  simp only []
  by_cases hp : (st.slot hnd).pos = record_addr (st.slot hnd).header recnum
  · have e : (if (st.slot hnd).pos ≠ record_addr (st.slot hnd).header recnum then
          (st.slot hnd).fp.bind (fun f => fseek_set f (record_addr (st.slot hnd).header recnum))
        else (st.slot hnd).fp)
        = (st.slot hnd).fp.bind
            (fun f => fseek_set f (record_addr (st.slot hnd).header recnum)) := by
      rw [if_neg (by simpa using hp)]
      cases hf : (st.slot hnd).fp with
      | none => rfl
      | some f =>
        have ho := hc f hf hp
        simp only [Option.bind, fseek_set]
        rw [if_neg (by omega)]
        congr 1
        cases f
        simp only [FILE.mk.injEq, true_and, and_true] at ho ⊢
        omega
    simp only [e]
  · simp only [ne_eq, hp, not_false_eq_true, if_true]

set_option maxRecDepth 100000 in
/-- C31: a file with one VLR of payload length 0 and two point records, opened
read-only.  libslas_read_point_data for record 0 succeeds and caches the
position 315, the address of record 1.  libslas_read_vlr_data for VLR 0 then
returns LIBSLAS_VLR_READ_ERROR after the walk has moved the stream to 281; the
cached position stays 315.  The next libslas_read_point_data for record 1 skips
the seek and returns, with LIBSLAS_SUCCESS, the record at 281 (record 0,
intensity 1000), where the variant that always seeks returns record 1
(intensity 2000). -/
theorem C31_stale_cache_after_error :
    empty_vlr_session.1 = 0
    ∧ empty_vlr_first_read.1 = LIBSLAS_SUCCESS
    ∧ empty_vlr_first_read.2.2.intensity = 1000
    ∧ empty_vlr_data_read.1 = LIBSLAS_VLR_READ_ERROR
    ∧ (empty_vlr_data_read.2.1.slot 0).pos = 315
    ∧ record_addr (empty_vlr_data_read.2.1.slot 0).header 1 = 315
    ∧ (empty_vlr_data_read.2.1.slot 0).fp.map (fun f => f.offset) = some 281
    ∧ (libslas_read_point_data (ieee_host false) empty_vlr_data_read.2.1 0 1 zero_point).1
        = LIBSLAS_SUCCESS
    ∧ (libslas_read_point_data (ieee_host false) empty_vlr_data_read.2.1 0 1
        zero_point).2.2.intensity = 1000
    ∧ (read_point_always_seek (ieee_host false) empty_vlr_data_read.2.1 0 1 zero_point).1
        = LIBSLAS_SUCCESS
    ∧ (read_point_always_seek (ieee_host false) empty_vlr_data_read.2.1 0 1
        zero_point).2.2.intensity = 2000 := by
  decide!

/-! ## C34: update on a created session -/

/-- On a session that libslas_create_las_file has just made the mode is 0, which
is LIBSLAS_UPDATE: the first test of libslas_update_point_data passes. -/
theorem created_mode_is_update (host : Host) (st : LasState) (path : List Nat)
    (H : LIBSLAS_HEADER) (h : 0 ≤ (libslas_create_las_file host st path H).1) :
    ((libslas_create_las_file host st path H).2.1.slot
      (libslas_create_las_file host st path H).1.toNat).mode = LIBSLAS_UPDATE := by
  obtain ⟨len, h1, h2, h3, h4⟩ := create_inv host st path H h
  rw [create_ok host st path H _ len rfl h1 h2 h3 h4]
  simp [LasState.slot, zero_struct, LIBSLAS_UPDATE]

set_option maxRecDepth 100000 in
/-- C34: on the created session with one VLR and two appended records (mode 0,
file length 353, stream at the end) libslas_update_point_data (0, new_marks)
returns LIBSLAS_SUCCESS, not LIBSLAS_NOT_OPEN_FOR_UPDATE_ERROR: it rewrites
bytes of record 0 in the file and leaves the stream at 319.  The following
libslas_append_point_data succeeds and writes at 319 over record 1; the file
length stays 353. -/
theorem C34_update_on_created_session :
    (two_points_session.slot 0).created = true
    ∧ (two_points_session.slot 0).mode = LIBSLAS_UPDATE
    ∧ (two_points_session.slot 0).fp.map (fun f => f.offset) = some 353
    ∧ (file_bytes two_points_session.disk ⟨las_path, 0, false⟩).length = 353
    ∧ update_while_creating.1 = LIBSLAS_SUCCESS
    ∧ update_while_creating.1 ≠ LIBSLAS_NOT_OPEN_FOR_UPDATE_ERROR
    ∧ rd (file_bytes two_points_session.disk ⟨las_path, 0, false⟩) 285 34
        = [80, 0, 0, 0, 32, 255, 255, 255, 128, 2, 0, 0, 232, 3, 253, 255, 166, 255, 255, 255,
            0, 0, 0, 0, 0, 0, 248, 63, 1, 0, 2, 0, 3, 0]
    ∧ rd (file_bytes update_while_creating.2.disk ⟨las_path, 0, false⟩) 285 34
        = [80, 0, 0, 0, 32, 255, 255, 255, 128, 2, 0, 0, 232, 3, 253, 169, 166, 77, 52, 18,
            0, 0, 0, 0, 0, 0, 248, 63, 2, 1, 4, 3, 6, 5]
    ∧ (update_while_creating.2.slot 0).fp.map (fun f => f.offset) = some 319
    ∧ append_after_update.1 = LIBSLAS_SUCCESS
    ∧ (file_bytes append_after_update.2.1.disk ⟨las_path, 0, false⟩).length = 353
    ∧ rd (file_bytes append_after_update.2.1.disk ⟨las_path, 0, false⟩) 319 34
        = appended_bytes (ieee_host false) false (two_points_session.slot 0).header third_point
    ∧ rd (file_bytes append_after_update.2.1.disk ⟨las_path, 0, false⟩) 319 34
        ≠ rd (file_bytes two_points_session.disk ⟨las_path, 0, false⟩) 319 34 := by
  decide!

/-! ## C36, C38, C39: an empty VLR, the scale factors, the bounding box -/

set_option maxRecDepth 100000 in
/-- C36: on the created session created_session, with no point written,
libslas_append_vlr_record with record_length_after_header = 0 returns
LIBSLAS_VLR_WRITE_ERROR: the 54 bytes of the sub-header are written (the file
grows from 227 to 281 bytes) and offset_to_point_data is not advanced.  With a
payload of one byte the call succeeds and sets offset_to_point_data to 282.
libslas_read_vlr_data on a VLR of payload length 0 returns
LIBSLAS_VLR_READ_ERROR; the caller's buffer is as before. -/
theorem C36_empty_vlr_is_an_error :
    created_session.1 = 0
    ∧ (created_session.2.1.slot 0).data = false
    ∧ (file_bytes created_session.2.1.disk ⟨las_path, 0, false⟩).length = 227
    ∧ (created_session.2.1.slot 0).header.offset_to_point_data = 0
    ∧ empty_vlr_append.1 = LIBSLAS_VLR_WRITE_ERROR
    ∧ (file_bytes empty_vlr_append.2.1.disk ⟨las_path, 0, false⟩).length = 281
    ∧ (empty_vlr_append.2.1.slot 0).header.offset_to_point_data = 0
    ∧ (libslas_append_vlr_record (ieee_host false) created_session.2.1 0 (geo_vlr 7 1) [5]).1
        = LIBSLAS_SUCCESS
    ∧ ((libslas_append_vlr_record (ieee_host false) created_session.2.1 0 (geo_vlr 7 1)
        [5]).2.1.slot 0).header.offset_to_point_data = 282
    ∧ rd (file_bytes empty_vlr_session.2.1.disk ⟨las_path, 0, false⟩) 247 2 = [0, 0]
    ∧ empty_vlr_data_read.1 = LIBSLAS_VLR_READ_ERROR
    ∧ empty_vlr_data_read.2.2 = [9, 9, 9, 9] := by
  decide!

set_option maxRecDepth 100000 in
/-- C38: libslas_create_las_file accepts a header with x_scale_factor = 0: it
returns the handle 0 and the session header has x_scale_factor = 0, and
libslas_append_point_data on that session is not refused.  With x_scale_factor =
1 and x = 2^31 the rounded quotient is 2^31, which is not below 2^31; the append
succeeds and the raw x on file is the image of -2^31. -/
theorem C38_scale_factor_not_checked :
    zero_scale_session.1 = 0
    ∧ (zero_scale_session.2.1.slot 0).header.x_scale_factor = 0
    ∧ (libslas_append_point_data (ieee_host false) zero_scale_session.2.1 0 sample_point).1
        = LIBSLAS_SUCCESS
    ∧ unit_scale_session.1 = 0
    ∧ NINT64 ((far_point.x - (unit_scale_session.2.1.slot 0).header.x_offset)
        / (unit_scale_session.2.1.slot 0).header.x_scale_factor) = 2147483648
    ∧ (libslas_append_point_data (ieee_host false) unit_scale_session.2.1 0 far_point).1
        = LIBSLAS_SUCCESS
    ∧ rd (file_bytes (libslas_append_point_data (ieee_host false) unit_scale_session.2.1 0
        far_point).2.1.disk ⟨las_path, 0, false⟩) 227 4 = [0, 0, 0, 128]
    ∧ le_bytes 4 (to_unsigned 32 (-2147483648)) = [0, 0, 0, 128] := by
  decide!

set_option maxRecDepth 100000 in
/-- C39: one libslas_append_point_data of a record with x = 10^15 and
y = -10^15 on the freshly created session created_session succeeds; afterwards
max_x is 10^15 but min_x is 99999999999999, the value create put there, and
min_y is -10^15 but max_y is -99999999999999. -/
theorem C39_box_not_tight_beyond_sentinels :
    created_session.1 = 0
    ∧ remote_append.1 = LIBSLAS_SUCCESS
    ∧ remote_point.x = 1000000000000000
    ∧ (remote_append.2.1.slot 0).header.max_x = 1000000000000000
    ∧ (remote_append.2.1.slot 0).header.min_x = 99999999999999
    ∧ (remote_append.2.1.slot 0).header.min_x ≠ remote_point.x
    ∧ remote_point.y = -1000000000000000
    ∧ (remote_append.2.1.slot 0).header.min_y = -1000000000000000
    ∧ (remote_append.2.1.slot 0).header.max_y = -99999999999999
    ∧ (remote_append.2.1.slot 0).header.max_y ≠ remote_point.y := by
  decide!

/-! ## C35: the other sessions -/

theorem same_session_refl (a : INTERNAL_LIBSLAS_STRUCT) : same_session a a :=
  ⟨rfl, rfl, rfl, rfl, rfl, rfl, rfl, rfl, rfl, rfl⟩

theorem startup_same_session (st : LasState) (g : Nat) :
    same_session ((startup st).las g) (st.las g)
    ∧ (st.first = false → (startup st).las g = st.las g) := by
  unfold startup
  split
  · rename_i h
    exact ⟨⟨rfl, rfl, rfl, rfl, rfl, rfl, rfl, rfl, rfl, rfl⟩,
      fun hf => by rw [hf] at h; exact absurd h (by decide)⟩
  · exact ⟨same_session_refl _, fun _ => rfl⟩

/-- With each path kept whole, as it is for a path that the member path holds
(fewer than 1024 characters), a call leaves every session structure other than
the one it works on as it was: for every state, every call of the API (create, open, close, the two
VLR reads, VLR append, point read, append and update) and every handle g other
than the slot the call works on (for create and open the slot they allocate),
session g has the same path, header, flags, mode, swap flag and cached position
after the call, and once the table has been through the start-up pass the whole
structure, stream included, is unchanged. -/
theorem other_sessions_untouched (host : Host) (st : LasState) (c : Call) (g : Nat)
    (hg : g ≠ c.target st) :
    same_session ((c.run host st).las g) (st.las g)
    ∧ (st.first = false → (c.run host st).las g = st.las g) := by
  have hs := startup_same_session st g
  have key : (c.run host st).las g = (startup st).las g
      ∨ (c.run host st).las g = st.las g := by
    cases c with
    | create path header =>
      exact Or.inl ((create_frame host st path header).2.1 g hg)
    | open_file path header mode =>
      exact Or.inl ((open_outcome host st path header mode).2.2.1 g hg)
    | close hnd => exact Or.inr ((close_frame host st hnd).2 g hg)
    | read_vlr_header hnd recnum vh =>
      exact Or.inr ((read_vlr_header_local host st hnd recnum vh).2.1 g hg)
    | read_vlr_data hnd recnum data =>
      exact Or.inr ((read_vlr_data_local host st hnd recnum data).2.1 g hg)
    | append_vlr hnd vh data =>
      exact Or.inr ((append_vlr_local host st hnd vh data).2.1 g hg)
    | read_point hnd recnum record =>
      exact Or.inr ((read_point_local host st hnd recnum record).2.1 g hg)
    | append_point hnd record =>
      exact Or.inr ((append_point_local host st hnd record).2.1 g hg)
    | update_point hnd recnum record =>
      exact Or.inr ((update_point_local host st hnd recnum record).2.1 g hg)
  rcases key with e | e
  · rw [e]
    exact hs
  · rw [e]
    exact ⟨same_session_refl _, fun _ => rfl⟩

set_option maxRecDepth 100000 in
/-- On the table with the created session of a.las in slot 0 a create of b.las
works on slot 1 and leaves slot 0 as it was. -/
theorem other_sessions_untouched_second_create :
    Call.target created_session.2.1 (Call.create other_path sample_header) = 1
    ∧ (libslas_create_las_file (ieee_host false) created_session.2.1 other_path
        sample_header).1 = 1
    ∧ (libslas_create_las_file (ieee_host false) created_session.2.1 other_path
        sample_header).2.1.las 0 = created_session.2.1.las 0 :=
  ⟨by decide!, by decide!,
    (other_sessions_untouched (ieee_host false) created_session.2.1
      (Call.create other_path sample_header) 0 (by decide!)).2 (by decide!)⟩

/-! ## C37: the number of VLRs in the header -/

theorem or_mod_left (x y : Nat) : ((x % 256) ||| y) % 256 = (x ||| y) % 256 := by
  apply Nat.eq_of_testBit_eq
  intro i
  have e1 := Nat.testBit_mod_two_pow ((x % 256) ||| y) 8 i
  have e2 := Nat.testBit_mod_two_pow (x ||| y) 8 i
  have e3 := Nat.testBit_mod_two_pow x 8 i
  norm_num at e1 e2 e3
  rw [e1, e2, e3]
  by_cases h : i < 8 <;> simp [h]

theorem pack_rets_eq (R : LIBSLAS_POINT_DATA) :
    pack_rets R = (R.return_number ||| R.number_of_returns <<< 3
      ||| R.edge_of_flightline <<< 6 ||| R.scan_direction_flag <<< 7) % 256 := by
  unfold pack_rets
  simp only [Nat.zero_or, or_mod_left]

theorem pack_cls_eq (R : LIBSLAS_POINT_DATA) :
    pack_cls R = (R.classification ||| R.synthetic <<< 5 ||| R.key_point <<< 6
      ||| R.withheld <<< 7) % 256 := by
  unfold pack_cls
  simp only [Nat.zero_or, or_mod_left]
  congr 1
  apply Nat.eq_of_testBit_eq
  intro i
  simp only [Nat.testBit_or]
  cases R.classification.testBit i <;> cases (R.synthetic <<< 5).testBit i
    <;> cases (R.key_point <<< 6).testBit i <;> cases (R.withheld <<< 7).testBit i <;> rfl

theorem mem_bytes_one (host : Host) (v : Nat) : mem_bytes host 1 v = [v % 256] := by
  unfold mem_bytes
  split <;> simp [le_bytes]

set_option maxRecDepth 100000 in
/-- C40: a libslas_append_point_data with a return number from 1 to 5, on a
created session with a writable stream whose record length is the width of its
point format, returns LIBSLAS_SUCCESS whatever the other bit fields hold, and in
the record it writes byte 14 is (return_number | number_of_returns << 3 |
edge_of_flightline << 6 | scan_direction_flag << 7) mod 256 and byte 15 is
(classification | synthetic << 5 | key_point << 6 | withheld << 7) mod 256.
So for wide_point, with number_of_returns 9 and class code 33 and the edge and
synthetic flags clear, the record read back has number_of_returns 1 with
edge_of_flightline 1, and class code 1 with synthetic 1. -/
theorem C40_bit_fields_not_masked (host : Host) (st : LasState) (hnd : Nat)
    (R : LIBSLAS_POINT_DATA) (f : FILE) (hc : (st.slot hnd).created = true)
    (hf : (st.slot hnd).fp = some f) (hw : f.writable = true)
    (hrn : 1 ≤ R.return_number ∧ R.return_number ≤ 5)
    (hfmt : format_record_length (st.slot hnd).header.point_data_format_id
      = some (st.slot hnd).header.point_data_record_length) :
    (libslas_append_point_data host st hnd R).1 = LIBSLAS_SUCCESS
    ∧ (libslas_append_point_data host st hnd R).2.1.disk f.name
        = some (write_at (file_bytes st.disk f) f.offset
            (appended_bytes host (st.slot hnd).swap (st.slot hnd).header R))
    ∧ rd (appended_bytes host (st.slot hnd).swap (st.slot hnd).header R) 14 1
        = [(R.return_number ||| R.number_of_returns <<< 3 ||| R.edge_of_flightline <<< 6
            ||| R.scan_direction_flag <<< 7) % 256]
    ∧ rd (appended_bytes host (st.slot hnd).swap (st.slot hnd).header R) 15 1
        = [(R.classification ||| R.synthetic <<< 5 ||| R.key_point <<< 6
            ||| R.withheld <<< 7) % 256]
    ∧ (read_back (ieee_host false) false sample_header
        (appended_bytes (ieee_host false) false sample_header wide_point)).number_of_returns = 1
    ∧ (read_back (ieee_host false) false sample_header
        (appended_bytes (ieee_host false) false sample_header wide_point)).edge_of_flightline
        = 1
    ∧ (read_back (ieee_host false) false sample_header
        (appended_bytes (ieee_host false) false sample_header wide_point)).classification = 1
    ∧ (read_back (ieee_host false) false sample_header
        (appended_bytes (ieee_host false) false sample_header wide_point)).synthetic = 1 := by
  have hcases := format_cases _ _ hfmt
  have hl : (st.slot hnd).header.point_data_record_length ≠ 0 := by
    rcases hcases with ⟨_, e⟩ | ⟨_, e⟩ | ⟨_, e⟩ | ⟨_, e⟩ <;> omega
  have hok := append_point_ok host st hnd R f hc hf hw hl hrn
  have hB := appended_bytes_eq host (st.slot hnd).swap (st.slot hnd).header R hfmt
  refine ⟨by rw [hok], ?_, ?_, ?_, by decide!, by decide!, by decide!, by decide!⟩
  · rw [hok]
    simp only [if_true, appended_bytes_counted]
  · rw [hB, rd_point_bytes_rets, mem_bytes_one, pack_rets_eq, Nat.mod_mod]
  · rw [hB, rd_point_bytes_cls, mem_bytes_one, pack_cls_eq, Nat.mod_mod]

set_option maxRecDepth 100000 in
/-- C40 on the session created_session and the record wide_point: the append
succeeds and byte 14 of the record is 9 << 3 | 1 = 73. -/
theorem C40_bit_fields_not_masked_witness :
    (libslas_append_point_data (ieee_host false) created_session.2.1 0 wide_point).1
      = LIBSLAS_SUCCESS
    ∧ rd (appended_bytes (ieee_host false) (created_session.2.1.slot 0).swap
        (created_session.2.1.slot 0).header wide_point) 14 1
      = [(wide_point.return_number ||| wide_point.number_of_returns <<< 3
          ||| wide_point.edge_of_flightline <<< 6 ||| wide_point.scan_direction_flag <<< 7)
          % 256]
    ∧ (wide_point.return_number ||| wide_point.number_of_returns <<< 3
          ||| wide_point.edge_of_flightline <<< 6 ||| wide_point.scan_direction_flag <<< 7)
          % 256 = 73 :=
  ⟨(C40_bit_fields_not_masked (ieee_host false) created_session.2.1 0 wide_point
      { name := las_path, offset := 227, writable := true } (by decide!) (by decide!) rfl
      (by decide!) (by decide!)).1,
    (C40_bit_fields_not_masked (ieee_host false) created_session.2.1 0 wide_point
      { name := las_path, offset := 227, writable := true } (by decide!) (by decide!) rfl
      (by decide!) (by decide!)).2.2.1,
    by decide!⟩

/-! ## C18, C19, C16, C35: paths longer than the member path -/

set_option maxRecDepth 100000 in
/-- The layout of INTERNAL_LIBSLAS_STRUCT with 8-byte pointers and natural
alignment: LIBSLAS_HEADER takes 232 bytes, fp directly follows the 1024
characters of path, and las[i + 1] starts 1288 bytes after las[i]. -/
theorem layout_values :
    struct_size header_members 8 = 232 ∧ SLOT_SIZE = 1288 ∧ FP_OFFSET = 1024
    ∧ HEADER_OFFSET = 1032 ∧ POS_OFFSET = 1280 := by
  decide!

set_option maxRecDepth 100000 in
/-- C18 (the code departs from the claim): for the path of 1025 characters a,
which has at least 4 characters, no extension .las and no zero character, with
every slot free, libslas_create_las_file and libslas_open_las_file return
LIBSLAS_INVALID_FILENAME_ERROR; the strcpy that precedes the test of the
extension has by then written the 1025th character to the first byte of
las[0].fp, which follows the 1024 characters of path, so las[0].fp is not NULL
when the call returns and the next search for a handle passes slot 0 over: the
slot has become occupied. -/
theorem C18_long_path_occupies_slot :
    4 ≤ long_name.length
    ∧ long_name.length = 1025
    ∧ bad_extension long_name = true
    ∧ (libslas_create_las_file (ieee_host false) (initial_state (fun _ => none)) long_name
        sample_header).1 = LIBSLAS_INVALID_FILENAME_ERROR
    ∧ (libslas_open_las_file (ieee_host false) (initial_state (fun _ => none)) long_name
        zero_header LIBSLAS_READONLY).1 = LIBSLAS_INVALID_FILENAME_ERROR
    ∧ FP_OFFSET = 1024
    ∧ raw_find_handle zero_table = 0
    ∧ (raw_create_checks zero_table long_name sample_header).1
        = some LIBSLAS_INVALID_FILENAME_ERROR
    ∧ raw_fp (raw_create_checks zero_table long_name sample_header).2 0
        = [97, 0, 0, 0, 0, 0, 0, 0]
    ∧ raw_fp_is_null (raw_create_checks zero_table long_name sample_header).2 0 = false
    ∧ raw_find_handle (raw_create_checks zero_table long_name sample_header).2 = 1
    ∧ (raw_open_checks zero_table long_name).1 = some LIBSLAS_INVALID_FILENAME_ERROR
    ∧ raw_fp_is_null (raw_open_checks zero_table long_name).2 0 = false
    ∧ raw_find_handle (raw_open_checks zero_table long_name).2 = 1 := by
  decide!

set_option maxRecDepth 100000 in
/-- C19 (the code departs from the claim): for the path of 1021 characters a
followed by .las (1025 characters, a valid extension), with every slot free,
libslas_create_las_file returns LIBSLAS_INVALID_POINT_FORMAT_ID_ERROR for a
header with point format 4 and LIBSLAS_INVALID_GLOBAL_ENCODING_ERROR for a
header with point format 3 and global encoding 2; the strcpy that precedes both
checks has by then written the last character of the path, s, to the first
byte of las[0].fp, so las[0].fp is not NULL when the call returns and the next
search for a handle passes slot 0 over: the slot has become occupied. -/
theorem C19_long_path_occupies_slot :
    long_las_name.length = 1025
    ∧ bad_extension long_las_name = false
    ∧ (libslas_create_las_file (ieee_host false) (initial_state (fun _ => none)) long_las_name
        { sample_header with point_data_format_id := 4 }).1
        = LIBSLAS_INVALID_POINT_FORMAT_ID_ERROR
    ∧ (libslas_create_las_file (ieee_host false) (initial_state (fun _ => none)) long_las_name
        { sample_header with global_encoding := 2 }).1
        = LIBSLAS_INVALID_GLOBAL_ENCODING_ERROR
    ∧ FP_OFFSET = 1024
    ∧ raw_find_handle zero_table = 0
    ∧ (raw_create_checks zero_table long_las_name
        { sample_header with point_data_format_id := 4 }).1
        = some LIBSLAS_INVALID_POINT_FORMAT_ID_ERROR
    ∧ raw_fp (raw_create_checks zero_table long_las_name
        { sample_header with point_data_format_id := 4 }).2 0 = [115, 0, 0, 0, 0, 0, 0, 0]
    ∧ raw_find_handle (raw_create_checks zero_table long_las_name
        { sample_header with point_data_format_id := 4 }).2 = 1
    ∧ (raw_create_checks zero_table long_las_name
        { sample_header with global_encoding := 2 }).1
        = some LIBSLAS_INVALID_GLOBAL_ENCODING_ERROR
    ∧ raw_fp (raw_create_checks zero_table long_las_name
        { sample_header with global_encoding := 2 }).2 0 = [115, 0, 0, 0, 0, 0, 0, 0]
    ∧ raw_find_handle (raw_create_checks zero_table long_las_name
        { sample_header with global_encoding := 2 }).2 = 1 := by
  decide!

theorem raw_assign_outside (t img : Nat → Nat) (hnd off : Nat)
    (h : hnd * SLOT_SIZE + SLOT_SIZE ≤ off) : raw_assign t hnd img off = t off := by
  unfold raw_assign
  rw [if_neg (by omega)]

theorem raw_find_handle_first (t : Nat → Nat) (h : raw_fp_is_null t 0 = true) :
    raw_find_handle t = 0 := by
  unfold raw_find_handle
  have e : List.range LIBSLAS_MAX_FILES = 0 :: (List.range 63).map Nat.succ := by decide
  rw [e, List.find?_cons_of_pos _ h]

theorem raw_memset_fp_null (t : Nat → Nat) : raw_fp_is_null (raw_memset t 0) 0 = true := by
  have h := layout_values
  unfold raw_fp_is_null raw_fp raw_memset
  simp only [List.all_map, List.all_eq_true, List.mem_range, Function.comp]
  intro k hk
  rw [if_pos (by omega)]
  rfl

/-- What the strcpy of create and open puts beyond las[0] when slot 0 is free:
the bytes of the following slots that the path reaches are characters of the
path, whatever they held and whatever the call assigns to las[0] later. -/
theorem strcpy_reaches_next_slots (t img : Nat → Nat) (path : List Nat) (off : Nat)
    (h1 : SLOT_SIZE ≤ off) (h2 : off < path.length) :
    (raw_entry (raw_memset t 0) path).1 = 0
    ∧ raw_assign (raw_entry (raw_memset t 0) path).2 0 img off = path.getD off 0 := by
  have hf := raw_find_handle_first _ (raw_memset_fp_null t)
  have e : raw_entry (raw_memset t 0) path
      = (0, raw_strcpy (raw_memset (raw_memset t 0) 0) 0 path) := by
    unfold raw_entry
    simp only [hf]
    rw [if_neg (by decide)]
  have e1 : (raw_entry (raw_memset t 0) path).1 = 0 := by rw [e]
  have e2 : (raw_entry (raw_memset t 0) path).2
      = raw_strcpy (raw_memset (raw_memset t 0) 0) 0 path := by rw [e]
  refine ⟨e1, ?_⟩
  rw [raw_assign_outside _ _ _ _ (by omega), e2]
  unfold raw_strcpy
  simp only [Nat.zero_mul, Nat.sub_zero, Nat.zero_add]
  rw [if_pos ⟨Nat.zero_le _, by omega⟩, List.getD_append _ _ _ _ h2]

set_option maxRecDepth 100000 in
theorem deep_path_facts :
    deep_path.length = 2580
    ∧ bad_extension deep_path = false
    ∧ (List.range 8).map (fun k => deep_path.getD (1 * 1288 + 1024 + k) 0)
        = [97, 97, 47, 97, 97, 97, 97, 47]
    ∧ ((deep_path.drop 1288).take 1288).length = 1288
    ∧ ((deep_path.drop 1288).take 1288).all (fun c => c == 97 || c == 47) = true := by
  decide!

theorem raw_open_checks_free (t : Nat → Nat) :
    raw_open_checks (raw_memset t 0) deep_path
      = (none, (raw_entry (raw_memset t 0) deep_path).2) := by
  have h1 := (strcpy_reaches_next_slots t t deep_path 1288
    (by rw [layout_values.2.1]) (by rw [deep_path_facts.1]; decide)).1
  unfold raw_open_checks
  simp only [h1, deep_path_facts.2.1]
  rw [if_neg (by decide)]
  rfl

theorem raw_fp_next_slot (t img : Nat → Nat) :
    raw_fp (raw_assign (raw_open_checks (raw_memset t 0) deep_path).2 0 img) 1
      = [97, 97, 47, 97, 97, 97, 97, 47] := by
  have hl := layout_values
  rw [← deep_path_facts.2.2.1, raw_open_checks_free]
  unfold raw_fp
  apply List.map_congr_left
  intro k hk
  rw [List.mem_range] at hk
  rw [(strcpy_reaches_next_slots t img deep_path _ (by omega)
    (by rw [deep_path_facts.1]; omega)).2, hl.2.1, hl.2.2.1]

theorem map_range_eq (n : Nat) (f : Nat → Nat) (l : List Nat) (hl : l.length = n)
    (h : ∀ k, k < n → f k = l.getD k 0) : (List.range n).map f = l := by
  apply List.ext_getElem
  · simp [hl]
  · intro i h1 h2
    simp only [List.getElem_map, List.getElem_range]
    rw [h i (by simpa using h1), List.getD_eq_getElem _ _ h2]

theorem raw_memset_zero_table : raw_memset zero_table 0 = zero_table := by
  funext off
  unfold raw_memset zero_table
  split <;> rfl

set_option maxRecDepth 100000 in
/-- C16 (the code departs from the claim): libslas_open_las_file on the path
deep_path of 2580 characters, which ends in .las and names a LAS file on disk,
succeeds at program start and returns the handle 0.  Its strcpy writes all
2580 characters from the start of las[0] on: characters 2312 to 2319 land on
las[1].fp (sizeof (INTERNAL_LIBSLAS_STRUCT) is 1288 and fp is at offset 1024),
and nothing the call does afterwards writes outside las[0].  Whatever the call
leaves in las[0], las[1].fp is not NULL when it returns and the next search
for a handle does not give slot 1: the successful call has marked two slots
occupied. -/
theorem C16_long_path_marks_two_slots :
    (libslas_open_las_file (ieee_host false) deep_file deep_path zero_header
      LIBSLAS_READONLY).1 = 0
    ∧ deep_path.length = 2580
    ∧ SLOT_SIZE = 1288 ∧ FP_OFFSET = 1024
    ∧ raw_fp_is_null zero_table 0 = true
    ∧ raw_fp_is_null zero_table 1 = true
    ∧ (raw_open_checks zero_table deep_path).1 = none
    ∧ (raw_entry zero_table deep_path).1 = 0
    ∧ (∀ img : Nat → Nat,
        raw_fp (raw_assign (raw_open_checks zero_table deep_path).2 0 img) 1
          = [97, 97, 47, 97, 97, 97, 97, 47])
    ∧ (∀ img : Nat → Nat,
        raw_fp_is_null (raw_assign (raw_open_checks zero_table deep_path).2 0 img) 1 = false)
    ∧ (∀ img : Nat → Nat,
        raw_find_handle (raw_assign (raw_open_checks zero_table deep_path).2 0 img) ≠ 1) := by
  have hfp : ∀ img : Nat → Nat,
      raw_fp (raw_assign (raw_open_checks zero_table deep_path).2 0 img) 1
        = [97, 97, 47, 97, 97, 97, 97, 47] := by
    intro img
    have h := raw_fp_next_slot zero_table img
    rwa [raw_memset_zero_table] at h
  have hnull : ∀ img : Nat → Nat,
      raw_fp_is_null (raw_assign (raw_open_checks zero_table deep_path).2 0 img) 1 = false := by
    intro img
    unfold raw_fp_is_null
    rw [hfp]
    decide
  refine ⟨by decide!, deep_path_facts.1, layout_values.2.1, layout_values.2.2.1, by decide!,
    by decide!, ?_, ?_, hfp, hnull, ?_⟩
  · have h := raw_open_checks_free zero_table
    rw [raw_memset_zero_table] at h
    rw [h]
  · have h := (strcpy_reaches_next_slots zero_table zero_table deep_path 1288
      (by rw [layout_values.2.1]) (by rw [deep_path_facts.1]; decide)).1
    rwa [raw_memset_zero_table] at h
  · intro img e
    have h := hnull img
    unfold raw_find_handle at e
    split at e
    · rename_i i hi
      have := List.find?_some hi
      rw [e] at this
      rw [h] at this
      exact absurd this (by decide)
    · exact absurd e (by decide)

/-- Every path of more than 1024 characters leaves the fp of the slot that
create and open allocate non-NULL after their strcpy: character 1024 of the
path, which is not zero in a C string, is the first byte of fp. -/
theorem overflow_sets_fp (t : Nat → Nat) (path : List Nat)
    (hfree : raw_find_handle t < LIBSLAS_MAX_FILES) (hlen : 1025 ≤ path.length)
    (hc : path.getD 1024 0 ≠ 0) :
    raw_fp_is_null (raw_entry t path).2 (raw_entry t path).1 = false := by
  have hf := layout_values.2.2.1
  have e : raw_entry t path
      = (raw_find_handle t, raw_strcpy (raw_memset t (raw_find_handle t)) (raw_find_handle t)
          path) := by
    unfold raw_entry
    simp only []
    rw [if_neg (by omega)]
  have e1 : (raw_entry t path).1 = raw_find_handle t := by rw [e]
  have e2 : (raw_entry t path).2
      = raw_strcpy (raw_memset t (raw_find_handle t)) (raw_find_handle t) path := by rw [e]
  rw [e1, e2]
  generalize raw_find_handle t = hnd
  unfold raw_fp_is_null raw_fp
  rw [Bool.eq_false_iff]
  intro hall
  rw [List.all_eq_true] at hall
  have h0 := hall (raw_strcpy (raw_memset t hnd) hnd path (hnd * SLOT_SIZE + FP_OFFSET + 0))
    (List.mem_map.mpr ⟨0, List.mem_range.mpr (by norm_num), rfl⟩)
  rw [hf] at h0
  unfold raw_strcpy at h0
  rw [if_pos ⟨by omega, by omega⟩] at h0
  have e3 : hnd * SLOT_SIZE + 1024 + 0 - hnd * SLOT_SIZE = 1024 := by omega
  rw [e3, List.getD_append _ _ _ _ (by omega)] at h0
  simp only [beq_iff_eq] at h0
  exact hc h0

set_option maxRecDepth 100000 in
theorem member_offset_values :
    SWAP_OFFSET = 1264 ∧ MODE_OFFSET = 1272 ∧ VERSION_MAJOR_OFFSET = 1053 := by
  decide!

set_option maxRecDepth 100000 in
theorem deep_path_members :
    raw_bytes (fun i => deep_path.getD i 0) (1288 + 1053) 1 = [97]
    ∧ raw_bytes (fun i => deep_path.getD i 0) (1288 + 1264) 1 = [97]
    ∧ raw_bytes (fun i => deep_path.getD i 0) (1288 + 1272) 4 = [97, 97, 97, 97]
    ∧ raw_bytes (fun i => deep_path.getD i 0) (1288 + 1280) 8
        = [97, 47, 97, 97, 97, 97, 47, 97] := by
  decide!

/-- The bytes of the slots after las[0] that the strcpy of an open of deep_path
reaches, when slot 0 is free: they are characters of the path. -/
theorem next_slot_bytes (t img : Nat → Nat) (off n : Nat) (h1 : 1288 ≤ off)
    (h2 : off + n ≤ 2580) :
    raw_bytes (raw_assign (raw_open_checks (raw_memset t 0) deep_path).2 0 img) off n
      = raw_bytes (fun i => deep_path.getD i 0) off n := by
  have hl := layout_values.2.1
  rw [raw_open_checks_free]
  unfold raw_bytes
  apply List.map_congr_left
  intro k hk
  rw [List.mem_range] at hk
  have h := (strcpy_reaches_next_slots t img deep_path (off + k) (by rw [hl]; omega)
    (by rw [deep_path_facts.1]; omega)).2
  rw [h]

set_option maxRecDepth 100000 in
/-- C35 (the code departs from the claim): in second_slot_state slot 0 is free
and slot 1 holds the session of b.las, with version_major 1 in its header, the
swap flag clear, mode 0 and the cached position 227.  libslas_open_las_file on
deep_path, a path of 2580 characters that ends in .las and names a LAS file on
disk, allocates slot 0 and returns the handle 0.  On the bytes of las, whatever
they are apart from a free slot 0 (zeroed as libslas_close_las_file leaves it)
and whatever the call assigns to las[0] after its checks: the strcpy of the
call has written characters 1288 to 2575 of the path over the 1288 bytes of
las[1], every one of them the letter a or a slash.  The path, stream, header,
flags, mode and cached position of session 1 are all overwritten: the byte of
header.version_major and the swap flag now hold the letter a, mode the four
bytes aaaa and pos the eight bytes a/aaaa/a. -/
theorem C35_long_path_overwrites_next_session :
    (second_slot_state.slot 0).fp = none
    ∧ (second_slot_state.slot 1).fp ≠ none
    ∧ (second_slot_state.slot 1).header.version_major = 1
    ∧ (second_slot_state.slot 1).swap = false
    ∧ (second_slot_state.slot 1).mode = 0
    ∧ (second_slot_state.slot 1).pos = 227
    ∧ Call.target second_slot_state (Call.open_file deep_path zero_header LIBSLAS_READONLY) = 0
    ∧ (libslas_open_las_file (ieee_host false) second_slot_state deep_path zero_header
        LIBSLAS_READONLY).1 = 0
    ∧ deep_path.length = 2580
    ∧ SLOT_SIZE = 1288
    ∧ (∀ t img : Nat → Nat,
        (raw_open_checks (raw_memset t 0) deep_path).1 = none
        ∧ (raw_entry (raw_memset t 0) deep_path).1 = 0
        ∧ raw_bytes (raw_assign (raw_open_checks (raw_memset t 0) deep_path).2 0 img)
            (1 * SLOT_SIZE) SLOT_SIZE = (deep_path.drop 1288).take 1288
        ∧ raw_bytes (raw_assign (raw_open_checks (raw_memset t 0) deep_path).2 0 img)
            (1 * SLOT_SIZE + VERSION_MAJOR_OFFSET) 1 = [97]
        ∧ raw_bytes (raw_assign (raw_open_checks (raw_memset t 0) deep_path).2 0 img)
            (1 * SLOT_SIZE + SWAP_OFFSET) 1 = [97]
        ∧ raw_bytes (raw_assign (raw_open_checks (raw_memset t 0) deep_path).2 0 img)
            (1 * SLOT_SIZE + MODE_OFFSET) 4 = [97, 97, 97, 97]
        ∧ raw_bytes (raw_assign (raw_open_checks (raw_memset t 0) deep_path).2 0 img)
            (1 * SLOT_SIZE + POS_OFFSET) 8 = [97, 47, 97, 97, 97, 97, 47, 97])
    ∧ ((deep_path.drop 1288).take 1288).length = 1288
    ∧ ((deep_path.drop 1288).take 1288).all (fun c => c == 97 || c == 47) = true := by
  refine ⟨by decide!, by decide!, by decide!, by decide!, by decide!, by decide!, by decide!,
    by decide!, deep_path_facts.1, layout_values.2.1, ?_, deep_path_facts.2.2.2.1,
    deep_path_facts.2.2.2.2⟩
  intro t img
  have hl := layout_values.2.1
  have hp := layout_values.2.2.2.2
  obtain ⟨m1, m2, m3⟩ := member_offset_values
  have h0 := strcpy_reaches_next_slots t img deep_path 1288
    (by rw [hl]) (by rw [deep_path_facts.1]; decide)
  refine ⟨by rw [raw_open_checks_free], h0.1, ?_, ?_, ?_, ?_, ?_⟩
  · rw [raw_open_checks_free]
    unfold raw_bytes
    apply map_range_eq _ _ _ (by rw [hl]; exact deep_path_facts.2.2.2.1)
    intro k hk
    rw [hl] at hk
    rw [(strcpy_reaches_next_slots t img deep_path _ (by omega)
      (by rw [deep_path_facts.1]; omega)).2, hl]
    rw [List.getD_eq_getElem?_getD, List.getD_eq_getElem?_getD, List.getElem?_take_of_lt hk,
      List.getElem?_drop]
  · rw [hl, m3, next_slot_bytes t img _ _ (by omega) (by omega)]
    exact deep_path_members.1
  · rw [hl, m1, next_slot_bytes t img _ _ (by omega) (by omega)]
    exact deep_path_members.2.1
  · rw [hl, m2, next_slot_bytes t img _ _ (by omega) (by omega)]
    exact deep_path_members.2.2.1
  · rw [hl, hp, next_slot_bytes t img _ _ (by omega) (by omega)]
    exact deep_path_members.2.2.2

/-! ## C6: the bounding box and the statistics after N appends -/

theorem cdouble_le_iff (a b : CDouble) :
    a ≤ b ↔ a.isNaN = false ∧ b.isNaN = false ∧ a.key ≤ b.key := by
  show CDouble.le a b = true ↔ _
  unfold CDouble.le
  cases a.isNaN <;> cases b.isNaN <;> simp

theorem cdouble_lt_iff (a b : CDouble) :
    a < b ↔ a.isNaN = false ∧ b.isNaN = false ∧ a.key < b.key := by
  show CDouble.lt a b = true ↔ _
  unfold CDouble.lt
  cases a.isNaN <;> cases b.isNaN <;> simp

theorem cdouble_le_refl (a : CDouble) (h : a.isNaN = false) : a ≤ a :=
  (cdouble_le_iff a a).mpr ⟨h, h, le_refl _⟩

theorem cdouble_le_trans (a b c : CDouble) (h1 : a ≤ b) (h2 : b ≤ c) : a ≤ c := by
  rw [cdouble_le_iff] at *
  exact ⟨h1.1, h2.2.1, le_trans h1.2.2 h2.2.2⟩

theorem MIN_le_left (a b : CDouble) (ha : a.isNaN = false) (hb : b.isNaN = false) :
    MIN a b ≤ a := by
  unfold MIN
  split_ifs with h
  · exact cdouble_le_refl a ha
  · rw [cdouble_lt_iff] at h
    rw [cdouble_le_iff]
    exact ⟨hb, ha, by
      by_contra hc
      exact h ⟨ha, hb, by omega⟩⟩

theorem MIN_le_right (a b : CDouble) (hb : b.isNaN = false) : MIN a b ≤ b := by
  unfold MIN
  split_ifs with h
  · rw [cdouble_lt_iff] at h
    rw [cdouble_le_iff]
    exact ⟨h.1, h.2.1, le_of_lt h.2.2⟩
  · exact cdouble_le_refl b hb

theorem le_MAX_left (a b : CDouble) (ha : a.isNaN = false) (hb : b.isNaN = false) :
    a ≤ MAX a b := by
  unfold MAX
  split_ifs with h
  · exact cdouble_le_refl a ha
  · have h2 : ¬ (b < a) := h
    rw [cdouble_lt_iff] at h2
    rw [cdouble_le_iff]
    exact ⟨ha, hb, by
      by_contra hc
      exact h2 ⟨hb, ha, by omega⟩⟩

theorem le_MAX_right (a b : CDouble) (hb : b.isNaN = false) : b ≤ MAX a b := by
  unfold MAX
  split_ifs with h
  · have h2 : b < a := h
    rw [cdouble_lt_iff] at h2
    rw [cdouble_le_iff]
    exact ⟨h2.1, h2.2.1, le_of_lt h2.2.2⟩
  · exact cdouble_le_refl b hb

theorem MIN_not_nan (a b : CDouble) (ha : a.isNaN = false) (hb : b.isNaN = false) :
    (MIN a b).isNaN = false := by
  unfold MIN
  split_ifs <;> assumption

theorem MAX_not_nan (a b : CDouble) (ha : a.isNaN = false) (hb : b.isNaN = false) :
    (MAX a b).isNaN = false := by
  unfold MAX
  split_ifs <;> assumption

theorem box_after_append (h : LIBSLAS_HEADER) (r : LIBSLAS_POINT_DATA)
    (hb : box_not_nan h) (hr : point_not_nan r) :
    in_box (after_append h r) r ∧ box_le h (after_append h r)
    ∧ box_not_nan (after_append h r) := by
  obtain ⟨b1, b2, b3, b4, b5, b6⟩ := hb
  obtain ⟨r1, r2, r3⟩ := hr
  simp only [in_box, box_le, box_not_nan, after_append, count_return, count_point]
  exact ⟨⟨MIN_le_right _ _ r1, le_MAX_right _ _ r1, MIN_le_right _ _ r2, le_MAX_right _ _ r2,
    MIN_le_right _ _ r3, le_MAX_right _ _ r3⟩,
    ⟨MIN_le_left _ _ b1 r1, le_MAX_left _ _ b2 r1, MIN_le_left _ _ b3 r2,
      le_MAX_left _ _ b4 r2, MIN_le_left _ _ b5 r3, le_MAX_left _ _ b6 r3⟩,
    MIN_not_nan _ _ b1 r1, MAX_not_nan _ _ b2 r1, MIN_not_nan _ _ b3 r2, MAX_not_nan _ _ b4 r2,
    MIN_not_nan _ _ b5 r3, MAX_not_nan _ _ b6 r3⟩

theorem fold_box (recs : List LIBSLAS_POINT_DATA) :
    ∀ h : LIBSLAS_HEADER, box_not_nan h → (∀ r ∈ recs, point_not_nan r) →
      box_le h (recs.foldl after_append h)
      ∧ ∀ r ∈ recs, in_box (recs.foldl after_append h) r := by
  induction recs with
  | nil =>
    intro h hb _
    obtain ⟨b1, b2, b3, b4, b5, b6⟩ := hb
    exact ⟨⟨cdouble_le_refl _ b1, cdouble_le_refl _ b2, cdouble_le_refl _ b3,
      cdouble_le_refl _ b4, cdouble_le_refl _ b5, cdouble_le_refl _ b6⟩,
      fun r hr => absurd hr (List.not_mem_nil r)⟩
  | cons q qs ih =>
    intro h hb hn
    obtain ⟨c1, c2, c3⟩ := box_after_append h q hb (hn q (List.mem_cons_self _ _))
    obtain ⟨b1, b2⟩ := ih (after_append h q) c3 (fun r hr => hn r (List.mem_cons_of_mem _ hr))
    rw [List.foldl_cons]
    unfold box_le in_box at *
    refine ⟨by
      obtain ⟨x1, x2, x3, x4, x5, x6⟩ := b1
      obtain ⟨y1, y2, y3, y4, y5, y6⟩ := c2
      exact ⟨cdouble_le_trans _ _ _ x1 y1, cdouble_le_trans _ _ _ y2 x2,
        cdouble_le_trans _ _ _ x3 y3, cdouble_le_trans _ _ _ y4 x4,
        cdouble_le_trans _ _ _ x5 y5, cdouble_le_trans _ _ _ y6 x6⟩, ?_⟩
    intro r hr
    rcases List.mem_cons.mp hr with rfl | hr
    · obtain ⟨x1, x2, x3, x4, x5, x6⟩ := b1
      obtain ⟨y1, y2, y3, y4, y5, y6⟩ := c1
      exact ⟨cdouble_le_trans _ _ _ x1 y1, cdouble_le_trans _ _ _ y2 x2,
        cdouble_le_trans _ _ _ x3 y3, cdouble_le_trans _ _ _ y4 x4,
        cdouble_le_trans _ _ _ x5 y5, cdouble_le_trans _ _ _ y6 x6⟩
    · exact b2 r hr

set_option maxRecDepth 100000 in
theorem created_box_not_nan (H : LIBSLAS_HEADER) (len : Nat) :
    box_not_nan (created_header H len) := by
  unfold box_not_nan created_header standard_fields
  simp only []
  decide!

/-- C6 (as amended): on a freshly created session, N appends of records with
return numbers in 1..5 (N below 2^32) all succeed, and afterwards
number_of_point_records is N, the five buckets of number_of_points_by_return
add up to N and bucket k - 1 holds the number of appended records with return
number k; and when no coordinate of an appended record is a NaN, the bounding
box contains every appended point: min_x <= x <= max_x, min_y <= y <= max_y
and min_z <= z <= max_z in the comparison of doubles. -/
theorem C6_statistics_after_appends (host : Host) (st : LasState) (path : List Nat)
    (H : LIBSLAS_HEADER) (recs : List LIBSLAS_POINT_DATA)
    (hcreate : 0 ≤ (libslas_create_las_file host st path H).1)
    (hrn : ∀ r ∈ recs, 1 ≤ r.return_number ∧ r.return_number ≤ 5)
    (hN : recs.length < 2 ^ 32) :
    (append_points host (libslas_create_las_file host st path H).2.1
        (libslas_create_las_file host st path H).1.toNat recs).1
      = List.replicate recs.length LIBSLAS_SUCCESS
    ∧ (((append_points host (libslas_create_las_file host st path H).2.1
        (libslas_create_las_file host st path H).1.toNat recs).2.slot
        (libslas_create_las_file host st path H).1.toNat).header).number_of_point_records
      = recs.length
    ∧ (((append_points host (libslas_create_las_file host st path H).2.1
        (libslas_create_las_file host st path H).1.toNat recs).2.slot
        (libslas_create_las_file host st path H).1.toNat).header).number_of_points_by_return.sum
      = recs.length
    ∧ (((append_points host (libslas_create_las_file host st path H).2.1
        (libslas_create_las_file host st path H).1.toNat recs).2.slot
        (libslas_create_las_file host st path H).1.toNat).header).number_of_points_by_return
      = [returns_with 1 recs, returns_with 2 recs, returns_with 3 recs, returns_with 4 recs,
          returns_with 5 recs]
    ∧ ((∀ r ∈ recs, point_not_nan r) →
      ∀ r ∈ recs, in_box (((append_points host (libslas_create_las_file host st path H).2.1
        (libslas_create_las_file host st path H).1.toNat recs).2.slot
        (libslas_create_las_file host st path H).1.toNat).header) r) := by
  obtain ⟨len, _, ha, hh⟩ := created_appendable host st path H hcreate
  obtain ⟨r1, _, r3⟩ := append_points_ok host _ recs _ ha hrn
  rw [r3, hh]
  have hb := fold_by_return recs (created_header H len) 0 0 0 0 0 rfl
    (by norm_num) hrn
  have ht := returns_with_total recs hrn
  have hm : ∀ k, (0 + returns_with k recs) % 2 ^ 32 = returns_with k recs := by
    intro k
    have := returns_with_le k recs
    rw [Nat.zero_add]
    exact Nat.mod_eq_of_lt (by omega)
  simp only [hm] at hb
  refine ⟨r1, ?_, ?_, hb, fun hnan => (fold_box recs _ (created_box_not_nan H len) hnan).2⟩
  · rw [fold_count recs _ (by show (0 : Nat) < 2 ^ 32; norm_num)]
    show (0 + recs.length) % 2 ^ 32 = recs.length
    rw [Nat.zero_add]
    exact Nat.mod_eq_of_lt hN
  · rw [hb]
    simp only [List.sum_cons, List.sum_nil]
    omega

set_option maxRecDepth 100000 in
/-- C6 at three appends (return numbers 5, 1 and 1) after creating a.las: the
header counts 3 records and its bounding box contains sample_point. -/
theorem C6_statistics_after_appends_witness :
    (((append_points (ieee_host false)
        (libslas_create_las_file (ieee_host false) (initial_state (fun _ => none)) las_path
          sample_header).2.1
        (libslas_create_las_file (ieee_host false) (initial_state (fun _ => none)) las_path
          sample_header).1.toNat [sample_point, origin_point, origin_point]).2.slot
        (libslas_create_las_file (ieee_host false) (initial_state (fun _ => none)) las_path
          sample_header).1.toNat).header).number_of_point_records = 3
    ∧ in_box (((append_points (ieee_host false)
        (libslas_create_las_file (ieee_host false) (initial_state (fun _ => none)) las_path
          sample_header).2.1
        (libslas_create_las_file (ieee_host false) (initial_state (fun _ => none)) las_path
          sample_header).1.toNat [sample_point, origin_point, origin_point]).2.slot
        (libslas_create_las_file (ieee_host false) (initial_state (fun _ => none)) las_path
          sample_header).1.toNat).header) sample_point :=
  ⟨(C6_statistics_after_appends (ieee_host false) (initial_state (fun _ => none)) las_path
    sample_header [sample_point, origin_point, origin_point] (by decide!)
    (by simp [sample_point, origin_point, zero_point]) (by norm_num)).2.1,
   (C6_statistics_after_appends (ieee_host false) (initial_state (fun _ => none)) las_path
    sample_header [sample_point, origin_point, origin_point] (by decide!)
    (by simp [sample_point, origin_point, zero_point]) (by norm_num)).2.2.2.2
    (by
      intro r hr
      simp only [List.mem_cons, List.mem_singleton, List.not_mem_nil, or_false] at hr
      unfold point_not_nan
      rcases hr with rfl | rfl | rfl <;> decide!)
    sample_point (List.mem_cons_self _ _)⟩

set_option maxRecDepth 100000 in
/-- C6 (counterexample): three appends on the freshly created session
created_session, of first returns at x = 1, x = NaN and x = 5, all succeed.
The comparisons of the macros MIN and MAX are false for a NaN, so the second
append puts the NaN into min_x and max_x and the third puts 5 into both: after
the three appends the header counts 3 records, and min_x = max_x = 5, which
leaves the first point, at x = 1, outside the bounding box. -/
theorem C6_nan_resets_the_box :
    created_session.1 = 0
    ∧ quiet_nan.isNaN = true
    ∧ nan_appends.1 = [LIBSLAS_SUCCESS, LIBSLAS_SUCCESS, LIBSLAS_SUCCESS]
    ∧ (nan_appends.2.slot 0).header.number_of_point_records = 3
    ∧ (nan_appends.2.slot 0).header.min_x = 5
    ∧ (nan_appends.2.slot 0).header.max_x = 5
    ∧ ¬ ((nan_appends.2.slot 0).header.min_x ≤ (1 : CDouble))
    ∧ ¬ in_box (nan_appends.2.slot 0).header { origin_point with x := 1 } := by
  unfold in_box
  decide!

/-! ## C5: quantization -/

set_option maxRecDepth 100000 in
/-- C5 (the code departs from the claim): with scale 1 and offset 0 the
coordinate x = 2^31 gives the quotient 2^31, which the int32_t raw coordinate
cannot hold: the append stores -2^31 without a check and the read decodes
x = -2^31, 2^32 away.  And within the 32-bit range, with scale 0.01 and offset 0
the coordinate x = 0.015 (the double nearest to it, just below) gives in
binary64 the quotient 1.5 exactly, which NINT64 takes to 2: the read decodes
the double 0.02, farther from x than half of the scale factor. -/
theorem C5_bound_fails :
    NINT64 ((far_point.x - unit_scale_header.x_offset) / unit_scale_header.x_scale_factor)
      = 2 ^ 31
    ∧ quantize far_point.x unit_scale_header.x_offset unit_scale_header.x_scale_factor
      = -2 ^ 31
    ∧ (read_back (ieee_host false) false unit_scale_header
        (appended_bytes (ieee_host false) false unit_scale_header far_point)).x = -2147483648
    ∧ far_point.x.val = 2 ^ 31
    ∧ unit_scale_header.x_scale_factor.val = 1
    ∧ |(read_back (ieee_host false) false unit_scale_header
        (appended_bytes (ieee_host false) false unit_scale_header far_point)).x.val
        - far_point.x.val| = 2 ^ 32
    ∧ centi_point.x.val < 15 / 1000
    ∧ 1 / 100 < centi_header.x_scale_factor.val
    ∧ (centi_point.x - centi_header.x_offset) / centi_header.x_scale_factor = 1.5
    ∧ quantize centi_point.x centi_header.x_offset centi_header.x_scale_factor = 2
    ∧ (read_back (ieee_host false) false centi_header
        (appended_bytes (ieee_host false) false centi_header centi_point)).x = 0.02
    ∧ ¬ (|(read_back (ieee_host false) false centi_header
        (appended_bytes (ieee_host false) false centi_header centi_point)).x.val
        - centi_point.x.val| ≤ centi_header.x_scale_factor.val / 2) := by
  decide!

/-! ## C33: the macro NINT64 -/

/-- Over the rationals, rounding half away from zero gives an integer within
1/2 of its argument, and no integer is nearer. -/
theorem round_half_away_nearest (a : ℚ) :
    |(round_half_away a : ℚ) - a| ≤ 1 / 2
    ∧ ∀ m : Int, |(round_half_away a : ℚ) - a| ≤ |(m : ℚ) - a| := by
  have hnear : |(round_half_away a : ℚ) - a| ≤ 1 / 2 := by
    unfold round_half_away
    rw [abs_le]
    by_cases h : a < 0
    · rw [if_pos h]
      have c1 := Int.le_ceil (a - 1 / 2)
      have c2 := Int.ceil_lt_add_one (a - 1 / 2)
      constructor <;> linarith
    · rw [if_neg h]
      have c1 := Int.floor_le (a + 1 / 2)
      have c2 := Int.lt_floor_add_one (a + 1 / 2)
      constructor <;> linarith
  refine ⟨hnear, ?_⟩
  intro m
  by_cases hm : m = round_half_away a
  · rw [hm]
  · have h1 : (1 : ℚ) ≤ |(m : ℚ) - (round_half_away a : ℚ)| := by
      have h2 : (1 : Int) ≤ |m - round_half_away a| := Int.one_le_abs (sub_ne_zero.mpr hm)
      have h3 : ((1 : Int) : ℚ) ≤ ((|m - round_half_away a| : Int) : ℚ) := by exact_mod_cast h2
      simpa using h3
    have h4 : |(m : ℚ) - (round_half_away a : ℚ)|
        ≤ |(m : ℚ) - a| + |(round_half_away a : ℚ) - a| := by
      have := abs_sub_le (m : ℚ) a (round_half_away a : ℚ)
      rwa [abs_sub_comm a (round_half_away a : ℚ)] at this
    linarith

set_option maxRecDepth 100000 in
/-- C33 (the code departs from the claim): the macro NINT64 adds 0.5 in
binary64 before it truncates.  For the double a = 1/2 - 2^-54, the largest
below 1/2, the sum a + 0.5 is not a double and rounds up to 1, so NINT64 (a) is
1 although a is nearer to 0 (the distance to 1 exceeds 1/2).  For the double
b = 2^52 + 1, an integer, the sum b + 0.5 rounds to the even neighbour
2^52 + 2, so NINT64 (b) is not b, and NINT64 (-b) is -(2^52 + 2).  Both lie
within |a| < 2^62, and rounding half away from zero over the rationals gives 0
and b. -/
theorem C33_macro_misses_nearest_integer :
    below_half.val = 1 / 2 - 1 / 2 ^ 54
    ∧ below_half.isNaN = false ∧ below_half.isInf = false
    ∧ |below_half.val| < 2 ^ 62
    ∧ below_half + 0.5 = 1
    ∧ NINT64 below_half = 1
    ∧ round_half_away below_half.val = 0
    ∧ ¬ (|((NINT64 below_half : Int) : ℚ) - below_half.val| ≤ 1 / 2)
    ∧ NINT64 (-below_half) = -1
    ∧ odd_double.val = 2 ^ 52 + 1
    ∧ |odd_double.val| < 2 ^ 62
    ∧ odd_double + 0.5 = 4503599627370498
    ∧ NINT64 odd_double = 2 ^ 52 + 2
    ∧ NINT64 (-odd_double) = -(2 ^ 52 + 2)
    ∧ round_half_away odd_double.val = 2 ^ 52 + 1
    ∧ |((NINT64 odd_double : Int) : ℚ) - odd_double.val| = 1 := by
  decide!

/-! ## C32: the byte swaps -/

theorem swapped_bits_lt (b : Nat) : swapped_bits b < 2 ^ 64 := by
  have h := le_val_le_bytes 8 (swapped_bits b)
  rw [le_bytes_swapped_bits] at h
  have e : swapped_bits b = swapped_bits b % 256 ^ 8 := h
  rw [e]
  exact lt_of_lt_of_le (Nat.mod_lt _ (by norm_num)) (by norm_num)

theorem ieee_host_holds_every_pattern (big : Bool) : (ieee_host big).HoldsEveryPattern := by
  intro b hb
  exact Nat.mod_eq_of_lt hb

/-- C32: libslas_swap_uint32_t maps the 32-bit value with the bytes b3 b2 b1 b0
to the value with the bytes b0 b1 b2 b3 and libslas_swap_uint16_t exchanges the
two bytes of a 16-bit value; both are involutions on every value of their type.
On a host whose double type holds every 64-bit pattern, as that of an IEEE 754
host does, libslas_swap_double gives for every double q the double whose 8
bytes in memory are those of q in reverse order, and applied twice it returns
q. -/
theorem C32_swaps_reverse_bytes (host : Host) (hhost : host.HoldsEveryPattern) :
    (∀ b0 b1 b2 b3 : Nat, b0 < 256 → b1 < 256 → b2 < 256 → b3 < 256 →
      libslas_swap_uint32_t (b0 + 256 * b1 + 65536 * b2 + 16777216 * b3)
        = b3 + 256 * b2 + 65536 * b1 + 16777216 * b0)
    ∧ (∀ w : Nat, w < 2 ^ 32 → libslas_swap_uint32_t (libslas_swap_uint32_t w) = w)
    ∧ (∀ b0 b1 : Nat, b0 < 256 → b1 < 256 →
      libslas_swap_uint16_t (b0 + 256 * b1) = b1 + 256 * b0)
    ∧ (∀ v : Nat, v < 2 ^ 16 → libslas_swap_uint16_t (libslas_swap_uint16_t v) = v)
    ∧ (∀ q : CDouble, host.IsDouble q →
      dbl_mem host (libslas_swap_double host q) = (dbl_mem host q).reverse
      ∧ host.IsDouble (libslas_swap_double host q)
      ∧ libslas_swap_double host (libslas_swap_double host q) = q) := by
  refine ⟨?_, swap32_swap32, ?_, swap16_swap16, ?_⟩
  · exact swap32_bytes
  · intro b0 b1 h0 h1
    rw [swap16_eq]
    omega
  · intro q hq
    have hp := hhost (swapped_bits (host.dbl_bits q)) (swapped_bits_lt _)
    refine ⟨?_, ?_, ?_⟩
    · rw [dbl_mem_mod, swap_double_eq, hp]
      unfold dbl_mem mem_bytes
      rw [le_bytes_swapped_bits]
      cases host.big_endian <;> simp
    · unfold Host.IsDouble
      rw [swap_double_eq, hp]
    · rw [swap_double_eq host (libslas_swap_double host q), swap_double_eq host q]
      have e1 : swapped_bits (host.dbl_bits (host.bits_dbl (swapped_bits (host.dbl_bits q))))
          = swapped_bits (swapped_bits (host.dbl_bits q)) := by
        rw [swapped_bits_mod, hp]
      have e2 : swapped_bits (swapped_bits (host.dbl_bits q)) = host.dbl_bits q % 2 ^ 64 := by
        have h := le_bytes_swapped_bits (host.dbl_bits q)
        unfold swapped_bits at h ⊢
        rw [h, List.reverse_reverse, le_val_le_bytes]
        norm_num
      rw [e1, e2]
      exact hq

set_option maxRecDepth 100000 in
/-- C32 on the little-endian IEEE host and the double nan_image_double, whose
bytes in reverse order are the pattern 7FF000000000F03F of a NaN: swapped, it
is that NaN, and swapped again it is nan_image_double. -/
theorem C32_swaps_reverse_bytes_witness :
    (ieee_host false).HoldsEveryPattern
    ∧ (ieee_host false).IsDouble nan_image_double
    ∧ dbl_mem (ieee_host false) nan_image_double = [127, 240, 0, 0, 0, 0, 240, 63]
    ∧ (libslas_swap_double (ieee_host false) nan_image_double).isNaN = true
    ∧ dbl_mem (ieee_host false) (libslas_swap_double (ieee_host false) nan_image_double)
        = (dbl_mem (ieee_host false) nan_image_double).reverse
    ∧ libslas_swap_double (ieee_host false)
        (libslas_swap_double (ieee_host false) nan_image_double) = nan_image_double :=
  ⟨ieee_host_holds_every_pattern false, by unfold Host.IsDouble; decide!, by decide!, by decide!,
    ((C32_swaps_reverse_bytes (ieee_host false) (ieee_host_holds_every_pattern false)).2.2.2.2
      nan_image_double (by unfold Host.IsDouble; decide!)).1,
    ((C32_swaps_reverse_bytes (ieee_host false) (ieee_host_holds_every_pattern false)).2.2.2.2
      nan_image_double (by unfold Host.IsDouble; decide!)).2.2⟩

end Libslas
